import Mathlib

/-!
# MDL-SDK code-generation orchestration layer

A shallow embedding of the resource enumeration
(`Function_enumerator`, `Target_code_register`, `fill_resource_tables`,
`Const_function_enumerator`), of the argument block value packing
(`Target_value_layout`), of the JIT link unit and the compile functions of the JIT
code generator (`Link_unit_jit`, `Code_generator_jit`), of the lambda builder
(`Lambda_builder`), and of the backend with its options and its link unit
(`Mdl_llvm_backend`, `Link_unit`) of `backends_backends.cpp` and `generator_jit.cpp`,
with the properties of the specification proved about the embedding.

Conventions.
* `size_t` is 64 bits wide: `++x` is `(x + 1) % 2 ^ 64`.
* Memory is little-endian, a `bool` takes one byte and a pointer eight.
* An `ASSERT` is a diagnostic of debug builds and has no effect on a result; where a
  property speaks of one, its condition is a definition of its own (`*_asserts`).
* Objects reached through a C++ reference or pointer are state that is passed in
  and returned.
* A lambda function (`mi::mdl::ILambda_function`) is observed through the
  `map_*_resource` calls it receives, oldest first.
* `Float32` / `Float64` values are carried as their bit patterns.
* The LLVM code generator, the MDL compiler and the DAG builder are not part of the
  sources: their steps are taken as given (`Codegen_backend`, `Dag_services`,
  `Lambda_services`), each a function of the state it reads.
* The message list of a code object is the one its code generator reports to: a code
  object returned by a compile carries the messages of the code generator.
* A NULL pointer is `none`.
-/

namespace MdlSdk

/-- The modulus of `size_t` arithmetic. -/
def SIZE_T_MOD : Nat := 2 ^ 64

/-- The C++ pre-increment `++x` on a `size_t`. -/
def size_t_incr (x : Nat) : Nat := (x + 1) % SIZE_T_MOD

/-! ## Values of the MDL core, as seen by the resource enumeration -/

/-- The shapes of `mi::mdl::IType_texture`. -/
inductive IType_texture_shape where
  | TS_2D
  | TS_3D
  | TS_CUBE
  | TS_PTEX
  deriving DecidableEq, Repr

/-- The enum `mi::neuraylib::ITarget_code::Texture_shape`. -/
inductive Texture_shape where
  | Texture_shape_invalid
  | Texture_shape_2d
  | Texture_shape_3d
  | Texture_shape_cube
  | Texture_shape_ptex
  deriving DecidableEq, Repr

/-- A `mi::mdl::IValue const *` handed to a resource enumerator: a texture, a light
profile or a bsdf measurement carrying a database tag, an invalid reference, or any
other value. -/
inductive Core_value where
  | texture (shape : IType_texture_shape) (tag : Nat)
  | light_profile (tag : Nat)
  | bsdf_measurement (tag : Nat)
  | invalid_ref
  | other
  deriving DecidableEq, Repr

/-- The cast `mi::mdl::as<mi::mdl::IValue_texture>(v)`: the shape and tag of a texture
value, nothing for any other value. -/
def as_IValue_texture : Core_value → Option (IType_texture_shape × Nat)
  | .texture shape tag => some (shape, tag)
  | _ => none

/-- The cast `mi::mdl::as<mi::mdl::IValue_resource>(v)`: the tag of a texture, light
profile or bsdf measurement value, nothing for any other value. -/
def as_IValue_resource : Core_value → Option Nat
  | .texture _ tag => some tag
  | .light_profile tag => some tag
  | .bsdf_measurement tag => some tag
  | _ => none

/-- The out-parameters of `MI::MDL::get_texture_attributes`. -/
structure Texture_attributes where
  valid : Bool
  is_uvtile : Bool
  width : Int
  height : Int
  depth : Int
  deriving DecidableEq, Repr

/-- The out-parameters of `MI::MDL::get_light_profile_attributes`. -/
structure Light_profile_attributes where
  valid : Bool
  power : Nat
  maximum : Nat
  deriving DecidableEq, Repr

/-- The database transaction together with the resource store queried through it
(`DB::Transaction::tag_to_name`, `MI::MDL::get_*_attributes`). These are external to
the enumeration and are taken as given functions of the tag. -/
structure Transaction where
  tag_to_name : Nat → Option String
  get_texture_attributes : Nat → Texture_attributes
  get_light_profile_attributes : Nat → Light_profile_attributes
  get_bsdf_measurement_attributes : Nat → Bool

/-! ## Lambda functions as receivers of resource mappings -/

/-- One call of `map_tex_resource`, `map_lp_resource` or `map_bm_resource`. -/
inductive Resource_mapping where
  | tex (v : Core_value) (idx : Nat) (valid : Bool) (width height depth : Int)
  | lp (v : Core_value) (idx : Nat) (valid : Bool) (power maximum : Nat)
  | bm (v : Core_value) (idx : Nat) (valid : Bool)
  deriving DecidableEq, Repr

/-- The index argument of a resource mapping call. -/
def Resource_mapping.index : Resource_mapping → Nat
  | .tex _ idx _ _ _ _ => idx
  | .lp _ idx _ _ _ => idx
  | .bm _ idx _ => idx

/-- The value argument of a resource mapping call. -/
def Resource_mapping.value : Resource_mapping → Core_value
  | .tex v _ _ _ _ _ => v
  | .lp v _ _ _ _ => v
  | .bm v _ _ => v

/-- A lambda function, observed through the resource mappings it received. -/
structure ILambda_function where
  mappings : List Resource_mapping
  deriving DecidableEq, Repr

/-- The method `ILambda_function::map_tex_resource`. -/
def ILambda_function.map_tex_resource (l : ILambda_function) (v : Core_value) (idx : Nat)
    (valid : Bool) (width height depth : Int) : ILambda_function :=
  { mappings := l.mappings ++ [Resource_mapping.tex v idx valid width height depth] }

/-- The method `ILambda_function::map_lp_resource`. -/
def ILambda_function.map_lp_resource (l : ILambda_function) (v : Core_value) (idx : Nat)
    (valid : Bool) (power maximum : Nat) : ILambda_function :=
  { mappings := l.mappings ++ [Resource_mapping.lp v idx valid power maximum] }

/-- The method `ILambda_function::map_bm_resource`. -/
def ILambda_function.map_bm_resource (l : ILambda_function) (v : Core_value) (idx : Nat)
    (valid : Bool) : ILambda_function :=
  { mappings := l.mappings ++ [Resource_mapping.bm v idx valid] }

/-! ## Target code register -/

/-- The struct `Target_code_register::Texture_entry`. -/
structure Texture_entry where
  m_index : Nat
  m_name : String
  m_type : Texture_shape
  deriving DecidableEq, Repr

/-- The struct `Target_code_register::Res_entry`. -/
structure Res_entry where
  m_index : Nat
  m_name : String
  deriving DecidableEq, Repr

/-- The class `Target_code_register`: three tables, each in registration order. -/
structure Target_code_register where
  m_texture_table : List Texture_entry
  m_light_profile_table : List Res_entry
  m_bsdf_measurement_table : List Res_entry
  deriving DecidableEq, Repr

namespace Target_code_register

/-- The constructor: all tables empty. -/
def new : Target_code_register :=
  { m_texture_table := [], m_light_profile_table := [], m_bsdf_measurement_table := [] }

/-- The method `register_texture`: `push_back` of one entry. -/
def register_texture (r : Target_code_register) (index : Nat) (name : String)
    (type : Texture_shape) : Target_code_register :=
  { r with m_texture_table := r.m_texture_table ++ [Texture_entry.mk index name type] }

/-- The method `get_texture_count`. -/
def get_texture_count (r : Target_code_register) : Nat := r.m_texture_table.length

/-- The method `register_light_profile`: `push_back` of one entry. -/
def register_light_profile (r : Target_code_register) (index : Nat) (name : String) :
    Target_code_register :=
  { r with m_light_profile_table := r.m_light_profile_table ++ [Res_entry.mk index name] }

/-- The method `get_light_profile_count`. -/
def get_light_profile_count (r : Target_code_register) : Nat := r.m_light_profile_table.length

/-- The method `register_bsdf_measurement`: `push_back` of one entry. -/
def register_bsdf_measurement (r : Target_code_register) (index : Nat) (name : String) :
    Target_code_register :=
  { r with m_bsdf_measurement_table := r.m_bsdf_measurement_table ++ [Res_entry.mk index name] }

/-- The method `get_bsdf_measurement_count`. -/
def get_bsdf_measurement_count (r : Target_code_register) : Nat :=
  r.m_bsdf_measurement_table.length

end Target_code_register

/-! ## Function enumerator -/

/-- The type `Function_enumerator::Resource_index_map`, a `std::map<string, size_t>`,
as the list of its key/value pairs. -/
abbrev Resource_index_map := List (String × Nat)

/-- The lookup `std::map::find`: the value stored under a key, if any. -/
def Resource_index_map.find : Resource_index_map → String → Option Nat
  | [], _ => none
  | (k, v) :: rest, name => if k = name then some v else Resource_index_map.find rest name

/-- The method `std::map::insert`: adds the pair unless the key is present already. -/
def Resource_index_map.insert (m : Resource_index_map) (name : String) (idx : Nat) :
    Resource_index_map :=
  match Resource_index_map.find m name with
  | some _ => m
  | none => m ++ [(name, idx)]

/-- The class `Function_enumerator`. The counters `m_tex_idx`, `m_lp_idx`, `m_bm_idx`
are the referenced counters (the enumerator's own stores, or those of a link unit);
`m_resource_index_map` is `none` for the NULL map pointer. -/
structure Function_enumerator where
  m_register : Target_code_register
  m_lambda : ILambda_function
  m_additional_lambda : Option ILambda_function
  m_resource_index_map : Option Resource_index_map
  m_tex_idx : Nat
  m_lp_idx : Nat
  m_bm_idx : Nat
  deriving DecidableEq, Repr

namespace Function_enumerator

/-- The constructor without a resource map: own counters starting at 0, NULL map. -/
def new (reg : Target_code_register) (lambda : ILambda_function) : Function_enumerator :=
  { m_register := reg, m_lambda := lambda, m_additional_lambda := none,
    m_resource_index_map := none, m_tex_idx := 0, m_lp_idx := 0, m_bm_idx := 0 }

/-- The constructor with referenced counters and a resource map. -/
def new_shared (reg : Target_code_register) (lambda : ILambda_function)
    (tex_idx lp_idx bm_idx : Nat) (res_map : Resource_index_map) : Function_enumerator :=
  { m_register := reg, m_lambda := lambda, m_additional_lambda := none,
    m_resource_index_map := some res_map, m_tex_idx := tex_idx, m_lp_idx := lp_idx,
    m_bm_idx := bm_idx }

/-- The method `set_additional_lambda`. -/
def set_additional_lambda (e : Function_enumerator) (additional_lambda : ILambda_function) :
    Function_enumerator :=
  { e with m_additional_lambda := some additional_lambda }

/-- The method `resource_to_name`: the database name of the tag, `""` for NULL. -/
def resource_to_name (t : Transaction) (tag : Nat) : String :=
  match t.tag_to_name tag with
  | some name => name
  | none => ""

/-- The method `get_texture_shape`. -/
def get_texture_shape : IType_texture_shape → Texture_shape
  | .TS_2D => .Texture_shape_2d
  | .TS_3D => .Texture_shape_3d
  | .TS_CUBE => .Texture_shape_cube
  | .TS_PTEX => .Texture_shape_ptex

/-- The method `texture`. -/
def texture (t : Transaction) (e0 : Function_enumerator) (v : Core_value) :
    Function_enumerator :=
  let e : Function_enumerator :=
    if e0.m_register.get_texture_count = 0 then
      { e0 with m_register :=
          e0.m_register.register_texture 0 "" Texture_shape.Texture_shape_invalid }
    else e0
  let invalid : Function_enumerator :=
    { e with
      m_lambda := e.m_lambda.map_tex_resource v 0 false 0 0 0
      m_additional_lambda :=
        e.m_additional_lambda.map (fun l => l.map_tex_resource v 0 false 0 0 0) }
  match as_IValue_texture v with
  | some (shape, tag) =>
    let a := t.get_texture_attributes tag
    if a.valid then
      let name := resource_to_name t tag
      let r : Bool × Nat × Function_enumerator :=
        match e.m_resource_index_map with
        | some m =>
          match Resource_index_map.find m name with
          | none =>
            let tex_idx := size_t_incr e.m_tex_idx
            (true, tex_idx,
              { e with m_tex_idx := tex_idx
                       m_resource_index_map := some (Resource_index_map.insert m name tex_idx) })
          | some second => (false, second, e)
        | none =>
          let tex_idx := size_t_incr e.m_tex_idx
          (true, tex_idx, { e with m_tex_idx := tex_idx })
      let new_entry := r.1
      let tex_idx := r.2.1
      let e1 := r.2.2
      let e2 : Function_enumerator :=
        if new_entry then
          { e1 with m_register :=
              e1.m_register.register_texture tex_idx name (get_texture_shape shape) }
        else e1
      { e2 with
        m_lambda := e2.m_lambda.map_tex_resource v tex_idx true a.width a.height a.depth
        m_additional_lambda :=
          e2.m_additional_lambda.map
            (fun l => l.map_tex_resource v tex_idx true a.width a.height a.depth) }
    else invalid
  | none => invalid

/-- The method `light_profile`. The additional lambda is served first, with the
counter `m_lp_idx` as it stands before the index of the resource is determined. -/
def light_profile (t : Transaction) (e0 : Function_enumerator) (v : Core_value) :
    Function_enumerator :=
  let e : Function_enumerator :=
    if e0.m_register.get_light_profile_count = 0 then
      { e0 with m_register := e0.m_register.register_light_profile 0 "" }
    else e0
  let invalid : Function_enumerator :=
    { e with
      m_lambda := e.m_lambda.map_lp_resource v 0 false 0 0
      m_additional_lambda :=
        e.m_additional_lambda.map (fun l => l.map_lp_resource v 0 false 0 0) }
  match as_IValue_resource v with
  | some tag =>
    let a := t.get_light_profile_attributes tag
    if a.valid then
      let name := resource_to_name t tag
      let ea : Function_enumerator :=
        { e with
          m_additional_lambda :=
            e.m_additional_lambda.map
              (fun l => l.map_lp_resource v e.m_lp_idx true a.power a.maximum) }
      let r : Bool × Nat × Function_enumerator :=
        match ea.m_resource_index_map with
        | some m =>
          match Resource_index_map.find m name with
          | none =>
            let lp_idx := size_t_incr ea.m_lp_idx
            (true, lp_idx,
              { ea with m_lp_idx := lp_idx
                        m_resource_index_map := some (Resource_index_map.insert m name lp_idx) })
          | some second => (false, second, ea)
        | none =>
          let lp_idx := size_t_incr ea.m_lp_idx
          (true, lp_idx, { ea with m_lp_idx := lp_idx })
      let new_entry := r.1
      let lp_idx := r.2.1
      let e1 := r.2.2
      let e2 : Function_enumerator :=
        if new_entry then
          { e1 with m_register := e1.m_register.register_light_profile lp_idx name }
        else e1
      { e2 with m_lambda := e2.m_lambda.map_lp_resource v lp_idx true a.power a.maximum }
    else invalid
  | none => invalid

/-- The method `bsdf_measurement`. The additional lambda is served first, with the
counter `m_bm_idx` as it stands before the index of the resource is determined. -/
def bsdf_measurement (t : Transaction) (e0 : Function_enumerator) (v : Core_value) :
    Function_enumerator :=
  let e : Function_enumerator :=
    if e0.m_register.get_bsdf_measurement_count = 0 then
      { e0 with m_register := e0.m_register.register_bsdf_measurement 0 "" }
    else e0
  let invalid : Function_enumerator :=
    { e with
      m_lambda := e.m_lambda.map_bm_resource v 0 false
      m_additional_lambda :=
        e.m_additional_lambda.map (fun l => l.map_bm_resource v 0 false) }
  match as_IValue_resource v with
  | some tag =>
    let valid := t.get_bsdf_measurement_attributes tag
    if valid then
      let name := resource_to_name t tag
      let ea : Function_enumerator :=
        { e with
          m_additional_lambda :=
            e.m_additional_lambda.map (fun l => l.map_bm_resource v e.m_bm_idx true) }
      let r : Bool × Nat × Function_enumerator :=
        match ea.m_resource_index_map with
        | some m =>
          match Resource_index_map.find m name with
          | none =>
            let bm_idx := size_t_incr ea.m_bm_idx
            (true, bm_idx,
              { ea with m_bm_idx := bm_idx
                        m_resource_index_map := some (Resource_index_map.insert m name bm_idx) })
          | some second => (false, second, ea)
        | none =>
          let bm_idx := size_t_incr ea.m_bm_idx
          (true, bm_idx, { ea with m_bm_idx := bm_idx })
      let new_entry := r.1
      let bm_idx := r.2.1
      let e1 := r.2.2
      let e2 : Function_enumerator :=
        if new_entry then
          { e1 with m_register := e1.m_register.register_bsdf_measurement bm_idx name }
        else e1
      { e2 with m_lambda := e2.m_lambda.map_bm_resource v bm_idx true }
    else invalid
  | none => invalid

end Function_enumerator

/-- One callback of `mi::mdl::ILambda_resource_enumerator` made during the traversal
of an expression: which of the three methods is called, and with which value. -/
inductive Sighting where
  | texture (v : Core_value)
  | light_profile (v : Core_value)
  | bsdf_measurement (v : Core_value)
  deriving DecidableEq, Repr

/-- The value of a sighting. -/
def Sighting.value : Sighting → Core_value
  | .texture v => v
  | .light_profile v => v
  | .bsdf_measurement v => v

/-- Dispatch of one callback to the `Function_enumerator`. -/
def Function_enumerator.visit (t : Transaction) (e : Function_enumerator) :
    Sighting → Function_enumerator
  | .texture v => Function_enumerator.texture t e v
  | .light_profile v => Function_enumerator.light_profile t e v
  | .bsdf_measurement v => Function_enumerator.bsdf_measurement t e v

/-- Modelled from the spec: `ILambda_function::enumerate_resources` is not part of the
sources at hand. The spec has it walk the reachable nodes of a fragment once and call
the enumerator for every texture, light profile and measurement literal encountered,
in a deterministic order; the fragment is given here as that sequence of callbacks. -/
def enumerate_resources (t : Transaction) (e : Function_enumerator) (body : List Sighting) :
    Function_enumerator :=
  body.foldl (Function_enumerator.visit t) e

/-! ## Link unit -/

/-- The resource registry state of the class `Link_unit`: the register, the name to
index map and the three running next-index counters. -/
structure Link_unit where
  m_tc_reg : Target_code_register
  m_res_index_map : Resource_index_map
  m_tex_idx : Nat
  m_lp_idx : Nat
  m_bm_idx : Nat
  deriving DecidableEq, Repr

namespace Link_unit

/-- The constructor `Link_unit::Link_unit`: empty register, empty map, counters 0. -/
def new : Link_unit :=
  { m_tc_reg := Target_code_register.new, m_res_index_map := [], m_tex_idx := 0,
    m_lp_idx := 0, m_bm_idx := 0 }

/-- The enumerator built by the `add_*` methods: it works on the register, the counters
and the map of the unit. -/
def enumerator (lu : Link_unit) (lambda : ILambda_function) : Function_enumerator :=
  Function_enumerator.new_shared lu.m_tc_reg lambda lu.m_tex_idx lu.m_lp_idx lu.m_bm_idx
    lu.m_res_index_map

/-- The state of the unit after an enumerator that works on it has run. -/
def store (lu : Link_unit) (e : Function_enumerator) : Link_unit :=
  { m_tc_reg := e.m_register
    m_res_index_map :=
      match e.m_resource_index_map with
      | some m => m
      | none => lu.m_res_index_map
    m_tex_idx := e.m_tex_idx, m_lp_idx := e.m_lp_idx, m_bm_idx := e.m_bm_idx }

/-- The resource enumeration of `Link_unit::add_environment` and
`Link_unit::add_material_expression` for one fragment, given by the callbacks its
traversal makes (body first, then the resource arguments): the unit afterwards and the
lambda function with the mappings it received. -/
def add_enumerate (t : Transaction) (lu : Link_unit) (lambda : ILambda_function)
    (body : List Sighting) : Link_unit × ILambda_function :=
  let e := enumerate_resources t (lu.enumerator lambda) body
  (lu.store e, e.m_lambda)

/-- Fragments added one after the other to the same unit, each with a lambda function
that has no mappings yet: the unit afterwards and the lambda functions in order. -/
def add_all (t : Transaction) (lu : Link_unit) :
    List (List Sighting) → Link_unit × List ILambda_function
  | [] => (lu, [])
  | body :: rest =>
    let r := lu.add_enumerate t (ILambda_function.mk []) body
    let rs := add_all t r.1 rest
    (rs.1, r.2 :: rs.2)

end Link_unit

/-- The three kinds of resources. -/
inductive Resource_kind where
  | texture
  | light_profile
  | bsdf_measurement
  deriving DecidableEq, Repr

/-- The kind of resource a callback is made for. -/
def Sighting.kind : Sighting → Resource_kind
  | .texture _ => Resource_kind.texture
  | .light_profile _ => Resource_kind.light_profile
  | .bsdf_measurement _ => Resource_kind.bsdf_measurement

/-! ## Distribution functions: expression lambdas as additional lambdas -/

/-- The loop over the expression lambdas of a distribution function in
`Link_unit::add_material_df` and `Mdl_llvm_backend::translate_material_df`: each
expression lambda is set as the additional lambda and its body is enumerated with the
same enumerator. Returned are the enumerator afterwards and the expression lambdas
with the mappings they received. -/
def enumerate_expr_lambdas (t : Transaction) (e : Function_enumerator) :
    List (ILambda_function × List Sighting) → Function_enumerator × List ILambda_function
  | [] => (e, [])
  | (lambda, body) :: rest =>
    let e1 := enumerate_resources t (e.set_additional_lambda lambda) body
    let r := enumerate_expr_lambdas t e1 rest
    (r.1, (match e1.m_additional_lambda with
           | some l => l
           | none => lambda) :: r.2)

/-- The resource enumeration of `Mdl_llvm_backend::translate_material_df`: a register
and an enumerator of their own on the main lambda `main_df`, the enumeration of its
body (and resource arguments), then the loop over the expression lambdas. Returned are
the main lambda and the expression lambdas with the mappings they received. -/
def translate_material_df_resources (t : Transaction) (main_df : ILambda_function)
    (main_body : List Sighting) (expr_lambdas : List (ILambda_function × List Sighting)) :
    ILambda_function × List ILambda_function :=
  let tc_reg := Target_code_register.new
  let enumerator := Function_enumerator.new tc_reg main_df
  let e := enumerate_resources t enumerator main_body
  let r := enumerate_expr_lambdas t e expr_lambdas
  (r.1.m_lambda, r.2)

/-! ## Const function enumerator -/

/-- The interface `ILambda_resource_attribute`, through which a const function compile
requests the attributes of a resource, given by its tag: (valid, width, height, depth)
of a texture, (valid, power, maximum) of a light profile, valid of a bsdf
measurement. -/
structure ILambda_resource_attribute where
  get_texture_attributes : Nat → Bool × Int × Int × Int
  get_light_profile_attributes : Nat → Bool × Nat × Nat
  get_bsdf_measurement_attributes : Nat → Bool

/-- The class `Const_function_enumerator` of `generator_jit.cpp`. -/
structure Const_function_enumerator where
  m_lambda : ILambda_function
  m_tex_idx : Nat
  m_lp_idx : Nat
  m_bm_idx : Nat
  deriving DecidableEq, Repr

namespace Const_function_enumerator

/-- The constructor: the three counters start at 0. -/
def new (lambda : ILambda_function) : Const_function_enumerator :=
  { m_lambda := lambda, m_tex_idx := 0, m_lp_idx := 0, m_bm_idx := 0 }

/-- The method `texture`: the attributes are requested for a resource value, and the
value is mapped to `m_tex_idx++`. -/
def texture (attr : ILambda_resource_attribute) (e : Const_function_enumerator)
    (v : Core_value) : Const_function_enumerator :=
  let a : Bool × Int × Int × Int :=
    match as_IValue_resource v with
    | some tag => attr.get_texture_attributes tag
    | none => (false, 0, 0, 0)
  { e with
    m_lambda := e.m_lambda.map_tex_resource v e.m_tex_idx a.1 a.2.1 a.2.2.1 a.2.2.2
    m_tex_idx := size_t_incr e.m_tex_idx }

/-- The method `light_profile`: the value is mapped to `m_lp_idx++`. -/
def light_profile (attr : ILambda_resource_attribute) (e : Const_function_enumerator)
    (v : Core_value) : Const_function_enumerator :=
  let a : Bool × Nat × Nat :=
    match as_IValue_resource v with
    | some tag => attr.get_light_profile_attributes tag
    | none => (false, 0, 0)
  { e with
    m_lambda := e.m_lambda.map_lp_resource v e.m_lp_idx a.1 a.2.1 a.2.2
    m_lp_idx := size_t_incr e.m_lp_idx }

/-- The method `bsdf_measurement`: the value is mapped to `m_bm_idx++`. -/
def bsdf_measurement (attr : ILambda_resource_attribute) (e : Const_function_enumerator)
    (v : Core_value) : Const_function_enumerator :=
  let valid : Bool :=
    match as_IValue_resource v with
    | some tag => attr.get_bsdf_measurement_attributes tag
    | none => false
  { e with
    m_lambda := e.m_lambda.map_bm_resource v e.m_bm_idx valid
    m_bm_idx := size_t_incr e.m_bm_idx }

/-- Dispatch of one callback to the `Const_function_enumerator`. -/
def visit (attr : ILambda_resource_attribute) (e : Const_function_enumerator) :
    Sighting → Const_function_enumerator
  | .texture v => texture attr e v
  | .light_profile v => light_profile attr e v
  | .bsdf_measurement v => bsdf_measurement attr e v

end Const_function_enumerator

/-- The resource enumeration of `Code_generator_jit::compile_into_const_function`: a
new `Const_function_enumerator` on the lambda, run over the callbacks that the
traversal of the body makes. The lambda with the mappings it received is returned. -/
def compile_into_const_function_resources (attr : ILambda_resource_attribute)
    (lambda : ILambda_function) (body : List Sighting) : ILambda_function :=
  (body.foldl (Const_function_enumerator.visit attr)
    (Const_function_enumerator.new lambda)).m_lambda

/-- A sighting that the attribute interface reports valid. -/
def Sighting.const_valid (attr : ILambda_resource_attribute) : Sighting → Bool
  | .texture v =>
    match as_IValue_resource v with
    | some tag => (attr.get_texture_attributes tag).1
    | none => false
  | .light_profile v =>
    match as_IValue_resource v with
    | some tag => (attr.get_light_profile_attributes tag).1
    | none => false
  | .bsdf_measurement v =>
    match as_IValue_resource v with
    | some tag => attr.get_bsdf_measurement_attributes tag
    | none => false

/-- The number of sightings among `pre` that are of the kind `k`. -/
def count_kind (pre : List Sighting) (k : Resource_kind) : Nat :=
  pre.countP (fun s => decide (s.kind = k))

/-- The numbering of the sightings `ss` that follow the sightings `pre`: every sighting
gets the number of sightings of its own kind made before it. -/
def position_in_kind (pre : List Sighting) : List Sighting → List Nat
  | [] => []
  | s :: rest => count_kind pre s.kind :: position_in_kind (pre ++ [s]) rest

/-- An attribute interface that reports every resource valid. -/
def example_attr : ILambda_resource_attribute :=
  { get_texture_attributes := fun _ => (true, 4, 4, 1)
    get_light_profile_attributes := fun _ => (true, 1, 2)
    get_bsdf_measurement_attributes := fun _ => true }

/-! ## Resource tables of the target code -/

/-- Modelled from the spec: the class `Target_code` is not part of the sources at hand.
The spec has the artifact created empty by a compile call and populated once, with one
resource table per kind, each an ordered list of (index, name, shape for textures);
only these three tables are kept here. -/
structure Target_code where
  m_texture_table : List Texture_entry
  m_light_profile_table : List Res_entry
  m_bsdf_measurement_table : List Res_entry
  deriving DecidableEq, Repr

namespace Target_code

/-- Modelled from the spec: the artifact as a compile call creates it, with empty
resource tables. -/
def new : Target_code :=
  { m_texture_table := [], m_light_profile_table := [], m_bsdf_measurement_table := [] }

/-- Modelled from the spec: `Target_code::add_texture_index` lists one more texture. -/
def add_texture_index (tc : Target_code) (index : Nat) (name : String)
    (type : Texture_shape) : Target_code :=
  { tc with m_texture_table := tc.m_texture_table ++ [Texture_entry.mk index name type] }

/-- Modelled from the spec: `Target_code::add_light_profile_index` lists one more light
profile. -/
def add_light_profile_index (tc : Target_code) (index : Nat) (name : String) : Target_code :=
  { tc with m_light_profile_table := tc.m_light_profile_table ++ [Res_entry.mk index name] }

/-- Modelled from the spec: `Target_code::add_bsdf_measurement_index` lists one more
bsdf measurement. -/
def add_bsdf_measurement_index (tc : Target_code) (index : Nat) (name : String) :
    Target_code :=
  { tc with
    m_bsdf_measurement_table := tc.m_bsdf_measurement_table ++ [Res_entry.mk index name] }

end Target_code

/-- The function `fill_resource_tables`: every entry of the three register tables is
handed to the target code, table by table and in table order. -/
def fill_resource_tables (tc_reg : Target_code_register) (tc : Target_code) : Target_code :=
  let tc1 := tc_reg.m_texture_table.foldl
    (fun c entry => c.add_texture_index entry.m_index entry.m_name entry.m_type) tc
  let tc2 := tc_reg.m_light_profile_table.foldl
    (fun c entry => c.add_light_profile_index entry.m_index entry.m_name) tc1
  tc_reg.m_bsdf_measurement_table.foldl
    (fun c entry => c.add_bsdf_measurement_index entry.m_index entry.m_name) tc2

/-- The resource tables of a single-function compile (`translate_environment`,
`translate_material_expression` and siblings): a register and an enumerator of their
own, the enumeration of the fragment, and `fill_resource_tables` into the new target
code. The lambda function with its mappings is returned as well. -/
def translate_resources (t : Transaction) (lambda : ILambda_function) (body : List Sighting) :
    Target_code × ILambda_function :=
  let tc_reg := Target_code_register.new
  let enumerator := Function_enumerator.new tc_reg lambda
  let e := enumerate_resources t enumerator body
  (fill_resource_tables e.m_register Target_code.new, e.m_lambda)

/-- The resource tables of `translate_link_unit`: `fill_resource_tables` from the
register of the unit into the target code of the unit. -/
def Link_unit.translate_resources (lu : Link_unit) : Target_code :=
  fill_resource_tables lu.m_tc_reg Target_code.new

/-- The (index, name) pairs of the register table of a kind, in table order. -/
def Target_code_register.entries (r : Target_code_register) : Resource_kind → List (Nat × String)
  | .texture => r.m_texture_table.map (fun x => (x.m_index, x.m_name))
  | .light_profile => r.m_light_profile_table.map (fun x => (x.m_index, x.m_name))
  | .bsdf_measurement => r.m_bsdf_measurement_table.map (fun x => (x.m_index, x.m_name))

/-- The (index, name) pairs of the target code table of a kind, in table order. -/
def Target_code.entries (tc : Target_code) : Resource_kind → List (Nat × String)
  | .texture => tc.m_texture_table.map (fun x => (x.m_index, x.m_name))
  | .light_profile => tc.m_light_profile_table.map (fun x => (x.m_index, x.m_name))
  | .bsdf_measurement => tc.m_bsdf_measurement_table.map (fun x => (x.m_index, x.m_name))

/-- A table that holds nothing as long as no reference of its kind was enumerated, and
that starts with the entry of index 0 and empty name from then on. -/
def Sentinel_first (seen : Bool) (entries : List (Nat × String)) : Prop :=
  if seen then entries.head? = some (0, "") else entries = []

/-! ## Argument blocks and target value layouts -/

/-- The enum `mi::mdl::IValue::Kind`, as far as `Target_value_layout::get_layout`
translates it. -/
inductive Mdl_kind where
  | VK_BAD
  | VK_BOOL
  | VK_INT
  | VK_ENUM
  | VK_FLOAT
  | VK_DOUBLE
  | VK_STRING
  | VK_VECTOR
  | VK_MATRIX
  | VK_ARRAY
  | VK_RGB_COLOR
  | VK_STRUCT
  | VK_INVALID_REF
  | VK_TEXTURE
  | VK_LIGHT_PROFILE
  | VK_BSDF_MEASUREMENT
  deriving DecidableEq, Repr

/-- The enum `mi::neuraylib::IValue::Kind`, which `MI::MDL::IValue::Kind` is identical
to. -/
inductive Kind where
  | VK_BOOL
  | VK_INT
  | VK_ENUM
  | VK_FLOAT
  | VK_DOUBLE
  | VK_STRING
  | VK_VECTOR
  | VK_MATRIX
  | VK_COLOR
  | VK_ARRAY
  | VK_STRUCT
  | VK_INVALID_DF
  | VK_TEXTURE
  | VK_LIGHT_PROFILE
  | VK_BSDF_MEASUREMENT
  | VK_FORCE_32_BIT
  deriving DecidableEq, Repr

/-- A value of the interface `mi::neuraylib::IValue`, and likewise of
`MI::MDL::IValue`. An `int` or `enum` carries its `Sint32`, a `float` the 32 bits and a
`double` the 64 bits of its value, a compound value its elements, a resource its tag. -/
inductive IValue where
  | bool (value : Bool)
  | int (value : Int)
  | enum (value : Int)
  | float (bits : Nat)
  | double (bits : Nat)
  | string (value : String)
  | vector (elems : List IValue)
  | matrix (elems : List IValue)
  | color (elems : List IValue)
  | array (elems : List IValue)
  | struct (elems : List IValue)
  | invalid_df
  | texture (tag : Nat)
  | light_profile (tag : Nat)
  | bsdf_measurement (tag : Nat)

/-- The method `IValue::get_kind`. -/
def IValue.get_kind : IValue → Kind
  | .bool _ => Kind.VK_BOOL
  | .int _ => Kind.VK_INT
  | .enum _ => Kind.VK_ENUM
  | .float _ => Kind.VK_FLOAT
  | .double _ => Kind.VK_DOUBLE
  | .string _ => Kind.VK_STRING
  | .vector _ => Kind.VK_VECTOR
  | .matrix _ => Kind.VK_MATRIX
  | .color _ => Kind.VK_COLOR
  | .array _ => Kind.VK_ARRAY
  | .struct _ => Kind.VK_STRUCT
  | .invalid_df => Kind.VK_INVALID_DF
  | .texture _ => Kind.VK_TEXTURE
  | .light_profile _ => Kind.VK_LIGHT_PROFILE
  | .bsdf_measurement _ => Kind.VK_BSDF_MEASUREMENT

/-- The struct `mi::neuraylib::Target_value_layout_state`, and likewise
`mi::mdl::IGenerated_code_value_layout::State`. -/
structure Target_value_layout_state where
  m_state_offs : Nat
  m_data_offs : Nat
  deriving DecidableEq, Repr

/-- The interface `mi::mdl::IGenerated_code_value_layout`, which the JIT backend
implements; `get_layout` gives the kind, the size and the offset of a node. -/
structure IGenerated_code_value_layout where
  get_size : Nat
  get_num_elements : Target_value_layout_state → Nat
  get_layout : Target_value_layout_state → Mdl_kind × Nat × Nat
  get_nested_state : Nat → Target_value_layout_state → Target_value_layout_state

/-- The interface `mi::neuraylib::ITarget_resource_callback`; the index is a `Uint32`. -/
structure ITarget_resource_callback where
  get_resource_index : IValue → Nat

/-- The interface `ITarget_resource_callback_internal`; the indices are `Uint32`s. -/
structure ITarget_resource_callback_internal where
  get_resource_index : IValue → Nat
  get_string_index : IValue → Nat

/-- The memory an argument block pointer `char *block` points into: the byte at every
offset from the pointer. -/
abbrev Block := Nat → Nat

/-- The `count` low bytes of `n`, least significant first. -/
def le_bytes (n : Nat) : Nat → List Nat
  | 0 => []
  | count + 1 => n % 256 :: le_bytes (n / 256) count

/-- The store of consecutive bytes at `block + offs`. -/
def write_bytes (block : Block) (offs : Nat) : List Nat → Block
  | [] => block
  | b :: rest => write_bytes (Function.update block offs b) (offs + 1) rest

/-- The unsigned integer that the `count` bytes at `block + offs` make up, least
significant byte first. -/
def read_le (block : Block) (offs : Nat) : Nat → Nat
  | 0 => 0
  | count + 1 => block offs + 256 * read_le block (offs + 1) count

/-- The store `*reinterpret_cast<bool *>(block + offs) = b`. -/
def store_bool (block : Block) (offs : Nat) (b : Bool) : Block :=
  write_bytes block offs [if b then 1 else 0]

/-- The store `*reinterpret_cast<mi::Sint32 *>(block + offs) = i`, in two's complement. -/
def store_Sint32 (block : Block) (offs : Nat) (i : Int) : Block :=
  write_bytes block offs (le_bytes (i % 2 ^ 32).toNat 4)

/-- The store of a `mi::Uint32`, and of the 32 bits of a `mi::Float32`. -/
def store_Uint32 (block : Block) (offs : Nat) (n : Nat) : Block :=
  write_bytes block offs (le_bytes (n % 2 ^ 32) 4)

/-- The store of the 64 bits of a `mi::Float64`, and of a pointer. -/
def store_Uint64 (block : Block) (offs : Nat) (n : Nat) : Block :=
  write_bytes block offs (le_bytes (n % 2 ^ 64) 8)

/-- The class `Target_value_layout`; `m_layout` is `none` for the NULL layout. -/
structure Target_value_layout where
  m_layout : Option IGenerated_code_value_layout
  m_strings_mapped_to_ids : Bool

namespace Target_value_layout

/-- The value `~Size(0)`. -/
def SIZE_NONE : Nat := 2 ^ 64 - 1

/-- The method `get_size`. -/
def get_size (L : Target_value_layout) : Nat :=
  match L.m_layout with
  | none => 0
  | some l => l.get_size

/-- The method `get_num_elements`. -/
def get_num_elements (L : Target_value_layout) (state : Target_value_layout_state) : Nat :=
  match L.m_layout with
  | none => SIZE_NONE
  | some l => l.get_num_elements state

/-- The translation `MAP_KIND` from MDL value kinds to Neuray value kinds. -/
def map_kind : Mdl_kind → Kind
  | .VK_BAD => Kind.VK_INVALID_DF
  | .VK_BOOL => Kind.VK_BOOL
  | .VK_INT => Kind.VK_INT
  | .VK_ENUM => Kind.VK_ENUM
  | .VK_FLOAT => Kind.VK_FLOAT
  | .VK_DOUBLE => Kind.VK_DOUBLE
  | .VK_STRING => Kind.VK_STRING
  | .VK_VECTOR => Kind.VK_VECTOR
  | .VK_MATRIX => Kind.VK_MATRIX
  | .VK_ARRAY => Kind.VK_ARRAY
  | .VK_RGB_COLOR => Kind.VK_COLOR
  | .VK_STRUCT => Kind.VK_STRUCT
  | .VK_INVALID_REF => Kind.VK_INVALID_DF
  | .VK_TEXTURE => Kind.VK_TEXTURE
  | .VK_LIGHT_PROFILE => Kind.VK_LIGHT_PROFILE
  | .VK_BSDF_MEASUREMENT => Kind.VK_BSDF_MEASUREMENT

/-- The method `get_layout`: the kind, the size and the offset (the return value) of
the node at the layout state. -/
def get_layout (L : Target_value_layout) (state : Target_value_layout_state) :
    Kind × Nat × Nat :=
  match L.m_layout with
  | none => (Kind.VK_INVALID_DF, 0, SIZE_NONE)
  | some l =>
    let r := l.get_layout state
    (map_kind r.1, r.2.1, r.2.2)

/-- The method `get_nested_state`. -/
def get_nested_state (L : Target_value_layout) (i : Nat) (state : Target_value_layout_state) :
    Target_value_layout_state :=
  match L.m_layout with
  | none => Target_value_layout_state.mk (2 ^ 32 - 1) (2 ^ 32 - 1)
  | some l => l.get_nested_state i state

/-- The method `set_value` for a `mi::neuraylib::IValue`, past its NULL checks: the
error code and the block afterwards. `set_elements` is the loop over the elements of a
compound value, from element `i` on. -/
def set_value_at (L : Target_value_layout) (resource_callback : ITarget_resource_callback)
    (block : Block) (value : IValue) (state : Target_value_layout_state) : Int × Block :=
  let kind := (L.get_layout state).1
  let offs := (L.get_layout state).2.2
  if value.get_kind ≠ kind then (-3, block)
  else
    match value with
    | .bool b => (0, store_bool block offs b)
    | .int i => (0, store_Sint32 block offs i)
    | .enum i => (0, store_Sint32 block offs i)
    | .float bits => (0, store_Uint32 block offs bits)
    | .double bits => (0, store_Uint64 block offs bits)
    | .string _ => (-5, block)
    | .vector elems =>
      if elems.length ≠ L.get_num_elements state then (-4, block)
      else set_elements block elems 0
    | .matrix elems =>
      if elems.length ≠ L.get_num_elements state then (-4, block)
      else set_elements block elems 0
    | .array elems =>
      if elems.length ≠ L.get_num_elements state then (-4, block)
      else set_elements block elems 0
    | .color elems =>
      if elems.length ≠ L.get_num_elements state then (-4, block)
      else set_elements block elems 0
    | .struct elems =>
      if elems.length ≠ L.get_num_elements state then (-4, block)
      else set_elements block elems 0
    | .texture tag =>
      (0, store_Uint32 block offs (resource_callback.get_resource_index (.texture tag)))
    | .light_profile tag =>
      (0, store_Uint32 block offs (resource_callback.get_resource_index (.light_profile tag)))
    | .bsdf_measurement tag =>
      (0, store_Uint32 block offs
        (resource_callback.get_resource_index (.bsdf_measurement tag)))
    | .invalid_df => (-5, block)
where
  /-- The loop `for (Size i = 0; i < num; ++i)` of `set_value`, from `i` on. -/
  set_elements (block : Block) : List IValue → Nat → Int × Block
    | [], _ => (0, block)
    | sub_val :: rest, i =>
      let r := set_value_at L resource_callback block sub_val (L.get_nested_state i state)
      if r.1 ≠ 0 then r else set_elements r.2 rest (i + 1)

/-- The method `set_value` for a `MI::MDL::IValue`, past its NULL checks: the error
code and the block afterwards. A string is stored as the `Uint32` id the callback
gives if strings are mapped to ids, and as a NULL pointer otherwise.
`set_elements_internal` is the loop over the elements of a compound value. -/
def set_value_internal_at (L : Target_value_layout)
    (resource_callback : ITarget_resource_callback_internal)
    (block : Block) (value : IValue) (state : Target_value_layout_state) : Int × Block :=
  let kind := (L.get_layout state).1
  let offs := (L.get_layout state).2.2
  if value.get_kind ≠ kind then (-3, block)
  else
    match value with
    | .bool b => (0, store_bool block offs b)
    | .int i => (0, store_Sint32 block offs i)
    | .enum i => (0, store_Sint32 block offs i)
    | .float bits => (0, store_Uint32 block offs bits)
    | .double bits => (0, store_Uint64 block offs bits)
    | .string str =>
      if L.m_strings_mapped_to_ids then
        (0, store_Uint32 block offs (resource_callback.get_string_index (.string str)))
      else (0, store_Uint64 block offs 0)
    | .vector elems =>
      if elems.length ≠ L.get_num_elements state then (-4, block)
      else set_elements_internal block elems 0
    | .matrix elems =>
      if elems.length ≠ L.get_num_elements state then (-4, block)
      else set_elements_internal block elems 0
    | .array elems =>
      if elems.length ≠ L.get_num_elements state then (-4, block)
      else set_elements_internal block elems 0
    | .color elems =>
      if elems.length ≠ L.get_num_elements state then (-4, block)
      else set_elements_internal block elems 0
    | .struct elems =>
      if elems.length ≠ L.get_num_elements state then (-4, block)
      else set_elements_internal block elems 0
    | .texture tag =>
      (0, store_Uint32 block offs (resource_callback.get_resource_index (.texture tag)))
    | .light_profile tag =>
      (0, store_Uint32 block offs (resource_callback.get_resource_index (.light_profile tag)))
    | .bsdf_measurement tag =>
      (0, store_Uint32 block offs
        (resource_callback.get_resource_index (.bsdf_measurement tag)))
    | .invalid_df => (-5, block)
where
  /-- The loop `for (Size i = 0; i < num; ++i)` of `set_value`, from `i` on. -/
  set_elements_internal (block : Block) : List IValue → Nat → Int × Block
    | [], _ => (0, block)
    | sub_val :: rest, i =>
      let r := set_value_internal_at L resource_callback block sub_val
        (L.get_nested_state i state)
      if r.1 ≠ 0 then r else set_elements_internal r.2 rest (i + 1)

/-- The method `set_value` for a `MI::MDL::IValue`. A NULL value or callback is `none`;
the block is not NULL. -/
def set_value_internal (L : Target_value_layout) (block : Block) (value : Option IValue)
    (resource_callback : Option ITarget_resource_callback_internal)
    (state : Target_value_layout_state) : Int × Block :=
  match value, resource_callback with
  | some v, some cb => set_value_internal_at L cb block v state
  | _, _ => (-1, block)

/-- The method `set_value` for a `mi::neuraylib::IValue`. A NULL value or callback is
`none`; the block is not NULL. -/
def set_value (L : Target_value_layout) (block : Block) (value : Option IValue)
    (resource_callback : Option ITarget_resource_callback)
    (state : Target_value_layout_state) : Int × Block :=
  match value, resource_callback with
  | some v, some cb => set_value_at L cb block v state
  | _, _ => (-1, block)

end Target_value_layout

/-! ## Notions used to state the properties of the enumeration -/

/-- The database name of a texture value, as `Function_enumerator::texture` takes it. -/
def texture_name (t : Transaction) (v : Core_value) : String :=
  match as_IValue_texture v with
  | some (_, tag) => Function_enumerator.resource_to_name t tag
  | none => ""

/-- A texture value that the resource store reports valid. -/
def is_valid_texture (t : Transaction) (v : Core_value) : Bool :=
  match as_IValue_texture v with
  | some (_, tag) => (t.get_texture_attributes tag).valid
  | none => false

/-- The number of distinct names sighted before the first sighting of `n`. -/
def distinct_before (names : List String) (n : String) : Nat :=
  ((names.take (names.indexOf n)).toFinset).card

/-- The entry with index 0 of the texture table. -/
def texture_sentinel : Texture_entry :=
  Texture_entry.mk 0 "" Texture_shape.Texture_shape_invalid

/-- The mapping a lambda function is to receive for a valid texture `v` when `names` are
the names sighted in the unit: index `1 + distinct_before`, valid, and the dimensions
the resource store reports. -/
def stable_tex_mapping (t : Transaction) (names : List String) (v : Core_value) :
    Resource_mapping :=
  match as_IValue_texture v with
  | some (_, tag) =>
    Resource_mapping.tex v (1 + distinct_before names (texture_name t v)) true
      (t.get_texture_attributes tag).width (t.get_texture_attributes tag).height
      (t.get_texture_attributes tag).depth
  | none => Resource_mapping.tex v 0 false 0 0 0

/-! ## The registry invariant of a unit that has sighted valid textures only -/

/-- The state of the registry after the names `pre` were sighted, in this order, as
valid textures: the map knows exactly these names, each under `1 + distinct_before`;
the counter is the number of distinct names; the table is empty if nothing was
sighted, and else the sentinel followed by one entry per distinct name. -/
structure Tex_inv (pre : List String) (table : List Texture_entry) (m : Resource_index_map)
    (ctr : Nat) : Prop where
  find_eq : ∀ n, Resource_index_map.find m n =
    if n ∈ pre then some (1 + distinct_before pre n) else none
  ctr_eq : ctr = pre.toFinset.card
  table_eq : table = if pre = [] then [] else texture_sentinel :: table.tail
  count_eq : ∀ n, table.tail.countP (fun x => decide (x.m_name = n)) = if n ∈ pre then 1 else 0
  index_eq : ∀ x ∈ table.tail, x.m_index = 1 + distinct_before pre x.m_name

/-- A sighting that `Function_enumerator` treats as invalid: the value is not of the
class the method casts to (`IValue_texture` for `texture`, `IValue_resource` for
`light_profile` and `bsdf_measurement`), or the resource store reports it invalid. -/
def Sighting.is_invalid (t : Transaction) : Sighting → Bool
  | .texture v =>
    match as_IValue_texture v with
    | some (_, tag) => !(t.get_texture_attributes tag).valid
    | none => true
  | .light_profile v =>
    match as_IValue_resource v with
    | some tag => !(t.get_light_profile_attributes tag).valid
    | none => true
  | .bsdf_measurement v =>
    match as_IValue_resource v with
    | some tag => !(t.get_bsdf_measurement_attributes tag)
    | none => true

/-- The mapping of a sighting to index 0 of its kind, flagged invalid, with all
attributes zero. -/
def Sighting.invalid_mapping : Sighting → Resource_mapping
  | .texture v => Resource_mapping.tex v 0 false 0 0 0
  | .light_profile v => Resource_mapping.lp v 0 false 0 0
  | .bsdf_measurement v => Resource_mapping.bm v 0 false

/-- The table entry registered for a texture value under the index `i`. -/
def texture_entry (t : Transaction) (i : Nat) (v : Core_value) : Texture_entry :=
  match as_IValue_texture v with
  | some (shape, tag) =>
    Texture_entry.mk i (Function_enumerator.resource_to_name t tag)
      (Function_enumerator.get_texture_shape shape)
  | none => Texture_entry.mk i "" Texture_shape.Texture_shape_invalid

/-- The elements of a compound value (`IValue_compound`), nothing for any other. -/
def IValue.elements : IValue → Option (List IValue)
  | .vector elems => some elems
  | .matrix elems => some elems
  | .color elems => some elems
  | .array elems => some elems
  | .struct elems => some elems
  | _ => none

/-- The block after the elements of a list were written one after the other, element
`j` of the list as child `i + j`; `set_child block v j` writes `v` as child `j` and
gives the error code and the block afterwards. -/
def written_in_order (set_child : Block → IValue → Nat → Int × Block) (block : Block) :
    List IValue → Nat → Block
  | [], _ => block
  | sub_val :: rest, i => written_in_order set_child (set_child block sub_val i).2 rest (i + 1)

/-- A scalar value whose payload fits its C++ type: a `Sint32` for `int` and `enum`,
32 bits for `float`, 64 bits for `double`. -/
def IValue.is_scalar_in_range : IValue → Bool
  | .bool _ => true
  | .int i => decide (-(2 : Int) ^ 31 ≤ i ∧ i < 2 ^ 31)
  | .enum i => decide (-(2 : Int) ^ 31 ≤ i ∧ i < 2 ^ 31)
  | .float bits => decide (bits < 2 ^ 32)
  | .double bits => decide (bits < 2 ^ 64)
  | _ => false

/-- The number of bytes of the C++ type of a scalar value. -/
def IValue.scalar_size : IValue → Nat
  | .bool _ => 1
  | .double _ => 8
  | _ => 4

/-- The bit pattern of a scalar value, as an unsigned integer: 0 or 1 for a `bool`, the
two's complement of an `int` or `enum`, the bits of a `float` or `double`. -/
def IValue.bit_pattern : IValue → Nat
  | .bool b => if b then 1 else 0
  | .int i => (i % 2 ^ 32).toNat
  | .enum i => (i % 2 ^ 32).toNat
  | .float bits => bits
  | .double bits => bits
  | _ => 0

/-- The `Sint32` that 32 bits stand for in two's complement. -/
def decode_Sint32 (n : Nat) : Int :=
  if n < 2 ^ 31 then (n : Int) else (n : Int) - 2 ^ 32

/-- A resource value: a texture, a light profile or a bsdf measurement. -/
def IValue.is_resource : IValue → Bool
  | .texture _ => true
  | .light_profile _ => true
  | .bsdf_measurement _ => true
  | _ => false

/-- A layout of 16 bytes: the root (state 0) is a struct of two elements, an `int` at
offset 0 (state 1) and a texture at offset 4 (state 2); state 3 is a string at
offset 8, state 4 a `float` at offset 12. -/
def example_layout (string_ids : Bool) : Target_value_layout :=
  { m_layout := some
      { get_size := 16
        get_num_elements := fun st => if st.m_state_offs = 0 then 2 else 0
        get_layout := fun st =>
          if st.m_state_offs = 0 then (Mdl_kind.VK_STRUCT, 16, 0)
          else if st.m_state_offs = 1 then (Mdl_kind.VK_INT, 4, 0)
          else if st.m_state_offs = 2 then (Mdl_kind.VK_TEXTURE, 4, 4)
          else if st.m_state_offs = 3 then (Mdl_kind.VK_STRING, 8, 8)
          else (Mdl_kind.VK_FLOAT, 4, 12)
        get_nested_state := fun i st => Target_value_layout_state.mk (st.m_state_offs + i + 1) 0 }
    m_strings_mapped_to_ids := string_ids }

/-- A resource callback that gives index 7 for every resource. -/
def example_callback : ITarget_resource_callback :=
  { get_resource_index := fun _ => 7 }

/-- An internal resource callback that gives index 7 for every resource and id 3 for
every string. -/
def example_callback_internal : ITarget_resource_callback_internal :=
  { get_resource_index := fun _ => 7, get_string_index := fun _ => 3 }

/-- A block of zero bytes. -/
def zero_block : Block := fun _ => 0

/-! ## The JIT code generator: messages, fragments and the LLVM code generator -/

/-- One message of a message list (`Messages_impl`): whether it is an error, its code
and its text. -/
structure Message where
  is_error : Bool
  code : Nat
  text : String
  deriving DecidableEq, Repr

/-- Modelled from the spec: the class `Messages_impl` is not part of the sources at
hand. The spec has diagnostics accumulate on a per-compile message list; the list is
kept in the order of reporting. -/
abbrev Messages := List Message

/-- Modelled from the spec: `Messages::get_error_message_count`, the number of error
messages of the list. -/
def Messages.get_error_message_count (m : Messages) : Nat :=
  m.countP (fun x => x.is_error)

/-- The error code `INTERNAL_JIT_BACKEND_ERROR`, whose value is not part of the sources
at hand and does not matter here. -/
def INTERNAL_JIT_BACKEND_ERROR : Nat := 0

/-- A node of an expression graph (`DAG_node const *`), by its identity. -/
abbrev DAG_node := Nat

/-- The enum `ILambda_function::Lambda_execution_context`. -/
inductive Lambda_execution_context where
  | LEC_ENVIRONMENT
  | LEC_CORE
  | LEC_DISPLACEMENT
  deriving DecidableEq, Repr

/-- The class `mi::mdl::Lambda_function`, as far as the code at hand reads and writes
it: name, body (`none` for NULL), root expressions (each `none` for NULL), execution
context, parameters (type and name), the map from material parameters to lambda
parameters, the hash of the expression graph, whether the uniform state is set, and the
resource attribute map (the resource mappings received). -/
structure Lambda_function where
  m_name : String
  m_body : Option DAG_node
  m_root_exprs : List (Option DAG_node)
  m_context : Lambda_execution_context
  m_params : List (Nat × String)
  m_parameter_mapping : List (Nat × Nat)
  m_hash : List Nat
  m_uniform_state_set : Bool
  m_resource_attribute_map : List Resource_mapping
  deriving DecidableEq, Repr

namespace Lambda_function

/-- The method `get_body`. -/
def get_body (l : Lambda_function) : Option DAG_node := l.m_body

/-- The method `get_root_expr_count`. -/
def get_root_expr_count (l : Lambda_function) : Nat := l.m_root_exprs.length

/-- The method `get_name`. -/
def get_name (l : Lambda_function) : String := l.m_name

/-- The method `get_execution_context`. -/
def get_execution_context (l : Lambda_function) : Lambda_execution_context := l.m_context

/-- The method `is_uniform_state_set`. -/
def is_uniform_state_set (l : Lambda_function) : Bool := l.m_uniform_state_set

end Lambda_function

/-- The class `mi::mdl::Distribution_function`: the main lambda and the expression
lambdas. -/
structure Distribution_function where
  m_main_df : Lambda_function
  m_expr_lambdas : List Lambda_function
  deriving DecidableEq, Repr

/-- An `llvm::Function`, by its name. -/
structure Llvm_function where
  name : String
  deriving DecidableEq, Repr

/-- An `llvm::Module`, by its identity. -/
abbrev Llvm_module := Nat

/-- The class `Generated_code_value_layout` of the JIT backend: the layout data and
whether strings are mapped to ids. -/
structure Generated_code_value_layout where
  m_layout_data : List Nat
  m_strings_mapped_to_ids : Bool
  deriving DecidableEq, Repr

/-- The state of an `LLVM_code_generator`: the message list it reports to (the one of
the code object it was constructed with), the type of the captured arguments of the
last compile (`none` for NULL), and the rest of its state, which stays abstract. -/
structure LLVM_code_generator where
  m_messages : Messages
  m_captured_arguments_llvm_type : Option Nat
  m_internal : Nat
  deriving DecidableEq, Repr

namespace LLVM_code_generator

/-- The method `get_captured_arguments_llvm_type`. -/
def get_captured_arguments_llvm_type (g : LLVM_code_generator) : Option Nat :=
  g.m_captured_arguments_llvm_type

/-- The method `get_error_message_count`. -/
def get_error_message_count (g : LLVM_code_generator) : Nat :=
  g.m_messages.get_error_message_count

/-- Modelled from the spec: `LLVM_code_generator::error` is not part of the sources at
hand; it records one error message, with the given code and text, on the message
list. -/
def error (g : LLVM_code_generator) (code : Nat) (text : String) : LLVM_code_generator :=
  { g with m_messages := g.m_messages ++ [Message.mk true code text] }

end LLVM_code_generator

/-- The options of the code generator (`Options_impl`), as far as the JIT code generator
reads or sets them, each with the type the code reads it at (`get_string_option`,
`get_int_option`, `get_bool_option`): `MDL_CG_OPTION_INTERNAL_SPACE`,
`MDL_JIT_OPTION_OPT_LEVEL`, `MDL_JIT_OPTION_FAST_MATH`,
`MDL_JIT_OPTION_DISABLE_EXCEPTIONS`, `MDL_JIT_OPTION_ENABLE_RO_SEGMENT`,
`MDL_JIT_OPTION_WRITE_BITCODE`, `MDL_JIT_OPTION_LINK_LIBDEVICE`,
`MDL_JIT_OPTION_USE_BITANGENT`, `MDL_JIT_OPTION_INCLUDE_UNIFORM_STATE`,
`MDL_JIT_OPTION_TEX_LOOKUP_CALL_MODE` and `MDL_JIT_OPTION_MAP_STRINGS_TO_IDS`. -/
structure Options_impl where
  internal_space : String
  opt_level : Int
  fast_math : Bool
  disable_exceptions : Bool
  enable_ro_segment : Bool
  write_bitcode : Bool
  link_libdevice : Bool
  use_bitangent : Bool
  include_uniform_state : Bool
  tex_lookup_call_mode : String
  map_strings_to_ids : Bool
  deriving DecidableEq, Repr

/-- The enum `Type_mapper::Type_mapping_mode`, as far as the code at hand names it. -/
inductive Type_mapping_mode where
  | TM_NATIVE_X86
  | TM_PTX
  | TM_BIG_VECTORS
  | TM_ALL_SCALAR
  deriving DecidableEq, Repr

/-- The enum `Type_mapper::State_subset_mode`, as far as the code at hand names it. -/
inductive State_subset_mode where
  | SSM_NO_STATE
  | SSM_ENVIRONMENT
  | SSM_CORE
  deriving DecidableEq, Repr

/-- The flag `Type_mapper::SM_USE_BITANGENT` of the state mapping, whose value is not
part of the sources at hand: one bit. -/
def SM_USE_BITANGENT : Nat := 1

/-- The flag `Type_mapper::SM_INCLUDE_UNIFORM_STATE` of the state mapping, whose value
is not part of the sources at hand: another bit. -/
def SM_INCLUDE_UNIFORM_STATE : Nat := 2

/-- The arguments of the constructor of `LLVM_code_generator` that the code at hand
chooses: PTX mode, type mapping mode, SM version, whether a texture handler is
present, the state subset mode, the numbers of texture spaces and texture results, the
options, the incremental flag, the state mapping, what the resource manager was handed
(the resource attribute maps) and the debug flag. -/
structure Codegen_params where
  ptx_mode : Bool
  tm_mode : Type_mapping_mode
  sm_version : Nat
  has_tex_handler : Bool
  state_mode : State_subset_mode
  num_texture_spaces : Nat
  num_texture_results : Nat
  options : Options_impl
  incremental : Bool
  state_mapping : Nat
  res_manag : List (List Resource_mapping)
  enable_debug : Bool
  deriving DecidableEq, Repr

/-- The compile steps of the class `LLVM_code_generator`, which are not part of the
sources at hand and are taken as given: each takes the state of the code generator
(and the `incremental` flag where the code passes one) and gives the state afterwards
and its result, `none` for a NULL function or module. Call name resolvers and call
transformers are part of what is given. `construct` gives the abstract part of the
state of a code generator constructed with the given arguments. `jit_compile` and
`drop_llvm_module` return nothing and leave no trace in what is observed here. -/
structure Codegen_backend where
  compile_environment_lambda :
    LLVM_code_generator → Bool → Lambda_function → LLVM_code_generator × Option Llvm_function
  compile_const_lambda :
    LLVM_code_generator → Lambda_function → LLVM_code_generator × Option Llvm_function
  compile_generic_lambda :
    LLVM_code_generator → Bool → Lambda_function → LLVM_code_generator × Option Llvm_function
  compile_switch_lambda :
    LLVM_code_generator → Bool → Lambda_function → LLVM_code_generator × Option Llvm_function
  compile_distribution_function :
    LLVM_code_generator → Bool → Distribution_function →
      LLVM_code_generator × Option Llvm_module × List Llvm_function
  finalize_module : LLVM_code_generator → LLVM_code_generator × Option Llvm_module
  create_value_layout : LLVM_code_generator → Generated_code_value_layout
  get_parent : Llvm_function → Llvm_module
  ptx_compile : LLVM_code_generator → Llvm_module → String
  llvm_ir_compile : LLVM_code_generator → Llvm_module → String
  llvm_bc_compile : LLVM_code_generator → Llvm_module → String
  get_ro_segment : LLVM_code_generator → List Nat
  get_render_state_usage : LLVM_code_generator → Nat
  get_string_constants : LLVM_code_generator → List String
  get_entry_point : LLVM_code_generator → Llvm_function → Nat
  construct : Codegen_params → Nat
  enable_name_mangling : LLVM_code_generator → LLVM_code_generator
  enable_ro_data_segment : LLVM_code_generator → LLVM_code_generator

/-! ## The JIT link unit -/

/-- The enum `ILink_unit::Function_kind`. -/
inductive Function_kind where
  | FK_INVALID
  | FK_LAMBDA
  | FK_SWITCH_LAMBDA
  | FK_ENVIRONMENT
  | FK_DF_INIT
  | FK_DF_SAMPLE
  | FK_DF_EVALUATE
  | FK_DF_PDF
  deriving DecidableEq, Repr

/-- The value `~0` of a `size_t`. -/
def SIZE_T_NONE : Nat := 2 ^ 64 - 1

/-- The struct `Link_unit_jit_function_info`. -/
structure Link_unit_jit_function_info where
  m_name : String
  m_func : Option Llvm_function
  m_kind : Function_kind
  m_arg_block_index : Nat
  deriving DecidableEq, Repr

/-- The enum `Link_unit_jit::Target_kind`. -/
inductive Target_kind where
  | TK_CUDA_PTX
  | TK_LLVM_IR
  | TK_NATIVE
  deriving DecidableEq, Repr

/-- The class `Link_unit_jit`. The message list of the unit (`access_messages`) is the
one of its code object, which the code generator `m_code_gen` reports to. The resource
manager is observed through the resource attribute maps handed to it. -/
structure Link_unit_jit where
  m_target_kind : Target_kind
  m_code_gen : LLVM_code_generator
  m_res_manag : List (List Resource_mapping)
  m_func_infos : List Link_unit_jit_function_info
  m_arg_block_layouts : List Generated_code_value_layout
  m_lambdas : List Lambda_function
  m_dist_funcs : List Distribution_function
  deriving DecidableEq, Repr

namespace Link_unit_jit

/-- The constructor: empty function table, layout list, lambda list and distribution
function list, around the code generator it builds. -/
def new (target_kind : Target_kind) (code_gen : LLVM_code_generator) : Link_unit_jit :=
  { m_target_kind := target_kind, m_code_gen := code_gen, m_res_manag := [],
    m_func_infos := [], m_arg_block_layouts := [], m_lambdas := [], m_dist_funcs := [] }

/-- The method `access_messages`. -/
def access_messages (u : Link_unit_jit) : Messages := u.m_code_gen.m_messages

/-- The method `update_resource_attribute_map`: a native unit imports the map of the
lambda, a PTX or LLVM-IR unit sets it. -/
def update_resource_attribute_map (u : Link_unit_jit) (lambda : Lambda_function) :
    Link_unit_jit :=
  match u.m_target_kind with
  | .TK_NATIVE => { u with m_res_manag := u.m_res_manag ++ [lambda.m_resource_attribute_map] }
  | .TK_CUDA_PTX => { u with m_res_manag := [lambda.m_resource_attribute_map] }
  | .TK_LLVM_IR => { u with m_res_manag := [lambda.m_resource_attribute_map] }

/-- The part of both `add` methods that follows a successful compile: if arguments were
captured, one layout is appended and the index is `m_arg_block_layouts.size() - 1`,
else the index is `~0`. The unit afterwards and the index are given. -/
def add_layout_if_captured (B : Codegen_backend) (u : Link_unit_jit) : Link_unit_jit × Nat :=
  match u.m_code_gen.get_captured_arguments_llvm_type with
  | some _ =>
    let u1 := { u with
      m_arg_block_layouts := u.m_arg_block_layouts ++ [B.create_value_layout u.m_code_gen] }
    (u1, u1.m_arg_block_layouts.length - 1)
  | none => (u, SIZE_T_NONE)

/-- The part of `add` for a lambda function between the entry checks and the test of
the compiled function: the resource attribute map is updated, the lambda is listed,
and the body is compiled as a generic lambda, or the roots as a switch lambda. Given
are the unit afterwards and the function, `none` for NULL. -/
def compile_lambda (B : Codegen_backend) (u : Link_unit_jit) (lambda : Lambda_function) :
    Link_unit_jit × Option Llvm_function :=
  let u1 := u.update_resource_attribute_map lambda
  let u2 := { u1 with m_lambdas := u1.m_lambdas ++ [lambda] }
  let r :=
    match lambda.get_body with
    | some _ => B.compile_generic_lambda u2.m_code_gen true lambda
    | none => B.compile_switch_lambda u2.m_code_gen true lambda
  ({ u2 with m_code_gen := r.1 }, r.2)

/-- The method `add` for a lambda function. `ilambda` is `none` if the pointer is NULL
or is no `Lambda_function`; `arg_block_index` is `none` for a NULL pointer and else
holds the value of the variable pointed to. Given are the return value, the unit
afterwards and the variable afterwards. -/
def add (B : Codegen_backend) (u : Link_unit_jit) (ilambda : Option Lambda_function)
    (kind : Function_kind) (arg_block_index : Option Nat) :
    Bool × Link_unit_jit × Option Nat :=
  match arg_block_index with
  | none => (false, u, none)
  | some old =>
    match ilambda with
    | none => (false, u, some old)
    | some lambda =>
      if lambda.get_body = none ∧ lambda.get_root_expr_count < 1 then (false, u, some old)
      else
        let c := compile_lambda B u lambda
        match c.2 with
        | some func =>
          let a := add_layout_if_captured B c.1
          (true,
            { a.1 with m_func_infos := a.1.m_func_infos ++
                [Link_unit_jit_function_info.mk func.name (some func) kind a.2] },
            some a.2)
        | none => (false, c.1, some old)

/-- The part of `add` for a distribution function up to the test of the compiled
module: the resource attribute map is updated with the main lambda, the distribution
function is listed and compiled. Given are the unit afterwards, the module (`none` for
NULL) and the vector `llvm_funcs`. -/
def compile_distribution_function (B : Codegen_backend) (u : Link_unit_jit)
    (dist_func : Distribution_function) :
    Link_unit_jit × Option Llvm_module × List Llvm_function :=
  let root_lambda := dist_func.m_main_df
  let u1 := u.update_resource_attribute_map root_lambda
  let u2 := { u1 with m_dist_funcs := u1.m_dist_funcs ++ [dist_func] }
  let r := B.compile_distribution_function u2.m_code_gen true dist_func
  ({ u2 with m_code_gen := r.1 }, r.2.1, r.2.2)

/-- The method `add` for a distribution function. `idist_func` is `none` if the pointer
is NULL or is no `Distribution_function`; `arg_block_index` holds the value of the
variable pointed to. Given are the return value, the unit afterwards and the variable
afterwards. `llvm_funcs[i]` is `none` if the vector is shorter. -/
def add_distribution_function (B : Codegen_backend) (u : Link_unit_jit)
    (idist_func : Option Distribution_function) (arg_block_index : Nat) :
    Bool × Link_unit_jit × Nat :=
  match idist_func with
  | none => (false, u, arg_block_index)
  | some dist_func =>
    let root_lambda := dist_func.m_main_df
    let c := compile_distribution_function B u dist_func
    let llvm_funcs := c.2.2
    match c.2.1 with
    | some _ =>
      let a := add_layout_if_captured B c.1
      (true,
        { a.1 with m_func_infos := a.1.m_func_infos ++
            [Link_unit_jit_function_info.mk (root_lambda.get_name ++ "_init")
                llvm_funcs[0]? Function_kind.FK_DF_INIT a.2,
              Link_unit_jit_function_info.mk (root_lambda.get_name ++ "_sample")
                llvm_funcs[1]? Function_kind.FK_DF_SAMPLE a.2,
              Link_unit_jit_function_info.mk (root_lambda.get_name ++ "_evaluate")
                llvm_funcs[2]? Function_kind.FK_DF_EVALUATE a.2,
              Link_unit_jit_function_info.mk (root_lambda.get_name ++ "_pdf")
                llvm_funcs[3]? Function_kind.FK_DF_PDF a.2] },
        a.2)
    | none => (false, c.1, arg_block_index)

/-- The method `get_function_count`. -/
def get_function_count (u : Link_unit_jit) : Nat := u.m_func_infos.length

/-- The method `get_function_name`, `none` for NULL. -/
def get_function_name (u : Link_unit_jit) (i : Nat) : Option String :=
  (u.m_func_infos[i]?).map (fun x => x.m_name)

/-- The method `get_function_kind`. -/
def get_function_kind (u : Link_unit_jit) (i : Nat) : Function_kind :=
  match u.m_func_infos[i]? with
  | some x => x.m_kind
  | none => Function_kind.FK_INVALID

/-- The method `get_function_arg_block_layout_index`. -/
def get_function_arg_block_layout_index (u : Link_unit_jit) (i : Nat) : Nat :=
  match u.m_func_infos[i]? with
  | some x => x.m_arg_block_index
  | none => SIZE_T_NONE

/-- The method `get_arg_block_layout_count`. -/
def get_arg_block_layout_count (u : Link_unit_jit) : Nat := u.m_arg_block_layouts.length

/-- The method `get_arg_block_layout`, `none` for NULL. -/
def get_arg_block_layout (u : Link_unit_jit) (i : Nat) : Option Generated_code_value_layout :=
  u.m_arg_block_layouts[i]?

end Link_unit_jit

/-- One call of `Link_unit_jit::add`: for a lambda function or for a distribution
function, with its arguments. -/
inductive Add_call where
  | lambda (ilambda : Option Lambda_function) (kind : Function_kind)
      (arg_block_index : Option Nat)
  | distribution_function (idist_func : Option Distribution_function) (arg_block_index : Nat)
  deriving DecidableEq, Repr

/-- The outcome of one call of `Link_unit_jit::add`: the unit before, the return value,
the variable `*arg_block_index` afterwards (`none` if there is none), the unit
afterwards. -/
structure Add_step where
  before : Link_unit_jit
  result : Bool
  arg_block_index : Option Nat
  after : Link_unit_jit

/-- One call of `Link_unit_jit::add` on a unit. -/
def Link_unit_jit.call (B : Codegen_backend) (u : Link_unit_jit) : Add_call → Add_step
  | .lambda ilambda kind arg_block_index =>
    let r := u.add B ilambda kind arg_block_index
    Add_step.mk u r.1 r.2.2 r.2.1
  | .distribution_function idist_func arg_block_index =>
    let r := u.add_distribution_function B idist_func arg_block_index
    Add_step.mk u r.1 (some r.2.2) r.2.1

/-- A sequence of calls of `Link_unit_jit::add` on a unit, one after the other: the
outcomes of the calls, in order. -/
def Link_unit_jit.run (B : Codegen_backend) (u : Link_unit_jit) : List Add_call → List Add_step
  | [] => []
  | c :: rest => u.call B c :: Link_unit_jit.run B (u.call B c).after rest

/-- The unit after a sequence of calls. -/
def Link_unit_jit.after_all (B : Codegen_backend) (u : Link_unit_jit) :
    List Add_call → Link_unit_jit
  | [] => u
  | c :: rest => Link_unit_jit.after_all B (u.call B c).after rest

/-- One entry of the function table of the target code: name, kind and the index of
the argument block layout, `~0` for none. -/
structure Target_code_function where
  m_name : String
  m_kind : Function_kind
  m_arg_block_index : Nat
  deriving DecidableEq, Repr

/-- Modelled from the spec: the helper `add_target_code_function` is not part of the
sources at hand. The spec has the function table of the artifact be an ordered list of
(name, kind, layout index or none); one entry is appended. -/
def add_target_code_function (table : List Target_code_function) (name : String)
    (kind : Function_kind) (arg_block_index : Nat) : List Target_code_function :=
  table ++ [Target_code_function.mk name kind arg_block_index]

/-- The registration of the functions in `Mdl_llvm_backend::translate_material_df`,
after a successful compile: the argument block index is 0 if the compiled material has
parameters and `~0` if not, and the four functions of the main lambda are added. -/
def translate_material_df_functions (main_df : Lambda_function) (parameter_count : Nat)
    (table : List Target_code_function) : List Target_code_function :=
  let arg_block_index : Nat := if parameter_count ≠ 0 then 0 else SIZE_T_NONE
  let t1 := add_target_code_function table (main_df.get_name ++ "_init")
    Function_kind.FK_DF_INIT arg_block_index
  let t2 := add_target_code_function t1 (main_df.get_name ++ "_sample")
    Function_kind.FK_DF_SAMPLE arg_block_index
  let t3 := add_target_code_function t2 (main_df.get_name ++ "_evaluate")
    Function_kind.FK_DF_EVALUATE arg_block_index
  add_target_code_function t3 (main_df.get_name ++ "_pdf")
    Function_kind.FK_DF_PDF arg_block_index

/-- The layout index that a call of `Link_unit_jit::add` issued: the index it reported
if the layout list grew during the call, nothing otherwise. -/
def Add_step.issued (s : Add_step) : Option Nat :=
  if s.before.m_arg_block_layouts.length < s.after.m_arg_block_layouts.length then
    s.arg_block_index
  else none

/-! ## The JIT code generator: code objects and single-function compiles -/

/-- What a code object is: a `Generated_code_lambda_function` (native code), or a
`Generated_code_source` of kind `CK_PTX` or `CK_LLVM_IR`. -/
inductive Code_kind where
  | lambda_function
  | CK_PTX
  | CK_LLVM_IR
  deriving DecidableEq, Repr

/-- Modelled from the spec: the classes `Generated_code_lambda_function` and
`Generated_code_source` are not part of the sources at hand. The spec has a compile
yield an artifact with a message list, source text, a read-only constant segment, a
string table (index to text), the render-state usage and the argument-block layouts;
the entry points and the module of native code are kept as well. Each setter of the
code stores what it is handed, each `add_` method appends. -/
structure Generated_code where
  m_kind : Code_kind
  m_messages : Messages
  m_src_code : String
  m_llvm_module : Option Llvm_module
  m_entry_points : List Nat
  m_ro_segment : List Nat
  m_render_state_usage : Nat
  m_captured_arguments_layouts : List Generated_code_value_layout
  m_mapped_strings : List (Nat × String)
  deriving DecidableEq, Repr

namespace Generated_code

/-- The constructor: an empty code object of the given kind. -/
def new (kind : Code_kind) : Generated_code :=
  { m_kind := kind, m_messages := [], m_src_code := "", m_llvm_module := none,
    m_entry_points := [], m_ro_segment := [], m_render_state_usage := 0,
    m_captured_arguments_layouts := [], m_mapped_strings := [] }

/-- The method `access_messages`. -/
def access_messages (c : Generated_code) : Messages := c.m_messages

/-- The method `set_llvm_module`. -/
def set_llvm_module (c : Generated_code) (module : Llvm_module) : Generated_code :=
  { c with m_llvm_module := some module }

/-- The method `add_entry_point`. -/
def add_entry_point (c : Generated_code) (entry_point : Nat) : Generated_code :=
  { c with m_entry_points := c.m_entry_points ++ [entry_point] }

/-- The method `set_render_state_usage`. -/
def set_render_state_usage (c : Generated_code) (usage : Nat) : Generated_code :=
  { c with m_render_state_usage := usage }

/-- The method `get_state_usage`. -/
def get_state_usage (c : Generated_code) : Nat := c.m_render_state_usage

/-- The method `set_ro_segment`. -/
def set_ro_segment (c : Generated_code) (data : List Nat) : Generated_code :=
  { c with m_ro_segment := data }

/-- The assignment to `access_src_code()`. -/
def set_src_code (c : Generated_code) (src : String) : Generated_code :=
  { c with m_src_code := src }

/-- The method `add_captured_arguments_layout`. -/
def add_captured_arguments_layout (c : Generated_code) (layout : Generated_code_value_layout) :
    Generated_code :=
  { c with m_captured_arguments_layouts := c.m_captured_arguments_layouts ++ [layout] }

/-- The method `add_mapped_string`. -/
def add_mapped_string (c : Generated_code) (s : String) (id : Nat) : Generated_code :=
  { c with m_mapped_strings := c.m_mapped_strings ++ [(id, s)] }

/-- The loop `for (i = 0; i < n; ++i) code->add_mapped_string(strings[i], i)`. -/
def add_mapped_strings (c : Generated_code) (strings : List String) : Generated_code :=
  strings.enum.foldl (fun c p => c.add_mapped_string p.2 p.1) c

/-- The loop over entry points `code->add_entry_point(...)`. -/
def add_entry_points (c : Generated_code) (entry_points : List Nat) : Generated_code :=
  entry_points.foldl add_entry_point c

/-- The loop over layouts `code->add_captured_arguments_layout(...)`. -/
def add_captured_arguments_layouts (c : Generated_code)
    (layouts : List Generated_code_value_layout) : Generated_code :=
  layouts.foldl add_captured_arguments_layout c

/-- The block `if (code_gen.get_captured_arguments_llvm_type() != NULL)`: a layout is
created from the code generator and added. -/
def add_layout_if_captured (c : Generated_code) (B : Codegen_backend)
    (code_gen : LLVM_code_generator) : Generated_code :=
  match code_gen.get_captured_arguments_llvm_type with
  | some _ => c.add_captured_arguments_layout (B.create_value_layout code_gen)
  | none => c

/-- The message list of a code object is the one its code generator reports to: when
the code object is returned it carries the messages of the code generator. -/
def with_messages_of (c : Generated_code) (code_gen : LLVM_code_generator) : Generated_code :=
  { c with m_messages := code_gen.m_messages }

end Generated_code

/-- The constructor of `LLVM_code_generator`: it reports to the given message list and
has captured no arguments yet. -/
def LLVM_code_generator.new (B : Codegen_backend) (messages : Messages) (p : Codegen_params) :
    LLVM_code_generator :=
  { m_messages := messages, m_captured_arguments_llvm_type := none, m_internal := B.construct p }

/-- The failure branch of the compile functions,
`else if (code->access_messages().get_error_message_count() == 0)
code_gen.error(INTERNAL_JIT_BACKEND_ERROR, text)`; the messages of the code are the
ones the code generator reports to. -/
def ensure_error_message (code_gen : LLVM_code_generator) (text : String) :
    LLVM_code_generator :=
  if code_gen.m_messages.get_error_message_count = 0 then
    code_gen.error INTERNAL_JIT_BACKEND_ERROR text
  else code_gen

/-- The method `Lambda_function::get_parameter_count`. -/
def Lambda_function.get_parameter_count (l : Lambda_function) : Nat := l.m_params.length

/-- The class `Code_generator_jit`: its options. The JIT engine and the compiler it
holds stay abstract. -/
structure Code_generator_jit where
  m_options : Options_impl
  deriving DecidableEq, Repr

namespace Code_generator_jit

/-- The method `get_state_mapping`. -/
def get_state_mapping (J : Code_generator_jit) : Nat :=
  let res := 0
  let res := if J.m_options.use_bitangent then res ||| SM_USE_BITANGENT else res
  let res := if J.m_options.include_uniform_state then res ||| SM_INCLUDE_UNIFORM_STATE else res
  res

/-- The call `m_options.set_option(MDL_JIT_OPTION_INCLUDE_UNIFORM_STATE, value)`. -/
def set_include_uniform_state (J : Code_generator_jit) (value : Bool) : Code_generator_jit :=
  { J with m_options := { J.m_options with include_uniform_state := value } }

/-- The code generator that `compile_into_environment` constructs. -/
def compile_into_environment_code_gen (B : Codegen_backend) (J : Code_generator_jit) :
    LLVM_code_generator :=
  LLVM_code_generator.new B []
    { ptx_mode := false, tm_mode := Type_mapping_mode.TM_NATIVE_X86, sm_version := 0,
      has_tex_handler := true, state_mode := State_subset_mode.SSM_ENVIRONMENT,
      num_texture_spaces := 0, num_texture_results := 0, options := J.m_options,
      incremental := false, state_mapping := J.get_state_mapping, res_manag := [],
      enable_debug := false }

/-- The method `compile_into_environment`. `ilambda` is `none` if the pointer is NULL or
is no `Lambda_function`; the result is `none` for NULL. -/
def compile_into_environment (B : Codegen_backend) (J : Code_generator_jit)
    (ilambda : Option Lambda_function) : Option Generated_code :=
  match ilambda with
  | none => none
  | some lambda =>
    if lambda.get_body = none ∨ lambda.get_root_expr_count ≠ 0 then none
    else
      let code := Generated_code.new Code_kind.lambda_function
      let r := B.compile_environment_lambda (compile_into_environment_code_gen B J) false lambda
      let code_gen := r.1
      match r.2 with
      | some func =>
        let module := B.get_parent func
        let code := code.set_llvm_module module
        let code := code.add_entry_point (B.get_entry_point code_gen func)
        let code := code.set_render_state_usage (B.get_render_state_usage code_gen)
        let code := code.add_mapped_strings (B.get_string_constants code_gen)
        some (code.with_messages_of code_gen)
      | none =>
        some (code.with_messages_of
          (ensure_error_message code_gen "Compiling environment function failed"))

/-- The code generator that `compile_into_const_function` constructs. -/
def compile_into_const_function_code_gen (B : Codegen_backend) (J : Code_generator_jit) :
    LLVM_code_generator :=
  LLVM_code_generator.new B []
    { ptx_mode := false, tm_mode := Type_mapping_mode.TM_NATIVE_X86, sm_version := 0,
      has_tex_handler := true, state_mode := State_subset_mode.SSM_NO_STATE,
      num_texture_spaces := 0, num_texture_results := 0, options := J.m_options,
      incremental := false, state_mapping := J.get_state_mapping, res_manag := [],
      enable_debug := false }

/-- The lambda as `compile_into_const_function` hands it to the code generator: the
resources of the body have been mapped by the `Const_function_enumerator`. -/
def compile_into_const_function_lambda (attr : ILambda_resource_attribute)
    (lambda : Lambda_function) (body : List Sighting) : Lambda_function :=
  { lambda with m_resource_attribute_map :=
      (compile_into_const_function_resources attr
        (ILambda_function.mk lambda.m_resource_attribute_map) body).mappings }

/-- The method `compile_into_const_function`. `may_use_varying_state` is the answer of
`lambda->may_use_varying_state(resolver, body)`, and `body` lists the resources that
`enumerate_resources` finds in the body. -/
def compile_into_const_function (B : Codegen_backend) (J : Code_generator_jit)
    (ilambda : Option Lambda_function) (may_use_varying_state : Bool)
    (attr : ILambda_resource_attribute) (body : List Sighting) : Option Generated_code :=
  match ilambda with
  | none => none
  | some lambda =>
    if lambda.get_body = none ∨ lambda.get_root_expr_count ≠ 0 then none
    else if may_use_varying_state then none
    else if lambda.get_parameter_count ≠ 0 then none
    else
      let lambda := compile_into_const_function_lambda attr lambda body
      let code := Generated_code.new Code_kind.lambda_function
      let r := B.compile_const_lambda (compile_into_const_function_code_gen B J) lambda
      let code_gen := r.1
      match r.2 with
      | some func =>
        let module := B.get_parent func
        let code := code.set_llvm_module module
        let code := code.add_entry_point (B.get_entry_point code_gen func)
        let code := code.set_render_state_usage (B.get_render_state_usage code_gen)
        let code := code.add_layout_if_captured B code_gen
        some (code.with_messages_of code_gen)
      | none =>
        some (code.with_messages_of
          (ensure_error_message code_gen "Compiling const function failed"))

/-- The code generator that `compile_into_switch_function` constructs, with the
read-only data segment enabled. `J` holds the options after `set_option`. -/
def compile_into_switch_function_code_gen (B : Codegen_backend) (J : Code_generator_jit)
    (lambda : Lambda_function) (num_texture_spaces num_texture_results : Nat) :
    LLVM_code_generator :=
  B.enable_ro_data_segment (LLVM_code_generator.new B []
    { ptx_mode := false, tm_mode := Type_mapping_mode.TM_NATIVE_X86, sm_version := 0,
      has_tex_handler :=
        decide (lambda.get_execution_context ≠ Lambda_execution_context.LEC_CORE),
      state_mode := State_subset_mode.SSM_CORE,
      num_texture_spaces := num_texture_spaces, num_texture_results := num_texture_results,
      options := J.m_options, incremental := false, state_mapping := J.get_state_mapping,
      res_manag := [lambda.m_resource_attribute_map], enable_debug := false })

/-- The method `compile_into_switch_function`. Given are the code generator afterwards
(its options are set) and the code, `none` for NULL. -/
def compile_into_switch_function (B : Codegen_backend) (J : Code_generator_jit)
    (ilambda : Option Lambda_function) (num_texture_spaces num_texture_results : Nat) :
    Code_generator_jit × Option Generated_code :=
  match ilambda with
  | none => (J, none)
  | some lambda =>
    if lambda.get_root_expr_count < 1 then (J, none)
    else
      let uses_ustate := lambda.is_uniform_state_set
      let J := J.set_include_uniform_state (if uses_ustate then false else true)
      let code := Generated_code.new Code_kind.lambda_function
      let r := B.compile_switch_lambda
        (compile_into_switch_function_code_gen B J lambda num_texture_spaces
          num_texture_results) false lambda
      let code_gen := r.1
      match r.2 with
      | some func =>
        let module := B.get_parent func
        let code := code.set_llvm_module module
        let code := code.set_ro_segment (B.get_ro_segment code_gen)
        let code := code.add_entry_point (B.get_entry_point code_gen func)
        let code := code.set_render_state_usage (B.get_render_state_usage code_gen)
        let code := code.add_layout_if_captured B code_gen
        let code := code.add_mapped_strings (B.get_string_constants code_gen)
        (J, some (code.with_messages_of code_gen))
      | none =>
        (J, some (code.with_messages_of
          (ensure_error_message code_gen "Compiling switch function failed")))

/-- The code generator that `compile_into_switch_function_for_gpu` constructs, with the
read-only data segment enabled. `J` holds the options after `set_option`. -/
def compile_into_switch_function_for_gpu_code_gen (B : Codegen_backend)
    (J : Code_generator_jit) (lambda : Lambda_function)
    (num_texture_spaces num_texture_results sm_version : Nat) : LLVM_code_generator :=
  B.enable_ro_data_segment (LLVM_code_generator.new B []
    { ptx_mode := true, tm_mode := Type_mapping_mode.TM_PTX, sm_version := sm_version,
      has_tex_handler := false, state_mode := State_subset_mode.SSM_CORE,
      num_texture_spaces := num_texture_spaces, num_texture_results := num_texture_results,
      options := J.m_options, incremental := false, state_mapping := J.get_state_mapping,
      res_manag := [lambda.m_resource_attribute_map], enable_debug := false })

/-- The method `compile_into_switch_function_for_gpu`. -/
def compile_into_switch_function_for_gpu (B : Codegen_backend) (J : Code_generator_jit)
    (ilambda : Option Lambda_function)
    (num_texture_spaces num_texture_results sm_version : Nat) :
    Code_generator_jit × Option Generated_code :=
  match ilambda with
  | none => (J, none)
  | some lambda =>
    if lambda.get_root_expr_count < 1 then (J, none)
    else
      let uses_ustate := lambda.is_uniform_state_set
      let J := J.set_include_uniform_state (if uses_ustate then false else true)
      let code := Generated_code.new Code_kind.CK_PTX
      let r := B.compile_switch_lambda
        (compile_into_switch_function_for_gpu_code_gen B J lambda num_texture_spaces
          num_texture_results sm_version) false lambda
      let code_gen := r.1
      match r.2 with
      | some func =>
        let module := B.get_parent func
        let code := code.set_src_code (B.ptx_compile code_gen module)
        let code := code.set_ro_segment (B.get_ro_segment code_gen)
        let code := code.set_render_state_usage (B.get_render_state_usage code_gen)
        let code := code.add_layout_if_captured B code_gen
        let code := code.add_mapped_strings (B.get_string_constants code_gen)
        (J, some (code.with_messages_of code_gen))
      | none =>
        (J, some (code.with_messages_of
          (ensure_error_message code_gen "Compiling GPU switch function failed")))

/-- The code generator that `compile_into_generic_function` constructs. `J` holds the
options after `set_option`. -/
def compile_into_generic_function_code_gen (B : Codegen_backend) (J : Code_generator_jit)
    (lambda : Lambda_function) (num_texture_spaces num_texture_results : Nat) :
    LLVM_code_generator :=
  LLVM_code_generator.new B []
    { ptx_mode := false, tm_mode := Type_mapping_mode.TM_NATIVE_X86, sm_version := 0,
      has_tex_handler := true, state_mode := State_subset_mode.SSM_CORE,
      num_texture_spaces := num_texture_spaces, num_texture_results := num_texture_results,
      options := J.m_options, incremental := false, state_mapping := J.get_state_mapping,
      res_manag := [lambda.m_resource_attribute_map], enable_debug := false }

/-- The method `compile_into_generic_function`. -/
def compile_into_generic_function (B : Codegen_backend) (J : Code_generator_jit)
    (ilambda : Option Lambda_function) (num_texture_spaces num_texture_results : Nat) :
    Code_generator_jit × Option Generated_code :=
  match ilambda with
  | none => (J, none)
  | some lambda =>
    if lambda.get_body = none ∨ lambda.get_root_expr_count ≠ 0 then (J, none)
    else
      let J := J.set_include_uniform_state (if lambda.is_uniform_state_set then false else true)
      let code := Generated_code.new Code_kind.lambda_function
      let r := B.compile_generic_lambda
        (compile_into_generic_function_code_gen B J lambda num_texture_spaces
          num_texture_results) false lambda
      let code_gen := r.1
      match r.2 with
      | some func =>
        let module := B.get_parent func
        let code := code.set_llvm_module module
        let code := code.add_entry_point (B.get_entry_point code_gen func)
        let code := code.set_render_state_usage (B.get_render_state_usage code_gen)
        let code := code.add_layout_if_captured B code_gen
        let code := code.add_mapped_strings (B.get_string_constants code_gen)
        (J, some (code.with_messages_of code_gen))
      | none =>
        (J, some (code.with_messages_of
          (ensure_error_message code_gen "Compiling generic function failed")))

end Code_generator_jit
namespace Code_generator_jit

/-- The code generator that `compile_into_llvm_ir` constructs, with name mangling and
the read-only data segment enabled. `J` holds the options after `set_option`. -/
def compile_into_llvm_ir_code_gen (B : Codegen_backend) (J : Code_generator_jit)
    (lambda : Lambda_function) (num_texture_spaces num_texture_results : Nat)
    (enable_simd : Bool) : LLVM_code_generator :=
  B.enable_ro_data_segment (B.enable_name_mangling (LLVM_code_generator.new B []
    { ptx_mode := false,
      tm_mode :=
        if enable_simd then Type_mapping_mode.TM_BIG_VECTORS
        else Type_mapping_mode.TM_ALL_SCALAR,
      sm_version := 0, has_tex_handler := true, state_mode := State_subset_mode.SSM_CORE,
      num_texture_spaces := num_texture_spaces, num_texture_results := num_texture_results,
      options := J.m_options, incremental := false, state_mapping := J.get_state_mapping,
      res_manag := [lambda.m_resource_attribute_map], enable_debug := false }))

/-- The compile step of `compile_into_llvm_ir` and of `compile_into_ptx`: the body is
compiled as a generic lambda, or the roots as a switch lambda. -/
def compile_body_or_roots (B : Codegen_backend) (code_gen : LLVM_code_generator)
    (lambda : Lambda_function) : LLVM_code_generator × Option Llvm_function :=
  match lambda.get_body with
  | some _ => B.compile_generic_lambda code_gen false lambda
  | none => B.compile_switch_lambda code_gen false lambda

/-- The method `compile_into_llvm_ir`. -/
def compile_into_llvm_ir (B : Codegen_backend) (J : Code_generator_jit)
    (ilambda : Option Lambda_function) (num_texture_spaces num_texture_results : Nat)
    (enable_simd : Bool) : Code_generator_jit × Option Generated_code :=
  match ilambda with
  | none => (J, none)
  | some lambda =>
    if lambda.get_body = none ∧ lambda.get_root_expr_count < 1 then (J, none)
    else
      let J := J.set_include_uniform_state (if lambda.is_uniform_state_set then false else true)
      let code := Generated_code.new Code_kind.CK_LLVM_IR
      let r := compile_body_or_roots B
        (compile_into_llvm_ir_code_gen B J lambda num_texture_spaces num_texture_results
          enable_simd) lambda
      let code_gen := r.1
      match r.2 with
      | some func =>
        let module := B.get_parent func
        let code :=
          if J.m_options.write_bitcode then code.set_src_code (B.llvm_bc_compile code_gen module)
          else code.set_src_code (B.llvm_ir_compile code_gen module)
        let code := code.set_ro_segment (B.get_ro_segment code_gen)
        let code := code.add_layout_if_captured B code_gen
        let code := code.add_mapped_strings (B.get_string_constants code_gen)
        (J, some (code.with_messages_of code_gen))
      | none =>
        (J, some (code.with_messages_of
          (ensure_error_message code_gen "Compiling lambda function into LLVM IR failed")))

/-- The code generator that `compile_distribution_function_cpu` constructs. `J` holds
the options after `set_option`. -/
def compile_distribution_function_cpu_code_gen (B : Codegen_backend)
    (J : Code_generator_jit) (dist_func : Distribution_function)
    (num_texture_spaces num_texture_results : Nat) : LLVM_code_generator :=
  LLVM_code_generator.new B []
    { ptx_mode := false, tm_mode := Type_mapping_mode.TM_NATIVE_X86, sm_version := 0,
      has_tex_handler := true, state_mode := State_subset_mode.SSM_CORE,
      num_texture_spaces := num_texture_spaces, num_texture_results := num_texture_results,
      options := J.m_options, incremental := false, state_mapping := J.get_state_mapping,
      res_manag := [dist_func.m_main_df.m_resource_attribute_map], enable_debug := false }

/-- The method `compile_distribution_function_cpu`. The code does not test the pointer
`idist_func`: a distribution function is handed in. -/
def compile_distribution_function_cpu (B : Codegen_backend) (J : Code_generator_jit)
    (dist_func : Distribution_function) (num_texture_spaces num_texture_results : Nat) :
    Code_generator_jit × Option Generated_code :=
  let J := J.set_include_uniform_state true
  let code := Generated_code.new Code_kind.lambda_function
  let r := B.compile_distribution_function
    (compile_distribution_function_cpu_code_gen B J dist_func num_texture_spaces
      num_texture_results) false dist_func
  let code_gen := r.1
  let llvm_funcs := r.2.2
  match r.2.1 with
  | some module =>
    let code := code.set_llvm_module module
    let code := code.add_entry_points (llvm_funcs.map (B.get_entry_point code_gen))
    let code := code.set_render_state_usage (B.get_render_state_usage code_gen)
    let code := code.add_layout_if_captured B code_gen
    (J, some (code.with_messages_of code_gen))
  | none =>
    (J, some (code.with_messages_of
      (ensure_error_message code_gen "Compiling CPU DF function failed")))

/-- The code generator that `compile_distribution_function_gpu` constructs, with name
mangling and the read-only data segment enabled. `J` holds the options after
`set_option`. -/
def compile_distribution_function_gpu_code_gen (B : Codegen_backend)
    (J : Code_generator_jit) (dist_func : Distribution_function)
    (num_texture_spaces num_texture_results sm_version : Nat) : LLVM_code_generator :=
  B.enable_ro_data_segment (B.enable_name_mangling (LLVM_code_generator.new B []
    { ptx_mode := true, tm_mode := Type_mapping_mode.TM_PTX, sm_version := sm_version,
      has_tex_handler := false, state_mode := State_subset_mode.SSM_CORE,
      num_texture_spaces := num_texture_spaces, num_texture_results := num_texture_results,
      options := J.m_options, incremental := false, state_mapping := J.get_state_mapping,
      res_manag := [dist_func.m_main_df.m_resource_attribute_map], enable_debug := false }))

/-- The source text that a source compile writes: PTX, or LLVM bitcode or LLVM IR by
the option `write_bitcode`. -/
def compile_source (B : Codegen_backend) (J : Code_generator_jit)
    (code_gen : LLVM_code_generator) (module : Llvm_module) (ptx_output : Bool) : String :=
  if ptx_output then B.ptx_compile code_gen module
  else if J.m_options.write_bitcode then B.llvm_bc_compile code_gen module
  else B.llvm_ir_compile code_gen module

/-- The method `compile_distribution_function_gpu`. -/
def compile_distribution_function_gpu (B : Codegen_backend) (J : Code_generator_jit)
    (dist_func : Distribution_function)
    (num_texture_spaces num_texture_results sm_version : Nat) (ptx_output : Bool) :
    Code_generator_jit × Option Generated_code :=
  let J := J.set_include_uniform_state true
  let code := Generated_code.new (if ptx_output then Code_kind.CK_PTX else Code_kind.CK_LLVM_IR)
  let r := B.compile_distribution_function
    (compile_distribution_function_gpu_code_gen B J dist_func num_texture_spaces
      num_texture_results sm_version) false dist_func
  let code_gen := r.1
  match r.2.1 with
  | some module =>
    let code := code.set_src_code (compile_source B J code_gen module ptx_output)
    let code := code.set_ro_segment (B.get_ro_segment code_gen)
    let code := code.set_render_state_usage (B.get_render_state_usage code_gen)
    let code := code.add_layout_if_captured B code_gen
    let code := code.add_mapped_strings (B.get_string_constants code_gen)
    (J, some (code.with_messages_of code_gen))
  | none =>
    (J, some (code.with_messages_of
      (ensure_error_message code_gen "Compiling GPU DF function failed")))

end Code_generator_jit

/-- The method `Link_unit_jit::get_code_object`: the code object of the unit, of the
kind `create_code_object` chose; its message list is the one the code generator of the
unit reports to. -/
def Link_unit_jit.get_code_object (u : Link_unit_jit) : Generated_code :=
  (Generated_code.new
    (match u.m_target_kind with
     | .TK_NATIVE => Code_kind.lambda_function
     | .TK_CUDA_PTX => Code_kind.CK_PTX
     | .TK_LLVM_IR => Code_kind.CK_LLVM_IR)).with_messages_of u.m_code_gen

/-- The method `Link_unit_jit::get_function`, for every index below the function
count. An entry without a function (a NULL pointer) gives none. -/
def Link_unit_jit.get_functions (u : Link_unit_jit) : List Llvm_function :=
  u.m_func_infos.filterMap (fun info => info.m_func)

/-- The method `Code_generator_jit::compile_unit`. Given are the unit afterwards (its
code generator has finalized the module) and the code object, `none` for NULL. -/
def Code_generator_jit.compile_unit (B : Codegen_backend) (J : Code_generator_jit)
    (unit : Link_unit_jit) : Link_unit_jit × Option Generated_code :=
  let num_funcs := unit.get_function_count
  if num_funcs = 0 then (unit, none)
  else
    let r := B.finalize_module unit.m_code_gen
    let unit := { unit with m_code_gen := r.1 }
    let code := unit.get_code_object
    match r.2 with
    | none =>
      let unit :=
        if unit.m_code_gen.get_error_message_count = 0 then
          { unit with m_code_gen :=
              unit.m_code_gen.error INTERNAL_JIT_BACKEND_ERROR "Compiling link unit failed" }
        else unit
      (unit, some (code.with_messages_of unit.m_code_gen))
    | some module =>
      if unit.m_target_kind = Target_kind.TK_NATIVE then
        let code :=
          match unit.m_func_infos.head?.bind (fun info => info.m_func) with
          | some func => code.set_llvm_module (B.get_parent func)
          | none => code
        let code := code.add_entry_points
          (unit.get_functions.map (B.get_entry_point unit.m_code_gen))
        let code := code.set_render_state_usage (B.get_render_state_usage unit.m_code_gen)
        let code := code.add_captured_arguments_layouts unit.m_arg_block_layouts
        let code := code.add_mapped_strings (B.get_string_constants unit.m_code_gen)
        (unit, some (code.with_messages_of unit.m_code_gen))
      else
        let code := code.set_src_code
          (Code_generator_jit.compile_source B J unit.m_code_gen module
            (decide (unit.m_target_kind = Target_kind.TK_CUDA_PTX)))
        let code := code.set_ro_segment (B.get_ro_segment unit.m_code_gen)
        let code := code.set_render_state_usage (B.get_render_state_usage unit.m_code_gen)
        let code := code.add_captured_arguments_layouts unit.m_arg_block_layouts
        let code := code.add_mapped_strings (B.get_string_constants unit.m_code_gen)
        (unit, some (code.with_messages_of unit.m_code_gen))
/-! ## The code cache and `compile_into_ptx` -/

/-- One value fed into the hasher of the cache key, by the kind of value that
`MD5_hasher::update` is handed: a string, a block of bytes, an unsigned number, a bool,
a state subset mode or an int. -/
inductive Hash_input where
  | chars (s : String)
  | data (d : List Nat)
  | unsigned (n : Nat)
  | bool (b : Bool)
  | state_mode (m : State_subset_mode)
  | int (i : Int)
  deriving DecidableEq, Repr

/-- The struct `ICode_cache::Entry` as the code at hand fills and reads it: the code,
the constant segment, the layout data of the captured arguments (empty, with size 0,
if there is none), the mapped strings and the render-state usage. Each size is the
length of its list. -/
structure ICode_cache.Entry where
  code : String
  const_seg : List Nat
  arg_layout : List Nat
  mapped_strings : List String
  render_state_usage : Nat
  deriving DecidableEq, Repr

/-- The size `arg_layout_size` of an entry. -/
def ICode_cache.Entry.arg_layout_size (e : ICode_cache.Entry) : Nat := e.arg_layout.length

/-- Modelled from the spec: the interface `ICode_cache` is not part of the sources at
hand. The spec has the code cache be a content-hash-keyed store that maps a key to a
previously produced compiled artifact: the entries are kept with their keys, the last
one entered first. -/
structure ICode_cache where
  m_entries : List (List Nat × ICode_cache.Entry)
  deriving DecidableEq, Repr

/-- Modelled from the spec: `ICode_cache::lookup` gives the entry entered last under
the key, `none` (NULL) if there is none. -/
def ICode_cache.lookup (c : ICode_cache) (key : List Nat) : Option ICode_cache.Entry :=
  (c.m_entries.find? (fun p => decide (p.1 = key))).map (fun p => p.2)

/-- Modelled from the spec: `ICode_cache::enter` stores the entry under the key. -/
def ICode_cache.enter (c : ICode_cache) (key : List Nat) (e : ICode_cache.Entry) :
    ICode_cache :=
  { m_entries := (key, e) :: c.m_entries }

namespace Code_generator_jit

/-- The state subset mode that `compile_into_ptx` derives from the execution context of
the lambda. -/
def ptx_state_mode (lambda : Lambda_function) : State_subset_mode :=
  if lambda.get_execution_context = Lambda_execution_context.LEC_ENVIRONMENT then
    State_subset_mode.SSM_ENVIRONMENT
  else State_subset_mode.SSM_CORE

/-- The values that `compile_into_ptx` feeds into the hasher of the cache key, in the
order of the `hasher.update` calls. -/
def cache_key_inputs (J : Code_generator_jit) (lambda : Lambda_function)
    (num_texture_spaces num_texture_results sm_version : Nat) (ptx_output : Bool) :
    List Hash_input :=
  [ Hash_input.chars "JIT",
    Hash_input.chars lambda.get_name,
    Hash_input.data lambda.m_hash,
    Hash_input.unsigned sm_version,
    Hash_input.bool ptx_output,
    Hash_input.state_mode (ptx_state_mode lambda),
    Hash_input.unsigned num_texture_spaces,
    Hash_input.unsigned num_texture_results,
    Hash_input.chars J.m_options.internal_space,
    Hash_input.int J.m_options.opt_level,
    Hash_input.bool J.m_options.fast_math,
    Hash_input.bool J.m_options.disable_exceptions,
    Hash_input.bool J.m_options.enable_ro_segment,
    Hash_input.bool J.m_options.link_libdevice,
    Hash_input.chars J.m_options.tex_lookup_call_mode,
    Hash_input.bool J.m_options.map_strings_to_ids ]

/-- The hit path of `compile_into_ptx`: the code object is filled from the entry. A
layout is added only if the layout data of the entry is not empty. -/
def compile_into_ptx_hit (J : Code_generator_jit) (code : Generated_code)
    (entry : ICode_cache.Entry) : Generated_code :=
  let code := code.set_src_code entry.code
  let code := code.set_ro_segment entry.const_seg
  let code :=
    if entry.arg_layout_size ≠ 0 then
      code.add_captured_arguments_layout
        (Generated_code_value_layout.mk entry.arg_layout J.m_options.map_strings_to_ids)
    else code
  let code := code.set_render_state_usage entry.render_state_usage
  let code := code.add_mapped_strings entry.mapped_strings
  code

/-- The code generator that `compile_into_ptx` constructs on the compile path, with
name mangling and the read-only data segment enabled. `J` holds the options after
`set_option`. -/
def compile_into_ptx_code_gen (B : Codegen_backend) (J : Code_generator_jit)
    (lambda : Lambda_function) (num_texture_spaces num_texture_results sm_version : Nat) :
    LLVM_code_generator :=
  B.enable_ro_data_segment (B.enable_name_mangling (LLVM_code_generator.new B []
    { ptx_mode := true, tm_mode := Type_mapping_mode.TM_PTX, sm_version := sm_version,
      has_tex_handler := false, state_mode := ptx_state_mode lambda,
      num_texture_spaces := num_texture_spaces, num_texture_results := num_texture_results,
      options := J.m_options, incremental := false, state_mapping := J.get_state_mapping,
      res_manag := [lambda.m_resource_attribute_map], enable_debug := false }))

/-- The compile path of `compile_into_ptx` up to the test of the function: the option
is set, the code generator is constructed and the lambda is compiled. Given are the
code generator `J` afterwards, the LLVM code generator afterwards and the function,
`none` for NULL. -/
def compile_into_ptx_compile (B : Codegen_backend) (J : Code_generator_jit)
    (lambda : Lambda_function) (num_texture_spaces num_texture_results sm_version : Nat) :
    Code_generator_jit × LLVM_code_generator × Option Llvm_function :=
  let J := J.set_include_uniform_state (if lambda.is_uniform_state_set then false else true)
  let r := compile_body_or_roots B
    (compile_into_ptx_code_gen B J lambda num_texture_spaces num_texture_results sm_version)
    lambda
  (J, r.1, r.2)

/-- The success branch of `compile_into_ptx`: the code object is filled from the code
generator. -/
def compile_into_ptx_fill (B : Codegen_backend) (J : Code_generator_jit)
    (code_gen : LLVM_code_generator) (func : Llvm_function) (ptx_output : Bool)
    (code : Generated_code) : Generated_code :=
  let module := B.get_parent func
  let code := code.set_src_code (compile_source B J code_gen module ptx_output)
  let code := code.set_ro_segment (B.get_ro_segment code_gen)
  let code := code.set_render_state_usage (B.get_render_state_usage code_gen)
  let code := code.add_layout_if_captured B code_gen
  let code := code.add_mapped_strings (B.get_string_constants code_gen)
  code

/-- The cache entry that the success branch of `compile_into_ptx` builds: the source
code of the code object, the read-only segment, the layout data of the layout just
created (empty if there is none), the string constants and `code->get_state_usage()`. -/
def compile_into_ptx_entry (B : Codegen_backend) (code_gen : LLVM_code_generator)
    (code : Generated_code) : ICode_cache.Entry :=
  { code := code.m_src_code,
    const_seg := B.get_ro_segment code_gen,
    arg_layout :=
      match code_gen.get_captured_arguments_llvm_type with
      | some _ => (B.create_value_layout code_gen).m_layout_data
      | none => [],
    mapped_strings := B.get_string_constants code_gen,
    render_state_usage := code.get_state_usage }

/-- The method `compile_into_ptx`. `md5` is the MD5 hasher, taken as given: the digest
of the sequence of values it was updated with. `code_cache` is `none` for a NULL
pointer. Given are the code generator afterwards, the cache afterwards and the code,
`none` for NULL. -/
def compile_into_ptx (md5 : List Hash_input → List Nat) (B : Codegen_backend)
    (J : Code_generator_jit) (code_cache : Option ICode_cache)
    (ilambda : Option Lambda_function)
    (num_texture_spaces num_texture_results sm_version : Nat) (ptx_output : Bool) :
    Code_generator_jit × Option ICode_cache × Option Generated_code :=
  match ilambda with
  | none => (J, code_cache, none)
  | some lambda =>
    if lambda.get_body = none ∧ lambda.get_root_expr_count < 1 then (J, code_cache, none)
    else
      let code :=
        Generated_code.new (if ptx_output then Code_kind.CK_PTX else Code_kind.CK_LLVM_IR)
      let cache_key := md5
        (cache_key_inputs J lambda num_texture_spaces num_texture_results sm_version ptx_output)
      match code_cache.bind (fun c => c.lookup cache_key) with
      | some entry => (J, code_cache, some (compile_into_ptx_hit J code entry))
      | none =>
        let c := compile_into_ptx_compile B J lambda num_texture_spaces num_texture_results
          sm_version
        let code_gen := c.2.1
        match c.2.2 with
        | some func =>
          let code := compile_into_ptx_fill B c.1 code_gen func ptx_output code
          (c.1,
            code_cache.map (fun cc => cc.enter cache_key (compile_into_ptx_entry B code_gen code)),
            some (code.with_messages_of code_gen))
        | none =>
          (c.1, code_cache, some (code.with_messages_of
            (ensure_error_message code_gen "Compiling lambda function into PTX failed")))

end Code_generator_jit

/-- What a compile function owes when its backend step fails, given the code generator
as the backend step left it and the text of the fallback message: a code object is
returned, it carries at least one error message, and its messages are those of the
code generator, followed by the fallback `INTERNAL_JIT_BACKEND_ERROR` message if and
only if the code generator had recorded no error. -/
def Failure_carries_diagnostic (code_gen : LLVM_code_generator) (text : String)
    (result : Option Generated_code) : Prop :=
  ∃ code, result = some code ∧
    1 ≤ code.access_messages.get_error_message_count ∧
    (code.access_messages =
        code_gen.m_messages ++ [Message.mk true INTERNAL_JIT_BACKEND_ERROR text] ↔
      code_gen.get_error_message_count = 0) ∧
    (code.access_messages = code_gen.m_messages ↔ code_gen.get_error_message_count ≠ 0)

/-! ## The lambda builder -/

/-- The types of `mi::mdl::IType` as far as the lambda builder tells them apart: an
alias of a type, the three distribution function types (`IType_df`, of kind `TK_BSDF`,
`TK_EDF` or `TK_VDF`), the resource types (`IType_resource`), the compound types
(`IType_compound`: vector, matrix, color, array, struct) with their element types, and
every other type. -/
inductive IType where
  | alias (aliased : IType)
  | bsdf
  | edf
  | vdf
  | resource (kind : Resource_kind)
  | compound (elements : List IType)
  | atomic (id : Nat)
  deriving Repr

/-- The kinds of `mi::mdl::IType::Kind` as far as the lambda builder tells them apart;
`TK_TEXTURE`, `TK_LIGHT_PROFILE` and `TK_BSDF_MEASUREMENT` are the kinds of the resource
types, the kinds of the compound types are taken together, and so are the kinds of all
other types. -/
inductive Type_kind where
  | TK_ALIAS
  | TK_BSDF
  | TK_EDF
  | TK_VDF
  | TK_TEXTURE
  | TK_LIGHT_PROFILE
  | TK_BSDF_MEASUREMENT
  | TK_COMPOUND
  | TK_OTHER
  deriving DecidableEq, Repr

namespace IType

/-- The method `get_kind`. -/
def get_kind : IType → Type_kind
  | .alias _ => Type_kind.TK_ALIAS
  | .bsdf => Type_kind.TK_BSDF
  | .edf => Type_kind.TK_EDF
  | .vdf => Type_kind.TK_VDF
  | .resource Resource_kind.texture => Type_kind.TK_TEXTURE
  | .resource Resource_kind.light_profile => Type_kind.TK_LIGHT_PROFILE
  | .resource Resource_kind.bsdf_measurement => Type_kind.TK_BSDF_MEASUREMENT
  | .compound _ => Type_kind.TK_COMPOUND
  | .atomic _ => Type_kind.TK_OTHER

/-- The method `skip_type_alias`. -/
def skip_type_alias : IType → IType
  | .alias t => skip_type_alias t
  | t => t

/-- The test `is<IType_df>`. -/
def is_df : IType → Bool
  | .bsdf => true
  | .edf => true
  | .vdf => true
  | _ => false

/-- The test `is<IType_resource>`. -/
def is_resource : IType → Bool
  | .resource _ => true
  | _ => false

end IType

/-- The function `Lambda_builder::contains_df_type`: aliases are skipped, a distribution
function type is found at once, and the element types of a compound type are searched
in order. The recursion through `skip_type_alias` is written on the alias itself. -/
def contains_df_type : IType → Bool
  | .alias t => contains_df_type t
  | .bsdf => true
  | .edf => true
  | .vdf => true
  | .resource _ => false
  | .compound elements => elements_contain_df_type elements
  | .atomic _ => false
where
  /-- The loop over the element types of a compound type. -/
  elements_contain_df_type : List IType → Bool
    | [] => false
    | e_tp :: rest => if contains_df_type e_tp then true else elements_contain_df_type rest

/-- The enum `MDL::IExpression::Kind`. -/
inductive Expression_kind where
  | EK_CONSTANT
  | EK_CALL
  | EK_PARAMETER
  | EK_DIRECT_CALL
  | EK_TEMPORARY
  deriving DecidableEq, Repr

/-- An expression of a compiled material (`MDL::IExpression`): its kind and its
identity. -/
structure IExpression where
  kind : Expression_kind
  id : Nat
  deriving DecidableEq, Repr

/-- The method `IExpression::get_kind`. -/
def IExpression.get_kind (e : IExpression) : Expression_kind := e.kind

/-- The class `MDL::Mdl_compiled_material`, which is not part of the sources at hand
and is taken as given: `lookup_sub_expression` gives the field of a path and its type
(`none` for an invalid interface), the parameters are given by their converted types and
their names, the resource arguments by the callbacks that
`enumerate_resource_arguments` makes for them, the arguments by their values, and the
body by its expression and the return type of its definition. -/
structure Mdl_compiled_material where
  lookup_sub_expression : String → Option (IExpression × IType)
  m_parameters : List (Nat × String)
  m_resource_arguments : List Sighting
  m_arguments : List IValue
  m_body : IExpression
  m_body_type : IType

/-- The method `get_parameter_count`. -/
def Mdl_compiled_material.get_parameter_count (m : Mdl_compiled_material) : Nat :=
  m.m_parameters.length

namespace Lambda_function

/-- Modelled from the spec: `Lambda_function::set_body` is not part of the sources at
hand; the body is the optional single root expression of the fragment. -/
def set_body (l : Lambda_function) (body : Option DAG_node) : Lambda_function :=
  { l with m_body := body }

/-- Modelled from the spec: `Lambda_function::set_name`. -/
def set_name (l : Lambda_function) (name : String) : Lambda_function :=
  { l with m_name := name }

/-- Modelled from the spec: `Lambda_function::add_parameter` appends a parameter (type
and name) to the parameter list and gives its index. -/
def add_parameter (l : Lambda_function) (tp : Nat) (name : String) : Lambda_function × Nat :=
  ({ l with m_params := l.m_params ++ [(tp, name)] }, l.m_params.length)

/-- Modelled from the spec: `Lambda_function::set_parameter_mapping` records that the
material parameter `i` is the parameter `idx` of the lambda. -/
def set_parameter_mapping (l : Lambda_function) (i idx : Nat) : Lambda_function :=
  { l with m_parameter_mapping := l.m_parameter_mapping ++ [(i, idx)] }

/-- Modelled from the spec: `Lambda_function::store_root_expr` appends the expression
to the list of root expressions and gives its position in the list. -/
def store_root_expr (l : Lambda_function) (expr : Option DAG_node) :
    Lambda_function × Nat :=
  ({ l with m_root_exprs := l.m_root_exprs ++ [expr] }, l.m_root_exprs.length)

/-- The loop `for (i = 0; i < n; ++i)` of the lambda builder that adds all material
parameters to the lambda function and maps the material parameter `i` to the new
parameter; `i` is the index of the first parameter of the list. -/
def add_material_parameters (l : Lambda_function) (i : Nat) :
    List (Nat × String) → Lambda_function
  | [] => l
  | (tp, name) :: rest =>
    let r := l.add_parameter tp name
    add_material_parameters (r.1.set_parameter_mapping i r.2) (i + 1) rest

end Lambda_function

/-- The enum `IDistribution_function::Error_code`. -/
inductive Distribution_function_error where
  | EC_NONE
  | EC_INVALID_PARAMETERS
  | EC_NOT_A_BSDF
  | EC_UNSUPPORTED_BSDF
  deriving DecidableEq, Repr

/-- What the lambda builder asks of classes that are not part of the sources at hand,
taken as given: the compiler creates an empty lambda function for an execution context
and an empty distribution function; the DAG builder turns an expression of a type into
a node (`none` for NULL); `init_distribution_function` is the method
`IDistribution_function::initialize`, which sets up a distribution function from the
material constructor and the body and gives an error code. -/
structure Dag_services where
  create_lambda_function : Lambda_execution_context → Lambda_function
  create_distribution_function : Distribution_function
  int_expr_to_mdl_dag_node : IType → IExpression → Option DAG_node
  init_distribution_function : Distribution_function → Option DAG_node → Option DAG_node → Bool →
    Distribution_function × Distribution_function_error

/-- The class `Lambda_builder`: the error code of the last operation and whether
constants are compiled. -/
structure Lambda_builder where
  m_error : Int
  m_compile_consts : Bool
  deriving DecidableEq, Repr

namespace Lambda_builder

/-- The constructor: the error code starts at 0. -/
def new (compile_consts : Bool) : Lambda_builder :=
  { m_error := 0, m_compile_consts := compile_consts }

/-- The method `get_error_code`. -/
def get_error_code (b : Lambda_builder) : Int := b.m_error

/-- The execution context that `from_sub_expr` and `add_sub_expr` derive from the
path: only `geometry.displacement` is the displacement function. -/
def path_context (path : String) : Lambda_execution_context :=
  if path = "geometry.displacement" then Lambda_execution_context.LEC_DISPLACEMENT
  else Lambda_execution_context.LEC_CORE

/-- The method `from_sub_expr`. `fname` is `none` for NULL. Given are the builder
afterwards and the lambda function, `none` for NULL. -/
def from_sub_expr (S : Dag_services) (b : Lambda_builder)
    (compiled_material : Mdl_compiled_material) (path : String) (fname : Option String) :
    Lambda_builder × Option Lambda_function :=
  let lec := path_context path
  match compiled_material.lookup_sub_expression path with
  | none => ({ b with m_error := -2 }, none)
  | some (field, field_type) =>
    if !b.m_compile_consts ∧ field.get_kind = Expression_kind.EK_CONSTANT then
      ({ b with m_error := -4 }, none)
    else
      let field_type := field_type.skip_type_alias
      if contains_df_type field_type ∨ field_type.is_resource then
        ({ b with m_error := -5 }, none)
      else
        let lambda := S.create_lambda_function lec
        let lambda := lambda.add_material_parameters 0 compiled_material.m_parameters
        let body := S.int_expr_to_mdl_dag_node field_type field
        let lambda := lambda.set_body body
        let lambda :=
          match fname with
          | some name => lambda.set_name name
          | none => lambda
        ({ b with m_error := 0 }, some lambda)

/-- The method `from_material_df`. Given are the builder afterwards and the
distribution function, `none` for NULL. -/
def from_material_df (S : Dag_services) (b : Lambda_builder)
    (compiled_material : Mdl_compiled_material) (path : String) (fname : Option String)
    (include_geometry_normal : Bool) : Lambda_builder × Option Distribution_function :=
  match compiled_material.lookup_sub_expression path with
  | none => ({ b with m_error := -2 }, none)
  | some (field, field_type) =>
    if !b.m_compile_consts ∧ field.get_kind = Expression_kind.EK_CONSTANT then
      ({ b with m_error := -4 }, none)
    else
      let field_type := field_type.skip_type_alias
      if !field_type.is_df then ({ b with m_error := -5 }, none)
      else
        if field_type.get_kind ≠ Type_kind.TK_BSDF then
          if field_type.get_kind = Type_kind.TK_EDF then ({ b with m_error := -8 }, none)
          else ({ b with m_error := -9 }, none)
        else
          let dist_func := S.create_distribution_function
          let main_df := dist_func.m_main_df
          let main_df :=
            match fname with
            | some name => main_df.set_name name
            | none => main_df
          let main_df := main_df.add_material_parameters 0 compiled_material.m_parameters
          let body := S.int_expr_to_mdl_dag_node field_type field
          let material_constructor :=
            S.int_expr_to_mdl_dag_node compiled_material.m_body_type compiled_material.m_body
          let r := S.init_distribution_function { dist_func with m_main_df := main_df }
            material_constructor body include_geometry_normal
          match r.2 with
          | .EC_NONE => ({ b with m_error := 0 }, some r.1)
          | .EC_UNSUPPORTED_BSDF => ({ b with m_error := -10 }, none)
          | .EC_NOT_A_BSDF => ({ b with m_error := -10 }, none)
          | .EC_INVALID_PARAMETERS => ({ b with m_error := -10 }, none)

/-- The method `add_sub_expr`. Given are the builder afterwards, the lambda function
afterwards and the index returned. -/
def add_sub_expr (S : Dag_services) (b : Lambda_builder) (lambda : Lambda_function)
    (compiled_material : Mdl_compiled_material) (path : String) :
    Lambda_builder × Lambda_function × Nat :=
  let lec := path_context path
  if lec ≠ lambda.get_execution_context then ({ b with m_error := -7 }, lambda, 0)
  else
    match compiled_material.lookup_sub_expression path with
    | none => ({ b with m_error := -2 }, lambda, 0)
    | some (field, field_type) =>
      if !b.m_compile_consts ∧ field.get_kind = Expression_kind.EK_CONSTANT then
        ({ b with m_error := -4 }, lambda, 0)
      else
        let field_type := field_type.skip_type_alias
        if contains_df_type field_type ∨ field_type.is_resource then
          ({ b with m_error := -5 }, lambda, 0)
        else
          let expr := S.int_expr_to_mdl_dag_node field_type field
          let lambda :=
            match lambda.get_body with
            | some body => (lambda.store_root_expr (some body)).1.set_body none
            | none => lambda
          let r := lambda.store_root_expr expr
          ({ b with m_error := 0 }, r.1, r.2)

end Lambda_builder

/-! ## The backend: `Link_unit::add_material_df` and `translate_material_df` -/

/-- What the backend asks of the class `Lambda_function`, which is not part of the
sources at hand, taken as given: the callbacks that `enumerate_resources` makes for a
node of a lambda function (`none` for NULL), in order, and `optimize`. -/
structure Lambda_services where
  enumerate_resources : Lambda_function → Option DAG_node → List Sighting
  optimize : Lambda_function → Lambda_function

/-- A lambda function as the resource enumerator sees it: by the resource mappings it
has received. -/
def Lambda_function.as_ILambda_function (l : Lambda_function) : ILambda_function :=
  ILambda_function.mk l.m_resource_attribute_map

/-- The lambda function after the resource enumerator has mapped resources on it. -/
def Lambda_function.with_mappings (l : Lambda_function) (i : ILambda_function) :
    Lambda_function :=
  { l with m_resource_attribute_map := i.mappings }

/-- The resource enumeration that `Link_unit::add_material_df` and
`Mdl_llvm_backend::translate_material_df` run with their enumerator: the body of the
main lambda, the resource arguments if the compiled material has parameters, then each
expression lambda as additional lambda. Given are the enumerator afterwards and the
distribution function with the mappings received and the expression lambdas
optimized. -/
def enumerate_distribution_function (L : Lambda_services) (t : Transaction)
    (enumerator : Function_enumerator) (compiled_material : Mdl_compiled_material)
    (dist_func : Distribution_function) : Function_enumerator × Distribution_function :=
  let main_df := dist_func.m_main_df
  let e := enumerate_resources t enumerator (L.enumerate_resources main_df main_df.get_body)
  let e :=
    if compiled_material.get_parameter_count ≠ 0 then
      enumerate_resources t e compiled_material.m_resource_arguments
    else e
  let r := enumerate_expr_lambdas t e
    (dist_func.m_expr_lambdas.map
      (fun l => (l.as_ILambda_function, L.enumerate_resources l l.get_body)))
  let expr_lambdas := List.zipWith Lambda_function.with_mappings dist_func.m_expr_lambdas r.2
  (r.1,
    { m_main_df := main_df.with_mappings r.1.m_lambda,
      m_expr_lambdas := expr_lambdas.map L.optimize })

/-- The class `Link_unit` of the backends as a whole: the resource registry state, the
JIT link unit `m_unit`, the argument block layouts added to the target code (each a
`Target_value_layout` around a layout of the unit, `none` for NULL, with the string
mapping flag), the stored arguments of the compiled materials, and the flags
`m_compile_consts` and `m_strings_mapped_to_ids`. -/
structure Backend_link_unit where
  m_registry : Link_unit
  m_unit : Link_unit_jit
  m_target_code_layouts : List (Option Generated_code_value_layout × Bool)
  m_arg_block_comp_material_args : List (List IValue)
  m_compile_consts : Bool
  m_strings_mapped_to_ids : Bool

namespace Backend_link_unit

/-- The part of the `add_*` methods that follows a successful add to the JIT unit: if a
layout was created, it is added to the target code and the arguments of the compiled
material are remembered. -/
def add_layout (u : Backend_link_unit) (compiled_material : Mdl_compiled_material)
    (arg_block_index : Nat) : Backend_link_unit :=
  if arg_block_index ≠ SIZE_T_NONE then
    { u with
      m_target_code_layouts := u.m_target_code_layouts ++
        [(u.m_unit.get_arg_block_layout arg_block_index, u.m_strings_mapped_to_ids)]
      m_arg_block_comp_material_args := u.m_arg_block_comp_material_args ++
        [compiled_material.m_arguments] }
  else u

/-- The method `Link_unit::add_material_df`. `transaction` is the member
`m_transaction`; it, `compiled_material`, `path` and `base_fname` are `none` for NULL.
Given are the return value and the unit afterwards. -/
def add_material_df (S : Dag_services) (L : Lambda_services) (B : Codegen_backend)
    (transaction : Option Transaction) (u : Backend_link_unit)
    (compiled_material : Option Mdl_compiled_material) (path : Option String)
    (base_fname : Option String) (include_geometry_normal : Bool) :
    Int × Backend_link_unit :=
  match transaction, compiled_material, path with
  | some t, some compiled_material, some path =>
    let lambda_builder := Lambda_builder.new u.m_compile_consts
    let r := lambda_builder.from_material_df S compiled_material path base_fname
      include_geometry_normal
    match r.2 with
    | none => (r.1.get_error_code, u)
    | some dist_func =>
      let e := enumerate_distribution_function L t
        (u.m_registry.enumerator dist_func.m_main_df.as_ILambda_function) compiled_material
        dist_func
      let u := { u with m_registry := u.m_registry.store e.1 }
      let a := u.m_unit.add_distribution_function B (some e.2) SIZE_T_NONE
      let u := { u with m_unit := a.2.1 }
      if !a.1 then (-3, u)
      else (0, u.add_layout compiled_material a.2.2)
  | _, _, _ => (-1, u)

end Backend_link_unit

/-- The backend kinds of `mi::neuraylib::IMdl_compiler::Mdl_backend_kind`. -/
inductive Mdl_backend_kind where
  | MB_CUDA_PTX
  | MB_LLVM_IR
  | MB_NATIVE
  | MB_GLSL
  | MB_FORCE_32_BIT
  deriving DecidableEq, Repr

/-- The class `Mdl_llvm_backend`; the code cache is `none` for NULL. The compiler it
holds stays abstract. -/
structure Mdl_llvm_backend where
  m_kind : Mdl_backend_kind
  m_sm_version : Nat
  m_num_texture_spaces : Nat
  m_num_texture_results : Nat
  m_jit : Code_generator_jit
  m_code_cache : Option ICode_cache
  m_compile_consts : Bool
  m_enable_simd : Bool
  m_output_ptx : Bool
  m_strings_mapped_to_ids : Bool
  deriving DecidableEq, Repr

/-- Modelled from the spec: `IGenerated_code_executable::is_valid` is not part of the
sources at hand. The spec has a failed compile carry at least one diagnostic message:
a code object is valid if it carries no error message. -/
def Generated_code.is_valid (c : Generated_code) : Bool :=
  decide (c.m_messages.get_error_message_count = 0)

/-- The target code that `translate_material_df` returns, as far as it is filled there:
the code object it was created from, the resource tables, the arguments of the
argument block 0 (`none` if there is none), the function table, the read-only segment
`RO` (`none` if there is no data) and the string constant table. -/
structure Translated_target_code where
  m_code : Generated_code
  m_resource_tables : Target_code
  m_argument_block : Option (List IValue)
  m_functions : List Target_code_function
  m_ro_segment : Option (List Nat)
  m_string_constants : List (Nat × String)

/-- The method `Mdl_llvm_backend::translate_material_df`. Given are the backend
afterwards (the options of its code generator are set by a compile), the value stored
to `*errors` and the target code, `none` for NULL. -/
def Mdl_llvm_backend.translate_material_df (S : Dag_services) (L : Lambda_services)
    (B : Codegen_backend) (be : Mdl_llvm_backend) (transaction : Transaction)
    (compiled_material : Mdl_compiled_material) (path : String) (base_fname : Option String)
    (include_geometry_normal : Bool) : Mdl_llvm_backend × Int × Option Translated_target_code :=
  let lambda_builder := Lambda_builder.new be.m_compile_consts
  let r := lambda_builder.from_material_df S compiled_material path base_fname
    include_geometry_normal
  match r.2 with
  | none => (be, r.1.get_error_code, none)
  | some dist_func =>
    let tc_reg := Target_code_register.new
    let e := enumerate_distribution_function L transaction
      (Function_enumerator.new tc_reg dist_func.m_main_df.as_ILambda_function)
      compiled_material dist_func
    let dist_func := e.2
    let main_df := dist_func.m_main_df
    let c : Code_generator_jit × Option Generated_code :=
      match be.m_kind with
      | .MB_CUDA_PTX =>
        be.m_jit.compile_distribution_function_gpu B dist_func be.m_num_texture_spaces
          be.m_num_texture_results be.m_sm_version be.m_output_ptx
      | .MB_NATIVE =>
        be.m_jit.compile_distribution_function_cpu B dist_func be.m_num_texture_spaces
          be.m_num_texture_results
      | _ => (be.m_jit, none)
    let be := { be with m_jit := c.1 }
    match c.2 with
    | none => (be, -3, none)
    | some code =>
      if !code.is_valid then (be, -3, none)
      else
        let tables := fill_resource_tables e.1.m_register Target_code.new
        let argument_block :=
          if compiled_material.get_parameter_count ≠ 0 then some compiled_material.m_arguments
          else none
        let functions :=
          translate_material_df_functions main_df compiled_material.get_parameter_count []
        (be, 0, some
          { m_code := code, m_resource_tables := tables, m_argument_block := argument_block,
            m_functions := functions,
            m_ro_segment := if code.m_ro_segment = [] then none else some code.m_ro_segment,
            m_string_constants := code.m_mapped_strings })
/-- A type contains a distribution function type at some nesting depth: it is one, or it
is an alias of a type that contains one, or it is a compound type one of whose element
types contains one. -/
inductive Contains_df : IType → Prop where
  | of_df (t : IType) (h : t.is_df = true) : Contains_df t
  | of_alias (t : IType) (h : Contains_df t) : Contains_df (IType.alias t)
  | of_compound (elements : List IType) (e : IType) (hmem : e ∈ elements) (h : Contains_df e) :
      Contains_df (IType.compound elements)

/-! ## The backend: options -/

/-- The table `known_sms` of the supported SM versions. -/
def known_sms : List (String × Nat) :=
  [("20", 20), ("30", 30), ("35", 35), ("37", 37), ("50", 50), ("52", 52), ("60", 60),
    ("61", 61), ("62", 62), ("70", 70)]

namespace Mdl_llvm_backend

/-- The call `m_jit->access_options().set_option(...)`, by what it does to the
options; the strings `true` and `false` are the values of a bool option. -/
def set_jit_option (be : Mdl_llvm_backend) (f : Options_impl → Options_impl) :
    Mdl_llvm_backend :=
  { be with m_jit := { be.m_jit with m_options := f be.m_jit.m_options } }

/-- The number that a string of decimal digits spells, after the digits read so far. -/
def decimal_value : List Char → Nat → Nat
  | [], acc => acc
  | c :: cs, acc => decimal_value cs (acc * 10 + (c.toNat - 48))

/-- Modelled from the spec: the class `Options_impl` is not part of the sources at hand.
The value that `get_int_option` reads from the string stored for an option: the
decimal number it spells. -/
def int_option (value : String) : Int := decimal_value value.toList 0

/-- The loop over `known_sms` of the option `sm_version`: the code of the first entry
with the name, if any. -/
def find_sm_version : List (String × Nat) → String → Option Nat
  | [], _ => none
  | (name, code) :: rest, value => if value = name then some code else find_sm_version rest value

/-- The method `Mdl_llvm_backend::set_option`. `name` and `value` are `none` for NULL, and
`sscanf_unsigned` is the call `sscanf(value, "%u", &v)` of the C library, taken as
given: the number read, `none` if the call does not return 1. Given are the return
value and the backend afterwards. -/
def set_backend_option (sscanf_unsigned : String → Option Nat) (be : Mdl_llvm_backend)
    (name value : Option String) : Int × Mdl_llvm_backend :=
  match name, value with
  | none, _ => (-1, be)
  | some _, none => (-2, be)
  | some name, some value =>
    if name = "compile_constants" then
      if value = "off" then (0, { be with m_compile_consts := false })
      else if value = "on" then (0, { be with m_compile_consts := true })
      else (-2, be)
    else if name = "fast_math" then
      if value = "off" then
        (0, be.set_jit_option (fun o => { o with fast_math := false }))
      else if value = "on" then
        (0, be.set_jit_option (fun o => { o with fast_math := true }))
      else (-2, be)
    else if name = "opt_level" then
      if value = "0" ∨ value = "1" ∨ value = "2" then
        (0, be.set_jit_option (fun o => { o with opt_level := int_option value }))
      else (-2, be)
    else if name = "num_texture_spaces" then
      match sscanf_unsigned value with
      | none => (-2, be)
      | some v => (0, { be with m_num_texture_spaces := v })
    else if name = "internal_space" then
      if value = "world" then
        (0, be.set_jit_option (fun o => { o with internal_space := "coordinate_world" }))
      else if value = "object" then
        (0, be.set_jit_option (fun o => { o with internal_space := "coordinate_object" }))
      else (-2, be)
    else if name = "enable_exceptions" then
      if value = "off" then
        (0, be.set_jit_option (fun o => { o with disable_exceptions := true }))
      else if value = "on" then
        (0, be.set_jit_option (fun o => { o with disable_exceptions := false }))
      else (-2, be)
    else if name = "enable_ro_segment" then
      if value = "off" then
        (0, be.set_jit_option (fun o => { o with enable_ro_segment := false }))
      else if value = "on" then
        (0, be.set_jit_option (fun o => { o with enable_ro_segment := true }))
      else (-2, be)
    else if name = "num_texture_results" then
      match sscanf_unsigned value with
      | none => (-2, be)
      | some v => (0, { be with m_num_texture_results := v })
    else
      match be.m_kind with
      | .MB_CUDA_PTX =>
        if name = "sm_version" then
          match find_sm_version known_sms value with
          | some code => (0, { be with m_sm_version := code })
          | none => (-2, be)
        else if name = "link_libdevice" then
          if value = "off" then
            (0, be.set_jit_option (fun o => { o with link_libdevice := false }))
          else if value = "on" then
            (0, be.set_jit_option (fun o => { o with link_libdevice := true }))
          else (-2, be)
        else if name = "output_format" then
          if value = "PTX" then
            (0, ({ be with m_output_ptx := true }).set_jit_option
              (fun o => { o with write_bitcode := false }))
          else if value = "LLVM-IR" then
            (0, ({ be with m_output_ptx := false }).set_jit_option
              (fun o => { o with write_bitcode := false }))
          else if value = "LLVM-BC" then
            (0, ({ be with m_output_ptx := false }).set_jit_option
              (fun o => { o with write_bitcode := true }))
          else (-2, be)
        else if name = "tex_lookup_call_mode" then
          if value = "vtable" ∨ value = "direct_call" ∨ value = "optix_cp" then
            (0, be.set_jit_option (fun o => { o with tex_lookup_call_mode := value }))
          else (-2, be)
        else (-1, be)
      | .MB_LLVM_IR =>
        if name = "enable_simd" then
          if value = "off" then (0, { be with m_enable_simd := false })
          else if value = "on" then (0, { be with m_enable_simd := true })
          else (-2, be)
        else if name = "write_bitcode" then
          if value = "off" then
            (0, be.set_jit_option (fun o => { o with write_bitcode := false }))
          else if value = "on" then
            (0, be.set_jit_option (fun o => { o with write_bitcode := true }))
          else (-2, be)
        else (-1, be)
      | .MB_GLSL => (-1, be)
      | .MB_NATIVE => (-1, be)
      | .MB_FORCE_32_BIT => (-1, be)

/-- The constructor `Mdl_llvm_backend::Mdl_llvm_backend`: the fields and the options of
the JIT code generator it sets. `jit` holds the options of the code generator handed
in. -/
def new (kind : Mdl_backend_kind) (jit : Code_generator_jit) (code_cache : Option ICode_cache)
    (string_ids : Bool) : Mdl_llvm_backend :=
  { m_kind := kind, m_sm_version := 20, m_num_texture_spaces := 32, m_num_texture_results := 0,
    m_jit :=
      { jit with m_options :=
          { jit.m_options with
            fast_math := true
            opt_level := 2
            internal_space := "coordinate_world"
            disable_exceptions := false
            enable_ro_segment := false
            write_bitcode := false
            link_libdevice := true
            use_bitangent := false
            include_uniform_state := false
            tex_lookup_call_mode := "vtable"
            map_strings_to_ids := string_ids } },
    m_code_cache := code_cache, m_compile_consts := true,
    m_enable_simd := decide (kind ≠ Mdl_backend_kind.MB_CUDA_PTX), m_output_ptx := true,
    m_strings_mapped_to_ids := string_ids }

end Mdl_llvm_backend

/-! ## The backend: `translate_material_expressions` -/

/-- The method `Lambda_function::get_root_expr`: the root expression of an index, NULL
if there is none. -/
def Lambda_function.get_root_expr (l : Lambda_function) (i : Nat) : Option DAG_node :=
  (l.m_root_exprs.get? i).getD none

/-- The explicit transform of a lambda function with a body into a switch lambda: the
body is stored as a root expression and cleared. -/
def Lambda_function.body_to_root (l : Lambda_function) : Lambda_function :=
  match l.get_body with
  | some body => (l.store_root_expr (some body)).1.set_body none
  | none => l

/-- The loop `for (i = 1; i < path_cnt; ++i)` of `translate_material_expressions`: each
further path is added with `add_sub_expr`, and a returned index 0 ends the loop with
NULL. Given are the builder afterwards and the lambda function, `none` for the NULL
return. -/
def add_sub_exprs (S : Dag_services) (b : Lambda_builder) (lambda : Lambda_function)
    (compiled_material : Mdl_compiled_material) :
    List String → Lambda_builder × Option Lambda_function
  | [] => (b, some lambda)
  | path :: rest =>
    let r := b.add_sub_expr S lambda compiled_material path
    if r.2.2 = 0 then (r.1, none)
    else add_sub_exprs S r.1 r.2.1 compiled_material rest

/-- The part of `translate_material_expressions` that builds the switch lambda: the
first path gives the lambda, its body is transformed into a root expression, and all
other paths are added. -/
def translate_material_expressions_lambda (S : Dag_services) (b : Lambda_builder)
    (compiled_material : Mdl_compiled_material) (first : String) (others : List String)
    (fname : Option String) : Lambda_builder × Option Lambda_function :=
  let r := b.from_sub_expr S compiled_material first fname
  match r.2 with
  | none => (r.1, none)
  | some lambda => add_sub_exprs S r.1 lambda.body_to_root compiled_material others

/-- The method `Mdl_llvm_backend::translate_material_expressions`. `paths` holds
`path_cnt` paths. Given are the backend afterwards (a compile sets options of its code
generator and may enter the code cache), the value stored to `*errors` and the target
code, `none` for NULL. -/
def Mdl_llvm_backend.translate_material_expressions (md5 : List Hash_input → List Nat)
    (S : Dag_services) (L : Lambda_services) (B : Codegen_backend) (be : Mdl_llvm_backend)
    (transaction : Option Transaction) (compiled_material : Option Mdl_compiled_material)
    (paths : Option (List String)) (fname : Option String) :
    Mdl_llvm_backend × Int × Option Translated_target_code :=
  match transaction, compiled_material, paths with
  | some transaction, some compiled_material, some (first :: others) =>
    if compiled_material.get_parameter_count > 0 then (be, -6, none)
    else
      let builder := Lambda_builder.new be.m_compile_consts
      let r := translate_material_expressions_lambda S builder compiled_material first others
        fname
      match r.2 with
      | none => (be, r.1.get_error_code, none)
      | some lambda =>
        let path_cnt := (first :: others).length
        let tc_reg := Target_code_register.new
        let enumerator := Function_enumerator.new tc_reg lambda.as_ILambda_function
        let e := (List.range path_cnt).foldl
          (fun e i => enumerate_resources transaction e
            (L.enumerate_resources lambda (lambda.get_root_expr i))) enumerator
        let e :=
          if compiled_material.get_parameter_count ≠ 0 then
            enumerate_resources transaction e compiled_material.m_resource_arguments
          else e
        let lambda := lambda.with_mappings e.m_lambda
        let c : Mdl_llvm_backend × Option Generated_code :=
          match be.m_kind with
          | .MB_LLVM_IR =>
            let c := be.m_jit.compile_into_llvm_ir B (some lambda) be.m_num_texture_spaces
              be.m_num_texture_results be.m_enable_simd
            ({ be with m_jit := c.1 }, c.2)
          | .MB_CUDA_PTX =>
            let c := be.m_jit.compile_into_ptx md5 B be.m_code_cache (some lambda)
              be.m_num_texture_spaces be.m_num_texture_results be.m_sm_version be.m_output_ptx
            ({ be with m_jit := c.1, m_code_cache := c.2.1 }, c.2.2)
          | .MB_NATIVE =>
            let c := be.m_jit.compile_into_generic_function B (some lambda)
              be.m_num_texture_spaces be.m_num_texture_results
            ({ be with m_jit := c.1 }, c.2)
          | _ => (be, none)
        let be := c.1
        match c.2 with
        | none => (be, -3, none)
        | some code =>
          if !code.is_valid then (be, -3, none)
          else
            let tables := fill_resource_tables e.m_register Target_code.new
            let argument_block :=
              if compiled_material.get_parameter_count ≠ 0 then
                some compiled_material.m_arguments
              else none
            let arg_block_index : Nat :=
              if compiled_material.get_parameter_count ≠ 0 then 0 else SIZE_T_NONE
            let functions := add_target_code_function [] lambda.get_name
              Function_kind.FK_SWITCH_LAMBDA arg_block_index
            (be, 0, some
              { m_code := code, m_resource_tables := tables,
                m_argument_block := argument_block, m_functions := functions,
                m_ro_segment := if code.m_ro_segment = [] then none else some code.m_ro_segment,
                m_string_constants := code.m_mapped_strings })
  | _, _, _ => (be, -1, none)
/-- The node that the lambda builder makes for the field of a path: the DAG node of the
field at its type with aliases skipped, NULL if there is no such field. -/
def path_node (S : Dag_services) (compiled_material : Mdl_compiled_material) (path : String) :
    Option DAG_node :=
  match compiled_material.lookup_sub_expression path with
  | some (field, field_type) => S.int_expr_to_mdl_dag_node field_type.skip_type_alias field
  | none => none

/-! ## Notions used to state the density of the resource tables -/

/-- The next-index counter of a kind (`m_tex_idx`, `m_lp_idx`, `m_bm_idx`). -/
def Function_enumerator.counter (e : Function_enumerator) : Resource_kind → Nat
  | .texture => e.m_tex_idx
  | .light_profile => e.m_lp_idx
  | .bsdf_measurement => e.m_bm_idx

/-- A dense table: the entry at position `k` has index `k`, an empty table goes with a
counter of 0, and a non-empty table has one entry more than the counter says. -/
def Dense_table (entries : List (Nat × String)) (counter : Nat) : Prop :=
  entries.map Prod.fst = List.range entries.length ∧
  (entries = [] → counter = 0) ∧
  (entries ≠ [] → entries.length = counter + 1)

/-! ## The backend: `Link_unit::add_environment` and `add_material_expression` -/

/-- The return type of a function definition after `skip_type_alias`, as
`env_from_call` tells types apart: the struct `::base::texture_return`, the color type,
and every other type. -/
inductive Env_return_type where
  | texture_return
  | color
  | other
  deriving DecidableEq, Repr

/-- The class `MDL::Mdl_function_call` with its function definition, which are not part
of the sources at hand and are taken as given: whether the definition is valid, its
return type (`none` for NULL), whether it is the array constructor, for each parameter
the node that the DAG builder gives for the argument (`none` for NULL) with the result
of `check_and_bind_type`, the node that `create_call` gives for the call, and the node
that `create_call` gives for the field access wrapped around it. -/
structure Mdl_function_call where
  m_definition_valid : Bool
  m_return_type : Option Env_return_type
  m_array_constructor : Bool
  m_arguments : List (Option DAG_node × Int)
  m_call : Option DAG_node
  m_field_access : Option DAG_node
  deriving DecidableEq, Repr

/-- The loop over the parameters of `env_from_call`: it ends with an error at the first
argument whose node is NULL or whose type does not bind with result 0. -/
def env_arguments_ok : List (Option DAG_node × Int) → Bool
  | [] => true
  | (arg, result) :: rest =>
    match arg with
    | none => false
    | some _ => if result = 0 then env_arguments_ok rest else false

/-- The method `Lambda_builder::env_from_call`. `function_call` and `fname` are `none`
for NULL. Given are the builder afterwards and the lambda function, `none` for NULL. -/
def Lambda_builder.env_from_call (S : Dag_services) (b : Lambda_builder)
    (function_call : Option Mdl_function_call) (fname : Option String) :
    Lambda_builder × Option Lambda_function :=
  match function_call with
  | none => ({ b with m_error := -1 }, none)
  | some call =>
    if !call.m_definition_valid then ({ b with m_error := -2 }, none)
    else
      match call.m_return_type with
      | none => ({ b with m_error := -2 }, none)
      | some mdl_type =>
        if call.m_array_constructor then ({ b with m_error := -2 }, none)
        else
          let type_ok : Bool :=
            decide (mdl_type = Env_return_type.texture_return) ||
              decide (mdl_type = Env_return_type.color)
          if !type_ok then ({ b with m_error := -2 }, none)
          else
            let lambda := S.create_lambda_function Lambda_execution_context.LEC_ENVIRONMENT
            if !env_arguments_ok call.m_arguments then ({ b with m_error := -2 }, none)
            else
              let body :=
                if mdl_type = Env_return_type.texture_return then call.m_field_access
                else call.m_call
              let lambda := lambda.set_body body
              let lambda :=
                match fname with
                | some name => lambda.set_name name
                | none => lambda
              ({ b with m_error := 0 }, some lambda)

namespace Backend_link_unit

/-- The constructor `Link_unit::Link_unit`: a fresh JIT unit of the kind of the backend,
an empty target code, an empty registry with the counters at 0, and the two flags of
the backend. -/
def new (target_kind : Target_kind) (code_gen : LLVM_code_generator)
    (compile_consts strings_mapped_to_ids : Bool) : Backend_link_unit :=
  { m_registry := Link_unit.new, m_unit := Link_unit_jit.new target_kind code_gen,
    m_target_code_layouts := [], m_arg_block_comp_material_args := [],
    m_compile_consts := compile_consts, m_strings_mapped_to_ids := strings_mapped_to_ids }

/-- The method `Link_unit::add_environment`. `transaction` is the member
`m_transaction`; it, `function_call` and `fname` are `none` for NULL. Given are the
return value and the unit afterwards. -/
def add_environment (S : Dag_services) (L : Lambda_services) (B : Codegen_backend)
    (transaction : Option Transaction) (u : Backend_link_unit)
    (function_call : Option Mdl_function_call) (fname : Option String) :
    Int × Backend_link_unit :=
  match function_call with
  | none => (-2, u)
  | some call =>
    match transaction with
    | none => (-1, u)
    | some t =>
      let builder := Lambda_builder.new u.m_compile_consts
      let r := builder.env_from_call S (some call) fname
      match r.2 with
      | none => (r.1.get_error_code, u)
      | some lambda =>
        let e := enumerate_resources t (u.m_registry.enumerator lambda.as_ILambda_function)
          (L.enumerate_resources lambda lambda.get_body)
        let u := { u with m_registry := u.m_registry.store e }
        let a := u.m_unit.add B (some (lambda.with_mappings e.m_lambda))
          Function_kind.FK_ENVIRONMENT (some SIZE_T_NONE)
        let u := { u with m_unit := a.2.1 }
        if !a.1 then (-3, u)
        else (0, u)

/-- The `ASSERT` of `Link_unit::add_environment`, which says that environments have no
captured arguments: whether it holds for the call, `true` if the call returns before
it. -/
def add_environment_asserts (S : Dag_services) (L : Lambda_services) (B : Codegen_backend)
    (transaction : Option Transaction) (u : Backend_link_unit)
    (function_call : Option Mdl_function_call) (fname : Option String) : Bool :=
  match function_call with
  | none => true
  | some call =>
    match transaction with
    | none => true
    | some t =>
      let builder := Lambda_builder.new u.m_compile_consts
      let r := builder.env_from_call S (some call) fname
      match r.2 with
      | none => true
      | some lambda =>
        let e := enumerate_resources t (u.m_registry.enumerator lambda.as_ILambda_function)
          (L.enumerate_resources lambda lambda.get_body)
        let u := { u with m_registry := u.m_registry.store e }
        let a := u.m_unit.add B (some (lambda.with_mappings e.m_lambda))
          Function_kind.FK_ENVIRONMENT (some SIZE_T_NONE)
        if !a.1 then true
        else decide (a.2.2 = some SIZE_T_NONE)

/-- Modelled from the spec: `Target_code::add_argument_block_layout` is not part of the
sources at hand; it appends the layout to the layouts of the target code and returns
the position of the new layout, which is given here. -/
def add_argument_block_layout_index (u : Backend_link_unit) : Nat :=
  u.m_target_code_layouts.length

/-- The two `ASSERT`s of the part of `add_material_expression` and `add_material_df`
that follows a successful add to the JIT unit, `index == arg_block_index` and
`index == m_arg_block_comp_material_args.size() - 1`: whether both hold, `true` if no
layout was created. `u` is the unit before the layout is added to the target code. -/
def add_layout_asserts (u : Backend_link_unit) (compiled_material : Mdl_compiled_material)
    (arg_block_index : Nat) : Bool :=
  if arg_block_index ≠ SIZE_T_NONE then
    decide (u.add_argument_block_layout_index = arg_block_index) &&
      decide (u.add_argument_block_layout_index =
        (u.add_layout compiled_material arg_block_index).m_arg_block_comp_material_args.length
          - 1)
  else true

/-- The method `Link_unit::add_material_expression`. `transaction` is the member
`m_transaction`; it, `compiled_material`, `path` and `fname` are `none` for NULL. Given
are the return value and the unit afterwards. -/
def add_material_expression (S : Dag_services) (L : Lambda_services) (B : Codegen_backend)
    (transaction : Option Transaction) (u : Backend_link_unit)
    (compiled_material : Option Mdl_compiled_material) (path : Option String)
    (fname : Option String) : Int × Backend_link_unit :=
  match transaction, compiled_material, path with
  | some t, some compiled_material, some path =>
    let builder := Lambda_builder.new u.m_compile_consts
    let r := builder.from_sub_expr S compiled_material path fname
    match r.2 with
    | none => (r.1.get_error_code, u)
    | some lambda =>
      let e := enumerate_resources t (u.m_registry.enumerator lambda.as_ILambda_function)
        (L.enumerate_resources lambda lambda.get_body)
      let e :=
        if compiled_material.get_parameter_count ≠ 0 then
          enumerate_resources t e compiled_material.m_resource_arguments
        else e
      let u := { u with m_registry := u.m_registry.store e }
      let a := u.m_unit.add B (some (lambda.with_mappings e.m_lambda))
        Function_kind.FK_LAMBDA (some SIZE_T_NONE)
      let u := { u with m_unit := a.2.1 }
      if !a.1 then (-3, u)
      else (0, u.add_layout compiled_material (a.2.2.getD SIZE_T_NONE))
  | _, _, _ => (-1, u)

/-- The `ASSERT`s of `Link_unit::add_material_expression`: whether both hold for the
call, `true` if the call returns before them. -/
def add_material_expression_asserts (S : Dag_services) (L : Lambda_services)
    (B : Codegen_backend) (transaction : Option Transaction) (u : Backend_link_unit)
    (compiled_material : Option Mdl_compiled_material) (path : Option String)
    (fname : Option String) : Bool :=
  match transaction, compiled_material, path with
  | some t, some compiled_material, some path =>
    let builder := Lambda_builder.new u.m_compile_consts
    let r := builder.from_sub_expr S compiled_material path fname
    match r.2 with
    | none => true
    | some lambda =>
      let e := enumerate_resources t (u.m_registry.enumerator lambda.as_ILambda_function)
        (L.enumerate_resources lambda lambda.get_body)
      let e :=
        if compiled_material.get_parameter_count ≠ 0 then
          enumerate_resources t e compiled_material.m_resource_arguments
        else e
      let u := { u with m_registry := u.m_registry.store e }
      let a := u.m_unit.add B (some (lambda.with_mappings e.m_lambda))
        Function_kind.FK_LAMBDA (some SIZE_T_NONE)
      let u := { u with m_unit := a.2.1 }
      if !a.1 then true
      else u.add_layout_asserts compiled_material (a.2.2.getD SIZE_T_NONE)
  | _, _, _ => true

/-- The `ASSERT`s of `Link_unit::add_material_df`: whether both hold for the call,
`true` if the call returns before them. -/
def add_material_df_asserts (S : Dag_services) (L : Lambda_services) (B : Codegen_backend)
    (transaction : Option Transaction) (u : Backend_link_unit)
    (compiled_material : Option Mdl_compiled_material) (path : Option String)
    (base_fname : Option String) (include_geometry_normal : Bool) : Bool :=
  match transaction, compiled_material, path with
  | some t, some compiled_material, some path =>
    let lambda_builder := Lambda_builder.new u.m_compile_consts
    let r := lambda_builder.from_material_df S compiled_material path base_fname
      include_geometry_normal
    match r.2 with
    | none => true
    | some dist_func =>
      let e := enumerate_distribution_function L t
        (u.m_registry.enumerator dist_func.m_main_df.as_ILambda_function) compiled_material
        dist_func
      let u := { u with m_registry := u.m_registry.store e.1 }
      let a := u.m_unit.add_distribution_function B (some e.2) SIZE_T_NONE
      let u := { u with m_unit := a.2.1 }
      if !a.1 then true
      else u.add_layout_asserts compiled_material a.2.2
  | _, _, _ => true

end Backend_link_unit

/-- One call of a method of the backend `Link_unit` that adds a function, with its
arguments. -/
inductive Unit_call where
  | add_environment (function_call : Option Mdl_function_call) (fname : Option String)
  | add_material_expression (compiled_material : Option Mdl_compiled_material)
      (path : Option String) (fname : Option String)
  | add_material_df (compiled_material : Option Mdl_compiled_material) (path : Option String)
      (base_fname : Option String) (include_geometry_normal : Bool)

/-- Whether a call is an `add_environment` call. -/
def Unit_call.is_environment : Unit_call → Bool
  | .add_environment _ _ => true
  | _ => false

namespace Backend_link_unit

/-- One call on a unit: the return value and the unit afterwards. -/
def call (S : Dag_services) (L : Lambda_services) (B : Codegen_backend)
    (transaction : Option Transaction) (u : Backend_link_unit) :
    Unit_call → Int × Backend_link_unit
  | .add_environment function_call fname =>
    u.add_environment S L B transaction function_call fname
  | .add_material_expression compiled_material path fname =>
    u.add_material_expression S L B transaction compiled_material path fname
  | .add_material_df compiled_material path base_fname include_geometry_normal =>
    u.add_material_df S L B transaction compiled_material path base_fname
      include_geometry_normal

/-- Whether the `ASSERT`s of one call on a unit hold. -/
def call_asserts (S : Dag_services) (L : Lambda_services) (B : Codegen_backend)
    (transaction : Option Transaction) (u : Backend_link_unit) : Unit_call → Bool
  | .add_environment function_call fname =>
    u.add_environment_asserts S L B transaction function_call fname
  | .add_material_expression compiled_material path fname =>
    u.add_material_expression_asserts S L B transaction compiled_material path fname
  | .add_material_df compiled_material path base_fname include_geometry_normal =>
    u.add_material_df_asserts S L B transaction compiled_material path base_fname
      include_geometry_normal

/-- Calls made one after the other on a unit: the unit afterwards. -/
def run_calls (S : Dag_services) (L : Lambda_services) (B : Codegen_backend)
    (transaction : Option Transaction) (u : Backend_link_unit) (calls : List Unit_call) :
    Backend_link_unit :=
  calls.foldl (fun u c => (u.call S L B transaction c).2) u

/-- Whether the `ASSERT` of every `add_environment` call of a sequence holds, so that no
environment of the sequence has captured arguments. -/
def environments_capture_nothing (S : Dag_services) (L : Lambda_services)
    (B : Codegen_backend) (transaction : Option Transaction) :
    Backend_link_unit → List Unit_call → Bool
  | _, [] => true
  | u, c :: rest =>
    (!c.is_environment || u.call_asserts S L B transaction c) &&
    environments_capture_nothing S L B transaction (u.call S L B transaction c).2 rest

/-- Whether the `ASSERT`s of every call of a sequence hold. -/
def all_asserts_hold (S : Dag_services) (L : Lambda_services) (B : Codegen_backend)
    (transaction : Option Transaction) : Backend_link_unit → List Unit_call → Bool
  | _, [] => true
  | u, c :: rest =>
    u.call_asserts S L B transaction c &&
    all_asserts_hold S L B transaction (u.call S L B transaction c).2 rest

end Backend_link_unit

/-! ## Concrete inputs -/

/-- A resource store in which tag 1 is named `tex_A`, tag 2 is named `tex_B`, tag 3 is
named `lp_A`, tag 4 is named `bm_A`, every other tag has no name, and every resource
but the one of tag 9 is valid. -/
def example_transaction : Transaction :=
  { tag_to_name := fun tag =>
      if tag = 1 then some "tex_A" else if tag = 2 then some "tex_B"
      else if tag = 3 then some "lp_A" else if tag = 4 then some "bm_A" else none
    get_texture_attributes := fun tag => Texture_attributes.mk (decide (tag ≠ 9)) false 4 4 1
    get_light_profile_attributes := fun tag => Light_profile_attributes.mk (decide (tag ≠ 9)) 1 2
    get_bsdf_measurement_attributes := fun tag => decide (tag ≠ 9) }

/-- The texture `tex_A`. -/
def tex_A : Core_value := Core_value.texture IType_texture_shape.TS_2D 1

/-- The texture `tex_B`. -/
def tex_B : Core_value := Core_value.texture IType_texture_shape.TS_3D 2

/-- An invalid texture. -/
def tex_invalid : Core_value := Core_value.texture IType_texture_shape.TS_2D 9

/-- The light profile `lp_A`. -/
def lp_A : Core_value := Core_value.light_profile 3

/-- The bsdf measurement `bm_A`. -/
def bm_A : Core_value := Core_value.bsdf_measurement 4

/-- A code generator state without messages and without captured arguments. -/
def example_code_gen : LLVM_code_generator :=
  { m_messages := [], m_captured_arguments_llvm_type := none, m_internal := 0 }

/-- The compile of a lambda by the example backend: a function of the same name unless
the lambda is named `bad`; arguments are captured iff the lambda has parameters; no
messages are reported. -/
def example_compile_lambda (g : LLVM_code_generator) (l : Lambda_function) :
    LLVM_code_generator × Option Llvm_function :=
  (LLVM_code_generator.mk g.m_messages (if l.m_params.isEmpty then none else some 1)
      g.m_internal,
    if l.m_name = "bad" then none else some (Llvm_function.mk l.m_name))

/-- The compile of a distribution function by the example backend: a module and four
functions unless the main lambda is named `bad`; arguments are captured iff the main
lambda has parameters; no messages are reported. -/
def example_compile_distribution_function (g : LLVM_code_generator)
    (d : Distribution_function) :
    LLVM_code_generator × Option Llvm_module × List Llvm_function :=
  (LLVM_code_generator.mk g.m_messages
      (if d.m_main_df.m_params.isEmpty then none else some 1) g.m_internal,
    if d.m_main_df.m_name = "bad" then none else some 1,
    [Llvm_function.mk "f0", Llvm_function.mk "f1", Llvm_function.mk "f2", Llvm_function.mk "f3"])

/-- A backend for the concrete inputs. -/
def example_backend : Codegen_backend :=
  { compile_environment_lambda := fun g _ l => example_compile_lambda g l
    compile_const_lambda := fun g l => example_compile_lambda g l
    compile_generic_lambda := fun g _ l => example_compile_lambda g l
    compile_switch_lambda := fun g _ l => example_compile_lambda g l
    compile_distribution_function := fun g _ d => example_compile_distribution_function g d
    finalize_module := fun g => (g, some 1)
    create_value_layout := fun _ => Generated_code_value_layout.mk [1, 2] false
    get_parent := fun _ => 1
    ptx_compile := fun _ _ => "ptx"
    llvm_ir_compile := fun _ _ => "ir"
    llvm_bc_compile := fun _ _ => "bc"
    get_ro_segment := fun _ => [9]
    get_render_state_usage := fun _ => 3
    get_string_constants := fun _ => ["s0", "s1"]
    get_entry_point := fun _ _ => 0
    construct := fun _ => 0
    enable_name_mangling := fun g => g
    enable_ro_data_segment := fun g => g }

/-- A lambda function with the given name, body and parameters, no root expressions. -/
def example_lambda (name : String) (body : Option DAG_node) (params : List (Nat × String)) :
    Lambda_function :=
  { m_name := name, m_body := body, m_root_exprs := [],
    m_context := Lambda_execution_context.LEC_CORE, m_params := params,
    m_parameter_mapping := [], m_hash := [1, 2, 3], m_uniform_state_set := false,
    m_resource_attribute_map := [] }

/-- A fresh PTX link unit. -/
def example_unit : Link_unit_jit := Link_unit_jit.new Target_kind.TK_CUDA_PTX example_code_gen

/-- Options for the concrete inputs. -/
def example_options : Options_impl :=
  { internal_space := "coordinate_world", opt_level := 2, fast_math := true,
    disable_exceptions := false, enable_ro_segment := false, write_bitcode := false,
    link_libdevice := true, use_bitangent := false, include_uniform_state := false,
    tex_lookup_call_mode := "vtable", map_strings_to_ids := false }

/-- A code generator with the example options. -/
def example_generator : Code_generator_jit := { m_options := example_options }

/-- A backend as the example backend, whose `finalize_module` fails without a message. -/
def example_failing_backend : Codegen_backend :=
  { compile_environment_lambda := fun g _ l => example_compile_lambda g l
    compile_const_lambda := fun g l => example_compile_lambda g l
    compile_generic_lambda := fun g _ l => example_compile_lambda g l
    compile_switch_lambda := fun g _ l => example_compile_lambda g l
    compile_distribution_function := fun g _ d => example_compile_distribution_function g d
    finalize_module := fun g => (g, none)
    create_value_layout := fun _ => Generated_code_value_layout.mk [1, 2] false
    get_parent := fun _ => 1
    ptx_compile := fun _ _ => "ptx"
    llvm_ir_compile := fun _ _ => "ir"
    llvm_bc_compile := fun _ _ => "bc"
    get_ro_segment := fun _ => [9]
    get_render_state_usage := fun _ => 3
    get_string_constants := fun _ => ["s0", "s1"]
    get_entry_point := fun _ _ => 0
    construct := fun _ => 0
    enable_name_mangling := fun g => g
    enable_ro_data_segment := fun g => g }

/-- A lambda function named `bad` with one root expression and no body. -/
def example_switch_lambda : Lambda_function :=
  { m_name := "bad", m_body := none, m_root_exprs := [some 5],
    m_context := Lambda_execution_context.LEC_CORE, m_params := [],
    m_parameter_mapping := [], m_hash := [1, 2, 3], m_uniform_state_set := false,
    m_resource_attribute_map := [] }

/-- A unit that holds one function. -/
def example_unit_one : Link_unit_jit :=
  (example_unit.add example_failing_backend (some (example_lambda "f" (some 7) []))
    Function_kind.FK_LAMBDA (some 0)).2.1

/-- A digest for the concrete inputs: one number for each value of the sequence. -/
def example_md5 (l : List Hash_input) : List Nat :=
  l.map (fun x =>
    match x with
    | .chars s => s.length
    | .data d => d.length
    | .unsigned n => n
    | .bool b => if b then 1 else 0
    | .state_mode m => if m = State_subset_mode.SSM_CORE then 1 else 0
    | .int i => i.toNat)

/-- A distribution function whose main lambda is named `bad`. -/
def example_bad_dist_func : Distribution_function :=
  { m_main_df := example_lambda "bad" (some 7) [], m_expr_lambdas := [] }

/-- The example generator with the option `write_bitcode` set. -/
def example_generator_bitcode : Code_generator_jit :=
  { m_options := { example_options with write_bitcode := true } }

/-- Services for the concrete inputs: a fresh lambda function is named `lambda`, a
fresh distribution function has a main lambda named `main_df`, the node of an
expression is its identity, and `initialize` succeeds. -/
def example_services : Dag_services :=
  { create_lambda_function := fun lec =>
      { m_name := "lambda", m_body := none, m_root_exprs := [], m_context := lec,
        m_params := [], m_parameter_mapping := [], m_hash := [], m_uniform_state_set := false,
        m_resource_attribute_map := [] }
    create_distribution_function :=
      { m_main_df := example_lambda "main_df" none [], m_expr_lambdas := [] }
    int_expr_to_mdl_dag_node := fun _ e => some e.id
    init_distribution_function := fun d _ body _ =>
      ({ d with m_main_df := d.m_main_df.set_body body }, Distribution_function_error.EC_NONE) }

/-- Lambda services for the concrete inputs: no resources, no optimization. -/
def example_lambda_services : Lambda_services :=
  { enumerate_resources := fun _ _ => [], optimize := fun l => l }

/-- The fields of the example material: `surface.scattering` is a BSDF call,
`surface.emission.emission` is the constant default EDF, `backface.emission.emission`
is an EDF call, `volume.scattering` is a VDF call behind an alias, `surface` is a
struct call that holds a BSDF two levels down, `backface` is a constant struct that
holds a BSDF, `tex` is a texture call, `tint` is a color call, `ior` is a constant and
`geometry.displacement` is a vector call. -/
def example_lookup (path : String) : Option (IExpression × IType) :=
  if path = "surface.scattering" then
    some (IExpression.mk Expression_kind.EK_DIRECT_CALL 1, IType.bsdf)
  else if path = "surface.emission.emission" then
    some (IExpression.mk Expression_kind.EK_CONSTANT 2, IType.edf)
  else if path = "backface.emission.emission" then
    some (IExpression.mk Expression_kind.EK_DIRECT_CALL 3, IType.edf)
  else if path = "volume.scattering" then
    some (IExpression.mk Expression_kind.EK_DIRECT_CALL 4, IType.alias IType.vdf)
  else if path = "surface" then
    some (IExpression.mk Expression_kind.EK_DIRECT_CALL 5,
      IType.alias (IType.compound
        [IType.atomic 1, IType.compound [IType.atomic 2, IType.alias IType.bsdf]]))
  else if path = "backface" then
    some (IExpression.mk Expression_kind.EK_CONSTANT 6,
      IType.compound [IType.bsdf, IType.compound [IType.edf, IType.atomic 2]])
  else if path = "tex" then
    some (IExpression.mk Expression_kind.EK_DIRECT_CALL 7,
      IType.resource Resource_kind.texture)
  else if path = "tint" then
    some (IExpression.mk Expression_kind.EK_DIRECT_CALL 8, IType.compound [IType.atomic 2])
  else if path = "ior" then
    some (IExpression.mk Expression_kind.EK_CONSTANT 9, IType.atomic 2)
  else if path = "geometry.displacement" then
    some (IExpression.mk Expression_kind.EK_DIRECT_CALL 10, IType.compound [IType.atomic 2])
  else none

/-- A compiled material without parameters, with the example fields. -/
def example_material : Mdl_compiled_material :=
  { lookup_sub_expression := example_lookup, m_parameters := [], m_resource_arguments := [],
    m_arguments := [], m_body := IExpression.mk Expression_kind.EK_DIRECT_CALL 0,
    m_body_type := IType.compound [] }

/-- A fresh backend link unit around the fresh PTX unit. -/
def example_backend_unit (compile_consts : Bool) : Backend_link_unit :=
  { m_registry := Link_unit.new, m_unit := example_unit, m_target_code_layouts := [],
    m_arg_block_comp_material_args := [], m_compile_consts := compile_consts,
    m_strings_mapped_to_ids := false }

/-- A PTX backend with the example code generator. -/
def example_llvm_backend (compile_consts : Bool) : Mdl_llvm_backend :=
  { m_kind := Mdl_backend_kind.MB_CUDA_PTX, m_sm_version := 20, m_num_texture_spaces := 32,
    m_num_texture_results := 0, m_jit := example_generator, m_code_cache := none,
    m_compile_consts := compile_consts, m_enable_simd := false, m_output_ptx := true,
    m_strings_mapped_to_ids := false }

/-- The switch lambda that `translate_material_expressions` builds for the paths `tint`
and `ior` of the example material. -/
def example_switch_of_paths : Lambda_function :=
  { m_name := "lambda", m_body := none, m_root_exprs := [some 8, some 9],
    m_context := Lambda_execution_context.LEC_CORE, m_params := [],
    m_parameter_mapping := [], m_hash := [], m_uniform_state_set := false,
    m_resource_attribute_map := [] }

/-- A valid texture without a database name. -/
def tex_unnamed : Core_value := Core_value.texture IType_texture_shape.TS_2D 5

/-- A valid light profile without a database name. -/
def lp_unnamed : Core_value := Core_value.light_profile 6

/-- Lambda services for the concrete inputs under which every body references the
texture `tex_A`. -/
def example_lambda_services_tex : Lambda_services :=
  { enumerate_resources := fun _ _ => [Sighting.texture tex_A], optimize := fun l => l }

/-- The example material with one parameter and its argument. -/
def example_material_params : Mdl_compiled_material :=
  { lookup_sub_expression := example_lookup, m_parameters := [(1, "p")],
    m_resource_arguments := [], m_arguments := [IValue.int 3],
    m_body := IExpression.mk Expression_kind.EK_DIRECT_CALL 0,
    m_body_type := IType.compound [] }

/-- A call of a function with a valid definition that returns a color and has one
argument that binds. -/
def example_call : Mdl_function_call :=
  { m_definition_valid := true, m_return_type := some Env_return_type.color,
    m_array_constructor := false, m_arguments := [(some 1, 0)], m_call := some 20,
    m_field_access := some 21 }

/-- Three calls on a unit: an expression and a distribution function of the material
with a parameter, and an environment between them. -/
def example_calls : List Unit_call :=
  [Unit_call.add_material_expression (some example_material_params) (some "tint") (some "f"),
    Unit_call.add_environment (some example_call) none,
    Unit_call.add_material_df (some example_material_params) (some "surface.scattering")
      (some "df") false]

/-! # Properties -/

/-! ## Lemmas on the name map and on first sightings -/

theorem size_t_incr_of_lt (x : Nat) (h : x + 1 < SIZE_T_MOD) : size_t_incr x = x + 1 := by
  unfold size_t_incr
  exact Nat.mod_eq_of_lt h

theorem find_append (m₁ m₂ : Resource_index_map) (n : String) :
    Resource_index_map.find (m₁ ++ m₂) n =
      match Resource_index_map.find m₁ n with
      | some i => some i
      | none => Resource_index_map.find m₂ n := by
  induction m₁ with
  | nil => simp [Resource_index_map.find]
  | cons kv rest ih =>
    obtain ⟨k, i⟩ := kv
    by_cases hk : k = n
    · simp [Resource_index_map.find, hk]
    · simp only [List.cons_append, Resource_index_map.find, hk, if_false]
      exact ih

theorem find_insert_of_none (m : Resource_index_map) (n n' : String) (i : Nat)
    (h : Resource_index_map.find m n = none) :
    Resource_index_map.find (Resource_index_map.insert m n i) n' =
      if n = n' then some i else Resource_index_map.find m n' := by
  unfold Resource_index_map.insert
  rw [h]
  simp only
  rw [find_append]
  by_cases hn : n = n'
  · subst hn
    simp [h, Resource_index_map.find]
  · simp only [Resource_index_map.find, hn, if_false]
    cases Resource_index_map.find m n' <;> rfl

theorem distinct_before_append_of_mem (pre more : List String) (n : String) (h : n ∈ pre) :
    distinct_before (pre ++ more) n = distinct_before pre n := by
  unfold distinct_before
  rw [List.indexOf_append_of_mem h]
  rw [List.take_append_of_le_length (List.indexOf_le_length)]

theorem distinct_before_append_self (pre : List String) (n : String) (h : n ∉ pre) :
    distinct_before (pre ++ [n]) n = pre.toFinset.card := by
  unfold distinct_before
  rw [List.indexOf_append_of_not_mem h]
  simp

theorem card_toFinset_snoc_of_mem (pre : List String) (n : String) (h : n ∈ pre) :
    (pre ++ [n]).toFinset.card = pre.toFinset.card := by
  have : (pre ++ [n]).toFinset = pre.toFinset := by
    ext x
    simp only [List.mem_toFinset, List.mem_append, List.mem_singleton]
    constructor
    · rintro (hx | hx)
      · exact hx
      · exact hx ▸ h
    · intro hx
      exact Or.inl hx
  rw [this]

theorem card_toFinset_snoc_of_not_mem (pre : List String) (n : String) (h : n ∉ pre) :
    (pre ++ [n]).toFinset.card = pre.toFinset.card + 1 := by
  have : (pre ++ [n]).toFinset = insert n pre.toFinset := by
    ext x
    simp only [List.mem_toFinset, List.mem_append, List.mem_singleton, Finset.mem_insert]
    tauto
  rw [this, Finset.card_insert_of_not_mem (by simpa using h)]

/-! ## The registry invariant is kept by valid texture sightings -/

theorem Tex_inv.name_mem {pre : List String} {table : List Texture_entry}
    {m : Resource_index_map} {ctr : Nat} (h : Tex_inv pre table m ctr) :
    ∀ x ∈ table.tail, x.m_name ∈ pre := by
  intro x hx
  by_contra hn
  have h0 := h.count_eq x.m_name
  rw [if_neg hn] at h0
  rw [List.countP_eq_zero] at h0
  have := h0 x hx
  simp at this

theorem Tex_inv.initial : Tex_inv [] [] [] 0 where
  find_eq := by intro n; simp [Resource_index_map.find]
  ctr_eq := by simp
  table_eq := by simp
  count_eq := by intro n; simp
  index_eq := by intro x hx; simp at hx

/-- One valid texture sighting keeps the invariant, extends the sighted names by the
name of the texture, and hands the lambda function the stable mapping. -/
theorem texture_step (t : Transaction) (pre : List String) (e : Function_enumerator)
    (m : Resource_index_map) (v : Core_value)
    (hm : e.m_resource_index_map = some m)
    (hinv : Tex_inv pre e.m_register.m_texture_table m e.m_tex_idx)
    (hv : is_valid_texture t v = true)
    (hlen : pre.length + 1 < SIZE_T_MOD) :
    ∃ m', (Function_enumerator.texture t e v).m_resource_index_map = some m' ∧
      Tex_inv (pre ++ [texture_name t v])
        (Function_enumerator.texture t e v).m_register.m_texture_table m'
        (Function_enumerator.texture t e v).m_tex_idx ∧
      (Function_enumerator.texture t e v).m_lambda.mappings =
        e.m_lambda.mappings ++ [stable_tex_mapping t (pre ++ [texture_name t v]) v] := by
  obtain ⟨reg, lam, addl, rmap, ti, li, bi⟩ := e
  obtain ⟨tt, lt, bt⟩ := reg
  simp only at hm hinv
  subst hm
  cases hv' : as_IValue_texture v with
  | none => simp [is_valid_texture, hv'] at hv
  | some st =>
    obtain ⟨shape, tag⟩ := st
    have ha : (t.get_texture_attributes tag).valid = true := by
      simpa [is_valid_texture, hv'] using hv
    have hname : texture_name t v = Function_enumerator.resource_to_name t tag := by
      simp [texture_name, hv']
    by_cases hmem : Function_enumerator.resource_to_name t tag ∈ pre
    · have hfind := hinv.find_eq (Function_enumerator.resource_to_name t tag)
      rw [if_pos hmem] at hfind
      have hne : pre ≠ [] := by
        rintro rfl
        simp at hmem
      have htab := hinv.table_eq
      rw [if_neg hne] at htab
      have hlen0 : tt.length ≠ 0 := by
        rw [htab]
        simp
      have heq : Function_enumerator.texture t
          ⟨⟨tt, lt, bt⟩, lam, addl, some m, ti, li, bi⟩ v =
          ⟨⟨tt, lt, bt⟩,
            lam.map_tex_resource v
              (1 + distinct_before pre (Function_enumerator.resource_to_name t tag)) true
              (t.get_texture_attributes tag).width (t.get_texture_attributes tag).height
              (t.get_texture_attributes tag).depth,
            addl.map (fun l => l.map_tex_resource v
              (1 + distinct_before pre (Function_enumerator.resource_to_name t tag)) true
              (t.get_texture_attributes tag).width (t.get_texture_attributes tag).height
              (t.get_texture_attributes tag).depth),
            some m, ti, li, bi⟩ := by
        simp [Function_enumerator.texture, hv', ha, hfind,
          Target_code_register.get_texture_count, hlen0]
      rw [heq]
      refine ⟨m, rfl, ?_, ?_⟩
      · rw [hname]
        constructor
        · intro n
          by_cases hn : n ∈ pre
          · have hn' : n ∈ pre ++ [Function_enumerator.resource_to_name t tag] :=
              List.mem_append_left _ hn
            rw [if_pos hn', distinct_before_append_of_mem pre _ n hn, hinv.find_eq n, if_pos hn]
          · have hn' : n ∉ pre ++ [Function_enumerator.resource_to_name t tag] := by
              intro hc
              rcases List.mem_append.mp hc with h1 | h1
              · exact hn h1
              · rw [List.mem_singleton] at h1
                exact hn (h1 ▸ hmem)
            rw [if_neg hn', hinv.find_eq n, if_neg hn]
        · rw [card_toFinset_snoc_of_mem pre _ hmem]
          exact hinv.ctr_eq
        · simp only [List.append_eq_nil, List.cons_ne_self, and_false, if_false]
          exact htab
        · intro n
          rw [hinv.count_eq n]
          by_cases hn : n ∈ pre
          · rw [if_pos hn, if_pos (List.mem_append_left _ hn)]
          · have hn' : n ∉ pre ++ [Function_enumerator.resource_to_name t tag] := by
              intro hc
              rcases List.mem_append.mp hc with h1 | h1
              · exact hn h1
              · rw [List.mem_singleton] at h1
                exact hn (h1 ▸ hmem)
            rw [if_neg hn, if_neg hn']
        · intro x hx
          rw [distinct_before_append_of_mem pre _ x.m_name (hinv.name_mem x hx)]
          exact hinv.index_eq x hx
      · simp only [ILambda_function.map_tex_resource, stable_tex_mapping, hv', hname]
        rw [distinct_before_append_of_mem pre _ _ hmem]
    · have hfind := hinv.find_eq (Function_enumerator.resource_to_name t tag)
      rw [if_neg hmem] at hfind
      have hti : ti = pre.toFinset.card := hinv.ctr_eq
      have hcard : pre.toFinset.card ≤ pre.length := List.toFinset_card_le pre
      have hincr : size_t_incr ti = ti + 1 := size_t_incr_of_lt ti (by omega)
      have heq : Function_enumerator.texture t
          ⟨⟨tt, lt, bt⟩, lam, addl, some m, ti, li, bi⟩ v =
          ⟨⟨texture_sentinel :: (tt.tail ++
              [Texture_entry.mk (ti + 1) (Function_enumerator.resource_to_name t tag)
                (Function_enumerator.get_texture_shape shape)]), lt, bt⟩,
            lam.map_tex_resource v (ti + 1) true
              (t.get_texture_attributes tag).width (t.get_texture_attributes tag).height
              (t.get_texture_attributes tag).depth,
            addl.map (fun l => l.map_tex_resource v (ti + 1) true
              (t.get_texture_attributes tag).width (t.get_texture_attributes tag).height
              (t.get_texture_attributes tag).depth),
            some (Resource_index_map.insert m (Function_enumerator.resource_to_name t tag)
              (ti + 1)), ti + 1, li, bi⟩ := by
        have htab := hinv.table_eq
        by_cases hne : pre = []
        · rw [if_pos hne] at htab
          subst htab
          simp [Function_enumerator.texture, hv', ha, hfind, hincr,
            Target_code_register.get_texture_count, Target_code_register.register_texture,
            texture_sentinel]
        · rw [if_neg hne] at htab
          have hlen0 : tt.length ≠ 0 := by
            rw [htab]
            simp
          simp only [Function_enumerator.texture, hv', ha, hfind, hincr,
            Target_code_register.get_texture_count, Target_code_register.register_texture,
            hlen0, if_false, if_true]
          congr 2
          conv_lhs => rw [htab]
          rfl
      rw [heq]
      refine ⟨_, rfl, ?_, ?_⟩
      · rw [hname]
        constructor
        · intro n
          rw [find_insert_of_none m _ n (ti + 1) hfind]
          by_cases hn : Function_enumerator.resource_to_name t tag = n
          · subst hn
            rw [if_pos rfl, if_pos (by simp), distinct_before_append_self pre _ hmem, hti]
            congr 1
            omega
          · rw [if_neg hn, hinv.find_eq n]
            by_cases hn2 : n ∈ pre
            · rw [if_pos hn2, if_pos (List.mem_append_left _ hn2),
                distinct_before_append_of_mem pre _ n hn2]
            · have hn' : n ∉ pre ++ [Function_enumerator.resource_to_name t tag] := by
                intro hc
                rcases List.mem_append.mp hc with h1 | h1
                · exact hn2 h1
                · rw [List.mem_singleton] at h1
                  exact hn h1.symm
              rw [if_neg hn2, if_neg hn']
        · simp only
          rw [card_toFinset_snoc_of_not_mem pre _ hmem, hti]
        · simp
        · intro n
          simp only [List.tail_cons, List.countP_append, hinv.count_eq n]
          by_cases hn : Function_enumerator.resource_to_name t tag = n
          · subst hn
            rw [if_neg hmem, if_pos (by simp)]
            simp
          · by_cases hn2 : n ∈ pre
            · rw [if_pos hn2, if_pos (List.mem_append_left _ hn2)]
              simp [hn]
            · have hn' : n ∉ pre ++ [Function_enumerator.resource_to_name t tag] := by
                intro hc
                rcases List.mem_append.mp hc with h1 | h1
                · exact hn2 h1
                · rw [List.mem_singleton] at h1
                  exact hn h1.symm
              rw [if_neg hn2, if_neg hn']
              simp [hn]
        · intro x hx
          simp only [List.tail_cons, List.mem_append, List.mem_singleton] at hx
          rcases hx with hx | hx
          · rw [distinct_before_append_of_mem pre _ x.m_name (hinv.name_mem x hx)]
            exact hinv.index_eq x hx
          · subst hx
            simp only
            rw [distinct_before_append_self pre _ hmem, hti]
            omega
      · simp only [ILambda_function.map_tex_resource, stable_tex_mapping, hv', hname]
        rw [distinct_before_append_self pre _ hmem, hti]
        simp [Nat.add_comm]

theorem stable_tex_mapping_append (t : Transaction) (names more : List String)
    (v : Core_value) (h : texture_name t v ∈ names) :
    stable_tex_mapping t (names ++ more) v = stable_tex_mapping t names v := by
  unfold stable_tex_mapping
  rw [distinct_before_append_of_mem names more _ h]

/-- Enumerating a sequence of valid textures keeps the invariant and hands the lambda
function the stable mapping of every sighting. -/
theorem enumerate_textures (t : Transaction) (vs : List Core_value) :
    ∀ (pre : List String) (e : Function_enumerator) (m : Resource_index_map),
      e.m_resource_index_map = some m →
      Tex_inv pre e.m_register.m_texture_table m e.m_tex_idx →
      (∀ v ∈ vs, is_valid_texture t v = true) →
      pre.length + vs.length < SIZE_T_MOD →
      ∃ m', (enumerate_resources t e (vs.map Sighting.texture)).m_resource_index_map = some m' ∧
        Tex_inv (pre ++ vs.map (texture_name t))
          (enumerate_resources t e (vs.map Sighting.texture)).m_register.m_texture_table m'
          (enumerate_resources t e (vs.map Sighting.texture)).m_tex_idx ∧
        (enumerate_resources t e (vs.map Sighting.texture)).m_lambda.mappings =
          e.m_lambda.mappings ++
            vs.map (stable_tex_mapping t (pre ++ vs.map (texture_name t))) := by
  induction vs with
  | nil =>
    intro pre e m hm hinv _ _
    refine ⟨m, ?_, ?_, ?_⟩
    · simpa [enumerate_resources] using hm
    · simpa [enumerate_resources] using hinv
    · simp [enumerate_resources]
  | cons v vs ih =>
    intro pre e m hm hinv hvalid hlen
    have hv : is_valid_texture t v = true := hvalid v (List.mem_cons_self _ _)
    have hlen' : pre.length + (vs.length + 1) < SIZE_T_MOD := by
      simpa using hlen
    obtain ⟨m1, hm1, hinv1, hlam1⟩ :=
      texture_step t pre e m v hm hinv hv (by omega)
    have hlen1 : (pre ++ [texture_name t v]).length + vs.length < SIZE_T_MOD := by
      simp only [List.length_append, List.length_singleton]
      omega
    obtain ⟨m2, hm2, hinv2, hlam2⟩ :=
      ih (pre ++ [texture_name t v]) (Function_enumerator.texture t e v) m1 hm1 hinv1
        (fun w hw => hvalid w (List.mem_cons_of_mem _ hw)) hlen1
    have hunfold : enumerate_resources t e ((v :: vs).map Sighting.texture) =
        enumerate_resources t (Function_enumerator.texture t e v)
          (vs.map Sighting.texture) := by
      simp [enumerate_resources, Function_enumerator.visit]
    have hnames : pre ++ (v :: vs).map (texture_name t) =
        (pre ++ [texture_name t v]) ++ vs.map (texture_name t) := by
      simp
    rw [hunfold, hnames]
    refine ⟨m2, hm2, hinv2, ?_⟩
    rw [hlam2, hlam1, List.map_cons, List.append_assoc, List.singleton_append]
    rw [stable_tex_mapping_append t (pre ++ [texture_name t v]) _ v (by simp)]

/-- Adding fragments of valid textures to a unit keeps the invariant, and every lambda
function receives the stable mappings of its own sightings. -/
theorem add_all_textures (t : Transaction) (frags : List (List Core_value)) :
    ∀ (pre : List String) (lu : Link_unit),
      Tex_inv pre lu.m_tc_reg.m_texture_table lu.m_res_index_map lu.m_tex_idx →
      (∀ f ∈ frags, ∀ v ∈ f, is_valid_texture t v = true) →
      pre.length + frags.flatten.length < SIZE_T_MOD →
      Tex_inv (pre ++ frags.flatten.map (texture_name t))
        (Link_unit.add_all t lu (frags.map (List.map Sighting.texture))).1.m_tc_reg.m_texture_table
        (Link_unit.add_all t lu (frags.map (List.map Sighting.texture))).1.m_res_index_map
        (Link_unit.add_all t lu (frags.map (List.map Sighting.texture))).1.m_tex_idx ∧
      (Link_unit.add_all t lu (frags.map (List.map Sighting.texture))).2.map
          ILambda_function.mappings =
        frags.map (List.map
          (stable_tex_mapping t (pre ++ frags.flatten.map (texture_name t)))) := by
  induction frags with
  | nil =>
    intro pre lu hinv _ _
    simpa [Link_unit.add_all] using hinv
  | cons f frags ih =>
    intro pre lu hinv hvalid hlen
    have hlen' : pre.length + (f.length + frags.flatten.length) < SIZE_T_MOD := by
      simpa using hlen
    obtain ⟨m1, hm1, hinv1, hlam1⟩ :=
      enumerate_textures t f pre (lu.enumerator (ILambda_function.mk [])) lu.m_res_index_map
        rfl hinv (hvalid f (List.mem_cons_self _ _)) (by omega)
    have hlen1 : (pre ++ f.map (texture_name t)).length + frags.flatten.length
        < SIZE_T_MOD := by
      simp only [List.length_append, List.length_map]
      omega
    have hstore : Tex_inv (pre ++ f.map (texture_name t))
        (Link_unit.add_enumerate t lu (ILambda_function.mk [])
          (f.map Sighting.texture)).1.m_tc_reg.m_texture_table
        (Link_unit.add_enumerate t lu (ILambda_function.mk [])
          (f.map Sighting.texture)).1.m_res_index_map
        (Link_unit.add_enumerate t lu (ILambda_function.mk [])
          (f.map Sighting.texture)).1.m_tex_idx := by
      simp only [Link_unit.add_enumerate, Link_unit.store, hm1]
      exact hinv1
    obtain ⟨hinv2, hlam2⟩ :=
      ih (pre ++ f.map (texture_name t)) _ hstore
        (fun g hg => hvalid g (List.mem_cons_of_mem _ hg)) hlen1
    have hnames : pre ++ (f :: frags).flatten.map (texture_name t) =
        (pre ++ f.map (texture_name t)) ++ frags.flatten.map (texture_name t) := by
      simp
    rw [hnames]
    simp only [List.map_cons, Link_unit.add_all]
    refine ⟨hinv2, ?_⟩
    rw [hlam2]
    congr 1
    simp only [Link_unit.add_enumerate]
    rw [hlam1]
    simp only [Link_unit.enumerator, Function_enumerator.new_shared, List.nil_append]
    apply List.map_congr_left
    intro v hv
    rw [stable_tex_mapping_append t (pre ++ f.map (texture_name t)) _ v]
    exact List.mem_append_right _ (List.mem_map_of_mem _ hv)

/-! ## Resource index stability -/

/-- C1. Resource index stability in a link unit. Fragments of valid texture references
are added one after the other to a fresh link unit (counters 0, empty name map). Then
every lambda function receives, for every sighting, the mapping with index
`1 + ` the number of distinct names sighted before the first sighting of its name;
two sightings of one name receive the same index; and the texture table is the
sentinel entry followed by entries among which every sighted name occurs exactly once,
under its index. (Counters are 64 bit, so fewer than `2 ^ 64` sightings are taken.) -/
theorem resource_index_stability (t : Transaction) (frags : List (List Core_value))
    (hvalid : ∀ f ∈ frags, ∀ v ∈ f, is_valid_texture t v = true)
    (hlen : frags.flatten.length < SIZE_T_MOD) :
    let names := frags.flatten.map (texture_name t)
    let r := Link_unit.add_all t Link_unit.new (frags.map (List.map Sighting.texture))
    let table := r.1.m_tc_reg.m_texture_table
    r.2.map ILambda_function.mappings = frags.map (List.map (stable_tex_mapping t names)) ∧
    r.2.map (fun l => l.mappings.map Resource_mapping.value) = frags ∧
    r.2.map (fun l => l.mappings.map Resource_mapping.index) =
      frags.map (List.map (fun v => 1 + distinct_before names (texture_name t v))) ∧
    (∀ a ∈ (r.2.map ILambda_function.mappings).flatten,
      ∀ b ∈ (r.2.map ILambda_function.mappings).flatten,
        texture_name t a.value = texture_name t b.value → a.index = b.index) ∧
    table = (if names = [] then [] else texture_sentinel :: table.tail) ∧
    (∀ n ∈ names, table.tail.countP (fun x => decide (x.m_name = n)) = 1) ∧
    (∀ x ∈ table.tail, x.m_name ∈ names ∧ x.m_index = 1 + distinct_before names x.m_name) := by
  intro names r table
  have hmain := add_all_textures t frags [] Link_unit.new
    (by simpa [Link_unit.new, Target_code_register.new] using Tex_inv.initial) hvalid
    (by simpa using hlen)
  simp only [List.nil_append] at hmain
  obtain ⟨hinv, hmap⟩ := hmain
  have hval : ∀ v ∈ frags.flatten, (stable_tex_mapping t names v).value = v ∧
      (stable_tex_mapping t names v).index = 1 + distinct_before names (texture_name t v) := by
    intro v hv
    obtain ⟨f, hf, hvf⟩ := List.mem_flatten.mp hv
    have h1 := hvalid f hf v hvf
    cases h2 : as_IValue_texture v with
    | none => simp [is_valid_texture, h2] at h1
    | some st => simp [stable_tex_mapping, h2, Resource_mapping.value, Resource_mapping.index]
  have hmem : ∀ a ∈ (r.2.map ILambda_function.mappings).flatten,
      ∃ v ∈ frags.flatten, a = stable_tex_mapping t names v := by
    intro a ha
    rw [hmap] at ha
    obtain ⟨l, hl, hal⟩ := List.mem_flatten.mp ha
    obtain ⟨f, hf, rfl⟩ := List.mem_map.mp hl
    obtain ⟨v, hv, rfl⟩ := List.mem_map.mp hal
    exact ⟨v, List.mem_flatten.mpr ⟨f, hf, hv⟩, rfl⟩
  refine ⟨hmap, ?_, ?_, ?_, hinv.table_eq, ?_, ?_⟩
  · have hsplit : r.2.map (fun l => l.mappings.map Resource_mapping.value) =
        (r.2.map ILambda_function.mappings).map (List.map Resource_mapping.value) := by
      rw [List.map_map]
      rfl
    rw [hsplit, hmap, List.map_map]
    conv_rhs => rw [← List.map_id frags]
    apply List.map_congr_left
    intro f hf
    simp only [Function.comp, List.map_map, id]
    conv_rhs => rw [← List.map_id f]
    apply List.map_congr_left
    intro v hv
    exact (hval v (List.mem_flatten.mpr ⟨f, hf, hv⟩)).1
  · have hsplit : r.2.map (fun l => l.mappings.map Resource_mapping.index) =
        (r.2.map ILambda_function.mappings).map (List.map Resource_mapping.index) := by
      rw [List.map_map]
      rfl
    rw [hsplit, hmap, List.map_map]
    apply List.map_congr_left
    intro f hf
    simp only [Function.comp, List.map_map]
    apply List.map_congr_left
    intro v hv
    exact (hval v (List.mem_flatten.mpr ⟨f, hf, hv⟩)).2
  · intro a ha b hb hab
    obtain ⟨v, hv, rfl⟩ := hmem a ha
    obtain ⟨w, hw, rfl⟩ := hmem b hb
    rw [(hval v hv).1, (hval w hw).1] at hab
    rw [(hval v hv).2, (hval w hw).2, hab]
  · intro n hn
    rw [hinv.count_eq n, if_pos hn]
  · intro x hx
    exact ⟨hinv.name_mem x hx, hinv.index_eq x hx⟩

theorem resource_index_stability_witness :
    (∀ f ∈ [[tex_A, tex_B], [tex_A]], ∀ v ∈ f, is_valid_texture example_transaction v = true) ∧
    [[tex_A, tex_B], [tex_A]].flatten.length < SIZE_T_MOD ∧
    (Link_unit.add_all example_transaction Link_unit.new
      ([[tex_A, tex_B], [tex_A]].map (List.map Sighting.texture))).2.map
        (fun l => l.mappings.map Resource_mapping.index) = [[1, 2], [1]] ∧
    (Link_unit.add_all example_transaction Link_unit.new
      ([[tex_A, tex_B], [tex_A]].map (List.map Sighting.texture))).1.m_tc_reg.m_texture_table.map
        (fun x => (x.m_index, x.m_name)) = [(0, ""), (1, "tex_A"), (2, "tex_B")] :=
  ⟨by decide, by decide,
    ((resource_index_stability example_transaction [[tex_A, tex_B], [tex_A]]
      (by decide) (by decide)).2.2.1).trans (by decide),
    by decide⟩

/-! ## Invalid resource sentinel -/

/-- One invalid sighting: both lambda functions receive the mapping to index 0, the map
and the counters stay as they are. -/
theorem visit_invalid (t : Transaction) (e : Function_enumerator) (s : Sighting)
    (h : s.is_invalid t = true) :
    (Function_enumerator.visit t e s).m_lambda.mappings =
        e.m_lambda.mappings ++ [s.invalid_mapping] ∧
      (Function_enumerator.visit t e s).m_additional_lambda =
        e.m_additional_lambda.map
          (fun l => ILambda_function.mk (l.mappings ++ [s.invalid_mapping])) ∧
      (Function_enumerator.visit t e s).m_resource_index_map = e.m_resource_index_map ∧
      (Function_enumerator.visit t e s).m_tex_idx = e.m_tex_idx ∧
      (Function_enumerator.visit t e s).m_lp_idx = e.m_lp_idx ∧
      (Function_enumerator.visit t e s).m_bm_idx = e.m_bm_idx := by
  cases s with
  | texture v =>
    simp only [Sighting.is_invalid] at h
    simp only [Function_enumerator.visit, Function_enumerator.texture, Sighting.invalid_mapping]
    cases hc : as_IValue_texture v with
    | none =>
      by_cases h0 : e.m_register.get_texture_count = 0 <;>
        simp [h0, ILambda_function.map_tex_resource]
    | some st =>
      obtain ⟨shape, tag⟩ := st
      rw [hc] at h
      have hv : (t.get_texture_attributes tag).valid = false := by simpa using h
      by_cases h0 : e.m_register.get_texture_count = 0 <;>
        simp [h0, hv, ILambda_function.map_tex_resource]
  | light_profile v =>
    simp only [Sighting.is_invalid] at h
    simp only [Function_enumerator.visit, Function_enumerator.light_profile,
      Sighting.invalid_mapping]
    cases hc : as_IValue_resource v with
    | none =>
      by_cases h0 : e.m_register.get_light_profile_count = 0 <;>
        simp [h0, ILambda_function.map_lp_resource]
    | some tag =>
      rw [hc] at h
      have hv : (t.get_light_profile_attributes tag).valid = false := by simpa using h
      by_cases h0 : e.m_register.get_light_profile_count = 0 <;>
        simp [h0, hv, ILambda_function.map_lp_resource]
  | bsdf_measurement v =>
    simp only [Sighting.is_invalid] at h
    simp only [Function_enumerator.visit, Function_enumerator.bsdf_measurement,
      Sighting.invalid_mapping]
    cases hc : as_IValue_resource v with
    | none =>
      by_cases h0 : e.m_register.get_bsdf_measurement_count = 0 <;>
        simp [h0, ILambda_function.map_bm_resource]
    | some tag =>
      rw [hc] at h
      have hv : t.get_bsdf_measurement_attributes tag = false := by simpa using h
      by_cases h0 : e.m_register.get_bsdf_measurement_count = 0 <;>
        simp [h0, hv, ILambda_function.map_bm_resource]

/-- C2. Invalid resource sentinel. For every enumerator state and every sequence of
texture, light profile and bsdf measurement sightings, of any length, each of which is
reported invalid by the resource store or is not a resource value of the class the
method casts to: the lambda function, and the additional lambda function if one is
set, receive for every sighting the mapping to index 0 of its kind, and the name to
index map and the three running counters are left unchanged. -/
theorem invalid_resource_sentinel (t : Transaction) (ss : List Sighting) :
    ∀ (e : Function_enumerator), (∀ s ∈ ss, s.is_invalid t = true) →
      (enumerate_resources t e ss).m_lambda.mappings =
          e.m_lambda.mappings ++ ss.map Sighting.invalid_mapping ∧
        (enumerate_resources t e ss).m_lambda.mappings.map Resource_mapping.index =
          e.m_lambda.mappings.map Resource_mapping.index ++ List.replicate ss.length 0 ∧
        (enumerate_resources t e ss).m_additional_lambda =
          e.m_additional_lambda.map
            (fun l => ILambda_function.mk (l.mappings ++ ss.map Sighting.invalid_mapping)) ∧
        (enumerate_resources t e ss).m_resource_index_map = e.m_resource_index_map ∧
        (enumerate_resources t e ss).m_tex_idx = e.m_tex_idx ∧
        (enumerate_resources t e ss).m_lp_idx = e.m_lp_idx ∧
        (enumerate_resources t e ss).m_bm_idx = e.m_bm_idx := by
  have hzero : ∀ l : List Sighting,
      l.map (fun s => s.invalid_mapping.index) = List.replicate l.length 0 := by
    intro l
    induction l with
    | nil => rfl
    | cons x xs ih =>
      rw [List.map_cons, ih, List.length_cons, List.replicate_succ]
      cases x <;> rfl
  induction ss with
  | nil =>
    intro e _
    simp [enumerate_resources]
  | cons s ss ih =>
    intro e h
    obtain ⟨h1, h2, h3, h4, h5, h6⟩ := visit_invalid t e s (h s (List.mem_cons_self _ _))
    obtain ⟨i1, _, i3, i4, i5, i6, i7⟩ :=
      ih (Function_enumerator.visit t e s) (fun x hx => h x (List.mem_cons_of_mem _ hx))
    have hunfold : enumerate_resources t e (s :: ss) =
        enumerate_resources t (Function_enumerator.visit t e s) ss := by
      simp [enumerate_resources]
    rw [hunfold]
    have hall : (enumerate_resources t (Function_enumerator.visit t e s) ss).m_lambda.mappings =
        e.m_lambda.mappings ++ (s :: ss).map Sighting.invalid_mapping := by
      rw [i1, h1]
      simp
    refine ⟨hall, ?_, ?_, ?_, ?_, ?_, ?_⟩
    · rw [hall, List.map_append, List.map_map]
      exact congrArg _ (hzero (s :: ss))
    · rw [i3, h2]
      cases e.m_additional_lambda <;> simp
    · rw [i4, h3]
    · rw [i5, h4]
    · rw [i6, h5]
    · rw [i7, h6]

theorem invalid_resource_sentinel_witness :
    (∀ s ∈ [Sighting.texture tex_invalid, Sighting.texture Core_value.invalid_ref,
        Sighting.light_profile (Core_value.light_profile 9),
        Sighting.bsdf_measurement Core_value.other], s.is_invalid example_transaction = true) ∧
    (enumerate_resources example_transaction
        (Link_unit.new.enumerator (ILambda_function.mk []))
        [Sighting.texture tex_invalid, Sighting.texture Core_value.invalid_ref,
          Sighting.light_profile (Core_value.light_profile 9),
          Sighting.bsdf_measurement Core_value.other]).m_lambda.mappings.map
      Resource_mapping.index = [0, 0, 0, 0] ∧
    (enumerate_resources example_transaction
        (Link_unit.new.enumerator (ILambda_function.mk []))
        [Sighting.texture tex_invalid, Sighting.texture Core_value.invalid_ref,
          Sighting.light_profile (Core_value.light_profile 9),
          Sighting.bsdf_measurement Core_value.other]).m_resource_index_map = some [] :=
  ⟨by decide,
    by
      rw [(invalid_resource_sentinel example_transaction _
        (Link_unit.new.enumerator (ILambda_function.mk [])) (by decide)).1]
      decide,
    by
      rw [(invalid_resource_sentinel example_transaction _
        (Link_unit.new.enumerator (ILambda_function.mk [])) (by decide)).2.2.2.1]
      decide⟩

/-! ## Index 0 of the resource tables -/

theorem texture_register (t : Transaction) (e : Function_enumerator) (v : Core_value) :
    ∃ extra, (Function_enumerator.texture t e v).m_register =
      { e.m_register with
        m_texture_table :=
          (if e.m_register.m_texture_table.length = 0 then
            e.m_register.m_texture_table ++ [texture_sentinel]
           else e.m_register.m_texture_table) ++ extra } := by
  obtain ⟨reg, lam, addl, rmap, ti, li, bi⟩ := e
  obtain ⟨tt, lt, bt⟩ := reg
  simp only [Function_enumerator.texture, Target_code_register.get_texture_count,
    Target_code_register.register_texture, texture_sentinel]
  rcases hc : as_IValue_texture v with _ | ⟨shape, tag⟩
  · exact ⟨[], by by_cases h0 : tt.length = 0 <;> simp [h0]⟩
  · by_cases hv : (t.get_texture_attributes tag).valid = true
    · rcases rmap with _ | m
      · refine ⟨[Texture_entry.mk (size_t_incr ti) (Function_enumerator.resource_to_name t tag)
          (Function_enumerator.get_texture_shape shape)], ?_⟩
        by_cases h0 : tt.length = 0 <;> simp [h0, hv]
      · rcases hf : Resource_index_map.find m (Function_enumerator.resource_to_name t tag)
          with _ | second
        · refine ⟨[Texture_entry.mk (size_t_incr ti)
            (Function_enumerator.resource_to_name t tag)
            (Function_enumerator.get_texture_shape shape)], ?_⟩
          by_cases h0 : tt.length = 0 <;> simp [h0, hv, hf]
        · exact ⟨[], by by_cases h0 : tt.length = 0 <;> simp [h0, hv, hf]⟩
    · exact ⟨[], by by_cases h0 : tt.length = 0 <;> simp [h0, hv]⟩

theorem light_profile_register (t : Transaction) (e : Function_enumerator) (v : Core_value) :
    ∃ extra, (Function_enumerator.light_profile t e v).m_register =
      { e.m_register with
        m_light_profile_table :=
          (if e.m_register.m_light_profile_table.length = 0 then
            e.m_register.m_light_profile_table ++ [Res_entry.mk 0 ""]
           else e.m_register.m_light_profile_table) ++ extra } := by
  obtain ⟨reg, lam, addl, rmap, ti, li, bi⟩ := e
  obtain ⟨tt, lt, bt⟩ := reg
  simp only [Function_enumerator.light_profile, Target_code_register.get_light_profile_count,
    Target_code_register.register_light_profile]
  rcases hc : as_IValue_resource v with _ | tag
  · exact ⟨[], by by_cases h0 : lt.length = 0 <;> simp [h0]⟩
  · by_cases hv : (t.get_light_profile_attributes tag).valid = true
    · rcases rmap with _ | m
      · refine ⟨[Res_entry.mk (size_t_incr li) (Function_enumerator.resource_to_name t tag)], ?_⟩
        by_cases h0 : lt.length = 0 <;> simp [h0, hv]
      · rcases hf : Resource_index_map.find m (Function_enumerator.resource_to_name t tag)
          with _ | second
        · refine ⟨[Res_entry.mk (size_t_incr li)
            (Function_enumerator.resource_to_name t tag)], ?_⟩
          by_cases h0 : lt.length = 0 <;> simp [h0, hv, hf]
        · exact ⟨[], by by_cases h0 : lt.length = 0 <;> simp [h0, hv, hf]⟩
    · exact ⟨[], by by_cases h0 : lt.length = 0 <;> simp [h0, hv]⟩

theorem bsdf_measurement_register (t : Transaction) (e : Function_enumerator)
    (v : Core_value) :
    ∃ extra, (Function_enumerator.bsdf_measurement t e v).m_register =
      { e.m_register with
        m_bsdf_measurement_table :=
          (if e.m_register.m_bsdf_measurement_table.length = 0 then
            e.m_register.m_bsdf_measurement_table ++ [Res_entry.mk 0 ""]
           else e.m_register.m_bsdf_measurement_table) ++ extra } := by
  obtain ⟨reg, lam, addl, rmap, ti, li, bi⟩ := e
  obtain ⟨tt, lt, bt⟩ := reg
  simp only [Function_enumerator.bsdf_measurement,
    Target_code_register.get_bsdf_measurement_count,
    Target_code_register.register_bsdf_measurement]
  rcases hc : as_IValue_resource v with _ | tag
  · exact ⟨[], by by_cases h0 : bt.length = 0 <;> simp [h0]⟩
  · by_cases hv : t.get_bsdf_measurement_attributes tag = true
    · rcases rmap with _ | m
      · refine ⟨[Res_entry.mk (size_t_incr bi) (Function_enumerator.resource_to_name t tag)], ?_⟩
        by_cases h0 : bt.length = 0 <;> simp [h0, hv]
      · rcases hf : Resource_index_map.find m (Function_enumerator.resource_to_name t tag)
          with _ | second
        · refine ⟨[Res_entry.mk (size_t_incr bi)
            (Function_enumerator.resource_to_name t tag)], ?_⟩
          by_cases h0 : bt.length = 0 <;> simp [h0, hv, hf]
        · exact ⟨[], by by_cases h0 : bt.length = 0 <;> simp [h0, hv, hf]⟩
    · exact ⟨[], by by_cases h0 : bt.length = 0 <;> simp [h0, hv]⟩

theorem sentinel_first_grow (seen : Bool) (l extra : List (Nat × String))
    (h : Sentinel_first seen l) :
    Sentinel_first true ((if l.length = 0 then l ++ [(0, "")] else l) ++ extra) := by
  unfold Sentinel_first at *
  cases seen with
  | false =>
    simp only [Bool.false_eq_true, if_false] at h
    subst h
    simp
  | true =>
    simp only [if_true] at h
    cases l with
    | nil => simp at h
    | cons x xs =>
      simp only [List.head?_cons, Option.some.injEq] at h
      subst h
      simp

/-- One callback keeps every table empty until its kind is sighted and headed by the
entry of index 0 from then on. -/
theorem visit_sentinel_first (t : Transaction) (e : Function_enumerator) (s : Sighting)
    (k : Resource_kind) (seen : Bool) (h : Sentinel_first seen (e.m_register.entries k)) :
    Sentinel_first (seen || decide (s.kind = k))
      ((Function_enumerator.visit t e s).m_register.entries k) := by
  cases s with
  | texture v =>
    obtain ⟨extra, hx⟩ := texture_register t e v
    simp only [Function_enumerator.visit, hx]
    cases k with
    | texture =>
      have := sentinel_first_grow seen _ (extra.map (fun x => (x.m_index, x.m_name))) h
      simp only [Sighting.kind, decide_True, Bool.or_true]
      simp only [Target_code_register.entries, List.length_map] at this ⊢
      by_cases h0 : e.m_register.m_texture_table.length = 0 <;>
        simpa [h0, texture_sentinel] using this
    | light_profile => simpa [Sighting.kind, Target_code_register.entries] using h
    | bsdf_measurement => simpa [Sighting.kind, Target_code_register.entries] using h
  | light_profile v =>
    obtain ⟨extra, hx⟩ := light_profile_register t e v
    simp only [Function_enumerator.visit, hx]
    cases k with
    | texture => simpa [Sighting.kind, Target_code_register.entries] using h
    | light_profile =>
      have := sentinel_first_grow seen _ (extra.map (fun x => (x.m_index, x.m_name))) h
      simp only [Sighting.kind, decide_True, Bool.or_true]
      simp only [Target_code_register.entries, List.length_map] at this ⊢
      by_cases h0 : e.m_register.m_light_profile_table.length = 0 <;>
        simpa [h0] using this
    | bsdf_measurement => simpa [Sighting.kind, Target_code_register.entries] using h
  | bsdf_measurement v =>
    obtain ⟨extra, hx⟩ := bsdf_measurement_register t e v
    simp only [Function_enumerator.visit, hx]
    cases k with
    | texture => simpa [Sighting.kind, Target_code_register.entries] using h
    | light_profile => simpa [Sighting.kind, Target_code_register.entries] using h
    | bsdf_measurement =>
      have := sentinel_first_grow seen _ (extra.map (fun x => (x.m_index, x.m_name))) h
      simp only [Sighting.kind, decide_True, Bool.or_true]
      simp only [Target_code_register.entries, List.length_map] at this ⊢
      by_cases h0 : e.m_register.m_bsdf_measurement_table.length = 0 <;>
        simpa [h0] using this

theorem enumerate_sentinel_first (t : Transaction) (k : Resource_kind) (ss : List Sighting) :
    ∀ (e : Function_enumerator) (seen : Bool), Sentinel_first seen (e.m_register.entries k) →
      Sentinel_first (seen || ss.any (fun s => decide (s.kind = k)))
        ((enumerate_resources t e ss).m_register.entries k) := by
  induction ss with
  | nil =>
    intro e seen h
    simpa [enumerate_resources] using h
  | cons s ss ih =>
    intro e seen h
    have h1 := ih _ _ (visit_sentinel_first t e s k seen h)
    simpa [enumerate_resources, Bool.or_assoc] using h1

theorem add_all_sentinel_first (t : Transaction) (k : Resource_kind)
    (frags : List (List Sighting)) :
    ∀ (lu : Link_unit) (seen : Bool), Sentinel_first seen (lu.m_tc_reg.entries k) →
      Sentinel_first (seen || frags.flatten.any (fun s => decide (s.kind = k)))
        ((Link_unit.add_all t lu frags).1.m_tc_reg.entries k) := by
  induction frags with
  | nil =>
    intro lu seen h
    simpa [Link_unit.add_all] using h
  | cons f frags ih =>
    intro lu seen h
    have h1 := enumerate_sentinel_first t k f (lu.enumerator (ILambda_function.mk [])) seen h
    have h2 := ih (Link_unit.add_enumerate t lu (ILambda_function.mk []) f).1 _ h1
    simpa [Link_unit.add_all, Bool.or_assoc] using h2

theorem fill_resource_tables_new (reg : Target_code_register) :
    fill_resource_tables reg Target_code.new =
      Target_code.mk reg.m_texture_table reg.m_light_profile_table
        reg.m_bsdf_measurement_table := by
  have h1 : ∀ (l : List Texture_entry) (c : Target_code),
      l.foldl (fun c entry => c.add_texture_index entry.m_index entry.m_name entry.m_type) c =
        { c with m_texture_table := c.m_texture_table ++ l } := by
    intro l
    induction l with
    | nil => intro c; simp
    | cons x xs ih =>
      intro c
      rw [List.foldl_cons, ih]
      simp [Target_code.add_texture_index]
  have h2 : ∀ (l : List Res_entry) (c : Target_code),
      l.foldl (fun c entry => c.add_light_profile_index entry.m_index entry.m_name) c =
        { c with m_light_profile_table := c.m_light_profile_table ++ l } := by
    intro l
    induction l with
    | nil => intro c; simp
    | cons x xs ih =>
      intro c
      rw [List.foldl_cons, ih]
      simp [Target_code.add_light_profile_index]
  have h3 : ∀ (l : List Res_entry) (c : Target_code),
      l.foldl (fun c entry => c.add_bsdf_measurement_index entry.m_index entry.m_name) c =
        { c with m_bsdf_measurement_table := c.m_bsdf_measurement_table ++ l } := by
    intro l
    induction l with
    | nil => intro c; simp
    | cons x xs ih =>
      intro c
      rw [List.foldl_cons, ih]
      simp [Target_code.add_bsdf_measurement_index]
  simp [fill_resource_tables, h1, h2, h3, Target_code.new]

theorem target_code_entries_fill (reg : Target_code_register) (k : Resource_kind) :
    (fill_resource_tables reg Target_code.new).entries k = reg.entries k := by
  rw [fill_resource_tables_new]
  cases k <;> rfl

/-- C3, as stated, fails. A single-function compile of a fragment without any resource
has no entry at all in its texture table, and a link unit to which one fragment with
the texture `tex_A` was added has no entry at all in its light profile table: in
neither is there an entry with index 0 and empty name. -/
theorem index_zero_absent_when_kind_never_sighted :
    (¬ ∃ x ∈ (translate_resources example_transaction (ILambda_function.mk []) []).1.m_texture_table,
        x.m_index = 0 ∧ x.m_name = "") ∧
    (¬ ∃ x ∈ (Link_unit.add_all example_transaction Link_unit.new
          [[Sighting.texture tex_A]]).1.translate_resources.m_light_profile_table,
        x.m_index = 0 ∧ x.m_name = "") := by
  constructor <;> decide

/-- C3, as amended. For every link unit (fragments added one after the other to a fresh
unit) and every single-function compile, and for each resource kind: if at least one
reference of that kind was enumerated, valid or not, the resource table copied into
the generated artifact starts with an entry of index 0 and empty name; if none was
enumerated, that table is empty. -/
theorem index_zero_present_once_sighted (t : Transaction) (k : Resource_kind) :
    (∀ (frags : List (List Sighting)),
      if frags.flatten.any (fun s => decide (s.kind = k)) = true then
        ((Link_unit.add_all t Link_unit.new frags).1.translate_resources.entries k).head? =
          some (0, "")
      else (Link_unit.add_all t Link_unit.new frags).1.translate_resources.entries k = []) ∧
    (∀ (lambda : ILambda_function) (body : List Sighting),
      if body.any (fun s => decide (s.kind = k)) = true then
        ((translate_resources t lambda body).1.entries k).head? = some (0, "")
      else (translate_resources t lambda body).1.entries k = []) := by
  have h0 : Sentinel_first false (Target_code_register.new.entries k) := by
    cases k <;> simp [Sentinel_first, Target_code_register.new, Target_code_register.entries]
  constructor
  · intro frags
    have h := add_all_sentinel_first t k frags Link_unit.new false h0
    rw [Bool.false_or] at h
    simpa [Link_unit.translate_resources, target_code_entries_fill, Sentinel_first] using h
  · intro lambda body
    have h := enumerate_sentinel_first t k body
      (Function_enumerator.new Target_code_register.new lambda) false h0
    rw [Bool.false_or] at h
    simpa [translate_resources, target_code_entries_fill, Sentinel_first] using h

/-! ## Single-function compiles do not deduplicate -/

/-- C4, as stated, fails. In a single-function compile, two sightings of the valid
texture `tex_A` receive the indices 1 and 2, and the name is registered twice. -/
theorem one_shot_same_name_two_indices :
    (translate_resources example_transaction (ILambda_function.mk [])
        [Sighting.texture tex_A, Sighting.texture tex_A]).2.mappings.map
      Resource_mapping.index = [1, 2] ∧
    (translate_resources example_transaction (ILambda_function.mk [])
        [Sighting.texture tex_A, Sighting.texture tex_A]).1.m_texture_table.map
      (fun x => (x.m_index, x.m_name)) = [(0, ""), (1, "tex_A"), (2, "tex_A")] := by
  constructor <;> decide

/-- One valid texture sighting of an enumerator without a name map: the counter is
incremented, the new index is registered and handed to the lambda function. -/
theorem texture_step_no_map (t : Transaction) (e : Function_enumerator) (v : Core_value)
    (hm : e.m_resource_index_map = none) (hv : is_valid_texture t v = true)
    (hlen : e.m_tex_idx + 1 < SIZE_T_MOD) :
    (Function_enumerator.texture t e v).m_resource_index_map = none ∧
      (Function_enumerator.texture t e v).m_tex_idx = e.m_tex_idx + 1 ∧
      (Function_enumerator.texture t e v).m_register.m_texture_table =
        (if e.m_register.m_texture_table.length = 0 then
          e.m_register.m_texture_table ++ [texture_sentinel]
         else e.m_register.m_texture_table) ++ [texture_entry t (e.m_tex_idx + 1) v] ∧
      (Function_enumerator.texture t e v).m_lambda.mappings.map Resource_mapping.index =
        e.m_lambda.mappings.map Resource_mapping.index ++ [e.m_tex_idx + 1] := by
  obtain ⟨reg, lam, addl, rmap, ti, li, bi⟩ := e
  obtain ⟨tt, lt, bt⟩ := reg
  simp only at hm hlen
  subst hm
  have hincr : size_t_incr ti = ti + 1 := size_t_incr_of_lt ti hlen
  rcases hc : as_IValue_texture v with _ | ⟨shape, tag⟩
  · simp [is_valid_texture, hc] at hv
  · have ha : (t.get_texture_attributes tag).valid = true := by
      simpa [is_valid_texture, hc] using hv
    by_cases h0 : tt.length = 0 <;>
      simp [Function_enumerator.texture, hc, ha, hincr, h0, texture_entry, texture_sentinel,
        Target_code_register.get_texture_count, Target_code_register.register_texture,
        ILambda_function.map_tex_resource, Resource_mapping.index]

theorem enumerate_textures_no_map (t : Transaction) (vs : List Core_value) :
    ∀ (e : Function_enumerator), e.m_resource_index_map = none →
      (∀ v ∈ vs, is_valid_texture t v = true) →
      e.m_tex_idx + vs.length < SIZE_T_MOD →
      (enumerate_resources t e (vs.map Sighting.texture)).m_register.m_texture_table =
        (if vs = [] then e.m_register.m_texture_table
         else (if e.m_register.m_texture_table.length = 0 then
            e.m_register.m_texture_table ++ [texture_sentinel]
           else e.m_register.m_texture_table) ++
          List.zipWith (texture_entry t) (List.range' (e.m_tex_idx + 1) vs.length) vs) ∧
      (enumerate_resources t e (vs.map Sighting.texture)).m_lambda.mappings.map
          Resource_mapping.index =
        e.m_lambda.mappings.map Resource_mapping.index ++
          List.range' (e.m_tex_idx + 1) vs.length := by
  induction vs with
  | nil =>
    intro e _ _ _
    simp [enumerate_resources]
  | cons v vs ih =>
    intro e hm hvalid hlen
    have hlen' : e.m_tex_idx + (vs.length + 1) < SIZE_T_MOD := by simpa using hlen
    obtain ⟨s1, s2, s3, s4⟩ := texture_step_no_map t e v hm
      (hvalid v (List.mem_cons_self _ _)) (by omega)
    obtain ⟨i1, i2⟩ := ih (Function_enumerator.texture t e v) s1
      (fun w hw => hvalid w (List.mem_cons_of_mem _ hw)) (by rw [s2]; omega)
    have hunfold : enumerate_resources t e ((v :: vs).map Sighting.texture) =
        enumerate_resources t (Function_enumerator.texture t e v)
          (vs.map Sighting.texture) := by
      simp [enumerate_resources, Function_enumerator.visit]
    rw [hunfold, i1, i2, s2, s3, s4]
    constructor
    · by_cases hvs : vs = []
      · subst hvs
        simp
      · simp [hvs, List.range'_succ]
    · simp [List.range'_succ]

/-- C4, as amended. In a single-function compile (an enumerator without a name map),
every sighting of a valid texture receives the next unused positive index, whether its
name was sighted before or not: the sightings receive 1, 2, ..., n in order, and every
sighting is registered in the texture table under its own index, after the sentinel.
(Counters are 64 bit, so fewer than `2 ^ 64` sightings are taken.) -/
theorem one_shot_fresh_index_per_sighting (t : Transaction) (lambda : ILambda_function)
    (vs : List Core_value) (hvalid : ∀ v ∈ vs, is_valid_texture t v = true)
    (hlen : vs.length < SIZE_T_MOD) :
    (translate_resources t lambda (vs.map Sighting.texture)).2.mappings.map
        Resource_mapping.index =
      lambda.mappings.map Resource_mapping.index ++ List.range' 1 vs.length ∧
    (translate_resources t lambda (vs.map Sighting.texture)).1.m_texture_table =
      (if vs = [] then []
       else texture_sentinel :: List.zipWith (texture_entry t) (List.range' 1 vs.length) vs) := by
  obtain ⟨h1, h2⟩ := enumerate_textures_no_map t vs
    (Function_enumerator.new Target_code_register.new lambda) rfl hvalid
    (by simpa [Function_enumerator.new] using hlen)
  constructor
  · simpa [translate_resources, Function_enumerator.new] using h2
  · simp only [translate_resources, fill_resource_tables_new]
    rw [h1]
    simp [Function_enumerator.new, Target_code_register.new]

theorem one_shot_fresh_index_per_sighting_witness :
    (∀ v ∈ [tex_A, tex_A], is_valid_texture example_transaction v = true) ∧
    [tex_A, tex_A].length < SIZE_T_MOD ∧
    (translate_resources example_transaction (ILambda_function.mk [])
        ([tex_A, tex_A].map Sighting.texture)).2.mappings.map Resource_mapping.index =
      [1, 2] :=
  ⟨by decide, by decide,
    (one_shot_fresh_index_per_sighting example_transaction (ILambda_function.mk [])
      [tex_A, tex_A] (by decide) (by decide)).1⟩

/-! ## Additional lambdas -/

/-- For a texture, valid or not, the additional lambda receives the very mapping that
the main lambda receives. -/
theorem texture_additional_lambda_same_mapping (t : Transaction) (e : Function_enumerator)
    (v : Core_value) (l : ILambda_function) (h : e.m_additional_lambda = some l) :
    ∃ m : Resource_mapping,
      (Function_enumerator.texture t e v).m_lambda.mappings = e.m_lambda.mappings ++ [m] ∧
      (Function_enumerator.texture t e v).m_additional_lambda =
        some (ILambda_function.mk (l.mappings ++ [m])) := by
  obtain ⟨reg, lam, addl, rmap, ti, li, bi⟩ := e
  simp only at h
  subst h
  simp only [Function_enumerator.texture, ILambda_function.map_tex_resource]
  rcases hc : as_IValue_texture v with _ | ⟨shape, tag⟩
  · exact ⟨Resource_mapping.tex v 0 false 0 0 0,
      by by_cases h0 : reg.get_texture_count = 0 <;> simp [h0]⟩
  · by_cases hv : (t.get_texture_attributes tag).valid = true
    · rcases rmap with _ | m
      · exact ⟨Resource_mapping.tex v (size_t_incr ti) true
          (t.get_texture_attributes tag).width (t.get_texture_attributes tag).height
          (t.get_texture_attributes tag).depth,
          by by_cases h0 : reg.get_texture_count = 0 <;> simp [h0, hv]⟩
      · rcases hf : Resource_index_map.find m (Function_enumerator.resource_to_name t tag)
          with _ | second
        · exact ⟨Resource_mapping.tex v (size_t_incr ti) true
            (t.get_texture_attributes tag).width (t.get_texture_attributes tag).height
            (t.get_texture_attributes tag).depth,
            by by_cases h0 : reg.get_texture_count = 0 <;> simp [h0, hv, hf]⟩
        · exact ⟨Resource_mapping.tex v second true
            (t.get_texture_attributes tag).width (t.get_texture_attributes tag).height
            (t.get_texture_attributes tag).depth,
            by by_cases h0 : reg.get_texture_count = 0 <;> simp [h0, hv, hf]⟩
    · exact ⟨Resource_mapping.tex v 0 false 0 0 0,
        by by_cases h0 : reg.get_texture_count = 0 <;> simp [h0, hv]⟩

/-- C5. The code at the failing input: a distribution function whose main lambda has no
resources and whose one expression lambda references the valid light profile `lp_A` and
the valid bsdf measurement `bm_A`. The main lambda receives index 1 for both, the
expression lambda (the additional lambda) receives index 0 for both. -/
theorem additional_lambda_receives_stale_counter :
    translate_material_df_resources example_transaction (ILambda_function.mk []) []
        [(ILambda_function.mk [], [Sighting.light_profile lp_A, Sighting.bsdf_measurement bm_A])] =
      (ILambda_function.mk
          [Resource_mapping.lp lp_A 1 true 1 2, Resource_mapping.bm bm_A 1 true],
        [ILambda_function.mk
          [Resource_mapping.lp lp_A 0 true 1 2, Resource_mapping.bm bm_A 0 true]]) := by
  decide

/-! ## Const function compiles number the sightings from 0 -/

/-- C6, as stated, fails. The first texture that `compile_into_const_function`
enumerates is mapped to index 0 although the attribute interface reports it valid. -/
theorem const_function_valid_resource_at_index_zero :
    (Sighting.texture tex_A).const_valid example_attr = true ∧
    (compile_into_const_function_resources example_attr (ILambda_function.mk [])
      [Sighting.texture tex_A]).mappings = [Resource_mapping.tex tex_A 0 true 4 4 1] := by
  constructor <;> decide

theorem count_kind_snoc (pre : List Sighting) (s : Sighting) (k : Resource_kind) :
    count_kind (pre ++ [s]) k = count_kind pre k + (if s.kind = k then 1 else 0) := by
  unfold count_kind
  rw [List.countP_append]
  by_cases h : s.kind = k <;> simp [h]

theorem count_kind_le (pre : List Sighting) (k : Resource_kind) :
    count_kind pre k ≤ pre.length := List.countP_le_length _

theorem const_visit (attr : ILambda_resource_attribute) (pre : List Sighting)
    (e : Const_function_enumerator) (s : Sighting)
    (ht : e.m_tex_idx = count_kind pre Resource_kind.texture)
    (hl : e.m_lp_idx = count_kind pre Resource_kind.light_profile)
    (hb : e.m_bm_idx = count_kind pre Resource_kind.bsdf_measurement)
    (hlen : pre.length + 1 < SIZE_T_MOD) :
    (Const_function_enumerator.visit attr e s).m_tex_idx =
        count_kind (pre ++ [s]) Resource_kind.texture ∧
      (Const_function_enumerator.visit attr e s).m_lp_idx =
        count_kind (pre ++ [s]) Resource_kind.light_profile ∧
      (Const_function_enumerator.visit attr e s).m_bm_idx =
        count_kind (pre ++ [s]) Resource_kind.bsdf_measurement ∧
      (Const_function_enumerator.visit attr e s).m_lambda.mappings.map Resource_mapping.index =
        e.m_lambda.mappings.map Resource_mapping.index ++ [count_kind pre s.kind] ∧
      (Const_function_enumerator.visit attr e s).m_lambda.mappings.map Resource_mapping.value =
        e.m_lambda.mappings.map Resource_mapping.value ++ [s.value] := by
  have h1 := count_kind_le pre Resource_kind.texture
  have h2 := count_kind_le pre Resource_kind.light_profile
  have h3 := count_kind_le pre Resource_kind.bsdf_measurement
  cases s with
  | texture v =>
    have hi : size_t_incr e.m_tex_idx = e.m_tex_idx + 1 := size_t_incr_of_lt _ (by omega)
    rw [ht] at hi
    simp [Const_function_enumerator.visit, Const_function_enumerator.texture, count_kind_snoc,
      Sighting.kind, Sighting.value, hi, ht, hl, hb, ILambda_function.map_tex_resource,
      Resource_mapping.index, Resource_mapping.value]
  | light_profile v =>
    have hi : size_t_incr e.m_lp_idx = e.m_lp_idx + 1 := size_t_incr_of_lt _ (by omega)
    rw [hl] at hi
    simp [Const_function_enumerator.visit, Const_function_enumerator.light_profile,
      count_kind_snoc, Sighting.kind, Sighting.value, hi, ht, hl, hb,
      ILambda_function.map_lp_resource, Resource_mapping.index, Resource_mapping.value]
  | bsdf_measurement v =>
    have hi : size_t_incr e.m_bm_idx = e.m_bm_idx + 1 := size_t_incr_of_lt _ (by omega)
    rw [hb] at hi
    simp [Const_function_enumerator.visit, Const_function_enumerator.bsdf_measurement,
      count_kind_snoc, Sighting.kind, Sighting.value, hi, ht, hl, hb,
      ILambda_function.map_bm_resource, Resource_mapping.index, Resource_mapping.value]

theorem const_fold (attr : ILambda_resource_attribute) (ss : List Sighting) :
    ∀ (pre : List Sighting) (e : Const_function_enumerator),
      e.m_tex_idx = count_kind pre Resource_kind.texture →
      e.m_lp_idx = count_kind pre Resource_kind.light_profile →
      e.m_bm_idx = count_kind pre Resource_kind.bsdf_measurement →
      pre.length + ss.length < SIZE_T_MOD →
      (ss.foldl (Const_function_enumerator.visit attr) e).m_lambda.mappings.map
          Resource_mapping.index =
        e.m_lambda.mappings.map Resource_mapping.index ++ position_in_kind pre ss ∧
      (ss.foldl (Const_function_enumerator.visit attr) e).m_lambda.mappings.map
          Resource_mapping.value =
        e.m_lambda.mappings.map Resource_mapping.value ++ ss.map Sighting.value := by
  induction ss with
  | nil =>
    intro pre e _ _ _ _
    simp [position_in_kind]
  | cons s ss ih =>
    intro pre e ht hl hb hlen
    have hlen' : pre.length + (ss.length + 1) < SIZE_T_MOD := by simpa using hlen
    obtain ⟨v1, v2, v3, v4, v5⟩ := const_visit attr pre e s ht hl hb (by omega)
    obtain ⟨i1, i2⟩ := ih (pre ++ [s]) (Const_function_enumerator.visit attr e s) v1 v2 v3
      (by simp only [List.length_append, List.length_singleton]; omega)
    rw [List.foldl_cons, i1, i2, v4, v5]
    simp [position_in_kind]

theorem position_in_kind_nth (pre a : List Sighting) (s : Sighting) (post : List Sighting) :
    (position_in_kind pre (a ++ s :: post)).get? a.length = some (count_kind (pre ++ a) s.kind) := by
  induction a generalizing pre with
  | nil => simp [position_in_kind]
  | cons x xs ih =>
    have := ih (pre ++ [x])
    simpa [position_in_kind] using this

/-- C6, as amended. During the resource enumeration of `compile_into_const_function`
every sighting, valid or not, is mapped to the number of sightings of its own kind made
before it: the sightings of each kind are numbered 0, 1, 2, ... in order. So a
resource reported valid is mapped to index 0 exactly when it is the first sighting of
its kind, and to a non-zero index otherwise. (Counters are 64 bit, so fewer than
`2 ^ 64` sightings are taken.) -/
theorem const_function_index_is_position_in_kind (attr : ILambda_resource_attribute)
    (body : List Sighting) (hlen : body.length < SIZE_T_MOD) :
    (compile_into_const_function_resources attr (ILambda_function.mk []) body).mappings.map
        Resource_mapping.value = body.map Sighting.value ∧
    (compile_into_const_function_resources attr (ILambda_function.mk []) body).mappings.map
        Resource_mapping.index = position_in_kind [] body ∧
    (∀ (pre : List Sighting) (s : Sighting) (post : List Sighting), body = pre ++ s :: post →
      ((compile_into_const_function_resources attr (ILambda_function.mk []) body).mappings.map
          Resource_mapping.index).get? pre.length = some (count_kind pre s.kind) ∧
      (count_kind pre s.kind = 0 ↔ ∀ s' ∈ pre, s'.kind ≠ s.kind)) := by
  obtain ⟨h1, h2⟩ := const_fold attr body [] (Const_function_enumerator.new (ILambda_function.mk []))
    rfl rfl rfl (by simpa using hlen)
  have h1' : (compile_into_const_function_resources attr (ILambda_function.mk []) body).mappings.map
      Resource_mapping.index = position_in_kind [] body := by
    simpa [compile_into_const_function_resources, Const_function_enumerator.new] using h1
  refine ⟨?_, h1', ?_⟩
  · simpa [compile_into_const_function_resources, Const_function_enumerator.new] using h2
  · intro pre s post hbody
    constructor
    · rw [h1', hbody]
      simpa using position_in_kind_nth [] pre s post
    · unfold count_kind
      rw [List.countP_eq_zero]
      simp

theorem const_function_index_is_position_in_kind_witness :
    [Sighting.texture tex_A, Sighting.light_profile lp_A, Sighting.texture tex_B].length
      < SIZE_T_MOD ∧
    (compile_into_const_function_resources example_attr (ILambda_function.mk [])
      [Sighting.texture tex_A, Sighting.light_profile lp_A, Sighting.texture tex_B]).mappings.map
        Resource_mapping.index = [0, 0, 1] :=
  ⟨by decide,
    (const_function_index_is_position_in_kind example_attr
      [Sighting.texture tex_A, Sighting.light_profile lp_A, Sighting.texture tex_B]
      (by decide)).2.1.trans (by decide)⟩

/-! ## Value packing: kind mismatch -/

/-- Both overloads reject a value whose kind is not the kind of the layout node, before
any store. -/
theorem set_value_of_kind_ne (L : Target_value_layout) (block : Block) (value : IValue)
    (cb : ITarget_resource_callback) (cbi : ITarget_resource_callback_internal)
    (state : Target_value_layout_state)
    (h : value.get_kind ≠ (L.get_layout state).1) :
    L.set_value block (some value) (some cb) state = (-3, block) ∧
    L.set_value_internal block (some value) (some cbi) state = (-3, block) := by
  constructor
  · simp only [Target_value_layout.set_value]
    unfold Target_value_layout.set_value_at
    simp [h]
  · simp only [Target_value_layout.set_value_internal]
    unfold Target_value_layout.set_value_internal_at
    simp [h]

/-- C7. Kind mismatch is rejected. For both `set_value` overloads, every block, value
and callback (none of them NULL) and every layout state: if the kind of the value
differs from the kind that `get_layout` reports at the state, `set_value` returns -3
and the block is left as it was. -/
theorem set_value_kind_mismatch (L : Target_value_layout) (block : Block) (value : IValue)
    (cb : ITarget_resource_callback) (cbi : ITarget_resource_callback_internal)
    (state : Target_value_layout_state)
    (h : value.get_kind ≠ (L.get_layout state).1) :
    L.set_value block (some value) (some cb) state = (-3, block) ∧
    L.set_value_internal block (some value) (some cbi) state = (-3, block) :=
  set_value_of_kind_ne L block value cb cbi state h

theorem set_value_kind_mismatch_witness :
    (IValue.float 5).get_kind ≠
      ((example_layout false).get_layout (Target_value_layout_state.mk 1 0)).1 ∧
    (example_layout false).set_value zero_block (some (IValue.float 5))
      (some example_callback) (Target_value_layout_state.mk 1 0) = (-3, zero_block) ∧
    (example_layout false).set_value_internal zero_block (some (IValue.float 5))
      (some example_callback_internal) (Target_value_layout_state.mk 1 0) = (-3, zero_block) :=
  ⟨by decide,
    set_value_kind_mismatch (example_layout false) zero_block (IValue.float 5)
      example_callback example_callback_internal (Target_value_layout_state.mk 1 0)
      (by decide)⟩

/-! ## Value packing: compound values -/

/-- A loop that writes the elements in order and stops at the first error: it returns 0
iff every element returns 0, on success the block is the one with all elements written
in order, and on failure the result is that of the first element that fails. -/
theorem element_loop_spec (set_child : Block → IValue → Nat → Int × Block)
    (loop : Block → List IValue → Nat → Int × Block)
    (hnil : ∀ b i, loop b [] i = (0, b))
    (hcons : ∀ b v rest i, loop b (v :: rest) i =
      if (set_child b v i).1 ≠ 0 then set_child b v i else loop (set_child b v i).2 rest (i + 1))
    (elems : List IValue) :
    ∀ (block : Block) (i : Nat),
      ((loop block elems i).1 = 0 ↔
        ∀ pre c post, elems = pre ++ c :: post →
          (set_child (written_in_order set_child block pre i) c (i + pre.length)).1 = 0) ∧
      ((loop block elems i).1 = 0 →
        (loop block elems i).2 = written_in_order set_child block elems i) ∧
      (∀ pre c post, elems = pre ++ c :: post →
        (∀ pre' c' post', pre = pre' ++ c' :: post' →
          (set_child (written_in_order set_child block pre' i) c' (i + pre'.length)).1 = 0) →
        (set_child (written_in_order set_child block pre i) c (i + pre.length)).1 ≠ 0 →
        loop block elems i =
          set_child (written_in_order set_child block pre i) c (i + pre.length)) := by
  induction elems with
  | nil =>
    intro block i
    refine ⟨?_, ?_, ?_⟩
    · simp [hnil]
    · intro _
      simp [hnil, written_in_order]
    · intro pre c post h
      simp at h
  | cons x xs ih =>
    intro block i
    obtain ⟨ih1, ih2, ih3⟩ := ih (set_child block x i).2 (i + 1)
    by_cases hx : (set_child block x i).1 = 0
    · have hloop : loop block (x :: xs) i = loop (set_child block x i).2 xs (i + 1) := by
        rw [hcons]
        simp [hx]
      rw [hloop]
      refine ⟨?_, ?_, ?_⟩
      · rw [ih1]
        constructor
        · intro h pre c post hdec
          cases pre with
          | nil =>
            simp only [List.nil_append, List.cons.injEq] at hdec
            obtain ⟨rfl, _⟩ := hdec
            simpa [written_in_order] using hx
          | cons p pre' =>
            simp only [List.cons_append, List.cons.injEq] at hdec
            obtain ⟨rfl, hxs⟩ := hdec
            have := h pre' c post hxs
            simpa [written_in_order, Nat.add_assoc, Nat.add_comm 1] using this
        · intro h pre c post hdec
          have := h (x :: pre) c post (by simp [hdec])
          simpa [written_in_order, Nat.add_assoc, Nat.add_comm 1] using this
      · intro h
        rw [ih2 h]
        simp [written_in_order]
      · intro pre c post hdec hbefore hfail
        cases pre with
        | nil =>
          simp only [List.nil_append, List.cons.injEq] at hdec
          obtain ⟨rfl, _⟩ := hdec
          simp [written_in_order] at hfail
          exact absurd hx hfail
        | cons p pre' =>
          simp only [List.cons_append, List.cons.injEq] at hdec
          obtain ⟨rfl, hxs⟩ := hdec
          have h3 := ih3 pre' c post hxs
            (by
              intro pre'' c'' post'' hd
              have := hbefore (x :: pre'') c'' post'' (by simp [hd])
              simpa [written_in_order, Nat.add_assoc, Nat.add_comm 1] using this)
            (by simpa [written_in_order, Nat.add_assoc, Nat.add_comm 1] using hfail)
          rw [h3]
          simp [written_in_order, Nat.add_assoc, Nat.add_comm 1]
    · have hloop : loop block (x :: xs) i = set_child block x i := by
        rw [hcons]
        simp [hx]
      rw [hloop]
      refine ⟨?_, ?_, ?_⟩
      · constructor
        · intro h
          exact absurd h hx
        · intro h
          have := h [] x xs rfl
          simpa [written_in_order] using this
      · intro h
        exact absurd h hx
      · intro pre c post hdec hbefore hfail
        cases pre with
        | nil =>
          simp only [List.nil_append, List.cons.injEq] at hdec
          obtain ⟨rfl, _⟩ := hdec
          simp [written_in_order]
        | cons p pre' =>
          simp only [List.cons_append, List.cons.injEq] at hdec
          obtain ⟨rfl, _⟩ := hdec
          have := hbefore [] x pre' rfl
          simp [written_in_order] at this
          exact absurd this hx

theorem set_value_at_compound (L : Target_value_layout) (cb : ITarget_resource_callback)
    (block : Block) (value : IValue) (elems : List IValue) (state : Target_value_layout_state)
    (hc : value.elements = some elems) (hk : value.get_kind = (L.get_layout state).1) :
    L.set_value_at cb block value state =
      if elems.length ≠ L.get_num_elements state then (-4, block)
      else Target_value_layout.set_value_at.set_elements L cb state block elems 0 := by
  cases value <;> simp only [IValue.elements, Option.some.injEq, reduceCtorEq] at hc <;>
    subst hc <;> unfold Target_value_layout.set_value_at <;>
    simp only [ne_eq, hk, not_true_eq_false, if_false]

theorem set_value_internal_at_compound (L : Target_value_layout)
    (cb : ITarget_resource_callback_internal)
    (block : Block) (value : IValue) (elems : List IValue) (state : Target_value_layout_state)
    (hc : value.elements = some elems) (hk : value.get_kind = (L.get_layout state).1) :
    L.set_value_internal_at cb block value state =
      if elems.length ≠ L.get_num_elements state then (-4, block)
      else Target_value_layout.set_value_internal_at.set_elements_internal L cb state block
        elems 0 := by
  cases value <;> simp only [IValue.elements, Option.some.injEq, reduceCtorEq] at hc <;>
    subst hc <;> unfold Target_value_layout.set_value_internal_at <;>
    simp only [ne_eq, hk, not_true_eq_false, if_false]

/-- C8. Compound child-count check. For both `set_value` overloads and every compound
value (vector, matrix, array, color, struct) whose kind matches the layout node: if the
number of elements of the value differs from `get_num_elements` at the state,
`set_value` returns -4 and the block is left as it was. If the numbers are equal,
`set_value` writes element `i` at `get_nested_state(i, state)` for `i = 0, 1, ...` in
order: it returns 0 iff every element returns 0 (each written into the block its
predecessors left); when it returns 0, the block is the one in which all elements were
written in order; and when an element fails, the result is the error code and block of
the first element that fails. -/
theorem compound_child_count_check (L : Target_value_layout) (block : Block)
    (value : IValue) (elems : List IValue)
    (cb : ITarget_resource_callback) (cbi : ITarget_resource_callback_internal)
    (state : Target_value_layout_state)
    (hc : value.elements = some elems) (hk : value.get_kind = (L.get_layout state).1) :
    (elems.length ≠ L.get_num_elements state →
      L.set_value block (some value) (some cb) state = (-4, block) ∧
      L.set_value_internal block (some value) (some cbi) state = (-4, block)) ∧
    (elems.length = L.get_num_elements state →
      (let set_child : Block → IValue → Nat → Int × Block :=
          fun b v j => L.set_value b (some v) (some cb) (L.get_nested_state j state)
        let r := L.set_value block (some value) (some cb) state
        (r.1 = 0 ↔
          ∀ pre c post, elems = pre ++ c :: post →
            (set_child (written_in_order set_child block pre 0) c pre.length).1 = 0) ∧
        (r.1 = 0 → r.2 = written_in_order set_child block elems 0) ∧
        (∀ pre c post, elems = pre ++ c :: post →
          (∀ pre' c' post', pre = pre' ++ c' :: post' →
            (set_child (written_in_order set_child block pre' 0) c' pre'.length).1 = 0) →
          (set_child (written_in_order set_child block pre 0) c pre.length).1 ≠ 0 →
          r = set_child (written_in_order set_child block pre 0) c pre.length)) ∧
      (let set_child : Block → IValue → Nat → Int × Block :=
          fun b v j => L.set_value_internal b (some v) (some cbi) (L.get_nested_state j state)
        let r := L.set_value_internal block (some value) (some cbi) state
        (r.1 = 0 ↔
          ∀ pre c post, elems = pre ++ c :: post →
            (set_child (written_in_order set_child block pre 0) c pre.length).1 = 0) ∧
        (r.1 = 0 → r.2 = written_in_order set_child block elems 0) ∧
        (∀ pre c post, elems = pre ++ c :: post →
          (∀ pre' c' post', pre = pre' ++ c' :: post' →
            (set_child (written_in_order set_child block pre' 0) c' pre'.length).1 = 0) →
          (set_child (written_in_order set_child block pre 0) c pre.length).1 ≠ 0 →
          r = set_child (written_in_order set_child block pre 0) c pre.length))) := by
  constructor
  · intro hne
    constructor
    · simp only [Target_value_layout.set_value]
      rw [set_value_at_compound L cb block value elems state hc hk, if_pos hne]
    · simp only [Target_value_layout.set_value_internal]
      rw [set_value_internal_at_compound L cbi block value elems state hc hk, if_pos hne]
  · intro heq
    constructor
    · intro set_child r
      have hspec := element_loop_spec set_child
        (fun b l i => Target_value_layout.set_value_at.set_elements L cb state b l i)
        (by intro b i; simp [Target_value_layout.set_value_at.set_elements])
        (by
          intro b v rest i
          simp only [set_child, Target_value_layout.set_value]
          rw [Target_value_layout.set_value_at.set_elements])
        elems block 0
      have hr : r = Target_value_layout.set_value_at.set_elements L cb state block elems 0 := by
        simp only [r, Target_value_layout.set_value]
        rw [set_value_at_compound L cb block value elems state hc hk, if_neg (not_not.mpr heq)]
      rw [hr]
      simpa using hspec
    · intro set_child r
      have hspec := element_loop_spec set_child
        (fun b l i =>
          Target_value_layout.set_value_internal_at.set_elements_internal L cbi state b l i)
        (by intro b i; simp [Target_value_layout.set_value_internal_at.set_elements_internal])
        (by
          intro b v rest i
          simp only [set_child, Target_value_layout.set_value_internal]
          rw [Target_value_layout.set_value_internal_at.set_elements_internal])
        elems block 0
      have hr : r = Target_value_layout.set_value_internal_at.set_elements_internal L cbi state
          block elems 0 := by
        simp only [r, Target_value_layout.set_value_internal]
        rw [set_value_internal_at_compound L cbi block value elems state hc hk,
          if_neg (not_not.mpr heq)]
      rw [hr]
      simpa using hspec

theorem compound_child_count_check_witness :
    (IValue.struct [IValue.int 5]).elements = some [IValue.int 5] ∧
    (IValue.struct [IValue.int 5]).get_kind =
      ((example_layout false).get_layout (Target_value_layout_state.mk 0 0)).1 ∧
    [IValue.int 5].length ≠
      (example_layout false).get_num_elements (Target_value_layout_state.mk 0 0) ∧
    (example_layout false).set_value zero_block (some (IValue.struct [IValue.int 5]))
      (some example_callback) (Target_value_layout_state.mk 0 0) = (-4, zero_block) ∧
    [IValue.int 5, IValue.texture 1].length =
      (example_layout false).get_num_elements (Target_value_layout_state.mk 0 0) ∧
    ((example_layout false).set_value zero_block
        (some (IValue.struct [IValue.int 5, IValue.texture 1]))
        (some example_callback) (Target_value_layout_state.mk 0 0)).1 = 0 ∧
    ((example_layout false).set_value zero_block
        (some (IValue.struct [IValue.int 5, IValue.texture 1]))
        (some example_callback) (Target_value_layout_state.mk 0 0)).2 =
      written_in_order
        (fun b v j => (example_layout false).set_value b (some v) (some example_callback)
          ((example_layout false).get_nested_state j (Target_value_layout_state.mk 0 0)))
        zero_block [IValue.int 5, IValue.texture 1] 0 :=
  ⟨rfl, by decide, by decide,
    ((compound_child_count_check (example_layout false) zero_block
      (IValue.struct [IValue.int 5]) [IValue.int 5] example_callback
      example_callback_internal (Target_value_layout_state.mk 0 0) rfl (by decide)).1
        (by decide)).1,
    by decide, by decide,
    ((compound_child_count_check (example_layout false) zero_block
      (IValue.struct [IValue.int 5, IValue.texture 1]) [IValue.int 5, IValue.texture 1]
      example_callback example_callback_internal (Target_value_layout_state.mk 0 0) rfl
      (by decide)).2 (by decide)).1.2.1 (by decide)⟩

/-! ## Value packing: stores read back -/

theorem write_bytes_below (bytes : List Nat) :
    ∀ (block : Block) (offs a : Nat), a < offs → write_bytes block offs bytes a = block a := by
  induction bytes with
  | nil =>
    intro block offs a _
    rfl
  | cons b rest ih =>
    intro block offs a h
    rw [write_bytes, ih _ _ _ (by omega)]
    exact Function.update_noteq (by omega) _ _

theorem read_le_write_bytes (count : Nat) :
    ∀ (n : Nat) (block : Block) (offs : Nat),
      read_le (write_bytes block offs (le_bytes n count)) offs count = n % 256 ^ count := by
  induction count with
  | zero =>
    intro n block offs
    simp [read_le, Nat.mod_one]
  | succ k ih =>
    intro n block offs
    rw [le_bytes, write_bytes, read_le, ih, write_bytes_below _ _ _ _ (by omega),
      Function.update_same, pow_succ', Nat.mod_mul]

theorem read_store_bool (block : Block) (offs : Nat) (b : Bool) :
    read_le (store_bool block offs b) offs 1 = if b then 1 else 0 := by
  cases b <;> simp [store_bool, read_le, write_bytes]

theorem read_store_Sint32 (block : Block) (offs : Nat) (i : Int) :
    read_le (store_Sint32 block offs i) offs 4 = (i % 2 ^ 32).toNat := by
  unfold store_Sint32
  rw [read_le_write_bytes]
  have h1 : (0 : Int) ≤ i % 2 ^ 32 := Int.emod_nonneg _ (by norm_num)
  have h2 : i % 2 ^ 32 < 2 ^ 32 := Int.emod_lt_of_pos _ (by norm_num)
  apply Nat.mod_eq_of_lt
  omega

theorem read_store_Uint32 (block : Block) (offs : Nat) (n : Nat) (h : n < 2 ^ 32) :
    read_le (store_Uint32 block offs n) offs 4 = n := by
  unfold store_Uint32
  rw [read_le_write_bytes, Nat.mod_eq_of_lt h]
  apply Nat.mod_eq_of_lt
  omega

theorem read_store_Uint64 (block : Block) (offs : Nat) (n : Nat) (h : n < 2 ^ 64) :
    read_le (store_Uint64 block offs n) offs 8 = n := by
  unfold store_Uint64
  rw [read_le_write_bytes, Nat.mod_eq_of_lt h]
  apply Nat.mod_eq_of_lt
  omega

theorem decode_Sint32_pattern (i : Int) (h1 : -(2 : Int) ^ 31 ≤ i) (h2 : i < 2 ^ 31) :
    decode_Sint32 (i % 2 ^ 32).toNat = i := by
  unfold decode_Sint32
  have e1 : (0 : Int) ≤ i % 2 ^ 32 := Int.emod_nonneg _ (by norm_num)
  have e2 : ((i % 2 ^ 32).toNat : Int) = i % 2 ^ 32 := Int.toNat_of_nonneg e1
  by_cases hneg : 0 ≤ i
  · have e3 : i % 2 ^ 32 = i := Int.emod_eq_of_lt hneg (by omega)
    rw [if_pos (by omega), e2, e3]
  · have e3 : i % 2 ^ 32 = i + 2 ^ 32 := by
      have : (i + 2 ^ 32) % 2 ^ 32 = i + 2 ^ 32 := Int.emod_eq_of_lt (by omega) (by omega)
      rw [← this]
      simp
    rw [if_neg (by omega), e2, e3]
    ring

/-! ## Value packing: strings -/

/-- C9, as stated, fails. At the string node of a layout created with strings mapped
to ids, the `mi::neuraylib::IValue` overload returns -5; at the string node of a layout
created without, the `MI::MDL::IValue` overload returns 0. -/
theorem string_support_is_per_overload :
    ((example_layout true).get_layout (Target_value_layout_state.mk 3 0)).1 = Kind.VK_STRING ∧
    ((example_layout true).set_value zero_block (some (IValue.string "a"))
      (some example_callback) (Target_value_layout_state.mk 3 0)).1 = -5 ∧
    ((example_layout false).get_layout (Target_value_layout_state.mk 3 0)).1 = Kind.VK_STRING ∧
    ((example_layout false).set_value_internal zero_block (some (IValue.string "a"))
      (some example_callback_internal) (Target_value_layout_state.mk 3 0)).1 = 0 := by
  refine ⟨?_, ?_, ?_, ?_⟩ <;> decide

/-- C9, as amended. For every string value at a string-kind layout node: the
`mi::neuraylib::IValue` overload returns -5 and leaves the block as it was, whether or
not the layout was created with strings mapped to ids; the `MI::MDL::IValue` overload
returns 0 in both cases, and stores the integer id of the string (a `Uint32`, read
back from the offset of the node) if strings are mapped to ids, and a NULL pointer
(eight zero bytes) if they are not. -/
theorem string_value_packing (L : Target_value_layout) (block : Block) (str : String)
    (cb : ITarget_resource_callback) (cbi : ITarget_resource_callback_internal)
    (state : Target_value_layout_state)
    (hk : (L.get_layout state).1 = Kind.VK_STRING) :
    L.set_value block (some (IValue.string str)) (some cb) state = (-5, block) ∧
    (L.set_value_internal block (some (IValue.string str)) (some cbi) state).1 = 0 ∧
    (L.m_strings_mapped_to_ids = true →
      (L.set_value_internal block (some (IValue.string str)) (some cbi) state).2 =
        store_Uint32 block (L.get_layout state).2.2 (cbi.get_string_index (IValue.string str)) ∧
      (cbi.get_string_index (IValue.string str) < 2 ^ 32 →
        read_le (L.set_value_internal block (some (IValue.string str)) (some cbi) state).2
          (L.get_layout state).2.2 4 = cbi.get_string_index (IValue.string str))) ∧
    (L.m_strings_mapped_to_ids = false →
      (L.set_value_internal block (some (IValue.string str)) (some cbi) state).2 =
        store_Uint64 block (L.get_layout state).2.2 0 ∧
      read_le (L.set_value_internal block (some (IValue.string str)) (some cbi) state).2
        (L.get_layout state).2.2 8 = 0) := by
  have h1 : L.set_value block (some (IValue.string str)) (some cb) state = (-5, block) := by
    simp only [Target_value_layout.set_value]
    unfold Target_value_layout.set_value_at
    simp [IValue.get_kind, hk]
  have h2 : L.set_value_internal block (some (IValue.string str)) (some cbi) state =
      if L.m_strings_mapped_to_ids then
        (0, store_Uint32 block (L.get_layout state).2.2
          (cbi.get_string_index (IValue.string str)))
      else (0, store_Uint64 block (L.get_layout state).2.2 0) := by
    simp only [Target_value_layout.set_value_internal]
    unfold Target_value_layout.set_value_internal_at
    simp [IValue.get_kind, hk]
  refine ⟨h1, ?_, ?_, ?_⟩
  · rw [h2]
    split <;> rfl
  · intro hm
    rw [h2, hm]
    exact ⟨rfl, fun hlt => read_store_Uint32 _ _ _ hlt⟩
  · intro hm
    rw [h2, hm]
    exact ⟨rfl, read_store_Uint64 _ _ 0 (by norm_num)⟩

theorem string_value_packing_witness :
    ((example_layout true).get_layout (Target_value_layout_state.mk 3 0)).1 = Kind.VK_STRING ∧
    (example_layout true).set_value zero_block (some (IValue.string "a"))
      (some example_callback) (Target_value_layout_state.mk 3 0) = (-5, zero_block) ∧
    ((example_layout true).set_value_internal zero_block (some (IValue.string "a"))
      (some example_callback_internal) (Target_value_layout_state.mk 3 0)).1 = 0 :=
  ⟨by decide,
    (string_value_packing (example_layout true) zero_block "a" example_callback
      example_callback_internal (Target_value_layout_state.mk 3 0) (by decide)).1,
    (string_value_packing (example_layout true) zero_block "a" example_callback
      example_callback_internal (Target_value_layout_state.mk 3 0) (by decide)).2.1⟩

/-! ## Value packing: round trip -/

/-- C10. Argument block round trip, for the `mi::neuraylib::IValue` overload. For every
layout state and every value of kind bool, int, enum, float or double whose payload
fits its C++ type: after `set_value` returns 0, the bytes of the block from the offset
that `get_layout` reports for the state make up exactly the bit pattern of the value
(and the bit pattern of an int or enum stands for the value itself in two's
complement). For every texture, light profile or bsdf measurement value: after
`set_value` returns 0, the four bytes from that offset make up, as an unsigned 32-bit
integer, exactly the index that the resource callback returns for the value. -/
theorem argument_block_round_trip (L : Target_value_layout) (block : Block) (value : IValue)
    (cb : ITarget_resource_callback) (state : Target_value_layout_state)
    (hret : (L.set_value block (some value) (some cb) state).1 = 0) :
    (value.is_scalar_in_range = true →
      read_le (L.set_value block (some value) (some cb) state).2 (L.get_layout state).2.2
          value.scalar_size = value.bit_pattern ∧
      (∀ i, value = IValue.int i ∨ value = IValue.enum i →
        decode_Sint32 value.bit_pattern = i)) ∧
    (value.is_resource = true → cb.get_resource_index value < 2 ^ 32 →
      read_le (L.set_value block (some value) (some cb) state).2 (L.get_layout state).2.2 4 =
        cb.get_resource_index value) := by
  have hkind : value.get_kind = (L.get_layout state).1 := by
    by_contra hne
    have := (set_value_of_kind_ne L block value cb
      (ITarget_resource_callback_internal.mk (fun _ => 0) (fun _ => 0)) state hne).1
    rw [this] at hret
    simp at hret
  constructor
  · intro hs
    cases value <;> simp only [IValue.is_scalar_in_range, Bool.false_eq_true] at hs
    case bool b =>
      refine ⟨?_, by intro i h; rcases h with h | h <;> cases h⟩
      simp only [Target_value_layout.set_value]
      unfold Target_value_layout.set_value_at
      simp only [ne_eq, hkind, not_true_eq_false, if_false, IValue.scalar_size,
        IValue.bit_pattern]
      exact read_store_bool _ _ _
    case int i =>
      simp only [decide_eq_true_eq] at hs
      refine ⟨?_, ?_⟩
      · simp only [Target_value_layout.set_value]
        unfold Target_value_layout.set_value_at
        simp only [ne_eq, hkind, not_true_eq_false, if_false, IValue.scalar_size,
          IValue.bit_pattern]
        exact read_store_Sint32 _ _ _
      · intro j h
        rcases h with h | h
        · cases h
          exact decode_Sint32_pattern i hs.1 hs.2
        · cases h
    case enum i =>
      simp only [decide_eq_true_eq] at hs
      refine ⟨?_, ?_⟩
      · simp only [Target_value_layout.set_value]
        unfold Target_value_layout.set_value_at
        simp only [ne_eq, hkind, not_true_eq_false, if_false, IValue.scalar_size,
          IValue.bit_pattern]
        exact read_store_Sint32 _ _ _
      · intro j h
        rcases h with h | h
        · cases h
        · cases h
          exact decode_Sint32_pattern i hs.1 hs.2
    case float bits =>
      simp only [decide_eq_true_eq] at hs
      refine ⟨?_, by intro i h; rcases h with h | h <;> cases h⟩
      simp only [Target_value_layout.set_value]
      unfold Target_value_layout.set_value_at
      simp only [ne_eq, hkind, not_true_eq_false, if_false, IValue.scalar_size,
        IValue.bit_pattern]
      exact read_store_Uint32 _ _ _ hs
    case double bits =>
      simp only [decide_eq_true_eq] at hs
      refine ⟨?_, by intro i h; rcases h with h | h <;> cases h⟩
      simp only [Target_value_layout.set_value]
      unfold Target_value_layout.set_value_at
      simp only [ne_eq, hkind, not_true_eq_false, if_false, IValue.scalar_size,
        IValue.bit_pattern]
      exact read_store_Uint64 _ _ _ hs
  · intro hr hlt
    cases value <;> simp only [IValue.is_resource, Bool.false_eq_true] at hr
    all_goals
      simp only [Target_value_layout.set_value]
      unfold Target_value_layout.set_value_at
      simp only [ne_eq, hkind, not_true_eq_false, if_false]
      exact read_store_Uint32 _ _ _ hlt

theorem argument_block_round_trip_witness :
    ((example_layout false).set_value zero_block (some (IValue.int (-2)))
      (some example_callback) (Target_value_layout_state.mk 1 0)).1 = 0 ∧
    (IValue.int (-2)).is_scalar_in_range = true ∧
    read_le ((example_layout false).set_value zero_block (some (IValue.int (-2)))
      (some example_callback) (Target_value_layout_state.mk 1 0)).2 0 4 = 2 ^ 32 - 2 ∧
    ((example_layout false).set_value zero_block (some (IValue.texture 5))
      (some example_callback) (Target_value_layout_state.mk 2 0)).1 = 0 ∧
    read_le ((example_layout false).set_value zero_block (some (IValue.texture 5))
      (some example_callback) (Target_value_layout_state.mk 2 0)).2 4 4 = 7 :=
  ⟨by decide, by decide,
    ((argument_block_round_trip (example_layout false) zero_block (IValue.int (-2))
      example_callback (Target_value_layout_state.mk 1 0) (by decide)).1 (by decide)).1,
    by decide,
    (argument_block_round_trip (example_layout false) zero_block (IValue.texture 5)
      example_callback (Target_value_layout_state.mk 2 0) (by decide)).2 (by decide)
      (by decide)⟩

/-! ## The JIT link unit: function table and layout list -/

theorem add_layout_if_captured_cases (B : Codegen_backend) (u : Link_unit_jit) :
    (u.m_code_gen.get_captured_arguments_llvm_type = none ∧
      Link_unit_jit.add_layout_if_captured B u = (u, SIZE_T_NONE)) ∨
    (u.m_code_gen.get_captured_arguments_llvm_type ≠ none ∧
      Link_unit_jit.add_layout_if_captured B u =
        ({ u with
            m_arg_block_layouts := u.m_arg_block_layouts ++ [B.create_value_layout u.m_code_gen] },
          u.m_arg_block_layouts.length)) := by
  unfold Link_unit_jit.add_layout_if_captured
  cases h : u.m_code_gen.get_captured_arguments_llvm_type with
  | none => exact Or.inl ⟨rfl, rfl⟩
  | some t =>
    refine Or.inr ⟨by simp, ?_⟩
    simp

theorem compile_lambda_tables (B : Codegen_backend) (u : Link_unit_jit)
    (lambda : Lambda_function) :
    (Link_unit_jit.compile_lambda B u lambda).1.m_func_infos = u.m_func_infos ∧
    (Link_unit_jit.compile_lambda B u lambda).1.m_arg_block_layouts = u.m_arg_block_layouts := by
  simp only [Link_unit_jit.compile_lambda, Link_unit_jit.update_resource_attribute_map]
  cases u.m_target_kind <;> exact ⟨rfl, rfl⟩

theorem compile_distribution_function_tables (B : Codegen_backend) (u : Link_unit_jit)
    (dist_func : Distribution_function) :
    (Link_unit_jit.compile_distribution_function B u dist_func).1.m_func_infos =
      u.m_func_infos ∧
    (Link_unit_jit.compile_distribution_function B u dist_func).1.m_arg_block_layouts =
      u.m_arg_block_layouts := by
  simp only [Link_unit_jit.compile_distribution_function,
    Link_unit_jit.update_resource_attribute_map]
  cases u.m_target_kind <;> exact ⟨rfl, rfl⟩

/-- What `add_layout_if_captured` and the entries appended after it do to the tables
of a unit: either no arguments were captured, the layout list is unchanged and the
index is `~0`, or they were, one layout is appended and the index is the previous
length of the layout list. -/
theorem add_layout_if_captured_tables (B : Codegen_backend) (u : Link_unit_jit) :
    (Link_unit_jit.add_layout_if_captured B u).1.m_func_infos = u.m_func_infos ∧
    (Link_unit_jit.add_layout_if_captured B u).1.m_code_gen = u.m_code_gen ∧
    ((u.m_code_gen.get_captured_arguments_llvm_type = none ∧
        (Link_unit_jit.add_layout_if_captured B u).1.m_arg_block_layouts =
          u.m_arg_block_layouts ∧
        (Link_unit_jit.add_layout_if_captured B u).2 = SIZE_T_NONE) ∨
      (u.m_code_gen.get_captured_arguments_llvm_type ≠ none ∧
        (Link_unit_jit.add_layout_if_captured B u).1.m_arg_block_layouts =
          u.m_arg_block_layouts ++ [B.create_value_layout u.m_code_gen] ∧
        (Link_unit_jit.add_layout_if_captured B u).2 = u.m_arg_block_layouts.length)) := by
  rcases add_layout_if_captured_cases B u with ⟨h, e⟩ | ⟨h, e⟩
  · rw [e]
    exact ⟨rfl, rfl, Or.inl ⟨h, rfl, rfl⟩⟩
  · rw [e]
    exact ⟨rfl, rfl, Or.inr ⟨h, rfl, rfl⟩⟩

/-- The outcome of `add` for a lambda, by cases: a failed entry check leaves the unit
as it was; a failed compile leaves the tables as they were; a successful compile
appends the layout, if arguments were captured, and one function info. -/
theorem add_lambda_cases (B : Codegen_backend) (u : Link_unit_jit)
    (ilambda : Option Lambda_function) (kind : Function_kind) (arg_block_index : Option Nat) :
    ((u.add B ilambda kind arg_block_index).1 = false ∧
      (u.add B ilambda kind arg_block_index).2.1.m_func_infos = u.m_func_infos ∧
      (u.add B ilambda kind arg_block_index).2.1.m_arg_block_layouts = u.m_arg_block_layouts ∧
      (u.add B ilambda kind arg_block_index).2.2 = arg_block_index) ∨
    (∃ (lambda : Lambda_function) (func : Llvm_function) (old : Nat),
      ilambda = some lambda ∧ arg_block_index = some old ∧
      (Link_unit_jit.compile_lambda B u lambda).2 = some func ∧
      u.add B ilambda kind arg_block_index =
        (true,
          { (Link_unit_jit.add_layout_if_captured B
                (Link_unit_jit.compile_lambda B u lambda).1).1 with
            m_func_infos :=
              (Link_unit_jit.add_layout_if_captured B
                (Link_unit_jit.compile_lambda B u lambda).1).1.m_func_infos ++
              [Link_unit_jit_function_info.mk func.name (some func) kind
                (Link_unit_jit.add_layout_if_captured B
                  (Link_unit_jit.compile_lambda B u lambda).1).2] },
          some (Link_unit_jit.add_layout_if_captured B
            (Link_unit_jit.compile_lambda B u lambda).1).2)) := by
  cases arg_block_index with
  | none => exact Or.inl ⟨rfl, rfl, rfl, rfl⟩
  | some old =>
    cases ilambda with
    | none => exact Or.inl ⟨rfl, rfl, rfl, rfl⟩
    | some lambda =>
      by_cases hb : lambda.get_body = none ∧ lambda.get_root_expr_count < 1
      · left
        simp only [Link_unit_jit.add, hb, and_self, if_true]
      · cases hc : (Link_unit_jit.compile_lambda B u lambda).2 with
        | none =>
          left
          simp only [Link_unit_jit.add, hb, if_false, hc]
          exact ⟨trivial, (compile_lambda_tables B u lambda).1,
            (compile_lambda_tables B u lambda).2, trivial⟩
        | some func =>
          right
          refine ⟨lambda, func, old, rfl, rfl, hc, ?_⟩
          simp only [Link_unit_jit.add, hb, if_false, hc]

/-- The outcome of `add` for a distribution function, by cases: a failed cast or compile
leaves the tables as they were; a successful compile appends the layout, if arguments
were captured, and the four function infos. -/
theorem add_distribution_function_cases (B : Codegen_backend) (u : Link_unit_jit)
    (idist_func : Option Distribution_function) (arg_block_index : Nat) :
    ((u.add_distribution_function B idist_func arg_block_index).1 = false ∧
      (u.add_distribution_function B idist_func arg_block_index).2.1.m_func_infos =
        u.m_func_infos ∧
      (u.add_distribution_function B idist_func arg_block_index).2.1.m_arg_block_layouts =
        u.m_arg_block_layouts ∧
      (u.add_distribution_function B idist_func arg_block_index).2.2 = arg_block_index) ∨
    (∃ (dist_func : Distribution_function) (m : Llvm_module),
      idist_func = some dist_func ∧
      (Link_unit_jit.compile_distribution_function B u dist_func).2.1 = some m ∧
      u.add_distribution_function B idist_func arg_block_index =
        (true,
          { (Link_unit_jit.add_layout_if_captured B
                (Link_unit_jit.compile_distribution_function B u dist_func).1).1 with
            m_func_infos :=
              (Link_unit_jit.add_layout_if_captured B
                (Link_unit_jit.compile_distribution_function B u dist_func).1).1.m_func_infos ++
              [Link_unit_jit_function_info.mk (dist_func.m_main_df.get_name ++ "_init")
                  (Link_unit_jit.compile_distribution_function B u dist_func).2.2[0]?
                  Function_kind.FK_DF_INIT
                  (Link_unit_jit.add_layout_if_captured B
                    (Link_unit_jit.compile_distribution_function B u dist_func).1).2,
                Link_unit_jit_function_info.mk (dist_func.m_main_df.get_name ++ "_sample")
                  (Link_unit_jit.compile_distribution_function B u dist_func).2.2[1]?
                  Function_kind.FK_DF_SAMPLE
                  (Link_unit_jit.add_layout_if_captured B
                    (Link_unit_jit.compile_distribution_function B u dist_func).1).2,
                Link_unit_jit_function_info.mk (dist_func.m_main_df.get_name ++ "_evaluate")
                  (Link_unit_jit.compile_distribution_function B u dist_func).2.2[2]?
                  Function_kind.FK_DF_EVALUATE
                  (Link_unit_jit.add_layout_if_captured B
                    (Link_unit_jit.compile_distribution_function B u dist_func).1).2,
                Link_unit_jit_function_info.mk (dist_func.m_main_df.get_name ++ "_pdf")
                  (Link_unit_jit.compile_distribution_function B u dist_func).2.2[3]?
                  Function_kind.FK_DF_PDF
                  (Link_unit_jit.add_layout_if_captured B
                    (Link_unit_jit.compile_distribution_function B u dist_func).1).2] },
          (Link_unit_jit.add_layout_if_captured B
            (Link_unit_jit.compile_distribution_function B u dist_func).1).2)) := by
  cases idist_func with
  | none => exact Or.inl ⟨rfl, rfl, rfl, rfl⟩
  | some dist_func =>
    cases hc : (Link_unit_jit.compile_distribution_function B u dist_func).2.1 with
    | none =>
      left
      simp only [Link_unit_jit.add_distribution_function, hc]
      exact ⟨trivial, (compile_distribution_function_tables B u dist_func).1,
        (compile_distribution_function_tables B u dist_func).2, trivial⟩
    | some m =>
      right
      refine ⟨dist_func, m, rfl, hc, ?_⟩
      simp only [Link_unit_jit.add_distribution_function, hc]

/-- C11. `Link_unit_jit::add` for a lambda. Whenever the call returns true, the
function table has grown by exactly one entry, which carries the given kind, and the
index reported through `arg_block_index` is the one stored in that entry: if the
compile captured arguments, exactly one layout was appended to the layout list and the
index is the previous length of the list; if not, the layout list is unchanged and the
index is `~0`. -/
theorem add_lambda_success (B : Codegen_backend) (u : Link_unit_jit)
    (ilambda : Option Lambda_function) (kind : Function_kind) (arg_block_index : Option Nat)
    (h : (u.add B ilambda kind arg_block_index).1 = true) :
    ∃ info : Link_unit_jit_function_info,
      (u.add B ilambda kind arg_block_index).2.1.m_func_infos = u.m_func_infos ++ [info] ∧
      info.m_kind = kind ∧
      (u.add B ilambda kind arg_block_index).2.2 = some info.m_arg_block_index ∧
      ((u.add B ilambda kind arg_block_index).2.1.m_code_gen.get_captured_arguments_llvm_type
          ≠ none →
        (∃ layout, (u.add B ilambda kind arg_block_index).2.1.m_arg_block_layouts =
          u.m_arg_block_layouts ++ [layout]) ∧
        info.m_arg_block_index = u.m_arg_block_layouts.length) ∧
      ((u.add B ilambda kind arg_block_index).2.1.m_code_gen.get_captured_arguments_llvm_type
          = none →
        (u.add B ilambda kind arg_block_index).2.1.m_arg_block_layouts =
          u.m_arg_block_layouts ∧
        info.m_arg_block_index = SIZE_T_NONE) := by
  rcases add_lambda_cases B u ilambda kind arg_block_index with ⟨hf, _⟩ | ⟨lambda, func, old, _, _, _, e⟩
  · rw [hf] at h
    cases h
  · obtain ⟨t1, t2, t3⟩ := add_layout_if_captured_tables B
      (Link_unit_jit.compile_lambda B u lambda).1
    obtain ⟨c1, c2⟩ := compile_lambda_tables B u lambda
    rw [e]
    refine ⟨Link_unit_jit_function_info.mk func.name (some func) kind
      (Link_unit_jit.add_layout_if_captured B (Link_unit_jit.compile_lambda B u lambda).1).2,
      ?_, rfl, rfl, ?_, ?_⟩
    · simp only [t1, c1]
    · intro hcap
      simp only [t2] at hcap
      rcases t3 with ⟨hn, _, _⟩ | ⟨_, hl, hi⟩
      · exact absurd hn hcap
      · exact ⟨⟨B.create_value_layout (Link_unit_jit.compile_lambda B u lambda).1.m_code_gen,
          by simp only [hl, c2]⟩, by simp only [hi, c2]⟩
    · intro hcap
      simp only [t2] at hcap
      rcases t3 with ⟨_, hl, hi⟩ | ⟨hn, _, _⟩
      · exact ⟨by simp only [hl, c2], by simp only [hi]⟩
      · exact absurd hcap hn

theorem add_lambda_success_witness :
    (example_unit.add example_backend (some (example_lambda "f" (some 1) [(0, "p")]))
      Function_kind.FK_LAMBDA (some 5)).1 = true ∧
    (example_unit.add example_backend (some (example_lambda "f" (some 1) [(0, "p")]))
      Function_kind.FK_LAMBDA (some 5)).2.2 = some 0 ∧
    (example_unit.add example_backend (some (example_lambda "f" (some 1) [(0, "p")]))
      Function_kind.FK_LAMBDA (some 5)).2.1.m_func_infos =
        [Link_unit_jit_function_info.mk "f" (some (Llvm_function.mk "f"))
          Function_kind.FK_LAMBDA 0] ∧
    ∃ info : Link_unit_jit_function_info,
      (example_unit.add example_backend (some (example_lambda "f" (some 1) [(0, "p")]))
        Function_kind.FK_LAMBDA (some 5)).2.1.m_func_infos =
          example_unit.m_func_infos ++ [info] ∧
      info.m_kind = Function_kind.FK_LAMBDA :=
  ⟨by decide, by decide, by decide,
    (add_lambda_success example_backend example_unit
      (some (example_lambda "f" (some 1) [(0, "p")])) Function_kind.FK_LAMBDA (some 5)
      (by decide)).imp (fun _ hx => ⟨hx.1, hx.2.1⟩)⟩

/-- What one call of `add` does to the tables of the unit: function infos are
appended; either the layout list is unchanged and every new function info carries
`~0`, or one layout is appended, the reported index is the previous length of the
layout list and every new function info carries it. -/
theorem call_tables (B : Codegen_backend) (u : Link_unit_jit) (c : Add_call) :
    (u.call B c).before = u ∧
    ∃ new_infos : List Link_unit_jit_function_info,
      (u.call B c).after.m_func_infos = u.m_func_infos ++ new_infos ∧
      (((u.call B c).after.m_arg_block_layouts = u.m_arg_block_layouts ∧
          ∀ x ∈ new_infos, x.m_arg_block_index = SIZE_T_NONE) ∨
        (∃ layout, (u.call B c).after.m_arg_block_layouts = u.m_arg_block_layouts ++ [layout] ∧
          (u.call B c).arg_block_index = some u.m_arg_block_layouts.length ∧
          ∀ x ∈ new_infos, x.m_arg_block_index = u.m_arg_block_layouts.length)) := by
  cases c with
  | lambda ilambda kind arg_block_index =>
    refine ⟨rfl, ?_⟩
    simp only [Link_unit_jit.call]
    rcases add_lambda_cases B u ilambda kind arg_block_index with
      ⟨_, hf, hl, _⟩ | ⟨lambda, func, old, _, _, _, e⟩
    · exact ⟨[], by simp [hf], Or.inl ⟨hl, by simp⟩⟩
    · obtain ⟨t1, _, t3⟩ := add_layout_if_captured_tables B
        (Link_unit_jit.compile_lambda B u lambda).1
      obtain ⟨c1, c2⟩ := compile_lambda_tables B u lambda
      rw [e]
      refine ⟨[Link_unit_jit_function_info.mk func.name (some func) kind
        (Link_unit_jit.add_layout_if_captured B (Link_unit_jit.compile_lambda B u lambda).1).2],
        by simp only [t1, c1], ?_⟩
      rcases t3 with ⟨_, hl, hi⟩ | ⟨_, hl, hi⟩
      · exact Or.inl ⟨by simp only [hl, c2], by simp [hi]⟩
      · exact Or.inr ⟨B.create_value_layout (Link_unit_jit.compile_lambda B u lambda).1.m_code_gen,
          by simp only [hl, c2], by simp only [hi, c2], by simp [hi, c2]⟩
  | distribution_function idist_func arg_block_index =>
    refine ⟨rfl, ?_⟩
    simp only [Link_unit_jit.call]
    rcases add_distribution_function_cases B u idist_func arg_block_index with
      ⟨_, hf, hl, _⟩ | ⟨dist_func, m, _, _, e⟩
    · exact ⟨[], by simp [hf], Or.inl ⟨hl, by simp⟩⟩
    · obtain ⟨t1, _, t3⟩ := add_layout_if_captured_tables B
        (Link_unit_jit.compile_distribution_function B u dist_func).1
      obtain ⟨c1, c2⟩ := compile_distribution_function_tables B u dist_func
      rw [e]
      refine ⟨_, by simp only [t1, c1]; rfl, ?_⟩
      rcases t3 with ⟨_, hl, hi⟩ | ⟨_, hl, hi⟩
      · exact Or.inl ⟨by simp only [hl, c2], by simp [hi]⟩
      · exact Or.inr ⟨B.create_value_layout
          (Link_unit_jit.compile_distribution_function B u dist_func).1.m_code_gen,
          by simp only [hl, c2], by simp only [hi, c2], by simp [hi, c2]⟩

theorem run_spec (B : Codegen_backend) (calls : List Add_call) :
    ∀ (u : Link_unit_jit),
      (∀ x ∈ u.m_func_infos,
        x.m_arg_block_index = SIZE_T_NONE ∨ x.m_arg_block_index < u.m_arg_block_layouts.length) →
      (∀ s ∈ Link_unit_jit.run B u calls,
        s.before.m_func_infos <+: s.after.m_func_infos ∧
        s.before.m_arg_block_layouts <+: s.after.m_arg_block_layouts ∧
        ∀ x ∈ s.after.m_func_infos,
          x.m_arg_block_index = SIZE_T_NONE ∨
            x.m_arg_block_index < s.after.m_arg_block_layouts.length) ∧
      u.m_arg_block_layouts.length ≤
        (Link_unit_jit.after_all B u calls).m_arg_block_layouts.length ∧
      (Link_unit_jit.run B u calls).filterMap Add_step.issued =
        List.range' u.m_arg_block_layouts.length
          ((Link_unit_jit.after_all B u calls).m_arg_block_layouts.length -
            u.m_arg_block_layouts.length) ∧
      List.Chain (fun s s' => s'.before = s.after) (Add_step.mk u true none u)
        (Link_unit_jit.run B u calls) := by
  induction calls with
  | nil =>
    intro u _
    simp [Link_unit_jit.run, Link_unit_jit.after_all]
  | cons c rest ih =>
    intro u hinv
    obtain ⟨hb, new_infos, hf, hcase⟩ := call_tables B u c
    have hinv' : ∀ x ∈ (u.call B c).after.m_func_infos,
        x.m_arg_block_index = SIZE_T_NONE ∨
          x.m_arg_block_index < (u.call B c).after.m_arg_block_layouts.length := by
      intro x hx
      rw [hf] at hx
      rcases List.mem_append.mp hx with hx | hx
      · rcases hinv x hx with h1 | h1
        · exact Or.inl h1
        · right
          rcases hcase with ⟨hl, _⟩ | ⟨layout, hl, _, _⟩
          · rw [hl]
            exact h1
          · rw [hl, List.length_append]
            omega
      · rcases hcase with ⟨_, hn⟩ | ⟨layout, hl, _, hn⟩
        · exact Or.inl (hn x hx)
        · right
          rw [hl, List.length_append, hn x hx]
          simp
    obtain ⟨i1, i2, i3, i4⟩ := ih (u.call B c).after hinv'
    have hpre : (u.call B c).before.m_func_infos <+: (u.call B c).after.m_func_infos ∧
        (u.call B c).before.m_arg_block_layouts <+: (u.call B c).after.m_arg_block_layouts := by
      rw [hb, hf]
      refine ⟨List.prefix_append _ _, ?_⟩
      rcases hcase with ⟨hl, _⟩ | ⟨layout, hl, _, _⟩
      · rw [hl]
      · rw [hl]
        exact List.prefix_append _ _
    refine ⟨?_, ?_, ?_, ?_⟩
    · intro s hs
      simp only [Link_unit_jit.run, List.mem_cons] at hs
      rcases hs with rfl | hs
      · exact ⟨hpre.1, hpre.2, hinv'⟩
      · exact i1 s hs
    · simp only [Link_unit_jit.after_all]
      have := hpre.2.length_le
      rw [hb] at this
      omega
    · simp only [Link_unit_jit.run, Link_unit_jit.after_all, List.filterMap_cons]
      rcases hcase with ⟨hl, _⟩ | ⟨layout, hl, hr, _⟩
      · have hiss : (u.call B c).issued = none := by
          simp [Add_step.issued, hb, hl]
        rw [hiss, i3, hl]
      · have hiss : (u.call B c).issued = some u.m_arg_block_layouts.length := by
          simp [Add_step.issued, hb, hl, hr]
        have hlen : (u.call B c).after.m_arg_block_layouts.length =
            u.m_arg_block_layouts.length + 1 := by
          rw [hl, List.length_append]
          rfl
        rw [hiss, i3, hlen]
        rw [hlen] at i2
        have hsub : (Link_unit_jit.after_all B (u.call B c).after rest).m_arg_block_layouts.length -
            u.m_arg_block_layouts.length =
            ((Link_unit_jit.after_all B (u.call B c).after rest).m_arg_block_layouts.length -
              (u.m_arg_block_layouts.length + 1)) + 1 := by
          omega
        rw [hsub, List.range'_succ]
    · simp only [Link_unit_jit.run]
      refine List.Chain.cons hb ?_
      cases hrun : Link_unit_jit.run B (u.call B c).after rest with
      | nil => exact List.Chain.nil
      | cons s ss =>
        rw [hrun] at i4
        cases i4 with
        | cons h1 h2 => exact List.Chain.cons h1 h2

/-- C13. Layout indices are append-ordered and stable. For every sequence of
`Link_unit_jit::add` calls on a fresh unit, for lambdas or distribution functions,
succeeding or failing: every call starts from the unit the call before it left (the
first from the fresh unit); the function table and the layout list before each call
are prefixes of those after it; the indices issued, in the order of the calls that
appended a layout, are 0, 1, 2, ... up to the final number of layouts; and after every
call each function table entry carries either `~0` or an index strictly less than the
number of layouts. -/
theorem layout_indices_append_ordered (B : Codegen_backend) (target_kind : Target_kind)
    (code_gen : LLVM_code_generator) (calls : List Add_call) :
    List.Chain (fun s s' => s'.before = s.after)
      (Add_step.mk (Link_unit_jit.new target_kind code_gen) true none
        (Link_unit_jit.new target_kind code_gen))
      (Link_unit_jit.run B (Link_unit_jit.new target_kind code_gen) calls) ∧
    (∀ s ∈ Link_unit_jit.run B (Link_unit_jit.new target_kind code_gen) calls,
      s.before.m_func_infos <+: s.after.m_func_infos ∧
      s.before.m_arg_block_layouts <+: s.after.m_arg_block_layouts) ∧
    (Link_unit_jit.run B (Link_unit_jit.new target_kind code_gen) calls).filterMap
        Add_step.issued =
      List.range (Link_unit_jit.after_all B (Link_unit_jit.new target_kind code_gen)
        calls).m_arg_block_layouts.length ∧
    (∀ s ∈ Link_unit_jit.run B (Link_unit_jit.new target_kind code_gen) calls,
      ∀ x ∈ s.after.m_func_infos,
        x.m_arg_block_index = SIZE_T_NONE ∨
          x.m_arg_block_index < s.after.m_arg_block_layouts.length) := by
  obtain ⟨h1, _, h3, h4⟩ := run_spec B calls (Link_unit_jit.new target_kind code_gen)
    (by intro x hx; simp [Link_unit_jit.new] at hx)
  refine ⟨h4, fun s hs => ⟨(h1 s hs).1, (h1 s hs).2.1⟩, ?_, fun s hs => (h1 s hs).2.2⟩
  rw [h3, List.range_eq_range']
  simp [Link_unit_jit.new]

/-- C14, as stated, fails. A lambda with no body and no root expressions is added to a
fresh unit without messages: the call returns false and the message list of the unit
is still empty, so no diagnostic has been recorded. -/
theorem add_without_body_records_no_diagnostic :
    (example_lambda "f" none []).get_body = none ∧
    (example_lambda "f" none []).get_root_expr_count = 0 ∧
    (example_unit.add example_backend (some (example_lambda "f" none []))
      Function_kind.FK_LAMBDA (some 5)).1 = false ∧
    (example_unit.add example_backend (some (example_lambda "f" none []))
      Function_kind.FK_LAMBDA (some 5)).2.1.access_messages = [] := by
  refine ⟨?_, ?_, ?_, ?_⟩ <;> decide

/-- C14, as amended. For every lambda with no body and zero root expressions,
`Link_unit_jit::add` returns false and leaves the unit as it was: the function table,
the layout list and also the message list are unchanged (no diagnostic is recorded),
and the variable behind `arg_block_index` keeps its value. -/
theorem add_without_body_rejected (B : Codegen_backend) (u : Link_unit_jit)
    (lambda : Lambda_function) (kind : Function_kind) (arg_block_index : Option Nat)
    (hbody : lambda.get_body = none) (hroots : lambda.get_root_expr_count = 0) :
    (u.add B (some lambda) kind arg_block_index).1 = false ∧
    (u.add B (some lambda) kind arg_block_index).2.1 = u ∧
    (u.add B (some lambda) kind arg_block_index).2.1.m_func_infos = u.m_func_infos ∧
    (u.add B (some lambda) kind arg_block_index).2.1.m_arg_block_layouts =
      u.m_arg_block_layouts ∧
    (u.add B (some lambda) kind arg_block_index).2.1.access_messages = u.access_messages ∧
    (u.add B (some lambda) kind arg_block_index).2.2 = arg_block_index := by
  have hadd : u.add B (some lambda) kind arg_block_index = (false, u, arg_block_index) := by
    cases arg_block_index with
    | none => rfl
    | some old => simp [Link_unit_jit.add, hbody, hroots]
  rw [hadd]
  exact ⟨rfl, rfl, rfl, rfl, rfl, rfl⟩

theorem add_without_body_rejected_witness :
    (example_lambda "f" none []).get_body = none ∧
    (example_lambda "f" none []).get_root_expr_count = 0 ∧
    (example_unit.add example_backend (some (example_lambda "f" none []))
      Function_kind.FK_LAMBDA (some 5)).1 = false ∧
    (example_unit.add example_backend (some (example_lambda "f" none []))
      Function_kind.FK_LAMBDA (some 5)).2.1 = example_unit :=
  ⟨by decide, by decide,
    (add_without_body_rejected example_backend example_unit (example_lambda "f" none [])
      Function_kind.FK_LAMBDA (some 5) (by decide) (by decide)).1,
    (add_without_body_rejected example_backend example_unit (example_lambda "f" none [])
      Function_kind.FK_LAMBDA (some 5) (by decide) (by decide)).2.1⟩

/-! ## Backend failure carries a diagnostic -/

theorem error_count_append_error (m : Messages) (code : Nat) (text : String) :
    Messages.get_error_message_count (m ++ [Message.mk true code text]) =
      m.get_error_message_count + 1 := by
  simp [Messages.get_error_message_count, List.countP_append]

theorem ensure_error_message_spec (g : LLVM_code_generator) (text : String) :
    1 ≤ (ensure_error_message g text).m_messages.get_error_message_count ∧
    ((ensure_error_message g text).m_messages =
        g.m_messages ++ [Message.mk true INTERNAL_JIT_BACKEND_ERROR text] ↔
      g.get_error_message_count = 0) ∧
    ((ensure_error_message g text).m_messages = g.m_messages ↔
      g.get_error_message_count ≠ 0) := by
  by_cases h : g.m_messages.get_error_message_count = 0
  · have h' : g.get_error_message_count = 0 := h
    simp only [ensure_error_message, h, if_true, LLVM_code_generator.error, h']
    refine ⟨?_, ?_, ?_⟩
    · rw [error_count_append_error]; omega
    · simp
    · simp
  · have h' : g.get_error_message_count ≠ 0 := h
    simp only [ensure_error_message, h, if_false]
    refine ⟨Nat.pos_of_ne_zero h, ?_, ?_⟩
    · simp [h']
    · simp [h']

theorem failure_carries_diagnostic_of (g : LLVM_code_generator) (text : String)
    (code : Generated_code) :
    Failure_carries_diagnostic g text
      (some (code.with_messages_of (ensure_error_message g text))) :=
  ⟨_, rfl, ensure_error_message_spec g text⟩

/-- C15. Backend failure always carries a diagnostic. For each of the ten compile
functions: if the input passes the entry checks (and, for `compile_into_ptx`, the cache
gives no hit) and the backend step yields no function or module, then a code object is
returned whose error-message count is at least 1, and whose messages are those the
backend step left, followed by the fallback `INTERNAL_JIT_BACKEND_ERROR` message if and
only if the error-message count was 0. -/
theorem backend_failure_carries_diagnostic (md5 : List Hash_input → List Nat)
    (B : Codegen_backend) (J : Code_generator_jit) (code_cache : Option ICode_cache)
    (lambda : Lambda_function) (dist_func : Distribution_function) (unit : Link_unit_jit)
    (attr : ILambda_resource_attribute) (body : List Sighting)
    (num_texture_spaces num_texture_results sm_version : Nat)
    (enable_simd ptx_output : Bool) :
    (lambda.get_body ≠ none → lambda.get_root_expr_count = 0 →
      ∀ r, r = B.compile_environment_lambda (J.compile_into_environment_code_gen B) false
          lambda →
        r.2 = none →
        Failure_carries_diagnostic r.1 "Compiling environment function failed"
          (J.compile_into_environment B (some lambda))) ∧
    (lambda.get_body ≠ none → lambda.get_root_expr_count = 0 →
      lambda.get_parameter_count = 0 →
      ∀ r, r = B.compile_const_lambda (J.compile_into_const_function_code_gen B)
          (Code_generator_jit.compile_into_const_function_lambda attr lambda body) →
        r.2 = none →
        Failure_carries_diagnostic r.1 "Compiling const function failed"
          (J.compile_into_const_function B (some lambda) false attr body)) ∧
    (1 ≤ lambda.get_root_expr_count →
      ∀ r, r = B.compile_switch_lambda
          (Code_generator_jit.compile_into_switch_function_code_gen B
            (J.set_include_uniform_state (if lambda.is_uniform_state_set then false else true))
            lambda num_texture_spaces num_texture_results) false lambda →
        r.2 = none →
        Failure_carries_diagnostic r.1 "Compiling switch function failed"
          (J.compile_into_switch_function B (some lambda) num_texture_spaces
            num_texture_results).2) ∧
    (1 ≤ lambda.get_root_expr_count →
      ∀ r, r = B.compile_switch_lambda
          (Code_generator_jit.compile_into_switch_function_for_gpu_code_gen B
            (J.set_include_uniform_state (if lambda.is_uniform_state_set then false else true))
            lambda num_texture_spaces num_texture_results sm_version) false lambda →
        r.2 = none →
        Failure_carries_diagnostic r.1 "Compiling GPU switch function failed"
          (J.compile_into_switch_function_for_gpu B (some lambda) num_texture_spaces
            num_texture_results sm_version).2) ∧
    (lambda.get_body ≠ none → lambda.get_root_expr_count = 0 →
      ∀ r, r = B.compile_generic_lambda
          (Code_generator_jit.compile_into_generic_function_code_gen B
            (J.set_include_uniform_state (if lambda.is_uniform_state_set then false else true))
            lambda num_texture_spaces num_texture_results) false lambda →
        r.2 = none →
        Failure_carries_diagnostic r.1 "Compiling generic function failed"
          (J.compile_into_generic_function B (some lambda) num_texture_spaces
            num_texture_results).2) ∧
    (¬ (lambda.get_body = none ∧ lambda.get_root_expr_count < 1) →
      ∀ r, r = Code_generator_jit.compile_body_or_roots B
          (Code_generator_jit.compile_into_llvm_ir_code_gen B
            (J.set_include_uniform_state (if lambda.is_uniform_state_set then false else true))
            lambda num_texture_spaces num_texture_results enable_simd) lambda →
        r.2 = none →
        Failure_carries_diagnostic r.1 "Compiling lambda function into LLVM IR failed"
          (J.compile_into_llvm_ir B (some lambda) num_texture_spaces num_texture_results
            enable_simd).2) ∧
    (¬ (lambda.get_body = none ∧ lambda.get_root_expr_count < 1) →
      code_cache.bind (fun c => c.lookup (md5 (J.cache_key_inputs lambda num_texture_spaces
          num_texture_results sm_version ptx_output))) = none →
      ∀ r, r = J.compile_into_ptx_compile B lambda num_texture_spaces num_texture_results
          sm_version →
        r.2.2 = none →
        Failure_carries_diagnostic r.2.1 "Compiling lambda function into PTX failed"
          (J.compile_into_ptx md5 B code_cache (some lambda) num_texture_spaces
            num_texture_results sm_version ptx_output).2.2) ∧
    (∀ r, r = B.compile_distribution_function
          (Code_generator_jit.compile_distribution_function_cpu_code_gen B
            (J.set_include_uniform_state true) dist_func num_texture_spaces
            num_texture_results) false dist_func →
        r.2.1 = none →
        Failure_carries_diagnostic r.1 "Compiling CPU DF function failed"
          (J.compile_distribution_function_cpu B dist_func num_texture_spaces
            num_texture_results).2) ∧
    (∀ r, r = B.compile_distribution_function
          (Code_generator_jit.compile_distribution_function_gpu_code_gen B
            (J.set_include_uniform_state true) dist_func num_texture_spaces
            num_texture_results sm_version) false dist_func →
        r.2.1 = none →
        Failure_carries_diagnostic r.1 "Compiling GPU DF function failed"
          (J.compile_distribution_function_gpu B dist_func num_texture_spaces
            num_texture_results sm_version ptx_output).2) ∧
    (unit.get_function_count ≠ 0 →
      ∀ r, r = B.finalize_module unit.m_code_gen →
        r.2 = none →
        Failure_carries_diagnostic r.1 "Compiling link unit failed"
          (J.compile_unit B unit).2) := by
  refine ⟨?_, ?_, ?_, ?_, ?_, ?_, ?_, ?_, ?_, ?_⟩
  · intro hb hr r hr' hnone
    subst hr'
    have hc : ¬ (lambda.get_body = none ∨ lambda.get_root_expr_count ≠ 0) := by
      simp [hb, hr]
    simp only [Code_generator_jit.compile_into_environment, hc, if_false, hnone]
    exact failure_carries_diagnostic_of _ _ _
  · intro hb hr hp r hr' hnone
    subst hr'
    have hc : ¬ (lambda.get_body = none ∨ lambda.get_root_expr_count ≠ 0) := by
      simp [hb, hr]
    have hp' : ¬ (lambda.get_parameter_count ≠ 0) := by simp [hp]
    simp only [Code_generator_jit.compile_into_const_function, hc, if_false, hp', hnone]
    exact failure_carries_diagnostic_of _ _ _
  · intro hr r hr' hnone
    subst hr'
    have hc : ¬ (lambda.get_root_expr_count < 1) := by omega
    simp only [Code_generator_jit.compile_into_switch_function, hc, if_false, hnone]
    exact failure_carries_diagnostic_of _ _ _
  · intro hr r hr' hnone
    subst hr'
    have hc : ¬ (lambda.get_root_expr_count < 1) := by omega
    simp only [Code_generator_jit.compile_into_switch_function_for_gpu, hc, if_false, hnone]
    exact failure_carries_diagnostic_of _ _ _
  · intro hb hr r hr' hnone
    subst hr'
    have hc : ¬ (lambda.get_body = none ∨ lambda.get_root_expr_count ≠ 0) := by
      simp [hb, hr]
    simp only [Code_generator_jit.compile_into_generic_function, hc, if_false, hnone]
    exact failure_carries_diagnostic_of _ _ _
  · intro hc r hr' hnone
    subst hr'
    simp only [Code_generator_jit.compile_into_llvm_ir, hc, if_false, hnone]
    exact failure_carries_diagnostic_of _ _ _
  · intro hc hmiss r hr' hnone
    subst hr'
    simp only [Code_generator_jit.compile_into_ptx, hc, if_false, hmiss, hnone]
    exact failure_carries_diagnostic_of _ _ _
  · intro r hr' hnone
    subst hr'
    simp only [Code_generator_jit.compile_distribution_function_cpu, hnone]
    exact failure_carries_diagnostic_of _ _ _
  · intro r hr' hnone
    subst hr'
    simp only [Code_generator_jit.compile_distribution_function_gpu, hnone]
    exact failure_carries_diagnostic_of _ _ _
  · intro hn r hr' hnone
    subst hr'
    simp only [Code_generator_jit.compile_unit, hn, if_false, hnone]
    have hs := ensure_error_message_spec (B.finalize_module unit.m_code_gen).1
      "Compiling link unit failed"
    by_cases h0 : (B.finalize_module unit.m_code_gen).1.get_error_message_count = 0
    · have h1 : (B.finalize_module unit.m_code_gen).1.m_messages.get_error_message_count = 0 := h0
      unfold ensure_error_message at hs
      rw [if_pos h1] at hs
      simp only [h0, if_true]
      exact ⟨_, rfl, hs⟩
    · have h1 : ¬ (B.finalize_module unit.m_code_gen).1.m_messages.get_error_message_count = 0 := h0
      unfold ensure_error_message at hs
      rw [if_neg h1] at hs
      simp only [h0, if_false]
      exact ⟨_, rfl, hs⟩

theorem backend_failure_carries_diagnostic_witness :
    Failure_carries_diagnostic example_code_gen "Compiling environment function failed"
      (example_generator.compile_into_environment example_failing_backend
        (some (example_lambda "bad" (some 7) []))) ∧
    Failure_carries_diagnostic example_code_gen "Compiling const function failed"
      (example_generator.compile_into_const_function example_failing_backend
        (some (example_lambda "bad" (some 7) [])) false example_attr []) ∧
    Failure_carries_diagnostic example_code_gen "Compiling switch function failed"
      (example_generator.compile_into_switch_function example_failing_backend
        (some example_switch_lambda) 1 0).2 ∧
    Failure_carries_diagnostic example_code_gen "Compiling GPU switch function failed"
      (example_generator.compile_into_switch_function_for_gpu example_failing_backend
        (some example_switch_lambda) 1 0 30).2 ∧
    Failure_carries_diagnostic example_code_gen "Compiling generic function failed"
      (example_generator.compile_into_generic_function example_failing_backend
        (some (example_lambda "bad" (some 7) [])) 1 0).2 ∧
    Failure_carries_diagnostic example_code_gen
      "Compiling lambda function into LLVM IR failed"
      (example_generator.compile_into_llvm_ir example_failing_backend
        (some (example_lambda "bad" (some 7) [])) 1 0 false).2 ∧
    Failure_carries_diagnostic example_code_gen "Compiling lambda function into PTX failed"
      (example_generator.compile_into_ptx example_md5 example_failing_backend none
        (some (example_lambda "bad" (some 7) [])) 1 0 30 true).2.2 ∧
    Failure_carries_diagnostic example_code_gen "Compiling CPU DF function failed"
      (example_generator.compile_distribution_function_cpu example_failing_backend
        example_bad_dist_func 1 0).2 ∧
    Failure_carries_diagnostic example_code_gen "Compiling GPU DF function failed"
      (example_generator.compile_distribution_function_gpu example_failing_backend
        example_bad_dist_func 1 0 30 true).2 ∧
    Failure_carries_diagnostic example_unit_one.m_code_gen "Compiling link unit failed"
      (example_generator.compile_unit example_failing_backend example_unit_one).2 :=
  have h := backend_failure_carries_diagnostic example_md5 example_failing_backend
    example_generator none (example_lambda "bad" (some 7) []) example_bad_dist_func
    example_unit_one example_attr [] 1 0 30 false true
  have h2 := backend_failure_carries_diagnostic example_md5 example_failing_backend
    example_generator none example_switch_lambda example_bad_dist_func
    example_unit_one example_attr [] 1 0 30 false true
  ⟨h.1 (by decide) (by decide) _ rfl (by decide),
    h.2.1 (by decide) (by decide) (by decide) _ rfl (by decide),
    h2.2.2.1 (by decide) _ rfl (by decide),
    h2.2.2.2.1 (by decide) _ rfl (by decide),
    h.2.2.2.2.1 (by decide) (by decide) _ rfl (by decide),
    h.2.2.2.2.2.1 (by decide) _ rfl (by decide),
    h.2.2.2.2.2.2.1 (by decide) (by decide) _ rfl (by decide),
    h.2.2.2.2.2.2.2.1 _ rfl (by decide),
    h.2.2.2.2.2.2.2.2.1 _ rfl (by decide),
    h.2.2.2.2.2.2.2.2.2 (by decide) _ rfl (by decide)⟩

/-! ## `compile_into_environment` on a backend failure -/

/-- C16, as stated, fails. A simple lambda (body present, no root expressions) is
compiled with a backend whose `compile_environment_lambda` yields no function and no
message: `compile_into_environment` does not return NULL, it returns a code object
that carries the fallback error message. -/
theorem compile_into_environment_backend_failure_returns_code :
    (example_lambda "bad" (some 7) []).get_body = some 7 ∧
    (example_lambda "bad" (some 7) []).get_root_expr_count = 0 ∧
    (example_backend.compile_environment_lambda
      (example_generator.compile_into_environment_code_gen example_backend) false
      (example_lambda "bad" (some 7) [])).2 = none ∧
    example_generator.compile_into_environment example_backend
        (some (example_lambda "bad" (some 7) [])) ≠ none ∧
    example_generator.compile_into_environment example_backend
        (some (example_lambda "bad" (some 7) [])) =
      some { Generated_code.new Code_kind.lambda_function with
        m_messages := [Message.mk true INTERNAL_JIT_BACKEND_ERROR
          "Compiling environment function failed"] } := by
  refine ⟨?_, ?_, ?_, ?_, ?_⟩ <;> decide

/-- C16, as amended. `compile_into_environment` reports a compilation error on the
code object it returns: for every simple lambda (body present, no root expressions) for
which the backend yields no function, it returns a code object, not NULL; that object
is the empty code object with the messages of the code generator, so it carries at
least one error message, the fallback `INTERNAL_JIT_BACKEND_ERROR` message being added
if and only if the backend had recorded no error. NULL is returned exactly if the
lambda is NULL or is not a simple lambda. -/
theorem compile_into_environment_failure_returns_diagnostic_code (B : Codegen_backend)
    (J : Code_generator_jit) (lambda : Lambda_function)
    (hbody : lambda.get_body ≠ none) (hroots : lambda.get_root_expr_count = 0)
    (hfail : (B.compile_environment_lambda (J.compile_into_environment_code_gen B) false
      lambda).2 = none) :
    J.compile_into_environment B (some lambda) ≠ none ∧
    J.compile_into_environment B (some lambda) =
      some ((Generated_code.new Code_kind.lambda_function).with_messages_of
        (ensure_error_message
          (B.compile_environment_lambda (J.compile_into_environment_code_gen B) false
            lambda).1
          "Compiling environment function failed")) ∧
    Failure_carries_diagnostic
      (B.compile_environment_lambda (J.compile_into_environment_code_gen B) false lambda).1
      "Compiling environment function failed" (J.compile_into_environment B (some lambda)) ∧
    (∀ ilambda : Option Lambda_function,
      J.compile_into_environment B ilambda = none ↔
        (ilambda = none ∨
          ∃ l, ilambda = some l ∧ (l.get_body = none ∨ l.get_root_expr_count ≠ 0))) := by
  have hentry : ¬ (lambda.get_body = none ∨ lambda.get_root_expr_count ≠ 0) := by
    intro h
    rcases h with h | h
    · exact hbody h
    · exact h hroots
  have heq : J.compile_into_environment B (some lambda) =
      some ((Generated_code.new Code_kind.lambda_function).with_messages_of
        (ensure_error_message
          (B.compile_environment_lambda (J.compile_into_environment_code_gen B) false
            lambda).1
          "Compiling environment function failed")) := by
    simp only [Code_generator_jit.compile_into_environment, hentry, if_false, hfail]
  refine ⟨by rw [heq]; exact Option.some_ne_none _, heq, ?_, ?_⟩
  · rw [heq]
    exact failure_carries_diagnostic_of _ _ _
  · intro ilambda
    cases ilambda with
    | none => simp [Code_generator_jit.compile_into_environment]
    | some l =>
      by_cases h : l.get_body = none ∨ l.get_root_expr_count ≠ 0
      · simp [Code_generator_jit.compile_into_environment, h]
      · simp only [Code_generator_jit.compile_into_environment, h, if_false, false_or,
          Option.some.injEq, exists_eq_left']
        split <;> simp

theorem compile_into_environment_failure_returns_diagnostic_code_witness :
    (example_lambda "bad" (some 7) []).get_body ≠ none ∧
    (example_lambda "bad" (some 7) []).get_root_expr_count = 0 ∧
    (example_backend.compile_environment_lambda
      (example_generator.compile_into_environment_code_gen example_backend) false
      (example_lambda "bad" (some 7) [])).2 = none ∧
    example_generator.compile_into_environment example_backend
        (some (example_lambda "bad" (some 7) [])) ≠ none ∧
    Failure_carries_diagnostic
      (example_backend.compile_environment_lambda
        (example_generator.compile_into_environment_code_gen example_backend) false
        (example_lambda "bad" (some 7) [])).1
      "Compiling environment function failed"
      (example_generator.compile_into_environment example_backend
        (some (example_lambda "bad" (some 7) []))) :=
  have h := compile_into_environment_failure_returns_diagnostic_code example_backend
    example_generator (example_lambda "bad" (some 7) []) (by decide) (by decide) (by decide)
  ⟨by decide, by decide, by decide, h.1, h.2.2.1⟩

/-! ## The code cache -/

theorem lookup_enter (c : ICode_cache) (key : List Nat) (e : ICode_cache.Entry) :
    (c.enter key e).lookup key = some e := by
  simp [ICode_cache.lookup, ICode_cache.enter]

theorem add_mapped_pairs (ps : List (Nat × String)) (c : Generated_code) :
    ps.foldl (fun c p => c.add_mapped_string p.2 p.1) c =
      { c with m_mapped_strings := c.m_mapped_strings ++ ps } := by
  induction ps generalizing c with
  | nil => simp
  | cons p ps ih =>
    rw [List.foldl_cons, ih]
    simp [Generated_code.add_mapped_string]

theorem add_mapped_strings_eq (c : Generated_code) (strings : List String) :
    c.add_mapped_strings strings =
      { c with m_mapped_strings := c.m_mapped_strings ++ strings.enum } := by
  unfold Generated_code.add_mapped_strings
  exact add_mapped_pairs _ _

theorem compile_into_ptx_fill_eq (B : Codegen_backend) (J : Code_generator_jit)
    (code_gen : LLVM_code_generator) (func : Llvm_function) (ptx_output : Bool)
    (kind : Code_kind) :
    Code_generator_jit.compile_into_ptx_fill B J code_gen func ptx_output
        (Generated_code.new kind) =
      { Generated_code.new kind with
        m_src_code :=
          Code_generator_jit.compile_source B J code_gen (B.get_parent func) ptx_output
        m_ro_segment := B.get_ro_segment code_gen
        m_render_state_usage := B.get_render_state_usage code_gen
        m_captured_arguments_layouts :=
          match code_gen.get_captured_arguments_llvm_type with
          | some _ => [B.create_value_layout code_gen]
          | none => []
        m_mapped_strings := (B.get_string_constants code_gen).enum } := by
  unfold Code_generator_jit.compile_into_ptx_fill
  simp only [add_mapped_strings_eq, Generated_code.add_layout_if_captured]
  cases code_gen.get_captured_arguments_llvm_type <;>
    simp [Generated_code.new, Generated_code.set_src_code, Generated_code.set_ro_segment,
      Generated_code.set_render_state_usage, Generated_code.add_captured_arguments_layout]

theorem compile_into_ptx_hit_eq (J : Code_generator_jit) (kind : Code_kind)
    (entry : ICode_cache.Entry) :
    Code_generator_jit.compile_into_ptx_hit J (Generated_code.new kind) entry =
      { Generated_code.new kind with
        m_src_code := entry.code
        m_ro_segment := entry.const_seg
        m_render_state_usage := entry.render_state_usage
        m_captured_arguments_layouts :=
          if entry.arg_layout = [] then []
          else [Generated_code_value_layout.mk entry.arg_layout J.m_options.map_strings_to_ids]
        m_mapped_strings := entry.mapped_strings.enum } := by
  unfold Code_generator_jit.compile_into_ptx_hit
  simp only [add_mapped_strings_eq, ICode_cache.Entry.arg_layout_size]
  by_cases h : entry.arg_layout = [] <;>
    simp [h, Generated_code.new, Generated_code.set_src_code, Generated_code.set_ro_segment,
      Generated_code.set_render_state_usage, Generated_code.add_captured_arguments_layout]

theorem compile_into_ptx_on_miss (md5 : List Hash_input → List Nat) (B : Codegen_backend)
    (J : Code_generator_jit) (cache : ICode_cache) (lambda : Lambda_function)
    (num_texture_spaces num_texture_results sm_version : Nat) (ptx_output : Bool)
    (func : Llvm_function)
    (hentry : ¬ (lambda.get_body = none ∧ lambda.get_root_expr_count < 1))
    (hmiss : cache.lookup (md5 (J.cache_key_inputs lambda num_texture_spaces
      num_texture_results sm_version ptx_output)) = none)
    (hfunc : (J.compile_into_ptx_compile B lambda num_texture_spaces num_texture_results
      sm_version).2.2 = some func) :
    J.compile_into_ptx md5 B (some cache) (some lambda) num_texture_spaces
        num_texture_results sm_version ptx_output =
      ((J.compile_into_ptx_compile B lambda num_texture_spaces num_texture_results
          sm_version).1,
        some (cache.enter
          (md5 (J.cache_key_inputs lambda num_texture_spaces num_texture_results sm_version
            ptx_output))
          (Code_generator_jit.compile_into_ptx_entry B
            (J.compile_into_ptx_compile B lambda num_texture_spaces num_texture_results
              sm_version).2.1
            (Code_generator_jit.compile_into_ptx_fill B
              (J.compile_into_ptx_compile B lambda num_texture_spaces num_texture_results
                sm_version).1
              (J.compile_into_ptx_compile B lambda num_texture_spaces num_texture_results
                sm_version).2.1 func ptx_output
              (Generated_code.new
                (if ptx_output then Code_kind.CK_PTX else Code_kind.CK_LLVM_IR))))),
        some ((Code_generator_jit.compile_into_ptx_fill B
            (J.compile_into_ptx_compile B lambda num_texture_spaces num_texture_results
              sm_version).1
            (J.compile_into_ptx_compile B lambda num_texture_spaces num_texture_results
              sm_version).2.1 func ptx_output
            (Generated_code.new
              (if ptx_output then Code_kind.CK_PTX else Code_kind.CK_LLVM_IR))).with_messages_of
          (J.compile_into_ptx_compile B lambda num_texture_spaces num_texture_results
            sm_version).2.1)) := by
  simp only [Code_generator_jit.compile_into_ptx, hentry, if_false, Option.bind, hmiss, hfunc,
    Option.map]

theorem compile_into_ptx_on_hit (md5 : List Hash_input → List Nat) (B : Codegen_backend)
    (J : Code_generator_jit) (cache : ICode_cache) (lambda : Lambda_function)
    (num_texture_spaces num_texture_results sm_version : Nat) (ptx_output : Bool)
    (entry : ICode_cache.Entry)
    (hentry : ¬ (lambda.get_body = none ∧ lambda.get_root_expr_count < 1))
    (hhit : cache.lookup (md5 (J.cache_key_inputs lambda num_texture_spaces
      num_texture_results sm_version ptx_output)) = some entry) :
    J.compile_into_ptx md5 B (some cache) (some lambda) num_texture_spaces
        num_texture_results sm_version ptx_output =
      (J, some cache, some (Code_generator_jit.compile_into_ptx_hit J
        (Generated_code.new (if ptx_output then Code_kind.CK_PTX else Code_kind.CK_LLVM_IR))
        entry)) := by
  simp only [Code_generator_jit.compile_into_ptx, hentry, if_false, Option.bind, hhit]

/-- C17. Cache hit reproduces the original compile. A `compile_into_ptx` call misses the
cache, compiles successfully and enters its entry. A following call that feeds the same
values into the cache key (lambda name and hash, `sm_version`, `ptx_output`, state
mode, texture space and result counts and the options of the key) finds that entry,
leaves the cache and the options as they are, and returns an artifact built from the
entry, whose source code, read-only segment, string table, render-state usage and
argument-block layout data equal those of the first artifact; it has a layout if and
only if the first one has. The layout data of a layout created for captured arguments
is taken to be non-empty. -/
theorem cache_hit_reproduces_compile (md5 : List Hash_input → List Nat)
    (B : Codegen_backend) (J J2 : Code_generator_jit) (cache : ICode_cache)
    (lambda lambda2 : Lambda_function)
    (num_texture_spaces num_texture_results sm_version : Nat) (ptx_output : Bool)
    (num_texture_spaces2 num_texture_results2 sm_version2 : Nat) (ptx_output2 : Bool)
    (func : Llvm_function)
    (hentry : ¬ (lambda.get_body = none ∧ lambda.get_root_expr_count < 1))
    (hmiss : cache.lookup (md5 (J.cache_key_inputs lambda num_texture_spaces
      num_texture_results sm_version ptx_output)) = none)
    (hfunc : (J.compile_into_ptx_compile B lambda num_texture_spaces num_texture_results
      sm_version).2.2 = some func)
    (hlayout : (J.compile_into_ptx_compile B lambda num_texture_spaces num_texture_results
        sm_version).2.1.get_captured_arguments_llvm_type ≠ none →
      (B.create_value_layout (J.compile_into_ptx_compile B lambda num_texture_spaces
        num_texture_results sm_version).2.1).m_layout_data ≠ [])
    (hentry2 : ¬ (lambda2.get_body = none ∧ lambda2.get_root_expr_count < 1))
    (hkey : J2.cache_key_inputs lambda2 num_texture_spaces2 num_texture_results2 sm_version2
        ptx_output2 =
      J.cache_key_inputs lambda num_texture_spaces num_texture_results sm_version ptx_output) :
    ∃ c1 c2 entry,
      (J.compile_into_ptx md5 B (some cache) (some lambda) num_texture_spaces
        num_texture_results sm_version ptx_output).2.2 = some c1 ∧
      (J.compile_into_ptx md5 B (some cache) (some lambda) num_texture_spaces
        num_texture_results sm_version ptx_output).2.1 =
          some (cache.enter (md5 (J.cache_key_inputs lambda num_texture_spaces
            num_texture_results sm_version ptx_output)) entry) ∧
      (cache.enter (md5 (J.cache_key_inputs lambda num_texture_spaces
          num_texture_results sm_version ptx_output)) entry).lookup
        (md5 (J2.cache_key_inputs lambda2 num_texture_spaces2 num_texture_results2
          sm_version2 ptx_output2)) = some entry ∧
      J2.compile_into_ptx md5 B
          (J.compile_into_ptx md5 B (some cache) (some lambda) num_texture_spaces
            num_texture_results sm_version ptx_output).2.1
          (some lambda2) num_texture_spaces2 num_texture_results2 sm_version2 ptx_output2 =
        (J2,
          some (cache.enter (md5 (J.cache_key_inputs lambda num_texture_spaces
            num_texture_results sm_version ptx_output)) entry),
          some c2) ∧
      c2 = Code_generator_jit.compile_into_ptx_hit J2
        (Generated_code.new (if ptx_output2 then Code_kind.CK_PTX else Code_kind.CK_LLVM_IR))
        entry ∧
      c2.m_src_code = c1.m_src_code ∧
      c2.m_ro_segment = c1.m_ro_segment ∧
      c2.m_mapped_strings = c1.m_mapped_strings ∧
      c2.m_render_state_usage = c1.m_render_state_usage ∧
      c2.m_captured_arguments_layouts.map (fun l => l.m_layout_data) =
        c1.m_captured_arguments_layouts.map (fun l => l.m_layout_data) ∧
      (c2.m_captured_arguments_layouts = [] ↔ c1.m_captured_arguments_layouts = []) := by
  have hfirst := compile_into_ptx_on_miss md5 B J cache lambda num_texture_spaces
    num_texture_results sm_version ptx_output func hentry hmiss hfunc
  rw [hfirst]
  refine ⟨_, _, _, rfl, rfl, ?_, ?_, rfl, ?_⟩
  · rw [hkey]
    exact lookup_enter _ _ _
  · apply compile_into_ptx_on_hit md5 B J2 _ lambda2 _ _ _ _ _ hentry2
    rw [hkey]
    exact lookup_enter _ _ _
  · rw [compile_into_ptx_fill_eq, compile_into_ptx_hit_eq]
    simp only [Code_generator_jit.compile_into_ptx_entry, Generated_code.with_messages_of,
      Generated_code.get_state_usage]
    refine ⟨trivial, trivial, trivial, trivial, ?_, ?_⟩
    · cases hcap : (J.compile_into_ptx_compile B lambda num_texture_spaces
        num_texture_results sm_version).2.1.get_captured_arguments_llvm_type with
      | none => simp
      | some t =>
        have hne := hlayout (by rw [hcap]; simp)
        simp [hne]
    · cases hcap : (J.compile_into_ptx_compile B lambda num_texture_spaces
        num_texture_results sm_version).2.1.get_captured_arguments_llvm_type with
      | none => simp
      | some t =>
        have hne := hlayout (by rw [hcap]; simp)
        simp [hne]

theorem cache_hit_reproduces_compile_witness :
    ∃ c1 c2,
      (example_generator.compile_into_ptx example_md5 example_backend
        (some (ICode_cache.mk [])) (some (example_lambda "f" (some 7) [(0, "p")]))
        1 0 30 true).2.2 = some c1 ∧
      ((example_generator.compile_into_ptx_compile example_backend
          (example_lambda "f" (some 7) [(0, "p")]) 1 0 30).1.compile_into_ptx example_md5
        example_backend
        (example_generator.compile_into_ptx example_md5 example_backend
          (some (ICode_cache.mk [])) (some (example_lambda "f" (some 7) [(0, "p")]))
          1 0 30 true).2.1
        (some (example_lambda "f" (some 7) [(0, "p")])) 1 0 30 true).2.2 = some c2 ∧
      c2.m_src_code = c1.m_src_code ∧
      c2.m_ro_segment = c1.m_ro_segment ∧
      c2.m_mapped_strings = c1.m_mapped_strings ∧
      c2.m_render_state_usage = c1.m_render_state_usage ∧
      c2.m_captured_arguments_layouts.map (fun l => l.m_layout_data) =
        c1.m_captured_arguments_layouts.map (fun l => l.m_layout_data) := by
  obtain ⟨c1, c2, _, h1, _, _, h2, _, h3, h4, h5, h6, h7, _⟩ :=
    cache_hit_reproduces_compile example_md5 example_backend example_generator
      (example_generator.compile_into_ptx_compile example_backend
        (example_lambda "f" (some 7) [(0, "p")]) 1 0 30).1
      (ICode_cache.mk []) (example_lambda "f" (some 7) [(0, "p")])
      (example_lambda "f" (some 7) [(0, "p")]) 1 0 30 true 1 0 30 true
      (Llvm_function.mk "f") (by decide) (by decide) (by decide) (by decide) (by decide)
      (by decide)
  exact ⟨c1, c2, h1, by rw [h2], h3, h4, h5, h6, h7⟩

/-! ## The cache key and the options of the compile path -/

theorem cache_key_inputs_eq_iff (J J2 : Code_generator_jit) (lambda lambda2 : Lambda_function)
    (num_texture_spaces num_texture_results sm_version : Nat) (ptx_output : Bool)
    (num_texture_spaces2 num_texture_results2 sm_version2 : Nat) (ptx_output2 : Bool) :
    J2.cache_key_inputs lambda2 num_texture_spaces2 num_texture_results2 sm_version2
        ptx_output2 =
      J.cache_key_inputs lambda num_texture_spaces num_texture_results sm_version ptx_output ↔
    (lambda2.get_name = lambda.get_name ∧ lambda2.m_hash = lambda.m_hash ∧
      sm_version2 = sm_version ∧ ptx_output2 = ptx_output ∧
      Code_generator_jit.ptx_state_mode lambda2 = Code_generator_jit.ptx_state_mode lambda ∧
      num_texture_spaces2 = num_texture_spaces ∧ num_texture_results2 = num_texture_results ∧
      J2.m_options.internal_space = J.m_options.internal_space ∧
      J2.m_options.opt_level = J.m_options.opt_level ∧
      J2.m_options.fast_math = J.m_options.fast_math ∧
      J2.m_options.disable_exceptions = J.m_options.disable_exceptions ∧
      J2.m_options.enable_ro_segment = J.m_options.enable_ro_segment ∧
      J2.m_options.link_libdevice = J.m_options.link_libdevice ∧
      J2.m_options.tex_lookup_call_mode = J.m_options.tex_lookup_call_mode ∧
      J2.m_options.map_strings_to_ids = J.m_options.map_strings_to_ids) := by
  simp [Code_generator_jit.cache_key_inputs]

theorem cache_key_inputs_ignore_unkeyed_options (J : Code_generator_jit)
    (lambda : Lambda_function)
    (num_texture_spaces num_texture_results sm_version : Nat) (ptx_output : Bool)
    (write_bitcode use_bitangent include_uniform_state : Bool) :
    Code_generator_jit.cache_key_inputs
        { m_options := { J.m_options with
            write_bitcode := write_bitcode, use_bitangent := use_bitangent,
            include_uniform_state := include_uniform_state } }
        lambda num_texture_spaces num_texture_results sm_version ptx_output =
      J.cache_key_inputs lambda num_texture_spaces num_texture_results sm_version ptx_output :=
  rfl

/-- C18, at a failing input. Two `compile_into_ptx` calls on the same lambda with LLVM
output (`ptx_output` false) differ only in the option `write_bitcode`. On the compile
path the option changes the artifact: without a cache the first configuration yields
LLVM IR and the second yields bitcode. Yet both calls feed the same values into the
cache-key hash, so with a cache the second call hits the entry of the first and
returns LLVM IR. -/
theorem cache_key_omits_write_bitcode :
    example_generator.m_options.write_bitcode ≠ example_generator_bitcode.m_options.write_bitcode ∧
    ((example_generator.compile_into_ptx example_md5 example_backend none
        (some (example_lambda "f" (some 7) [])) 1 0 30 false).2.2.map
      (fun c => c.m_src_code)) = some "ir" ∧
    ((example_generator_bitcode.compile_into_ptx example_md5 example_backend none
        (some (example_lambda "f" (some 7) [])) 1 0 30 false).2.2.map
      (fun c => c.m_src_code)) = some "bc" ∧
    example_generator.cache_key_inputs (example_lambda "f" (some 7) []) 1 0 30 false =
      example_generator_bitcode.cache_key_inputs (example_lambda "f" (some 7) []) 1 0 30 false ∧
    ((example_generator_bitcode.compile_into_ptx example_md5 example_backend
        (example_generator.compile_into_ptx example_md5 example_backend
          (some (ICode_cache.mk [])) (some (example_lambda "f" (some 7) [])) 1 0 30 false).2.1
        (some (example_lambda "f" (some 7) [])) 1 0 30 false).2.2.map
      (fun c => c.m_src_code)) = some "ir" := by
  refine ⟨?_, ?_, ?_, ?_, ?_⟩ <;> decide

/-! ## The lambda builder: rejection of non-BSDF distributions -/

theorem is_df_of_kind (t : IType)
    (h : t.get_kind = Type_kind.TK_EDF ∨ t.get_kind = Type_kind.TK_VDF) : t.is_df = true := by
  cases t with
  | resource k => cases k <;> simp [IType.get_kind] at h
  | _ => simp [IType.get_kind, IType.is_df] at h ⊢

theorem from_material_df_non_bsdf (S : Dag_services) (b : Lambda_builder)
    (compiled_material : Mdl_compiled_material) (path : String) (fname : Option String)
    (include_geometry_normal : Bool) (field : IExpression) (field_type : IType)
    (hfield : compiled_material.lookup_sub_expression path = some (field, field_type))
    (hgate : ¬ (b.m_compile_consts = false ∧ field.get_kind = Expression_kind.EK_CONSTANT)) :
    (field_type.skip_type_alias.get_kind = Type_kind.TK_EDF →
      b.from_material_df S compiled_material path fname include_geometry_normal =
        ({ b with m_error := -8 }, none)) ∧
    (field_type.skip_type_alias.get_kind = Type_kind.TK_VDF →
      b.from_material_df S compiled_material path fname include_geometry_normal =
        ({ b with m_error := -9 }, none)) := by
  have hg : ¬ ((!b.m_compile_consts) = true ∧ field.get_kind = Expression_kind.EK_CONSTANT) := by
    simpa using hgate
  have hg2 : b.m_compile_consts = false → ¬ field.get_kind = Expression_kind.EK_CONSTANT :=
    fun hc hk => hgate ⟨hc, hk⟩
  constructor
  · intro h
    have hdf := is_df_of_kind _ (Or.inl h)
    simpa [Lambda_builder.from_material_df, hfield, h, hdf] using hg2
  · intro h
    have hdf := is_df_of_kind _ (Or.inr h)
    simpa [Lambda_builder.from_material_df, hfield, h, hdf] using hg2

/-- C19, as stated, fails. The field `surface.emission.emission` of the example material
exists and has EDF type, but it is a constant and constants are not compiled:
`from_material_df` gives error code -4, not -8, and so do `add_material_df` and
`translate_material_df`. -/
theorem constant_edf_rejected_as_constant :
    (example_material.lookup_sub_expression "surface.emission.emission").map
        (fun f => (f.1.get_kind, f.2.skip_type_alias.get_kind)) =
      some (Expression_kind.EK_CONSTANT, Type_kind.TK_EDF) ∧
    ((Lambda_builder.new false).from_material_df example_services example_material
        "surface.emission.emission" none false).1.get_error_code = -4 ∧
    ((example_backend_unit false).add_material_df example_services example_lambda_services
        example_backend (some example_transaction) (some example_material)
        (some "surface.emission.emission") none false).1 = -4 ∧
    ((example_llvm_backend false).translate_material_df example_services
        example_lambda_services example_backend example_transaction example_material
        "surface.emission.emission" none false).2.1 = -4 := by
  refine ⟨?_, ?_, ?_, ?_⟩ <;> decide

/-- C19, as amended. For every compiled material and path whose field exists, is not
rejected as a constant (constants are compiled, or the field is not a constant) and has
EDF type after skipping aliases, `from_material_df` returns no distribution function
with error code -8, and for VDF type with error code -9; `add_material_df` and
`translate_material_df` return exactly that code and no artifact, and
`add_material_df` leaves the unit as it was, with its registry, function table and
layout list. -/
theorem non_bsdf_distribution_rejected (S : Dag_services) (L : Lambda_services)
    (B : Codegen_backend) (compiled_material : Mdl_compiled_material) (path : String)
    (fname : Option String) (include_geometry_normal : Bool) (compile_consts : Bool)
    (field : IExpression) (field_type : IType) (code : Int)
    (hfield : compiled_material.lookup_sub_expression path = some (field, field_type))
    (hgate : ¬ (compile_consts = false ∧ field.get_kind = Expression_kind.EK_CONSTANT))
    (hkind : (field_type.skip_type_alias.get_kind = Type_kind.TK_EDF ∧ code = -8) ∨
      (field_type.skip_type_alias.get_kind = Type_kind.TK_VDF ∧ code = -9)) :
    (∀ b : Lambda_builder, b.m_compile_consts = compile_consts →
      (b.from_material_df S compiled_material path fname include_geometry_normal).2 = none ∧
      (b.from_material_df S compiled_material path fname
        include_geometry_normal).1.get_error_code = code) ∧
    (∀ (t : Transaction) (u : Backend_link_unit), u.m_compile_consts = compile_consts →
      (u.add_material_df S L B (some t) (some compiled_material) (some path) fname
        include_geometry_normal).1 = code ∧
      (u.add_material_df S L B (some t) (some compiled_material) (some path) fname
        include_geometry_normal).2.m_registry = u.m_registry ∧
      (u.add_material_df S L B (some t) (some compiled_material) (some path) fname
        include_geometry_normal).2.m_unit.m_func_infos = u.m_unit.m_func_infos ∧
      (u.add_material_df S L B (some t) (some compiled_material) (some path) fname
        include_geometry_normal).2.m_unit.m_arg_block_layouts = u.m_unit.m_arg_block_layouts ∧
      (u.add_material_df S L B (some t) (some compiled_material) (some path) fname
        include_geometry_normal).2.m_unit = u.m_unit ∧
      (u.add_material_df S L B (some t) (some compiled_material) (some path) fname
        include_geometry_normal).2.m_target_code_layouts = u.m_target_code_layouts) ∧
    (∀ (t : Transaction) (be : Mdl_llvm_backend), be.m_compile_consts = compile_consts →
      be.translate_material_df S L B t compiled_material path fname include_geometry_normal =
        (be, code, none)) := by
  have key : ∀ b : Lambda_builder, b.m_compile_consts = compile_consts →
      b.from_material_df S compiled_material path fname include_geometry_normal =
        ({ b with m_error := code }, none) := by
    intro b hb
    have h := from_material_df_non_bsdf S b compiled_material path fname
      include_geometry_normal field field_type hfield (by rw [hb]; exact hgate)
    rcases hkind with ⟨hk, hc⟩ | ⟨hk, hc⟩
    · rw [hc]; exact h.1 hk
    · rw [hc]; exact h.2 hk
  refine ⟨?_, ?_, ?_⟩
  · intro b hb
    rw [key b hb]
    exact ⟨rfl, rfl⟩
  · intro t u hu
    have hk := key (Lambda_builder.new u.m_compile_consts) hu
    simp [Backend_link_unit.add_material_df, hk, Lambda_builder.get_error_code]
  · intro t be hbe
    have hk := key (Lambda_builder.new be.m_compile_consts) hbe
    simp only [Mdl_llvm_backend.translate_material_df, hk, Lambda_builder.get_error_code]

theorem non_bsdf_distribution_rejected_witness :
    ((Lambda_builder.new false).from_material_df example_services example_material
        "backface.emission.emission" none false).1.get_error_code = -8 ∧
    ((example_backend_unit false).add_material_df example_services example_lambda_services
        example_backend (some example_transaction) (some example_material)
        (some "backface.emission.emission") none false).1 = -8 ∧
    ((example_llvm_backend true).translate_material_df example_services
        example_lambda_services example_backend example_transaction example_material
        "volume.scattering" none false) = (example_llvm_backend true, -9, none) :=
  have h := non_bsdf_distribution_rejected example_services example_lambda_services
    example_backend example_material "backface.emission.emission" none false false
    (IExpression.mk Expression_kind.EK_DIRECT_CALL 3) IType.edf (-8) rfl (by decide)
    (Or.inl ⟨by decide, rfl⟩)
  have h2 := non_bsdf_distribution_rejected example_services example_lambda_services
    example_backend example_material "volume.scattering" none false true
    (IExpression.mk Expression_kind.EK_DIRECT_CALL 4) (IType.alias IType.vdf) (-9)
    rfl (by decide) (Or.inr ⟨by decide, rfl⟩)
  ⟨(h.1 (Lambda_builder.new false) rfl).2,
    (h.2.1 example_transaction (example_backend_unit false) rfl).1,
    h2.2.2 example_transaction (example_llvm_backend true) rfl⟩
/-! ## The lambda builder: distribution and resource types where a value is required -/

theorem contains_df_type_iff : ∀ t : IType, contains_df_type t = true ↔ Contains_df t
  | .alias t => by
    rw [contains_df_type]
    constructor
    · intro h
      exact Contains_df.of_alias t ((contains_df_type_iff t).1 h)
    · intro h
      cases h with
      | of_df _ hd => simp [IType.is_df] at hd
      | of_alias _ h' => exact (contains_df_type_iff t).2 h'
  | .bsdf => by
    simp only [contains_df_type, true_iff]
    exact Contains_df.of_df _ rfl
  | .edf => by
    simp only [contains_df_type, true_iff]
    exact Contains_df.of_df _ rfl
  | .vdf => by
    simp only [contains_df_type, true_iff]
    exact Contains_df.of_df _ rfl
  | .resource k => by
    simp only [contains_df_type, Bool.false_eq_true, false_iff]
    intro h
    cases h with
    | of_df _ hd => simp [IType.is_df] at hd
  | .atomic n => by
    simp only [contains_df_type, Bool.false_eq_true, false_iff]
    intro h
    cases h with
    | of_df _ hd => simp [IType.is_df] at hd
  | .compound es => by
    rw [contains_df_type]
    constructor
    · intro h
      obtain ⟨e, hmem, he⟩ := (elements_iff es).1 h
      exact Contains_df.of_compound es e hmem he
    · intro h
      cases h with
      | of_df _ hd => simp [IType.is_df] at hd
      | of_compound _ e hmem he => exact (elements_iff es).2 ⟨e, hmem, he⟩
where
  elements_iff : ∀ es : List IType,
      contains_df_type.elements_contain_df_type es = true ↔ ∃ e ∈ es, Contains_df e
    | [] => by simp [contains_df_type.elements_contain_df_type]
    | e :: rest => by
      rw [contains_df_type.elements_contain_df_type]
      have h1 := contains_df_type_iff e
      have h2 := elements_iff rest
      cases hc : contains_df_type e with
      | true =>
        simp only [if_true, true_iff]
        exact ⟨e, List.mem_cons_self _ _, h1.1 hc⟩
      | false =>
        simp only [Bool.false_eq_true, if_false]
        rw [h2]
        constructor
        · rintro ⟨x, hx, hd⟩
          exact ⟨x, List.mem_cons_of_mem _ hx, hd⟩
        · rintro ⟨x, hx, hd⟩
          rcases List.mem_cons.1 hx with rfl | hx'
          · have := h1.2 hd
            rw [hc] at this
            exact absurd this (by simp)
          · exact ⟨x, hx', hd⟩

theorem sub_expr_rejected (S : Dag_services) (b : Lambda_builder)
    (compiled_material : Mdl_compiled_material) (path : String) (fname : Option String)
    (field : IExpression) (field_type : IType)
    (hfield : compiled_material.lookup_sub_expression path = some (field, field_type))
    (hgate : ¬ (b.m_compile_consts = false ∧ field.get_kind = Expression_kind.EK_CONSTANT))
    (htype : contains_df_type field_type.skip_type_alias = true ∨
      field_type.skip_type_alias.is_resource = true) :
    b.from_sub_expr S compiled_material path fname = ({ b with m_error := -5 }, none) ∧
    ∀ lambda : Lambda_function,
      Lambda_builder.path_context path = lambda.get_execution_context →
      b.add_sub_expr S lambda compiled_material path = ({ b with m_error := -5 }, lambda, 0) := by
  have hg : ¬ ((!b.m_compile_consts) = true ∧ field.get_kind = Expression_kind.EK_CONSTANT) := by
    simpa using hgate
  constructor
  · simp only [Lambda_builder.from_sub_expr, hfield, hg, if_false, htype, if_true]
  · intro lambda hctx
    have hc : ¬ (Lambda_builder.path_context path ≠ lambda.get_execution_context) := by
      simp [hctx]
    simp only [Lambda_builder.add_sub_expr, hc, hfield, hg, if_false, htype, if_true]

/-- C20, as stated, fails. The field `backface` of the example material exists and its
type is a struct that holds a BSDF, but it is a constant and constants are not
compiled: `from_sub_expr` and `add_sub_expr` give error code -4, not -5. And the field
`surface`, whose type holds a BSDF two levels down, is added to a fragment of the
displacement context: `add_sub_expr` gives error code -7, not -5. -/
theorem df_type_rejected_with_other_codes :
    (example_material.lookup_sub_expression "backface").map
        (fun f => (f.1.get_kind, contains_df_type f.2.skip_type_alias)) =
      some (Expression_kind.EK_CONSTANT, true) ∧
    ((Lambda_builder.new false).from_sub_expr example_services example_material
        "backface" none).1.get_error_code = -4 ∧
    ((Lambda_builder.new false).add_sub_expr example_services
        (example_services.create_lambda_function Lambda_execution_context.LEC_CORE)
        example_material "backface").1.get_error_code = -4 ∧
    (example_material.lookup_sub_expression "surface").map
        (fun f => (f.1.get_kind, contains_df_type f.2.skip_type_alias)) =
      some (Expression_kind.EK_DIRECT_CALL, true) ∧
    ((Lambda_builder.new true).add_sub_expr example_services
        (example_services.create_lambda_function Lambda_execution_context.LEC_DISPLACEMENT)
        example_material "surface").1.get_error_code = -7 := by
  refine ⟨?_, ?_, ?_, ?_, ?_⟩ <;> decide

/-- C20, as amended. For every compiled material and path whose field exists, is not
rejected as a constant (constants are compiled, or the field is not a constant) and
whose type, after skipping aliases, contains a distribution type at any nesting depth
of a compound type or is itself a resource type: `from_sub_expr` fails with error code
-5 and builds no fragment, and `add_sub_expr`, on a fragment whose execution context is
the one of the path, fails with error code -5, returns 0 and leaves the fragment as
it was. -/
theorem df_and_resource_types_rejected (S : Dag_services) (b : Lambda_builder)
    (compiled_material : Mdl_compiled_material) (path : String) (fname : Option String)
    (field : IExpression) (field_type : IType)
    (hfield : compiled_material.lookup_sub_expression path = some (field, field_type))
    (hgate : ¬ (b.m_compile_consts = false ∧ field.get_kind = Expression_kind.EK_CONSTANT))
    (htype : Contains_df field_type.skip_type_alias ∨
      field_type.skip_type_alias.is_resource = true) :
    (b.from_sub_expr S compiled_material path fname).2 = none ∧
    (b.from_sub_expr S compiled_material path fname).1.get_error_code = -5 ∧
    ∀ lambda : Lambda_function,
      Lambda_builder.path_context path = lambda.get_execution_context →
      (b.add_sub_expr S lambda compiled_material path).1.get_error_code = -5 ∧
      (b.add_sub_expr S lambda compiled_material path).2.1 = lambda ∧
      (b.add_sub_expr S lambda compiled_material path).2.2 = 0 := by
  have h := sub_expr_rejected S b compiled_material path fname field field_type hfield hgate
    (htype.imp (contains_df_type_iff _).2 id)
  refine ⟨?_, ?_, ?_⟩
  · rw [h.1]
  · rw [h.1]; rfl
  · intro lambda hctx
    rw [h.2 lambda hctx]
    exact ⟨rfl, rfl, rfl⟩

theorem df_and_resource_types_rejected_witness :
    ((Lambda_builder.new true).from_sub_expr example_services example_material "surface"
      none).1.get_error_code = -5 ∧
    ((Lambda_builder.new true).add_sub_expr example_services
      (example_lambda "f" (some 7) []) example_material "tex").1.get_error_code = -5 ∧
    ((Lambda_builder.new true).add_sub_expr example_services
      (example_lambda "f" (some 7) []) example_material "tex").2.1 =
        example_lambda "f" (some 7) [] :=
  have h := df_and_resource_types_rejected example_services (Lambda_builder.new true)
    example_material "surface" none (IExpression.mk Expression_kind.EK_DIRECT_CALL 5)
    (IType.alias (IType.compound
      [IType.atomic 1, IType.compound [IType.atomic 2, IType.alias IType.bsdf]]))
    rfl (by decide)
    (Or.inl (Contains_df.of_compound _ (IType.compound [IType.atomic 2, IType.alias IType.bsdf])
      (by simp)
      (Contains_df.of_compound _ (IType.alias IType.bsdf) (by simp)
        (Contains_df.of_alias _ (Contains_df.of_df _ rfl)))))
  have h2 := df_and_resource_types_rejected example_services (Lambda_builder.new true)
    example_material "tex" none (IExpression.mk Expression_kind.EK_DIRECT_CALL 7)
    (IType.resource Resource_kind.texture) rfl (by decide) (Or.inr rfl)
  ⟨h.2.1, (h2.2.2 (example_lambda "f" (some 7) []) (by decide)).1,
    (h2.2.2 (example_lambda "f" (some 7) []) (by decide)).2.1⟩

/-! ## The lambda builder: `add_sub_expr` -/

/-- The outcome of `add_sub_expr`, by cases: the four rejections leave the lambda
function as it was and return 0; otherwise the body, if any, becomes a root expression
and the node of the path is stored as the last root expression. -/
theorem add_sub_expr_cases (S : Dag_services) (b : Lambda_builder) (lambda : Lambda_function)
    (compiled_material : Mdl_compiled_material) (path : String) :
    (Lambda_builder.path_context path ≠ lambda.get_execution_context ∧
      b.add_sub_expr S lambda compiled_material path = ({ b with m_error := -7 }, lambda, 0)) ∨
    (Lambda_builder.path_context path = lambda.get_execution_context ∧
      compiled_material.lookup_sub_expression path = none ∧
      b.add_sub_expr S lambda compiled_material path = ({ b with m_error := -2 }, lambda, 0)) ∨
    (∃ field field_type,
      Lambda_builder.path_context path = lambda.get_execution_context ∧
      compiled_material.lookup_sub_expression path = some (field, field_type) ∧
      (b.m_compile_consts = false ∧ field.get_kind = Expression_kind.EK_CONSTANT) ∧
      b.add_sub_expr S lambda compiled_material path = ({ b with m_error := -4 }, lambda, 0)) ∨
    (∃ field field_type,
      Lambda_builder.path_context path = lambda.get_execution_context ∧
      compiled_material.lookup_sub_expression path = some (field, field_type) ∧
      ¬ (b.m_compile_consts = false ∧ field.get_kind = Expression_kind.EK_CONSTANT) ∧
      (contains_df_type field_type.skip_type_alias = true ∨
        field_type.skip_type_alias.is_resource = true) ∧
      b.add_sub_expr S lambda compiled_material path = ({ b with m_error := -5 }, lambda, 0)) ∨
    (∃ field field_type,
      Lambda_builder.path_context path = lambda.get_execution_context ∧
      compiled_material.lookup_sub_expression path = some (field, field_type) ∧
      ¬ (b.m_compile_consts = false ∧ field.get_kind = Expression_kind.EK_CONSTANT) ∧
      ¬ (contains_df_type field_type.skip_type_alias = true ∨
        field_type.skip_type_alias.is_resource = true) ∧
      b.add_sub_expr S lambda compiled_material path =
        ({ b with m_error := 0 },
          (lambda.body_to_root.store_root_expr (path_node S compiled_material path)).1,
          lambda.body_to_root.m_root_exprs.length)) := by
  by_cases hctx : Lambda_builder.path_context path = lambda.get_execution_context
  · have hc : ¬ (Lambda_builder.path_context path ≠ lambda.get_execution_context) := by
      simp [hctx]
    rcases hf : compiled_material.lookup_sub_expression path with _ | ⟨field, field_type⟩
    · right; left
      refine ⟨hctx, rfl, ?_⟩
      simp only [Lambda_builder.add_sub_expr, hc, if_false, hf]
    · by_cases hg : b.m_compile_consts = false ∧ field.get_kind = Expression_kind.EK_CONSTANT
      · right; right; left
        refine ⟨field, field_type, hctx, rfl, hg, ?_⟩
        have hg' : (!b.m_compile_consts) = true ∧
            field.get_kind = Expression_kind.EK_CONSTANT := by simpa using hg
        simp only [Lambda_builder.add_sub_expr, hc, if_false, hf, hg', and_self, if_true]
      · have hg' : ¬ ((!b.m_compile_consts) = true ∧
            field.get_kind = Expression_kind.EK_CONSTANT) := by simpa using hg
        by_cases ht : contains_df_type field_type.skip_type_alias = true ∨
            field_type.skip_type_alias.is_resource = true
        · right; right; right; left
          refine ⟨field, field_type, hctx, rfl, hg, ht, ?_⟩
          simp only [Lambda_builder.add_sub_expr, hc, if_false, hf, hg', ht, if_true]
        · right; right; right; right
          refine ⟨field, field_type, hctx, rfl, hg, ht, ?_⟩
          simp only [Lambda_builder.add_sub_expr, hc, if_false, hf, hg', ht, path_node,
            Lambda_function.body_to_root, Lambda_function.store_root_expr]
  · left
    refine ⟨hctx, ?_⟩
    have hc : Lambda_builder.path_context path ≠ lambda.get_execution_context := hctx
    simp only [Lambda_builder.add_sub_expr]
    rw [if_pos hc]

theorem body_to_root_spec (l : Lambda_function) :
    l.body_to_root.get_body = none ∧
    l.body_to_root.m_root_exprs =
      (match l.get_body with
       | some body => l.m_root_exprs ++ [some body]
       | none => l.m_root_exprs) := by
  unfold Lambda_function.body_to_root
  cases h : l.get_body with
  | none => exact ⟨h, rfl⟩
  | some body => exact ⟨rfl, rfl⟩

/-- C28. `add_sub_expr` is atomic on failure: if it fails, then the error code is -7
for a differing execution context, -2 for an unknown path, -4 for a constant when
constants are not compiled, or -5 for a distribution or resource type; it returns 0
and the fragment, with its body and its root expressions, is what it was before. -/
theorem add_sub_expr_atomic_on_failure (S : Dag_services) (b : Lambda_builder)
    (lambda : Lambda_function) (compiled_material : Mdl_compiled_material) (path : String)
    (hfail : (b.add_sub_expr S lambda compiled_material path).1.get_error_code ≠ 0) :
    (b.add_sub_expr S lambda compiled_material path).2.2 = 0 ∧
    (b.add_sub_expr S lambda compiled_material path).2.1 = lambda ∧
    (b.add_sub_expr S lambda compiled_material path).2.1.get_body = lambda.get_body ∧
    (b.add_sub_expr S lambda compiled_material path).2.1.m_root_exprs = lambda.m_root_exprs ∧
    (((b.add_sub_expr S lambda compiled_material path).1.get_error_code = -7 ∧
        Lambda_builder.path_context path ≠ lambda.get_execution_context) ∨
      ((b.add_sub_expr S lambda compiled_material path).1.get_error_code = -2 ∧
        compiled_material.lookup_sub_expression path = none) ∨
      ((b.add_sub_expr S lambda compiled_material path).1.get_error_code = -4 ∧
        ∃ field field_type,
          compiled_material.lookup_sub_expression path = some (field, field_type) ∧
          b.m_compile_consts = false ∧ field.get_kind = Expression_kind.EK_CONSTANT) ∨
      ((b.add_sub_expr S lambda compiled_material path).1.get_error_code = -5 ∧
        ∃ field field_type,
          compiled_material.lookup_sub_expression path = some (field, field_type) ∧
          (contains_df_type field_type.skip_type_alias = true ∨
            field_type.skip_type_alias.is_resource = true))) := by
  rcases add_sub_expr_cases S b lambda compiled_material path with
    ⟨hctx, h⟩ | ⟨_, hf, h⟩ | ⟨f, ft, _, hf, hg, h⟩ | ⟨f, ft, _, hf, _, ht, h⟩ |
    ⟨f, ft, _, _, _, _, h⟩
  · rw [h]
    exact ⟨rfl, rfl, rfl, rfl, Or.inl ⟨rfl, hctx⟩⟩
  · rw [h]
    exact ⟨rfl, rfl, rfl, rfl, Or.inr (Or.inl ⟨rfl, hf⟩)⟩
  · rw [h]
    exact ⟨rfl, rfl, rfl, rfl, Or.inr (Or.inr (Or.inl ⟨rfl, f, ft, hf, hg.1, hg.2⟩))⟩
  · rw [h]
    exact ⟨rfl, rfl, rfl, rfl, Or.inr (Or.inr (Or.inr ⟨rfl, f, ft, hf, ht⟩))⟩
  · rw [h] at hfail
    exact absurd rfl hfail

theorem add_sub_expr_atomic_on_failure_witness :
    ((Lambda_builder.new true).add_sub_expr example_services
      (example_lambda "f" (some 7) []) example_material "no.such.path").2.2 = 0 ∧
    ((Lambda_builder.new true).add_sub_expr example_services
      (example_lambda "f" (some 7) []) example_material "no.such.path").2.1 =
        example_lambda "f" (some 7) [] :=
  have h := add_sub_expr_atomic_on_failure example_services (Lambda_builder.new true)
    (example_lambda "f" (some 7) []) example_material "no.such.path" (by decide)
  ⟨h.1, h.2.1⟩

/-! ## Switch-form exclusivity -/

theorem add_material_parameters_roots (ps : List (Nat × String)) :
    ∀ (l : Lambda_function) (i : Nat),
      (l.add_material_parameters i ps).m_root_exprs = l.m_root_exprs := by
  induction ps with
  | nil => intro l i; rfl
  | cons p ps ih =>
    intro l i
    obtain ⟨tp, name⟩ := p
    simp only [Lambda_function.add_material_parameters]
    rw [ih]
    rfl

theorem from_sub_expr_success (S : Dag_services) (b b1 : Lambda_builder)
    (compiled_material : Mdl_compiled_material) (path : String) (fname : Option String)
    (lambda : Lambda_function)
    (h : b.from_sub_expr S compiled_material path fname = (b1, some lambda)) :
    lambda.get_body = path_node S compiled_material path ∧
    lambda.m_root_exprs =
      (S.create_lambda_function (Lambda_builder.path_context path)).m_root_exprs := by
  unfold Lambda_builder.from_sub_expr at h
  rcases hf : compiled_material.lookup_sub_expression path with _ | ⟨field, field_type⟩
  · simp [hf] at h
  · simp only [hf] at h
    split_ifs at h with hg ht
    · simp at h
    · simp at h
    · simp only [Prod.mk.injEq, Option.some.injEq] at h
      obtain ⟨_, hl⟩ := h
      subst hl
      have hr := add_material_parameters_roots compiled_material.m_parameters
        (S.create_lambda_function (Lambda_builder.path_context path)) 0
      cases fname with
      | none => exact ⟨by simp [path_node, hf, Lambda_function.get_body,
          Lambda_function.set_body], by simpa [Lambda_function.set_body] using hr⟩
      | some name => exact ⟨by simp [path_node, hf, Lambda_function.get_body,
          Lambda_function.set_body, Lambda_function.set_name], by
            simpa [Lambda_function.set_body, Lambda_function.set_name] using hr⟩

theorem add_sub_exprs_roots (S : Dag_services) (compiled_material : Mdl_compiled_material)
    (others : List String) :
    ∀ (b : Lambda_builder) (lambda : Lambda_function) (b1 : Lambda_builder)
      (lambda1 : Lambda_function),
      lambda.get_body = none → lambda.m_root_exprs ≠ [] →
      add_sub_exprs S b lambda compiled_material others = (b1, some lambda1) →
      lambda1.get_body = none ∧
      lambda1.m_root_exprs =
        lambda.m_root_exprs ++ others.map (path_node S compiled_material) := by
  induction others with
  | nil =>
    intro b lambda b1 lambda1 hb _ h
    simp only [add_sub_exprs, Prod.mk.injEq, Option.some.injEq] at h
    obtain ⟨_, hl⟩ := h
    subst hl
    exact ⟨hb, by simp⟩
  | cons p rest ih =>
    intro b lambda b1 lambda1 hb hne h
    have hbr : lambda.body_to_root = lambda := by
      unfold Lambda_function.body_to_root
      rw [hb]
    have hlen : lambda.m_root_exprs.length ≠ 0 := by
      simpa [List.length_eq_zero] using hne
    simp only [add_sub_exprs] at h
    rcases add_sub_expr_cases S b lambda compiled_material p with
      ⟨_, hr⟩ | ⟨_, _, hr⟩ | ⟨f, ft, _, _, _, hr⟩ | ⟨f, ft, _, _, _, _, hr⟩ |
      ⟨f, ft, _, _, _, _, hr⟩
    · rw [hr] at h; simp at h
    · rw [hr] at h; simp at h
    · rw [hr] at h; simp at h
    · rw [hr] at h; simp at h
    · rw [hr, hbr] at h
      simp only [hlen, if_false] at h
      have := ih _ _ b1 lambda1 (by simpa [Lambda_function.store_root_expr,
        Lambda_function.get_body] using hb) (by simp [Lambda_function.store_root_expr]) h
      refine ⟨this.1, ?_⟩
      rw [this.2]
      simp [Lambda_function.store_root_expr]

/-- C21. Switch-form exclusivity. After a successful `add_sub_expr` call the fragment
has no body; if it had a body `b` and root list `R` before, its root list is `R`
followed by `b` followed by the new expression, otherwise `R` followed by the new
expression; the returned index is the position of the new expression in the root list.
In `translate_material_expressions` the same transform is applied to the lambda of the
first path before the other paths are added: when the switch lambda is built, it has no
body and path `i` is root expression `i` (a fresh lambda function has no root
expressions, and the node of the first path is taken to be not NULL). -/
theorem switch_form_exclusivity (S : Dag_services) (b : Lambda_builder)
    (lambda : Lambda_function) (compiled_material : Mdl_compiled_material) (path : String)
    (first : String) (others : List String) (fname : Option String) (b1 : Lambda_builder)
    (lambda1 : Lambda_function) :
    ((b.add_sub_expr S lambda compiled_material path).1.get_error_code = 0 →
      (b.add_sub_expr S lambda compiled_material path).2.1.get_body = none ∧
      (b.add_sub_expr S lambda compiled_material path).2.1.m_root_exprs =
        (match lambda.get_body with
         | some body =>
           lambda.m_root_exprs ++ [some body] ++ [path_node S compiled_material path]
         | none => lambda.m_root_exprs ++ [path_node S compiled_material path]) ∧
      (b.add_sub_expr S lambda compiled_material path).2.1.m_root_exprs.get?
          (b.add_sub_expr S lambda compiled_material path).2.2 =
        some (path_node S compiled_material path) ∧
      (b.add_sub_expr S lambda compiled_material path).2.2 + 1 =
        (b.add_sub_expr S lambda compiled_material path).2.1.m_root_exprs.length) ∧
    (translate_material_expressions_lambda S b compiled_material first others fname =
        (b1, some lambda1) →
      (S.create_lambda_function (Lambda_builder.path_context first)).m_root_exprs = [] →
      path_node S compiled_material first ≠ none →
      lambda1.get_body = none ∧
      lambda1.m_root_exprs = (first :: others).map (path_node S compiled_material) ∧
      ∀ i : Nat, ∀ hi : i < (first :: others).length,
        lambda1.get_root_expr i = path_node S compiled_material ((first :: others).get ⟨i, hi⟩)) := by
  constructor
  · intro hsucc
    rcases add_sub_expr_cases S b lambda compiled_material path with
      ⟨_, hr⟩ | ⟨_, _, hr⟩ | ⟨f, ft, _, _, _, hr⟩ | ⟨f, ft, _, _, _, _, hr⟩ |
      ⟨f, ft, _, _, _, _, hr⟩
    · rw [hr] at hsucc; simp [Lambda_builder.get_error_code] at hsucc
    · rw [hr] at hsucc; simp [Lambda_builder.get_error_code] at hsucc
    · rw [hr] at hsucc; simp [Lambda_builder.get_error_code] at hsucc
    · rw [hr] at hsucc; simp [Lambda_builder.get_error_code] at hsucc
    · rw [hr]
      obtain ⟨hb, hroots⟩ := body_to_root_spec lambda
      simp only [Lambda_function.store_root_expr, Lambda_function.get_body] at hb ⊢
      refine ⟨hb, ?_, ?_, ?_⟩
      · rw [hroots]
        simp only [Lambda_function.get_body]
        cases lambda.m_body <;> simp
      · simp
      · simp
  · intro h hfresh hfirst
    unfold translate_material_expressions_lambda at h
    rcases hf : (b.from_sub_expr S compiled_material first fname) with ⟨b0, _ | lambda0⟩
    · simp [hf] at h
    · simp only [hf] at h
      obtain ⟨hbody, hroots0⟩ := from_sub_expr_success S b b0 compiled_material first fname
        lambda0 hf
      obtain ⟨hb, hroots⟩ := body_to_root_spec lambda0
      rcases hn : path_node S compiled_material first with _ | node
      · exact absurd hn hfirst
      · rw [hbody, hn] at hroots
        simp only [hroots0, hfresh, List.nil_append] at hroots
        have := add_sub_exprs_roots S compiled_material others b0 lambda0.body_to_root b1
          lambda1 hb (by rw [hroots]; simp) h
        have hall : lambda1.m_root_exprs =
            (first :: others).map (path_node S compiled_material) := by
          rw [this.2, hroots]
          simp [hn]
        refine ⟨this.1, hall, ?_⟩
        intro i hi
        unfold Lambda_function.get_root_expr
        rw [hall, List.get?_eq_getElem?, List.getElem?_map, List.getElem?_eq_getElem hi]
        rfl

theorem switch_form_exclusivity_witness :
    ((Lambda_builder.new true).add_sub_expr example_services (example_lambda "f" (some 7) [])
      example_material "tint").2.1.get_body = none ∧
    ((Lambda_builder.new true).add_sub_expr example_services (example_lambda "f" (some 7) [])
      example_material "tint").2.1.m_root_exprs = [some 7, some 8] ∧
    ((Lambda_builder.new true).add_sub_expr example_services (example_lambda "f" (some 7) [])
      example_material "tint").2.2 = 1 ∧
    example_switch_of_paths.get_body = none ∧
    example_switch_of_paths.m_root_exprs =
      ["tint", "ior"].map (path_node example_services example_material) :=
  have h := switch_form_exclusivity example_services (Lambda_builder.new true)
    (example_lambda "f" (some 7) []) example_material "tint" "tint" ["ior"] none
    (Lambda_builder.mk 0 true) example_switch_of_paths
  have h1 := h.1 (by decide)
  have h2 := h.2 (by decide) (by decide) (by decide)
  ⟨h1.1, h1.2.1.trans (by decide), by decide, h2.1, h2.2.1⟩

/-! ## The code cache receives successful compiles only -/

theorem enter_ne (c : ICode_cache) (key : List Nat) (e : ICode_cache.Entry) :
    c.enter key e ≠ c := by
  intro h
  have := congrArg (fun x => x.m_entries.length) h
  simp [ICode_cache.enter] at this

/-- C27. The code cache only ever receives successful compiles: a `compile_into_ptx` call
with a cache modifies the cache if and only if the input passes the entry checks, the
lookup misses and the backend produces a function; the cache afterwards is then the
cache with one entry entered under the computed key, and it is the cache as it was after
a hit, an entry-check rejection or a backend failure. -/
theorem cache_receives_successful_compiles_only (md5 : List Hash_input → List Nat)
    (B : Codegen_backend) (J : Code_generator_jit) (cache : ICode_cache)
    (ilambda : Option Lambda_function)
    (num_texture_spaces num_texture_results sm_version : Nat) (ptx_output : Bool) :
    ((J.compile_into_ptx md5 B (some cache) ilambda num_texture_spaces num_texture_results
        sm_version ptx_output).2.1 ≠ some cache ↔
      ∃ lambda func, ilambda = some lambda ∧
        ¬ (lambda.get_body = none ∧ lambda.get_root_expr_count < 1) ∧
        cache.lookup (md5 (J.cache_key_inputs lambda num_texture_spaces num_texture_results
          sm_version ptx_output)) = none ∧
        (J.compile_into_ptx_compile B lambda num_texture_spaces num_texture_results
          sm_version).2.2 = some func) ∧
    ((J.compile_into_ptx md5 B (some cache) ilambda num_texture_spaces num_texture_results
        sm_version ptx_output).2.1 = some cache ∨
      ∃ lambda entry, ilambda = some lambda ∧
        (J.compile_into_ptx md5 B (some cache) ilambda num_texture_spaces num_texture_results
          sm_version ptx_output).2.1 =
        some (cache.enter (md5 (J.cache_key_inputs lambda num_texture_spaces
          num_texture_results sm_version ptx_output)) entry)) := by
  cases ilambda with
  | none =>
    refine ⟨⟨fun h => absurd rfl h, ?_⟩, Or.inl rfl⟩
    rintro ⟨lambda, func, h, _⟩
    simp at h
  | some lambda =>
    by_cases hentry : lambda.get_body = none ∧ lambda.get_root_expr_count < 1
    · have hr : (J.compile_into_ptx md5 B (some cache) (some lambda) num_texture_spaces
          num_texture_results sm_version ptx_output).2.1 = some cache := by
        simp only [Code_generator_jit.compile_into_ptx, hentry, and_self, if_true]
      refine ⟨⟨fun h => absurd hr h, ?_⟩, Or.inl hr⟩
      rintro ⟨l, func, hl, hne, _⟩
      simp only [Option.some.injEq] at hl
      subst hl
      exact absurd hentry hne
    · rcases hlook : cache.lookup (md5 (J.cache_key_inputs lambda num_texture_spaces
          num_texture_results sm_version ptx_output)) with _ | entry
      · rcases hfunc : (J.compile_into_ptx_compile B lambda num_texture_spaces
            num_texture_results sm_version).2.2 with _ | func
        · have hr : (J.compile_into_ptx md5 B (some cache) (some lambda) num_texture_spaces
              num_texture_results sm_version ptx_output).2.1 = some cache := by
            simp only [Code_generator_jit.compile_into_ptx, hentry, if_false, Option.bind,
              hlook, hfunc]
          refine ⟨⟨fun h => absurd hr h, ?_⟩, Or.inl hr⟩
          rintro ⟨l, f, hl, _, _, hf⟩
          simp only [Option.some.injEq] at hl
          subst hl
          rw [hfunc] at hf
          simp at hf
        · have hr := compile_into_ptx_on_miss md5 B J cache lambda num_texture_spaces
            num_texture_results sm_version ptx_output func hentry hlook hfunc
          rw [hr]
          refine ⟨⟨fun _ => ⟨lambda, func, rfl, hentry, hlook, hfunc⟩, fun _ => ?_⟩,
            Or.inr ⟨lambda, _, rfl, rfl⟩⟩
          simp only [ne_eq, Option.some.injEq]
          exact enter_ne _ _ _
      · have hr := compile_into_ptx_on_hit md5 B J cache lambda num_texture_spaces
          num_texture_results sm_version ptx_output entry hentry hlook
        rw [hr]
        refine ⟨⟨fun h => absurd rfl h, ?_⟩, Or.inl rfl⟩
        rintro ⟨l, f, hl, _, hm, _⟩
        simp only [Option.some.injEq] at hl
        subst hl
        rw [hlook] at hm
        simp at hm

/-! ## The options of the backend -/

/-- C23, as stated, fails. On a PTX backend that was constructed without string ids,
`set_option` with name `map_strings_to_ids` and value `on` returns -1, and strings are
not mapped to ids afterwards. -/
theorem map_strings_to_ids_not_recognized :
    (Mdl_llvm_backend.set_backend_option (fun _ => none)
      (Mdl_llvm_backend.new Mdl_backend_kind.MB_CUDA_PTX example_generator none false)
      (some "map_strings_to_ids") (some "on")).1 = -1 ∧
    (Mdl_llvm_backend.set_backend_option (fun _ => none)
      (Mdl_llvm_backend.new Mdl_backend_kind.MB_CUDA_PTX example_generator none false)
      (some "map_strings_to_ids") (some "on")).2.m_strings_mapped_to_ids = false ∧
    (Mdl_llvm_backend.set_backend_option (fun _ => none)
      (Mdl_llvm_backend.new Mdl_backend_kind.MB_CUDA_PTX example_generator none false)
      (some "map_strings_to_ids") (some "on")).2.m_jit.m_options.map_strings_to_ids = false := by
  refine ⟨?_, ?_, ?_⟩ <;> decide

/-- C23, as amended. `map_strings_to_ids` is not an option of `set_option`: for every
backend kind and every value, `set_option` with that name returns -1 and leaves the
backend as it was. String interning is switched by the constructor argument
`string_ids` alone. -/
theorem map_strings_to_ids_set_by_constructor (sscanf_unsigned : String → Option Nat)
    (be : Mdl_llvm_backend) (value : String) (kind : Mdl_backend_kind)
    (jit : Code_generator_jit) (code_cache : Option ICode_cache) (string_ids : Bool) :
    be.set_backend_option sscanf_unsigned (some "map_strings_to_ids") (some value) = (-1, be) ∧
    (Mdl_llvm_backend.new kind jit code_cache string_ids).m_strings_mapped_to_ids = string_ids ∧
    (Mdl_llvm_backend.new kind jit code_cache string_ids).m_jit.m_options.map_strings_to_ids =
      string_ids := by
  refine ⟨?_, rfl, rfl⟩
  unfold Mdl_llvm_backend.set_backend_option
  cases be.m_kind <;> simp

theorem int_option_values :
    Mdl_llvm_backend.int_option "0" = 0 ∧ Mdl_llvm_backend.int_option "1" = 1 ∧
    Mdl_llvm_backend.int_option "2" = 2 := by
  refine ⟨?_, ?_, ?_⟩ <;> decide

/-- C24. `opt_level` accepts exactly 0 to 2: for every backend and every value string,
`set_option("opt_level", value)` returns 0 iff the value is `0`, `1` or `2`; it then
stores the value as the optimization level of the JIT options and changes nothing
else; for every other value it returns -2 and leaves the backend, with all its options
and fields, as it was. -/
theorem opt_level_accepts_zero_to_two (sscanf_unsigned : String → Option Nat)
    (be : Mdl_llvm_backend) (value : String) :
    ((be.set_backend_option sscanf_unsigned (some "opt_level") (some value)).1 = 0 ↔
      (value = "0" ∨ value = "1" ∨ value = "2")) ∧
    ((value = "0" ∨ value = "1" ∨ value = "2") →
      be.set_backend_option sscanf_unsigned (some "opt_level") (some value) =
        (0, { be with m_jit := { be.m_jit with m_options :=
          { be.m_jit.m_options with opt_level := Mdl_llvm_backend.int_option value } } }) ∧
      ((value = "0" ∧ Mdl_llvm_backend.int_option value = 0) ∨
        (value = "1" ∧ Mdl_llvm_backend.int_option value = 1) ∨
        (value = "2" ∧ Mdl_llvm_backend.int_option value = 2))) ∧
    (¬ (value = "0" ∨ value = "1" ∨ value = "2") →
      be.set_backend_option sscanf_unsigned (some "opt_level") (some value) = (-2, be)) := by
  have hset : be.set_backend_option sscanf_unsigned (some "opt_level") (some value) =
      if value = "0" ∨ value = "1" ∨ value = "2" then
        (0, be.set_jit_option (fun o => { o with opt_level := Mdl_llvm_backend.int_option value }))
      else (-2, be) := by
    unfold Mdl_llvm_backend.set_backend_option
    simp
  rw [hset]
  by_cases h : value = "0" ∨ value = "1" ∨ value = "2"
  · simp only [h, if_true, true_iff, not_true_eq_false, false_implies, and_true, true_implies,
      true_and]
    refine ⟨rfl, ?_⟩
    rcases h with h | h | h
    · exact Or.inl ⟨h, by rw [h]; exact int_option_values.1⟩
    · exact Or.inr (Or.inl ⟨h, by rw [h]; exact int_option_values.2.1⟩)
    · exact Or.inr (Or.inr ⟨h, by rw [h]; exact int_option_values.2.2⟩)
  · simp [h]


/-! ## Resource tables are dense -/

/-- One callback, seen from the table and the counter of a kind: the table gets the
entry of index 0 if the callback is of that kind and the table is empty, and then
either nothing more, with the counter as it was, or one entry with the incremented
counter as index, which is the counter afterwards. -/
theorem visit_table_counter (t : Transaction) (e : Function_enumerator) (s : Sighting)
    (k : Resource_kind) :
    ∃ extra,
      (Function_enumerator.visit t e s).m_register.entries k =
        (if s.kind = k ∧ (e.m_register.entries k).length = 0 then
          e.m_register.entries k ++ [(0, "")]
         else e.m_register.entries k) ++ extra ∧
      ((extra = [] ∧ (Function_enumerator.visit t e s).counter k = e.counter k) ∨
        (s.kind = k ∧ ∃ name, extra = [(size_t_incr (e.counter k), name)] ∧
          (Function_enumerator.visit t e s).counter k = size_t_incr (e.counter k))) := by
  obtain ⟨reg, lam, addl, rmap, ti, li, bi⟩ := e
  obtain ⟨tt, lt, bt⟩ := reg
  cases s with
  | texture v =>
    simp only [Function_enumerator.visit, Function_enumerator.texture,
      Target_code_register.get_texture_count, Target_code_register.register_texture]
    rcases hc : as_IValue_texture v with _ | ⟨shape, tag⟩
    · refine ⟨[], ?_⟩
      cases k <;> by_cases h0 : tt.length = 0 <;>
        simp [h0, Sighting.kind, Target_code_register.entries, Function_enumerator.counter]
    · by_cases hv : (t.get_texture_attributes tag).valid = true
      · rcases rmap with _ | m
        · cases k
          · refine ⟨[(size_t_incr ti, Function_enumerator.resource_to_name t tag)], ?_⟩
            by_cases h0 : tt.length = 0 <;>
              simp [h0, hv, Sighting.kind, Target_code_register.entries,
                Function_enumerator.counter]
          all_goals
            refine ⟨[], ?_⟩
            by_cases h0 : tt.length = 0 <;>
              simp [h0, hv, Sighting.kind, Target_code_register.entries,
                Function_enumerator.counter]
        · rcases hf : Resource_index_map.find m (Function_enumerator.resource_to_name t tag)
            with _ | second
          · cases k
            · refine ⟨[(size_t_incr ti, Function_enumerator.resource_to_name t tag)], ?_⟩
              by_cases h0 : tt.length = 0 <;>
                simp [h0, hv, hf, Sighting.kind, Target_code_register.entries,
                  Function_enumerator.counter]
            all_goals
              refine ⟨[], ?_⟩
              by_cases h0 : tt.length = 0 <;>
                simp [h0, hv, hf, Sighting.kind, Target_code_register.entries,
                  Function_enumerator.counter]
          · refine ⟨[], ?_⟩
            cases k <;> by_cases h0 : tt.length = 0 <;>
              simp [h0, hv, hf, Sighting.kind, Target_code_register.entries,
                Function_enumerator.counter]
      · refine ⟨[], ?_⟩
        cases k <;> by_cases h0 : tt.length = 0 <;>
          simp [h0, hv, Sighting.kind, Target_code_register.entries,
            Function_enumerator.counter]
  | light_profile v =>
    simp only [Function_enumerator.visit, Function_enumerator.light_profile,
      Target_code_register.get_light_profile_count,
      Target_code_register.register_light_profile]
    rcases hc : as_IValue_resource v with _ | tag
    · refine ⟨[], ?_⟩
      cases k <;> by_cases h0 : lt.length = 0 <;>
        simp [h0, Sighting.kind, Target_code_register.entries, Function_enumerator.counter]
    · by_cases hv : (t.get_light_profile_attributes tag).valid = true
      · rcases rmap with _ | m
        · cases k with
          | light_profile =>
            refine ⟨[(size_t_incr li, Function_enumerator.resource_to_name t tag)], ?_⟩
            by_cases h0 : lt.length = 0 <;>
              simp [h0, hv, Sighting.kind, Target_code_register.entries,
                Function_enumerator.counter]
          | _ =>
            refine ⟨[], ?_⟩
            by_cases h0 : lt.length = 0 <;>
              simp [h0, hv, Sighting.kind, Target_code_register.entries,
                Function_enumerator.counter]
        · rcases hf : Resource_index_map.find m (Function_enumerator.resource_to_name t tag)
            with _ | second
          · cases k with
            | light_profile =>
              refine ⟨[(size_t_incr li, Function_enumerator.resource_to_name t tag)], ?_⟩
              by_cases h0 : lt.length = 0 <;>
                simp [h0, hv, hf, Sighting.kind, Target_code_register.entries,
                  Function_enumerator.counter]
            | _ =>
              refine ⟨[], ?_⟩
              by_cases h0 : lt.length = 0 <;>
                simp [h0, hv, hf, Sighting.kind, Target_code_register.entries,
                  Function_enumerator.counter]
          · refine ⟨[], ?_⟩
            cases k <;> by_cases h0 : lt.length = 0 <;>
              simp [h0, hv, hf, Sighting.kind, Target_code_register.entries,
                Function_enumerator.counter]
      · refine ⟨[], ?_⟩
        cases k <;> by_cases h0 : lt.length = 0 <;>
          simp [h0, hv, Sighting.kind, Target_code_register.entries,
            Function_enumerator.counter]
  | bsdf_measurement v =>
    simp only [Function_enumerator.visit, Function_enumerator.bsdf_measurement,
      Target_code_register.get_bsdf_measurement_count,
      Target_code_register.register_bsdf_measurement]
    rcases hc : as_IValue_resource v with _ | tag
    · refine ⟨[], ?_⟩
      cases k <;> by_cases h0 : bt.length = 0 <;>
        simp [h0, Sighting.kind, Target_code_register.entries, Function_enumerator.counter]
    · by_cases hv : t.get_bsdf_measurement_attributes tag = true
      · rcases rmap with _ | m
        · cases k with
          | bsdf_measurement =>
            refine ⟨[(size_t_incr bi, Function_enumerator.resource_to_name t tag)], ?_⟩
            by_cases h0 : bt.length = 0 <;>
              simp [h0, hv, Sighting.kind, Target_code_register.entries,
                Function_enumerator.counter]
          | _ =>
            refine ⟨[], ?_⟩
            by_cases h0 : bt.length = 0 <;>
              simp [h0, hv, Sighting.kind, Target_code_register.entries,
                Function_enumerator.counter]
        · rcases hf : Resource_index_map.find m (Function_enumerator.resource_to_name t tag)
            with _ | second
          · cases k with
            | bsdf_measurement =>
              refine ⟨[(size_t_incr bi, Function_enumerator.resource_to_name t tag)], ?_⟩
              by_cases h0 : bt.length = 0 <;>
                simp [h0, hv, hf, Sighting.kind, Target_code_register.entries,
                  Function_enumerator.counter]
            | _ =>
              refine ⟨[], ?_⟩
              by_cases h0 : bt.length = 0 <;>
                simp [h0, hv, hf, Sighting.kind, Target_code_register.entries,
                  Function_enumerator.counter]
          · refine ⟨[], ?_⟩
            cases k <;> by_cases h0 : bt.length = 0 <;>
              simp [h0, hv, hf, Sighting.kind, Target_code_register.entries,
                Function_enumerator.counter]
      · refine ⟨[], ?_⟩
        cases k <;> by_cases h0 : bt.length = 0 <;>
          simp [h0, hv, Sighting.kind, Target_code_register.entries,
            Function_enumerator.counter]


theorem dense_table_step (entries extra : List (Nat × String)) (c c' n : Nat) (own : Prop)
    [Decidable own] (hd : Dense_table entries c) (hlen : entries.length ≤ n + 1)
    (hn : n + 1 < SIZE_T_MOD)
    (hx : (extra = [] ∧ c' = c) ∨
      (own ∧ ∃ name, extra = [(size_t_incr c, name)] ∧ c' = size_t_incr c)) :
    Dense_table
        ((if own ∧ entries.length = 0 then entries ++ [(0, "")] else entries) ++ extra) c' ∧
      ((if own ∧ entries.length = 0 then entries ++ [(0, "")] else entries) ++ extra).length ≤
        n + 2 := by
  obtain ⟨hmap, hnil, hcons⟩ := hd
  by_cases h0 : entries.length = 0
  · have he : entries = [] := List.length_eq_zero.mp h0
    have hc : c = 0 := hnil he
    subst he
    subst hc
    rcases hx with ⟨hx, hc'⟩ | ⟨hown, name, hx, hc'⟩
    · subst hx
      subst hc'
      have hr1 : List.range 1 = [0] := rfl
      by_cases hown : own
      · simp [hown, Dense_table, hr1]
      · simp [hown, Dense_table]
    · have h1 : size_t_incr 0 = 1 := by
        unfold size_t_incr SIZE_T_MOD
        decide
      subst hx
      subst hc'
      simp [hown, Dense_table, h1, List.range_succ]
  · have hne : entries ≠ [] := fun h => h0 (by simp [h])
    have hl : entries.length = c + 1 := hcons hne
    have hif : (if own ∧ entries.length = 0 then entries ++ [(0, "")] else entries) = entries := by
      simp [h0]
    rw [hif]
    rcases hx with ⟨hx, hc'⟩ | ⟨_, name, hx, hc'⟩
    · subst hx
      subst hc'
      simp only [List.append_nil]
      exact ⟨⟨hmap, hnil, hcons⟩, by omega⟩
    · have hi : size_t_incr c = c + 1 := size_t_incr_of_lt c (by omega)
      rw [hi] at hx hc'
      subst hx
      subst hc'
      refine ⟨⟨?_, ?_, ?_⟩, ?_⟩
      · simp only [List.map_append, List.map_cons, List.map_nil, List.length_append,
          List.length_singleton, hmap]
        rw [List.range_succ, hl]
      · intro h
        simp at h
      · intro _
        simp [hl]
      · simp only [List.length_append, List.length_singleton]
        omega

theorem enumerate_dense (t : Transaction) (calls : List Sighting) :
    ∀ (e : Function_enumerator) (n : Nat),
      (∀ k, Dense_table (e.m_register.entries k) (e.counter k) ∧
        (e.m_register.entries k).length ≤ n + 1) →
      n + calls.length < SIZE_T_MOD →
      ∀ k, Dense_table ((enumerate_resources t e calls).m_register.entries k)
          ((enumerate_resources t e calls).counter k) ∧
        ((enumerate_resources t e calls).m_register.entries k).length ≤ n + calls.length + 1 := by
  induction calls with
  | nil =>
    intro e n h _ k
    simpa [enumerate_resources] using h k
  | cons s rest ih =>
    intro e n h hn k
    have hn1 : n + 1 < SIZE_T_MOD := by
      simp only [List.length_cons] at hn
      omega
    have hstep : ∀ k, Dense_table ((Function_enumerator.visit t e s).m_register.entries k)
          ((Function_enumerator.visit t e s).counter k) ∧
        ((Function_enumerator.visit t e s).m_register.entries k).length ≤ (n + 1) + 1 := by
      intro k
      obtain ⟨extra, hreg, hx⟩ := visit_table_counter t e s k
      rw [hreg]
      exact dense_table_step _ extra _ _ n (s.kind = k) (h k).1 (h k).2 hn1 hx
    have hrest := ih (Function_enumerator.visit t e s) (n + 1) hstep
      (by simp only [List.length_cons] at hn; omega) k
    have hfold : enumerate_resources t e (s :: rest) =
        enumerate_resources t (Function_enumerator.visit t e s) rest := by
      simp [enumerate_resources]
    rw [hfold]
    refine ⟨hrest.1, ?_⟩
    have := hrest.2
    simp only [List.length_cons]
    omega

/-- C26. Resource tables are dense and position-indexed. Starting from an empty
`Target_code_register` and zero counters, after any sequence of fewer than 2^64
`texture` / `light_profile` / `bsdf_measurement` callbacks of a `Function_enumerator`
(any values, valid or not, with any name map or without one, with or without an
additional lambda), for each kind the entry at position `i` of the table has index `i`,
and a non-empty table has length equal to the kind's next-index counter plus 1. -/
theorem resource_tables_dense (t : Transaction) (lambda : ILambda_function)
    (additional_lambda : Option ILambda_function) (res_map : Option Resource_index_map)
    (calls : List Sighting) (hcalls : calls.length < 2 ^ 64) (k : Resource_kind) :
    (∀ i entry,
      ((enumerate_resources t
          (Function_enumerator.mk Target_code_register.new lambda additional_lambda res_map
            0 0 0) calls).m_register.entries k).get? i = some entry → entry.1 = i) ∧
    ((enumerate_resources t
        (Function_enumerator.mk Target_code_register.new lambda additional_lambda res_map
          0 0 0) calls).m_register.entries k ≠ [] →
      ((enumerate_resources t
        (Function_enumerator.mk Target_code_register.new lambda additional_lambda res_map
          0 0 0) calls).m_register.entries k).length =
      (enumerate_resources t
        (Function_enumerator.mk Target_code_register.new lambda additional_lambda res_map
          0 0 0) calls).counter k + 1) := by
  have h0 : ∀ k, Dense_table
      ((Function_enumerator.mk Target_code_register.new lambda additional_lambda res_map
        0 0 0).m_register.entries k)
      ((Function_enumerator.mk Target_code_register.new lambda additional_lambda res_map
        0 0 0).counter k) ∧
      ((Function_enumerator.mk Target_code_register.new lambda additional_lambda res_map
        0 0 0).m_register.entries k).length ≤ 0 + 1 := by
    intro k
    cases k <;>
      simp [Dense_table, Target_code_register.new, Target_code_register.entries,
        Function_enumerator.counter]
  obtain ⟨⟨hmap, _, hcons⟩, _⟩ := enumerate_dense t calls _ 0 h0
    (by simpa [SIZE_T_MOD] using hcalls) k
  refine ⟨?_, hcons⟩
  intro i entry hi
  rw [List.get?_eq_getElem?] at hi
  have h1 : (((enumerate_resources t
      (Function_enumerator.mk Target_code_register.new lambda additional_lambda res_map
        0 0 0) calls).m_register.entries k).map Prod.fst)[i]? = some entry.1 := by
    rw [List.getElem?_map, hi]
    rfl
  rw [hmap] at h1
  obtain ⟨hlt, heq⟩ := List.getElem?_eq_some.1 h1
  rw [List.getElem_range] at heq
  exact heq.symm

theorem resource_tables_dense_witness :
    [Sighting.texture tex_A, Sighting.light_profile lp_A, Sighting.texture tex_invalid,
        Sighting.texture tex_B].length < 2 ^ 64 ∧
    (∀ i entry,
      ((enumerate_resources example_transaction
          (Function_enumerator.mk Target_code_register.new (ILambda_function.mk []) none
            (some []) 0 0 0)
          [Sighting.texture tex_A, Sighting.light_profile lp_A, Sighting.texture tex_invalid,
            Sighting.texture tex_B]).m_register.entries Resource_kind.texture).get? i =
        some entry → entry.1 = i) ∧
    (enumerate_resources example_transaction
        (Function_enumerator.mk Target_code_register.new (ILambda_function.mk []) none
          (some []) 0 0 0)
        [Sighting.texture tex_A, Sighting.light_profile lp_A, Sighting.texture tex_invalid,
          Sighting.texture tex_B]).m_register.entries Resource_kind.texture =
      [(0, ""), (1, "tex_A"), (2, "tex_B")] :=
  ⟨by decide,
    (resource_tables_dense example_transaction (ILambda_function.mk []) none (some [])
      [Sighting.texture tex_A, Sighting.light_profile lp_A, Sighting.texture tex_invalid,
        Sighting.texture tex_B] (by decide) Resource_kind.texture).1,
    by decide⟩

/-! ## The name map of a link unit is shared by the three kinds -/

/-- C25 fails in the code. A fragment that references a valid texture and a valid
light profile, neither with a database name (both have the name `""`), is added to a
fresh link unit. The light profile finds the name of the texture in the shared map: it
is handed the index 1 of the texture by `map_lp_resource` and is not registered, so the
light profile table holds the entry of index 0 alone and no entry of index 1. The same
fragment in a single-function compile, without the map, has the light profile
registered under the index 1 it is handed. -/
theorem light_profile_index_missing_from_table :
    (Link_unit.add_enumerate example_transaction Link_unit.new (ILambda_function.mk [])
        [Sighting.texture tex_unnamed, Sighting.light_profile lp_unnamed]).2.mappings =
      [Resource_mapping.tex tex_unnamed 1 true 4 4 1,
        Resource_mapping.lp lp_unnamed 1 true 1 2] ∧
    (Link_unit.add_enumerate example_transaction Link_unit.new (ILambda_function.mk [])
        [Sighting.texture tex_unnamed, Sighting.light_profile lp_unnamed]).1.m_tc_reg.entries
      Resource_kind.light_profile = [(0, "")] ∧
    (Link_unit.add_enumerate example_transaction Link_unit.new (ILambda_function.mk [])
        [Sighting.texture tex_unnamed, Sighting.light_profile lp_unnamed]).1.m_tc_reg.entries
      Resource_kind.texture = [(0, ""), (1, "")] ∧
    (Link_unit.add_enumerate example_transaction Link_unit.new (ILambda_function.mk [])
        [Sighting.texture tex_unnamed, Sighting.light_profile lp_unnamed]).1.m_lp_idx = 0 ∧
    (enumerate_resources example_transaction
        (Function_enumerator.new Target_code_register.new (ILambda_function.mk []))
        [Sighting.texture tex_unnamed, Sighting.light_profile lp_unnamed]).m_lambda.mappings =
      [Resource_mapping.tex tex_unnamed 1 true 4 4 1,
        Resource_mapping.lp lp_unnamed 1 true 1 2] ∧
    (enumerate_resources example_transaction
        (Function_enumerator.new Target_code_register.new (ILambda_function.mk []))
        [Sighting.texture tex_unnamed, Sighting.light_profile lp_unnamed]).m_register.entries
      Resource_kind.light_profile = [(0, ""), (1, "")] := by
  refine ⟨?_, ?_, ?_, ?_, ?_, ?_⟩ <;> decide

/-! ## A layout wrapper without a layout -/

/-- C30. A `Target_value_layout` constructed with a NULL layout never writes: its
`get_size` is 0, `get_layout` reports the kind `VK_INVALID_DF` with size 0 and offset
`~Size(0)` at every state, and for every block, value, resource callback and state
both `set_value` overloads return a non-zero error (-1 for a NULL value or callback,
-5 for a value of kind `VK_INVALID_DF`, -3 for every other value) and leave every
byte of the block as it was. -/
theorem null_layout_never_writes (string_ids : Bool) (block : Block) (value : Option IValue)
    (resource_callback : Option ITarget_resource_callback)
    (resource_callback_internal : Option ITarget_resource_callback_internal)
    (state : Target_value_layout_state) :
    (Target_value_layout.mk none string_ids).get_size = 0 ∧
    (Target_value_layout.mk none string_ids).get_layout state =
      (Kind.VK_INVALID_DF, 0, 2 ^ 64 - 1) ∧
    ((Target_value_layout.mk none string_ids).set_value block value resource_callback
      state).1 ≠ 0 ∧
    ((Target_value_layout.mk none string_ids).set_value block value resource_callback
      state).2 = block ∧
    ((Target_value_layout.mk none string_ids).set_value_internal block value
      resource_callback_internal state).1 ≠ 0 ∧
    ((Target_value_layout.mk none string_ids).set_value_internal block value
      resource_callback_internal state).2 = block ∧
    ((Target_value_layout.mk none string_ids).set_value block value resource_callback
        state).1 =
      (if value.isNone || resource_callback.isNone then -1
        else if value.map IValue.get_kind = some Kind.VK_INVALID_DF then -5 else -3) ∧
    ((Target_value_layout.mk none string_ids).set_value_internal block value
        resource_callback_internal state).1 =
      (if value.isNone || resource_callback_internal.isNone then -1
        else if value.map IValue.get_kind = some Kind.VK_INVALID_DF then -5 else -3) := by
  refine ⟨rfl, rfl, ?_⟩
  have h1 : ∀ (cb : ITarget_resource_callback) (v : IValue),
      Target_value_layout.set_value_at (Target_value_layout.mk none string_ids) cb block v
        state = (if v.get_kind = Kind.VK_INVALID_DF then -5 else -3, block) := by
    intro cb v
    cases v <;>
      simp [Target_value_layout.set_value_at, Target_value_layout.get_layout, IValue.get_kind]
  have h2 : ∀ (cb : ITarget_resource_callback_internal) (v : IValue),
      Target_value_layout.set_value_internal_at (Target_value_layout.mk none string_ids) cb
        block v state = (if v.get_kind = Kind.VK_INVALID_DF then -5 else -3, block) := by
    intro cb v
    cases v <;>
      simp [Target_value_layout.set_value_internal_at, Target_value_layout.get_layout,
        IValue.get_kind]
  cases value with
  | none =>
    cases resource_callback <;> cases resource_callback_internal <;>
      simp [Target_value_layout.set_value, Target_value_layout.set_value_internal]
  | some v =>
    cases resource_callback <;> cases resource_callback_internal <;>
      simp [Target_value_layout.set_value, Target_value_layout.set_value_internal, h1, h2] <;>
      split <;> simp

/-! ## The methods of the backend link unit, by cases -/

theorem env_from_call_error (S : Dag_services) (b : Lambda_builder)
    (function_call : Option Mdl_function_call) (fname : Option String)
    (h : (b.env_from_call S function_call fname).2 = none) :
    (b.env_from_call S function_call fname).1.get_error_code ≠ 0 ∧
    (b.env_from_call S function_call fname).1.get_error_code ≠ -3 := by
  revert h
  unfold Lambda_builder.env_from_call
  dsimp only
  repeat' split
  all_goals simp [Lambda_builder.get_error_code]

theorem from_sub_expr_error (S : Dag_services) (b : Lambda_builder)
    (compiled_material : Mdl_compiled_material) (path : String) (fname : Option String)
    (h : (b.from_sub_expr S compiled_material path fname).2 = none) :
    (b.from_sub_expr S compiled_material path fname).1.get_error_code ≠ 0 ∧
    (b.from_sub_expr S compiled_material path fname).1.get_error_code ≠ -3 := by
  revert h
  unfold Lambda_builder.from_sub_expr
  dsimp only
  repeat' split
  all_goals simp [Lambda_builder.get_error_code]

theorem from_material_df_error (S : Dag_services) (b : Lambda_builder)
    (compiled_material : Mdl_compiled_material) (path : String) (fname : Option String)
    (include_geometry_normal : Bool)
    (h : (b.from_material_df S compiled_material path fname include_geometry_normal).2 =
      none) :
    (b.from_material_df S compiled_material path fname
      include_geometry_normal).1.get_error_code ≠ 0 ∧
    (b.from_material_df S compiled_material path fname
      include_geometry_normal).1.get_error_code ≠ -3 := by
  revert h
  unfold Lambda_builder.from_material_df
  dsimp only
  repeat' split
  all_goals simp [Lambda_builder.get_error_code]

/-- The outcome of the add of a lambda with a body or roots check to the JIT unit, as
the methods of the backend link unit use it: a failure leaves the function table and
the layouts as they were; a success appends to the function table and either gives
the index `~0` and leaves the layouts, or gives the previous number of layouts and
appends one layout. -/
theorem unit_add_summary (B : Codegen_backend) (u : Link_unit_jit)
    (lambda : Lambda_function) (kind : Function_kind) :
    ((u.add B (some lambda) kind (some SIZE_T_NONE)).1 = false ∧
      (u.add B (some lambda) kind (some SIZE_T_NONE)).2.1.m_func_infos = u.m_func_infos ∧
      (u.add B (some lambda) kind (some SIZE_T_NONE)).2.1.m_arg_block_layouts =
        u.m_arg_block_layouts) ∨
    (∃ idx, (u.add B (some lambda) kind (some SIZE_T_NONE)).1 = true ∧
      (u.add B (some lambda) kind (some SIZE_T_NONE)).2.2 = some idx ∧
      (∃ extra, extra ≠ [] ∧
        (u.add B (some lambda) kind (some SIZE_T_NONE)).2.1.m_func_infos =
          u.m_func_infos ++ extra) ∧
      ((idx = SIZE_T_NONE ∧
          (u.add B (some lambda) kind (some SIZE_T_NONE)).2.1.m_arg_block_layouts =
            u.m_arg_block_layouts) ∨
        (idx = u.m_arg_block_layouts.length ∧
          ∃ l, (u.add B (some lambda) kind (some SIZE_T_NONE)).2.1.m_arg_block_layouts =
            u.m_arg_block_layouts ++ [l]))) := by
  rcases add_lambda_cases B u (some lambda) kind (some SIZE_T_NONE) with
    ⟨h1, h2, h3, _⟩ | ⟨lam, func, old, _, _, _, heq⟩
  · exact Or.inl ⟨h1, h2, h3⟩
  · right
    obtain ⟨t1, _, t3⟩ :=
      add_layout_if_captured_tables B (Link_unit_jit.compile_lambda B u lam).1
    obtain ⟨c1, c2⟩ := compile_lambda_tables B u lam
    refine ⟨(Link_unit_jit.add_layout_if_captured B (Link_unit_jit.compile_lambda B u lam).1).2,
      ?_, ?_, ?_, ?_⟩
    · rw [heq]
    · rw [heq]
    · rw [heq]
      dsimp only
      rw [t1, c1]
      exact ⟨[_], List.cons_ne_nil _ _, rfl⟩
    · rw [heq]
      rcases t3 with ⟨_, hl, hi⟩ | ⟨_, hl, hi⟩
      · exact Or.inl ⟨hi, by simp only [hl, c2]⟩
      · refine Or.inr ⟨by rw [hi, c2], ?_⟩
        dsimp only
        rw [hl, c2]
        exact ⟨_, rfl⟩

theorem unit_add_distribution_function_summary (B : Codegen_backend) (u : Link_unit_jit)
    (dist_func : Distribution_function) :
    ((u.add_distribution_function B (some dist_func) SIZE_T_NONE).1 = false ∧
      (u.add_distribution_function B (some dist_func) SIZE_T_NONE).2.1.m_func_infos =
        u.m_func_infos ∧
      (u.add_distribution_function B (some dist_func) SIZE_T_NONE).2.1.m_arg_block_layouts =
        u.m_arg_block_layouts) ∨
    ((u.add_distribution_function B (some dist_func) SIZE_T_NONE).1 = true ∧
      (∃ extra, extra ≠ [] ∧
        (u.add_distribution_function B (some dist_func) SIZE_T_NONE).2.1.m_func_infos =
          u.m_func_infos ++ extra) ∧
      (((u.add_distribution_function B (some dist_func) SIZE_T_NONE).2.2 = SIZE_T_NONE ∧
          (u.add_distribution_function B (some dist_func) SIZE_T_NONE).2.1.m_arg_block_layouts =
            u.m_arg_block_layouts) ∨
        ((u.add_distribution_function B (some dist_func) SIZE_T_NONE).2.2 =
            u.m_arg_block_layouts.length ∧
          ∃ l, (u.add_distribution_function B (some dist_func)
              SIZE_T_NONE).2.1.m_arg_block_layouts = u.m_arg_block_layouts ++ [l]))) := by
  rcases add_distribution_function_cases B u (some dist_func) SIZE_T_NONE with
    ⟨h1, h2, h3, _⟩ | ⟨d, m, _, _, heq⟩
  · exact Or.inl ⟨h1, h2, h3⟩
  · right
    obtain ⟨t1, _, t3⟩ := add_layout_if_captured_tables B
      (Link_unit_jit.compile_distribution_function B u d).1
    obtain ⟨c1, c2⟩ := compile_distribution_function_tables B u d
    refine ⟨?_, ?_, ?_⟩
    · rw [heq]
    · rw [heq]
      dsimp only
      rw [t1, c1]
      exact ⟨_ :: _, List.cons_ne_nil _ _, rfl⟩
    · rw [heq]
      rcases t3 with ⟨_, hl, hi⟩ | ⟨_, hl, hi⟩
      · exact Or.inl ⟨hi, by simp only [hl, c2]⟩
      · refine Or.inr ⟨by rw [hi, c2], ?_⟩
        dsimp only
        rw [hl, c2]
        exact ⟨_, rfl⟩

/-- One call on a backend link unit, by cases. Either the call fails early: the unit is
as it was and the return value is neither 0 nor -3. Or the add to the JIT unit fails:
the return value is -3, the registry is as the resource enumeration left it, and the
function table and all layout lists are as they were. Or the call succeeds: the
function table is appended to, the JIT unit gives the index `~0` and keeps its layouts
or gives the previous number of layouts and appends one, and the methods for materials
add the layout of that index to the target code. -/
theorem call_cases (S : Dag_services) (L : Lambda_services) (B : Codegen_backend)
    (transaction : Option Transaction) (u : Backend_link_unit) (c : Unit_call) :
    ((u.call S L B transaction c).2 = u ∧ (u.call S L B transaction c).1 ≠ 0 ∧
      (u.call S L B transaction c).1 ≠ -3 ∧ u.call_asserts S L B transaction c = true) ∨
    (∃ reg a_unit,
      u.call S L B transaction c = (-3, { u with m_registry := reg, m_unit := a_unit }) ∧
      a_unit.m_func_infos = u.m_unit.m_func_infos ∧
      a_unit.m_arg_block_layouts = u.m_unit.m_arg_block_layouts ∧
      u.call_asserts S L B transaction c = true) ∨
    (∃ reg a_unit idx,
      (∃ extra, extra ≠ [] ∧ a_unit.m_func_infos = u.m_unit.m_func_infos ++ extra) ∧
      ((idx = SIZE_T_NONE ∧ a_unit.m_arg_block_layouts = u.m_unit.m_arg_block_layouts) ∨
        (idx = u.m_unit.m_arg_block_layouts.length ∧
          ∃ l, a_unit.m_arg_block_layouts = u.m_unit.m_arg_block_layouts ++ [l])) ∧
      ((c.is_environment = true ∧
          u.call S L B transaction c = (0, { u with m_registry := reg, m_unit := a_unit }) ∧
          u.call_asserts S L B transaction c = decide (idx = SIZE_T_NONE)) ∨
        (c.is_environment = false ∧ ∃ compiled_material,
          u.call S L B transaction c =
            (0, Backend_link_unit.add_layout { u with m_registry := reg, m_unit := a_unit }
              compiled_material idx) ∧
          u.call_asserts S L B transaction c =
            Backend_link_unit.add_layout_asserts
              { u with m_registry := reg, m_unit := a_unit } compiled_material idx))) := by
  cases c with
  | add_environment function_call fname =>
    simp only [Backend_link_unit.call, Backend_link_unit.call_asserts,
      Backend_link_unit.add_environment, Backend_link_unit.add_environment_asserts]
    cases function_call with
    | none => exact Or.inl ⟨rfl, by simp, by simp, rfl⟩
    | some fc =>
      cases transaction with
      | none => exact Or.inl ⟨rfl, by simp, by simp, rfl⟩
      | some t =>
        dsimp only
        cases hr : ((Lambda_builder.new u.m_compile_consts).env_from_call S (some fc) fname).2 with
        | none =>
          obtain ⟨e1, e2⟩ := env_from_call_error S (Lambda_builder.new u.m_compile_consts)
            (some fc) fname hr
          exact Or.inl ⟨rfl, e1, e2, rfl⟩
        | some lambda =>
          right
          dsimp only
          rcases unit_add_summary B u.m_unit
              (lambda.with_mappings (enumerate_resources t
                (u.m_registry.enumerator lambda.as_ILambda_function)
                (L.enumerate_resources lambda lambda.get_body)).m_lambda)
              Function_kind.FK_ENVIRONMENT with
            ⟨h1, h2, h3⟩ | ⟨idx, h1, hidx, h2, h3⟩
          · left
            simp only [h1, Bool.not_false, if_true]
            exact ⟨_, _, rfl, h2, h3, by first | rfl | trivial⟩
          · right
            simp only [h1, Bool.not_true, Bool.false_eq_true, if_false]
            exact ⟨_, _, idx, h2, h3, Or.inl ⟨rfl, rfl, by rw [hidx]; simp⟩⟩
  | add_material_expression compiled_material path fname =>
    simp only [Backend_link_unit.call, Backend_link_unit.call_asserts]
    cases transaction with
    | none =>
      exact Or.inl ⟨rfl, by simp [Backend_link_unit.add_material_expression],
        by simp [Backend_link_unit.add_material_expression], rfl⟩
    | some t =>
      cases compiled_material with
      | none =>
        exact Or.inl ⟨rfl, by simp [Backend_link_unit.add_material_expression],
          by simp [Backend_link_unit.add_material_expression], rfl⟩
      | some cm =>
        cases path with
        | none =>
          exact Or.inl ⟨rfl, by simp [Backend_link_unit.add_material_expression],
            by simp [Backend_link_unit.add_material_expression], rfl⟩
        | some path =>
          simp only [Backend_link_unit.add_material_expression,
            Backend_link_unit.add_material_expression_asserts]
          cases hr : ((Lambda_builder.new u.m_compile_consts).from_sub_expr S cm path fname).2 with
          | none =>
            obtain ⟨e1, e2⟩ := from_sub_expr_error S (Lambda_builder.new u.m_compile_consts)
              cm path fname hr
            exact Or.inl ⟨rfl, e1, e2, rfl⟩
          | some lambda =>
            right
            dsimp only
            rcases unit_add_summary B u.m_unit
                (lambda.with_mappings
                  (if cm.get_parameter_count ≠ 0 then
                    enumerate_resources t (enumerate_resources t
                      (u.m_registry.enumerator lambda.as_ILambda_function)
                      (L.enumerate_resources lambda lambda.get_body)) cm.m_resource_arguments
                  else enumerate_resources t
                    (u.m_registry.enumerator lambda.as_ILambda_function)
                    (L.enumerate_resources lambda lambda.get_body)).m_lambda)
                Function_kind.FK_LAMBDA with
              ⟨h1, h2, h3⟩ | ⟨idx, h1, hidx, h2, h3⟩
            · left
              simp only [h1, Bool.not_false, if_true]
              exact ⟨_, _, rfl, h2, h3, by first | rfl | trivial⟩
            · right
              simp only [h1, Bool.not_true, Bool.false_eq_true, if_false, hidx,
                Option.getD_some]
              exact ⟨_, _, idx, h2, h3, Or.inr ⟨rfl, cm, rfl, rfl⟩⟩
  | add_material_df compiled_material path base_fname include_geometry_normal =>
    simp only [Backend_link_unit.call, Backend_link_unit.call_asserts]
    cases transaction with
    | none =>
      exact Or.inl ⟨rfl, by simp [Backend_link_unit.add_material_df],
        by simp [Backend_link_unit.add_material_df], rfl⟩
    | some t =>
      cases compiled_material with
      | none =>
        exact Or.inl ⟨rfl, by simp [Backend_link_unit.add_material_df],
          by simp [Backend_link_unit.add_material_df], rfl⟩
      | some cm =>
        cases path with
        | none =>
          exact Or.inl ⟨rfl, by simp [Backend_link_unit.add_material_df],
            by simp [Backend_link_unit.add_material_df], rfl⟩
        | some path =>
          simp only [Backend_link_unit.add_material_df,
            Backend_link_unit.add_material_df_asserts]
          cases hr : ((Lambda_builder.new u.m_compile_consts).from_material_df S cm path
              base_fname include_geometry_normal).2 with
          | none =>
            obtain ⟨e1, e2⟩ := from_material_df_error S (Lambda_builder.new u.m_compile_consts)
              cm path base_fname include_geometry_normal hr
            exact Or.inl ⟨rfl, e1, e2, rfl⟩
          | some dist_func =>
            right
            dsimp only
            rcases unit_add_distribution_function_summary B u.m_unit
                (enumerate_distribution_function L t
                  (u.m_registry.enumerator dist_func.m_main_df.as_ILambda_function) cm
                  dist_func).2 with
              ⟨h1, h2, h3⟩ | ⟨h1, h2, h3⟩
            · left
              simp only [h1, Bool.not_false, if_true]
              exact ⟨_, _, rfl, h2, h3, by first | rfl | trivial⟩
            · right
              simp only [h1, Bool.not_true, Bool.false_eq_true, if_false]
              exact ⟨_, _, _, h2, h3, Or.inr ⟨rfl, cm, rfl, rfl⟩⟩

/-! ## The registry and the function table -/

/-- C22, as stated, fails. `add_material_expression` is called on a fresh unit for the
path `tint` of the example material with the function name `bad`, which the example
backend does not compile, and the body references the texture `tex_A`. The call
returns -3 and appends nothing to the function table, but the registry has changed:
the texture table holds the entries of index 0 and 1, the texture counter is 1 and the
name map holds `tex_A`. -/
theorem failed_unit_add_keeps_registered_resources :
    ((example_backend_unit true).add_material_expression example_services
        example_lambda_services_tex example_backend (some example_transaction)
        (some example_material) (some "tint") (some "bad")).1 = -3 ∧
    ((example_backend_unit true).add_material_expression example_services
        example_lambda_services_tex example_backend (some example_transaction)
        (some example_material) (some "tint") (some "bad")).2.m_unit.m_func_infos = [] ∧
    (example_backend_unit true).m_registry.m_tc_reg.entries Resource_kind.texture = [] ∧
    ((example_backend_unit true).add_material_expression example_services
        example_lambda_services_tex example_backend (some example_transaction)
        (some example_material) (some "tint") (some "bad")).2.m_registry.m_tc_reg.entries
      Resource_kind.texture = [(0, ""), (1, "tex_A")] ∧
    (example_backend_unit true).m_registry.m_tex_idx = 0 ∧
    ((example_backend_unit true).add_material_expression example_services
        example_lambda_services_tex example_backend (some example_transaction)
        (some example_material) (some "tint") (some "bad")).2.m_registry.m_tex_idx = 1 ∧
    (example_backend_unit true).m_registry.m_res_index_map = [] ∧
    ((example_backend_unit true).add_material_expression example_services
        example_lambda_services_tex example_backend (some example_transaction)
        (some example_material) (some "tint") (some "bad")).2.m_registry.m_res_index_map =
      [("tex_A", 1)] := by
  refine ⟨?_, ?_, ?_, ?_, ?_, ?_, ?_, ?_⟩ <;> decide

/-- The return value of a call against the unit and its function table: an error code
other than -3 leaves the whole unit as it was, the registry changes only in calls that
return 0 or -3, a call that returns -3 leaves the function table as it was, and a call
that returns 0 appends to it. -/
theorem call_outcome (S : Dag_services) (L : Lambda_services)
    (B : Codegen_backend) (transaction : Option Transaction) (u : Backend_link_unit)
    (c : Unit_call) :
    (((u.call S L B transaction c).1 ≠ 0 ∧ (u.call S L B transaction c).1 ≠ -3) →
      (u.call S L B transaction c).2 = u) ∧
    ((u.call S L B transaction c).2.m_registry ≠ u.m_registry →
      (u.call S L B transaction c).1 = 0 ∨ (u.call S L B transaction c).1 = -3) ∧
    ((u.call S L B transaction c).1 = -3 →
      (u.call S L B transaction c).2.m_unit.m_func_infos = u.m_unit.m_func_infos) ∧
    ((u.call S L B transaction c).1 = 0 →
      ∃ extra, extra ≠ [] ∧
        (u.call S L B transaction c).2.m_unit.m_func_infos = u.m_unit.m_func_infos ++ extra) := by
  rcases call_cases S L B transaction u c with
    ⟨h1, h2, h3, _⟩ | ⟨reg, a_unit, heq, hf, _, _⟩ | ⟨reg, a_unit, idx, hx, _, h⟩
  · refine ⟨fun _ => h1, fun hne => absurd (by rw [h1]) hne, fun h => absurd h h3,
      fun h => absurd h h2⟩
  · rw [heq]
    refine ⟨fun h => absurd rfl h.2, fun _ => Or.inr rfl, fun _ => hf, fun h => ?_⟩
    exact absurd (show (-3 : Int) = 0 from h) (by decide)
  · have hcode : (u.call S L B transaction c).1 = 0 := by
      rcases h with ⟨_, heq, _⟩ | ⟨_, cm, heq, _⟩ <;> rw [heq]
    have hfi : (u.call S L B transaction c).2.m_unit.m_func_infos = a_unit.m_func_infos := by
      rcases h with ⟨_, heq, _⟩ | ⟨_, cm, heq, _⟩
      · rw [heq]
      · rw [heq]
        simp only [Backend_link_unit.add_layout]
        split <;> rfl
    refine ⟨fun h => absurd hcode h.1, fun _ => Or.inl hcode, fun h => ?_, fun _ => ?_⟩
    · rw [hcode] at h
      exact absurd (show (0 : Int) = -3 from h) (by decide)
    · rw [hfi]
      exact hx

theorem add_layout_registry (u : Backend_link_unit) (compiled_material : Mdl_compiled_material)
    (arg_block_index : Nat) :
    (u.add_layout compiled_material arg_block_index).m_registry = u.m_registry := by
  unfold Backend_link_unit.add_layout
  split <;> rfl

theorem add_environment_registry (S : Dag_services) (L : Lambda_services)
    (B : Codegen_backend) (transaction : Option Transaction) (u : Backend_link_unit)
    (function_call : Option Mdl_function_call) (fname : Option String)
    (h : (u.add_environment S L B transaction function_call fname).1 = 0 ∨
      (u.add_environment S L B transaction function_call fname).1 = -3) :
    ∃ t call lambda, transaction = some t ∧ function_call = some call ∧
      ((Lambda_builder.new u.m_compile_consts).env_from_call S (some call) fname).2 =
        some lambda ∧
      (u.add_environment S L B transaction function_call fname).2.m_registry =
        u.m_registry.store
          (enumerate_resources t (u.m_registry.enumerator lambda.as_ILambda_function)
            (L.enumerate_resources lambda lambda.get_body)) := by
  unfold Backend_link_unit.add_environment at h ⊢
  cases function_call with
  | none => simp at h
  | some call =>
    cases transaction with
    | none => simp at h
    | some t =>
      dsimp only at h ⊢
      cases hr : ((Lambda_builder.new u.m_compile_consts).env_from_call S (some call) fname).2 with
      | none =>
        obtain ⟨e1, e2⟩ := env_from_call_error S (Lambda_builder.new u.m_compile_consts)
          (some call) fname hr
        rw [hr] at h
        rcases h with h | h
        · exact absurd h e1
        · exact absurd h e2
      | some lambda =>
        refine ⟨t, call, lambda, rfl, rfl, hr, ?_⟩
        dsimp only
        split <;> rfl

theorem add_material_expression_registry (S : Dag_services) (L : Lambda_services)
    (B : Codegen_backend) (transaction : Option Transaction) (u : Backend_link_unit)
    (compiled_material : Option Mdl_compiled_material) (path : Option String)
    (fname : Option String)
    (h : (u.add_material_expression S L B transaction compiled_material path fname).1 = 0 ∨
      (u.add_material_expression S L B transaction compiled_material path fname).1 = -3) :
    ∃ t cm p lambda, transaction = some t ∧ compiled_material = some cm ∧ path = some p ∧
      ((Lambda_builder.new u.m_compile_consts).from_sub_expr S cm p fname).2 = some lambda ∧
      (u.add_material_expression S L B transaction compiled_material path fname).2.m_registry =
        u.m_registry.store
          (if cm.get_parameter_count ≠ 0 then
            enumerate_resources t
              (enumerate_resources t (u.m_registry.enumerator lambda.as_ILambda_function)
                (L.enumerate_resources lambda lambda.get_body))
              cm.m_resource_arguments
          else
            enumerate_resources t (u.m_registry.enumerator lambda.as_ILambda_function)
              (L.enumerate_resources lambda lambda.get_body)) := by
  cases transaction with
  | none => simp [Backend_link_unit.add_material_expression] at h
  | some t =>
    cases compiled_material with
    | none => simp [Backend_link_unit.add_material_expression] at h
    | some cm =>
      cases path with
      | none => simp [Backend_link_unit.add_material_expression] at h
      | some p =>
        unfold Backend_link_unit.add_material_expression at h ⊢
        dsimp only at h ⊢
        cases hr : ((Lambda_builder.new u.m_compile_consts).from_sub_expr S cm p fname).2 with
        | none =>
          obtain ⟨e1, e2⟩ := from_sub_expr_error S (Lambda_builder.new u.m_compile_consts)
            cm p fname hr
          rw [hr] at h
          rcases h with h | h
          · exact absurd h e1
          · exact absurd h e2
        | some lambda =>
          refine ⟨t, cm, p, lambda, rfl, rfl, rfl, hr, ?_⟩
          dsimp only
          repeat' split
          all_goals first | rfl | rw [add_layout_registry]

theorem add_material_df_registry (S : Dag_services) (L : Lambda_services)
    (B : Codegen_backend) (transaction : Option Transaction) (u : Backend_link_unit)
    (compiled_material : Option Mdl_compiled_material) (path : Option String)
    (base_fname : Option String) (include_geometry_normal : Bool)
    (h : (u.add_material_df S L B transaction compiled_material path base_fname
          include_geometry_normal).1 = 0 ∨
      (u.add_material_df S L B transaction compiled_material path base_fname
          include_geometry_normal).1 = -3) :
    ∃ t cm p dist_func, transaction = some t ∧ compiled_material = some cm ∧ path = some p ∧
      ((Lambda_builder.new u.m_compile_consts).from_material_df S cm p base_fname
        include_geometry_normal).2 = some dist_func ∧
      (u.add_material_df S L B transaction compiled_material path base_fname
          include_geometry_normal).2.m_registry =
        u.m_registry.store
          (enumerate_distribution_function L t
            (u.m_registry.enumerator dist_func.m_main_df.as_ILambda_function) cm
            dist_func).1 := by
  cases transaction with
  | none => simp [Backend_link_unit.add_material_df] at h
  | some t =>
    cases compiled_material with
    | none => simp [Backend_link_unit.add_material_df] at h
    | some cm =>
      cases path with
      | none => simp [Backend_link_unit.add_material_df] at h
      | some p =>
        unfold Backend_link_unit.add_material_df at h ⊢
        dsimp only at h ⊢
        cases hr : ((Lambda_builder.new u.m_compile_consts).from_material_df S cm p base_fname
            include_geometry_normal).2 with
        | none =>
          obtain ⟨e1, e2⟩ := from_material_df_error S (Lambda_builder.new u.m_compile_consts)
            cm p base_fname include_geometry_normal hr
          rw [hr] at h
          rcases h with h | h
          · exact absurd h e1
          · exact absurd h e2
        | some dist_func =>
          refine ⟨t, cm, p, dist_func, rfl, rfl, rfl, hr, ?_⟩
          dsimp only
          repeat' split
          all_goals first | rfl | rw [add_layout_registry]

/-- C22, as amended. For every call to `Link_unit::add_environment`,
`add_material_expression` or `add_material_df`: a call that returns an error code
other than -3 leaves the whole unit, and so its resource registry (tables, counters,
name map), exactly as it was, so the registry changes only in calls that return 0 or
-3; a call that returns -3, because the add to the JIT unit fails, leaves the function
table as it was; a call that returns 0 appends to the function table; and after a call
that returns 0 or -3 the lambda builder had built the fragment and the registry is
exactly the registry that the resource enumeration of that fragment left (body, then
resource arguments, then the expression lambdas of a distribution function), with
nothing rolled back after a failed add. -/
theorem registry_changes_once_enumerated (S : Dag_services) (L : Lambda_services)
    (B : Codegen_backend) (transaction : Option Transaction) (u : Backend_link_unit)
    (c : Unit_call) :
    (((u.call S L B transaction c).1 ≠ 0 ∧ (u.call S L B transaction c).1 ≠ -3) →
      (u.call S L B transaction c).2 = u) ∧
    ((u.call S L B transaction c).2.m_registry ≠ u.m_registry →
      (u.call S L B transaction c).1 = 0 ∨ (u.call S L B transaction c).1 = -3) ∧
    ((u.call S L B transaction c).1 = -3 →
      (u.call S L B transaction c).2.m_unit.m_func_infos = u.m_unit.m_func_infos) ∧
    ((u.call S L B transaction c).1 = 0 →
      ∃ extra, extra ≠ [] ∧
        (u.call S L B transaction c).2.m_unit.m_func_infos = u.m_unit.m_func_infos ++ extra) ∧
    (∀ function_call fname,
      ((u.add_environment S L B transaction function_call fname).1 = 0 ∨
        (u.add_environment S L B transaction function_call fname).1 = -3) →
      ∃ t call lambda, transaction = some t ∧ function_call = some call ∧
        ((Lambda_builder.new u.m_compile_consts).env_from_call S (some call) fname).2 =
          some lambda ∧
        (u.add_environment S L B transaction function_call fname).2.m_registry =
          u.m_registry.store
            (enumerate_resources t (u.m_registry.enumerator lambda.as_ILambda_function)
              (L.enumerate_resources lambda lambda.get_body))) ∧
    (∀ compiled_material path fname,
      ((u.add_material_expression S L B transaction compiled_material path fname).1 = 0 ∨
        (u.add_material_expression S L B transaction compiled_material path fname).1 = -3) →
      ∃ t cm p lambda, transaction = some t ∧ compiled_material = some cm ∧ path = some p ∧
        ((Lambda_builder.new u.m_compile_consts).from_sub_expr S cm p fname).2 =
          some lambda ∧
        (u.add_material_expression S L B transaction compiled_material path
            fname).2.m_registry =
          u.m_registry.store
            (if cm.get_parameter_count ≠ 0 then
              enumerate_resources t
                (enumerate_resources t (u.m_registry.enumerator lambda.as_ILambda_function)
                  (L.enumerate_resources lambda lambda.get_body))
                cm.m_resource_arguments
            else
              enumerate_resources t (u.m_registry.enumerator lambda.as_ILambda_function)
                (L.enumerate_resources lambda lambda.get_body))) ∧
    (∀ compiled_material path base_fname include_geometry_normal,
      ((u.add_material_df S L B transaction compiled_material path base_fname
            include_geometry_normal).1 = 0 ∨
        (u.add_material_df S L B transaction compiled_material path base_fname
            include_geometry_normal).1 = -3) →
      ∃ t cm p dist_func, transaction = some t ∧ compiled_material = some cm ∧
        path = some p ∧
        ((Lambda_builder.new u.m_compile_consts).from_material_df S cm p base_fname
          include_geometry_normal).2 = some dist_func ∧
        (u.add_material_df S L B transaction compiled_material path base_fname
            include_geometry_normal).2.m_registry =
          u.m_registry.store
            (enumerate_distribution_function L t
              (u.m_registry.enumerator dist_func.m_main_df.as_ILambda_function) cm
              dist_func).1) := by
  obtain ⟨h1, h2, h3, h4⟩ := call_outcome S L B transaction u c
  exact ⟨h1, h2, h3, h4,
    fun function_call fname h =>
      add_environment_registry S L B transaction u function_call fname h,
    fun compiled_material path fname h =>
      add_material_expression_registry S L B transaction u compiled_material path fname h,
    fun compiled_material path base_fname include_geometry_normal h =>
      add_material_df_registry S L B transaction u compiled_material path base_fname
        include_geometry_normal h⟩

/-! ## The three layout lists of the backend link unit -/

/-- One call keeps the three layout lists in sync, appends at most one layout, and
passes its `ASSERT`s, if the lists are in sync before it, the JIT unit holds fewer than
2^64 - 1 layouts, and an `add_environment` call captures no arguments. -/
theorem call_keeps_sync (S : Dag_services) (L : Lambda_services) (B : Codegen_backend)
    (transaction : Option Transaction) (u : Backend_link_unit) (c : Unit_call)
    (hs1 : u.m_unit.m_arg_block_layouts.length = u.m_target_code_layouts.length)
    (hs2 : u.m_target_code_layouts.length = u.m_arg_block_comp_material_args.length)
    (hb : u.m_unit.m_arg_block_layouts.length < SIZE_T_NONE)
    (henv : c.is_environment = true → u.call_asserts S L B transaction c = true) :
    (u.call S L B transaction c).2.m_unit.m_arg_block_layouts.length =
      (u.call S L B transaction c).2.m_target_code_layouts.length ∧
    (u.call S L B transaction c).2.m_target_code_layouts.length =
      (u.call S L B transaction c).2.m_arg_block_comp_material_args.length ∧
    (u.call S L B transaction c).2.m_unit.m_arg_block_layouts.length ≤
      u.m_unit.m_arg_block_layouts.length + 1 ∧
    u.call_asserts S L B transaction c = true := by
  rcases call_cases S L B transaction u c with
    ⟨h1, _, _, ha⟩ | ⟨reg, a_unit, heq, _, hl, ha⟩ | ⟨reg, a_unit, idx, _, hidx, h⟩
  · rw [h1]
    exact ⟨hs1, hs2, by omega, ha⟩
  · rw [heq]
    exact ⟨by simpa [hl] using hs1, hs2, by simp [hl], ha⟩
  · rcases h with ⟨he, heq, ha⟩ | ⟨_, cm, heq, ha⟩
    · have hnone : idx = SIZE_T_NONE := by
        have := henv he
        rw [ha] at this
        simpa using this
      have hl : a_unit.m_arg_block_layouts = u.m_unit.m_arg_block_layouts := by
        rcases hidx with ⟨_, hl⟩ | ⟨hi, _⟩
        · exact hl
        · rw [hnone] at hi
          omega
      rw [heq]
      exact ⟨by simpa [hl] using hs1, hs2, by simp [hl], henv he⟩
    · rw [heq, ha]
      rcases hidx with ⟨hi, hl⟩ | ⟨hi, l, hl⟩
      · subst hi
        simp only [Backend_link_unit.add_layout, Backend_link_unit.add_layout_asserts, ne_eq,
          not_true_eq_false, if_false]
        exact ⟨by simpa [hl] using hs1, hs2, by simp [hl], trivial⟩
      · have hne : idx ≠ SIZE_T_NONE := by omega
        simp only [Backend_link_unit.add_layout, Backend_link_unit.add_layout_asserts,
          Backend_link_unit.add_argument_block_layout_index, hne, ne_eq, not_false_eq_true,
          if_true, hl, List.length_append, List.length_singleton, Bool.and_eq_true,
          decide_eq_true_eq]
        refine ⟨by omega, by omega, by omega, by omega, by omega⟩

theorem run_calls_keeps_sync (S : Dag_services) (L : Lambda_services) (B : Codegen_backend)
    (transaction : Option Transaction) (calls : List Unit_call) :
    ∀ (u : Backend_link_unit) (n : Nat),
      u.m_unit.m_arg_block_layouts.length = u.m_target_code_layouts.length →
      u.m_target_code_layouts.length = u.m_arg_block_comp_material_args.length →
      u.m_unit.m_arg_block_layouts.length ≤ n →
      n + calls.length < SIZE_T_NONE →
      Backend_link_unit.environments_capture_nothing S L B transaction u calls = true →
      (u.run_calls S L B transaction calls).m_unit.m_arg_block_layouts.length =
        (u.run_calls S L B transaction calls).m_target_code_layouts.length ∧
      (u.run_calls S L B transaction calls).m_target_code_layouts.length =
        (u.run_calls S L B transaction calls).m_arg_block_comp_material_args.length ∧
      Backend_link_unit.all_asserts_hold S L B transaction u calls = true := by
  induction calls with
  | nil =>
    intro u n hs1 hs2 _ _ _
    exact ⟨hs1, hs2, rfl⟩
  | cons c rest ih =>
    intro u n hs1 hs2 hn hlen henv
    simp only [List.length_cons] at hlen
    simp only [Backend_link_unit.environments_capture_nothing, Bool.and_eq_true,
      Bool.or_eq_true, Bool.not_eq_true'] at henv
    obtain ⟨henv1, henv2⟩ := henv
    have hc : c.is_environment = true → u.call_asserts S L B transaction c = true := by
      intro he
      rcases henv1 with h | h
      · rw [he] at h
        exact absurd h (by decide)
      · exact h
    obtain ⟨k1, k2, k3, k4⟩ := call_keeps_sync S L B transaction u c hs1 hs2 (by omega) hc
    obtain ⟨r1, r2, r3⟩ := ih (u.call S L B transaction c).2 (n + 1) k1 k2 (by omega)
      (by omega) henv2
    have hrun : u.run_calls S L B transaction (c :: rest) =
        (u.call S L B transaction c).2.run_calls S L B transaction rest := by
      simp [Backend_link_unit.run_calls]
    rw [hrun]
    refine ⟨r1, r2, ?_⟩
    simp only [Backend_link_unit.all_asserts_hold, Bool.and_eq_true]
    exact ⟨k4, r3⟩

/-- C29. The three layout lists of the link unit stay in sync. In the state reached
from a fresh unit by any sequence of fewer than 2^64 - 1 calls of
`add_material_expression`, `add_material_df` and `add_environment`, in which every
environment captures no arguments (the `ASSERT` of `add_environment` holds), the number
of layouts of the JIT unit, the number of layouts added to the target code and the
number of stored argument lists of compiled materials are equal, and in every call of
the sequence both `ASSERT`s `index == arg_block_index` and
`index == m_arg_block_comp_material_args.size() - 1` hold. -/
theorem layout_lists_stay_in_sync (S : Dag_services) (L : Lambda_services)
    (B : Codegen_backend) (transaction : Option Transaction) (target_kind : Target_kind)
    (code_gen : LLVM_code_generator) (compile_consts strings_mapped_to_ids : Bool)
    (calls : List Unit_call) (hcalls : calls.length < 2 ^ 64 - 1)
    (henv : Backend_link_unit.environments_capture_nothing S L B transaction
      (Backend_link_unit.new target_kind code_gen compile_consts strings_mapped_to_ids)
      calls = true) :
    ((Backend_link_unit.new target_kind code_gen compile_consts
        strings_mapped_to_ids).run_calls S L B transaction
        calls).m_unit.get_arg_block_layout_count =
      ((Backend_link_unit.new target_kind code_gen compile_consts
        strings_mapped_to_ids).run_calls S L B transaction
        calls).m_target_code_layouts.length ∧
    ((Backend_link_unit.new target_kind code_gen compile_consts
        strings_mapped_to_ids).run_calls S L B transaction
        calls).m_target_code_layouts.length =
      ((Backend_link_unit.new target_kind code_gen compile_consts
        strings_mapped_to_ids).run_calls S L B transaction
        calls).m_arg_block_comp_material_args.length ∧
    Backend_link_unit.all_asserts_hold S L B transaction
      (Backend_link_unit.new target_kind code_gen compile_consts strings_mapped_to_ids)
      calls = true :=
  run_calls_keeps_sync S L B transaction calls
    (Backend_link_unit.new target_kind code_gen compile_consts strings_mapped_to_ids) 0
    rfl rfl (Nat.le_refl 0) (by simpa [SIZE_T_NONE] using hcalls) henv

theorem layout_lists_stay_in_sync_witness :
    example_calls.length < 2 ^ 64 - 1 ∧
    Backend_link_unit.environments_capture_nothing example_services example_lambda_services
      example_backend (some example_transaction)
      (Backend_link_unit.new Target_kind.TK_CUDA_PTX example_code_gen true false)
      example_calls = true ∧
    ((Backend_link_unit.new Target_kind.TK_CUDA_PTX example_code_gen true false).run_calls
        example_services example_lambda_services example_backend (some example_transaction)
        example_calls).m_unit.get_arg_block_layout_count = 2 ∧
    ((Backend_link_unit.new Target_kind.TK_CUDA_PTX example_code_gen true false).run_calls
        example_services example_lambda_services example_backend (some example_transaction)
        example_calls).m_unit.get_arg_block_layout_count =
      ((Backend_link_unit.new Target_kind.TK_CUDA_PTX example_code_gen true false).run_calls
        example_services example_lambda_services example_backend (some example_transaction)
        example_calls).m_target_code_layouts.length ∧
    ((Backend_link_unit.new Target_kind.TK_CUDA_PTX example_code_gen true false).run_calls
        example_services example_lambda_services example_backend (some example_transaction)
        example_calls).m_target_code_layouts.length =
      ((Backend_link_unit.new Target_kind.TK_CUDA_PTX example_code_gen true false).run_calls
        example_services example_lambda_services example_backend (some example_transaction)
        example_calls).m_arg_block_comp_material_args.length ∧
    Backend_link_unit.all_asserts_hold example_services example_lambda_services
      example_backend (some example_transaction)
      (Backend_link_unit.new Target_kind.TK_CUDA_PTX example_code_gen true false)
      example_calls = true :=
  ⟨by decide, by decide, by decide,
    layout_lists_stay_in_sync example_services example_lambda_services example_backend
      (some example_transaction) Target_kind.TK_CUDA_PTX example_code_gen true false
      example_calls (by decide) (by decide)⟩

end MdlSdk
